import Mathlib

/-!
# SiS VGA DRM driver (drivers/gpu/drm/sisvga)

A shallow embedding of the driver:

* `sisvga_vclk.c` / `sisvga_vclk.h`: the synthesizer table and the clock lookup,
* `sisvga_modes.c` / `sisvga_modes.h`: the catalog search,
* `sisvga_drv.c`: the per-model catalogs and device descriptions,
* `sisvga_connector.c`: `sisvga_connector_helper_mode_valid_vga`,
* `sisvga_reg.h`: the register macros, over the port accessors of a device,
* `sisvga_crtc.c`: `set_display_mode`, `set_color_mode`, `set_framebuffer` and
  `sisvga_crtc_helper_mode_set`,
* `sisvga_debug.c`: the mode decoder,
* `sisvga_bo.c`: reserving, pinning, unpinning and pushing buffer objects, over the part
  of TTM they call,
* `sisvga_device.c`: `modify_device_lock`, the register setup of `sisvga_vram_init` and
  the layout of dumb buffers.

C `int` values are `Int`, `unsigned char` / `unsigned long` values are `Nat`;
where a C conversion or a wrap-around can matter it is written out with an
explicit modulus.
-/

namespace SisVga

/-! ## sisvga_vclk.h -/

/-- The `enum sisvga_freq` of sisvga_vclk.h: the clock source of a synthesizer entry. -/
inductive sisvga_freq where
  | SISVGA_FREQ_14318
  | SISVGA_FREQ_25175
  | SISVGA_FREQ_28322
  deriving DecidableEq

/-- The C value of an `enum sisvga_freq` enumerator. -/
def sisvga_freq.toNat : sisvga_freq → Nat
  | .SISVGA_FREQ_14318 => 0
  | .SISVGA_FREQ_25175 => 1
  | .SISVGA_FREQ_28322 => 2

/-- The `enum sisvga_vclk` of sisvga_vclk.h: the index of a synthesizer entry. -/
inductive sisvga_vclk where
  | SISVGA_VCLK_25175
  | SISVGA_VCLK_28322
  | SISVGA_VCLK_30000
  | SISVGA_VCLK_31500
  | SISVGA_VCLK_36000
  | SISVGA_VCLK_40000
  | SISVGA_VCLK_44889
  | SISVGA_VCLK_44900
  | SISVGA_VCLK_50000
  | SISVGA_VCLK_56300
  | SISVGA_VCLK_65000
  | SISVGA_VCLK_75000
  | SISVGA_VCLK_77000
  | SISVGA_VCLK_80000
  | SISVGA_VCLK_94500
  | SISVGA_VCLK_110000
  | SISVGA_VCLK_120000
  | SISVGA_VCLK_130000
  | SISVGA_VCLK_135000
  | SISVGA_VCLK_162000
  | SISVGA_VCLK_175500
  deriving DecidableEq

open sisvga_freq sisvga_vclk

/-- The C value of an `enum sisvga_vclk` enumerator (its position in the enum). -/
def sisvga_vclk.toNat : sisvga_vclk → Nat
  | SISVGA_VCLK_25175 => 0
  | SISVGA_VCLK_28322 => 1
  | SISVGA_VCLK_30000 => 2
  | SISVGA_VCLK_31500 => 3
  | SISVGA_VCLK_36000 => 4
  | SISVGA_VCLK_40000 => 5
  | SISVGA_VCLK_44889 => 6
  | SISVGA_VCLK_44900 => 7
  | SISVGA_VCLK_50000 => 8
  | SISVGA_VCLK_56300 => 9
  | SISVGA_VCLK_65000 => 10
  | SISVGA_VCLK_75000 => 11
  | SISVGA_VCLK_77000 => 12
  | SISVGA_VCLK_80000 => 13
  | SISVGA_VCLK_94500 => 14
  | SISVGA_VCLK_110000 => 15
  | SISVGA_VCLK_120000 => 16
  | SISVGA_VCLK_130000 => 17
  | SISVGA_VCLK_135000 => 18
  | SISVGA_VCLK_162000 => 19
  | SISVGA_VCLK_175500 => 20

/-! ## sisvga_vclk.c -/

/-- The `struct sisvga_clk_config` of sisvga_vclk.c. -/
structure sisvga_clk_config where
  freq : sisvga_freq
  num : Nat
  denum : Nat
  div : Nat
  postscal : Nat
  clock_hz : Int
  deriving DecidableEq

/-- The macro `SISVGA_CLK_CONFIG(description, f, n, dn, d, p, c)`; the description is dropped
by the macro itself. -/
def SISVGA_CLK_CONFIG (f : sisvga_freq) (n dn d p : Nat) (c : Int) : sisvga_clk_config :=
  { freq := f, num := n, denum := dn, div := d, postscal := p, clock_hz := c }

/-- The table `sisvga_vclk_configs[]`, in source order (commented-out rows left out). -/
def sisvga_vclk_configs : List sisvga_clk_config :=
  [ SISVGA_CLK_CONFIG SISVGA_FREQ_25175   1  1 1 1  25175000,
    SISVGA_CLK_CONFIG SISVGA_FREQ_28322   1  1 1 1  28322000,
    SISVGA_CLK_CONFIG SISVGA_FREQ_14318  22 21 2 1  29999996,
    SISVGA_CLK_CONFIG SISVGA_FREQ_14318  11  5 1 1  31499996,
    SISVGA_CLK_CONFIG SISVGA_FREQ_14318  83 11 1 3  36012392,
    SISVGA_CLK_CONFIG SISVGA_FREQ_14318  88 21 2 3  39999994,
    SISVGA_CLK_CONFIG SISVGA_FREQ_14318  47 15 1 1  44863630,
    SISVGA_CLK_CONFIG SISVGA_FREQ_14318 127 27 2 3  44898984,
    SISVGA_CLK_CONFIG SISVGA_FREQ_14318 110 21 2 3  49999993,
    SISVGA_CLK_CONFIG SISVGA_FREQ_14318  59 15 1 1  56318174,
    SISVGA_CLK_CONFIG SISVGA_FREQ_14318  59 13 1 1  64982509,
    SISVGA_CLK_CONFIG SISVGA_FREQ_14318  55 21 2 1  74999990,
    SISVGA_CLK_CONFIG SISVGA_FREQ_14318 121 15 2 3  76999990,
    SISVGA_CLK_CONFIG SISVGA_FREQ_14318  95 17 1 1  80013358,
    SISVGA_CLK_CONFIG SISVGA_FREQ_14318  33  5 1 1  94499988,
    SISVGA_CLK_CONFIG SISVGA_FREQ_14318  73 19 2 1 110023909,
    SISVGA_CLK_CONFIG SISVGA_FREQ_14318  88 21 2 1 119999984,
    SISVGA_CLK_CONFIG SISVGA_FREQ_14318  59 13 2 1 129965018,
    SISVGA_CLK_CONFIG SISVGA_FREQ_14318  33  7 2 1 134999982,
    SISVGA_CLK_CONFIG SISVGA_FREQ_14318  17  3 2 1 162272706,
    SISVGA_CLK_CONFIG SISVGA_FREQ_14318  49  4 1 1 175397705 ]

/-- The errno `EINVAL` of linux/errno.h. -/
def EINVAL : Int := 22

/-- The function `sisvga_vclk_of_clock(clock_khz, vclk_out)`: `.ok vclk` is "returns 0 with
`*vclk_out = vclk`", `.error e` is "returns `e`" (a negative errno, `*vclk_out` untouched).
`clock_khz` is the `unsigned int` argument. -/
def sisvga_vclk_of_clock (clock_khz : Nat) : Except Int sisvga_vclk :=
  match clock_khz with
  | 25000 => .ok SISVGA_VCLK_25175
  | 25175 => .ok SISVGA_VCLK_25175
  | 28000 => .ok SISVGA_VCLK_28322
  | 28322 => .ok SISVGA_VCLK_28322
  | 30000 => .ok SISVGA_VCLK_30000
  | 31500 => .ok SISVGA_VCLK_31500
  | 36000 => .ok SISVGA_VCLK_36000
  | 40000 => .ok SISVGA_VCLK_40000
  | 44889 => .ok SISVGA_VCLK_44889
  | 44900 => .ok SISVGA_VCLK_44900
  | 50000 => .ok SISVGA_VCLK_50000
  | 56300 => .ok SISVGA_VCLK_56300
  | 65000 => .ok SISVGA_VCLK_65000
  | 75000 => .ok SISVGA_VCLK_75000
  | 77000 => .ok SISVGA_VCLK_77000
  | 80000 => .ok SISVGA_VCLK_80000
  | 94500 => .ok SISVGA_VCLK_94500
  | 110000 => .ok SISVGA_VCLK_110000
  | 120000 => .ok SISVGA_VCLK_120000
  | 130000 => .ok SISVGA_VCLK_130000
  | 135000 => .ok SISVGA_VCLK_135000
  | 162000 => .ok SISVGA_VCLK_162000
  | 175500 => .ok SISVGA_VCLK_175500
  | _ => .error (-EINVAL)

/-- The six out-parameters of `sisvga_vclk_regs`. -/
structure sisvga_vclk_regs_out where
  freq : sisvga_freq
  num : Nat
  denum : Nat
  div : Nat
  postscal : Nat
  f : Nat
  deriving DecidableEq

/-- The function `sisvga_vclk_regs(vclk, ...)`: `none` is a fired `BUG_ON`, `some r` the values
stored through the out-pointers. `f_out` is an `unsigned long` assigned from the `int`
`clock_hz` (conversion modulo 2^64). -/
def sisvga_vclk_regs (vclk : sisvga_vclk) : Option sisvga_vclk_regs_out :=
  match sisvga_vclk_configs[vclk.toNat]? with
  | none => none
  | some c =>
    if c.freq.toNat > 2 then none
    else if c.num < 1 then none
    else if c.num > 128 then none
    else if c.denum < 1 then none
    else if c.denum > 32 then none
    else if c.div < 1 then none
    else if c.div > 2 then none
    else if c.postscal < 1 then none
    else if c.postscal > 8 then none
    else some { freq := c.freq, num := c.num, denum := c.denum, div := c.div,
                postscal := c.postscal, f := (c.clock_hz % 2 ^ 64).toNat }

/-- Modelled from the spec: the reference frequency in Hz of each clock source, which the
source names only through the enumerators of `enum sisvga_freq`: 14318180 Hz for the
internal PLL, and the fixed video crystals 25175000 Hz and 28322000 Hz. -/
def crystal_hz : sisvga_freq → Nat
  | SISVGA_FREQ_14318 => 14318180
  | SISVGA_FREQ_25175 => 25175000
  | SISVGA_FREQ_28322 => 28322000

/-- The closed set of pixel clocks (kHz) named by the `case` labels of
`sisvga_vclk_of_clock`. -/
def known_clocks : List Nat :=
  [25000, 25175, 28000, 28322, 30000, 31500, 36000, 40000, 44889, 44900, 50000, 56300,
   65000, 75000, 77000, 80000, 94500, 110000, 120000, 130000, 135000, 162000, 175500]

/-! ## drm/drm_modes.h, drm/drm_connector.h (the parts the driver uses) -/

/-- The fields of `struct drm_display_mode` (drm/drm_modes.h) that the driver reads. All are
C `int`, except `flags`, which is `unsigned int`. -/
structure drm_display_mode where
  clock : Int := 0
  hdisplay : Int := 0
  hsync_start : Int := 0
  hsync_end : Int := 0
  htotal : Int := 0
  hskew : Int := 0
  vdisplay : Int := 0
  vsync_start : Int := 0
  vsync_end : Int := 0
  vtotal : Int := 0
  vscan : Int := 0
  flags : Nat := 0
  crtc_clock : Int := 0
  crtc_hdisplay : Int := 0
  crtc_hblank_start : Int := 0
  crtc_hblank_end : Int := 0
  crtc_hsync_start : Int := 0
  crtc_hsync_end : Int := 0
  crtc_htotal : Int := 0
  crtc_hskew : Int := 0
  crtc_vdisplay : Int := 0
  crtc_vblank_start : Int := 0
  crtc_vblank_end : Int := 0
  crtc_vsync_start : Int := 0
  crtc_vsync_end : Int := 0
  crtc_vtotal : Int := 0
  deriving DecidableEq

/-- The enumerators of `enum drm_mode_status` (drm/drm_modes.h) that the driver returns. -/
inductive drm_mode_status where
  | MODE_OK
  | MODE_CLOCK_HIGH
  | MODE_CLOCK_RANGE
  | MODE_VIRTUAL_X
  | MODE_VIRTUAL_Y
  | MODE_H_ILLEGAL
  | MODE_BAD
  deriving DecidableEq

open drm_mode_status

/-- The fields of `struct drm_cmdline_mode` (drm/drm_connector.h) that the validator uses. -/
structure drm_cmdline_mode where
  specified : Bool := false
  bpp_specified : Bool := false
  bpp : Int := 0
  deriving DecidableEq

/-- The flag `DRM_MODE_FLAG_INTERLACE` (`1 << 4`) of the DRM mode flags. -/
def DRM_MODE_FLAG_INTERLACE : Int := 16

/-! ## Machine integers -/

/-- Reduction of a mathematical integer to the 32-bit two-complement `int` it wraps to (the
kernel is built with wrapping signed arithmetic). -/
def wrap_int (x : Int) : Int := (x + 2147483648) % 4294967296 - 2147483648

/-- The product of two `int` values, as an `int`. -/
def int_mul (a b : Int) : Int := wrap_int (a * b)

/-- Conversion of an `int` to `unsigned int`. -/
def int_to_uint (x : Int) : Nat := (x % 4294967296).toNat

/-- Conversion of an `int` to `resource_size_t` (64 bits wide), as it happens when an `int`
is compared with a `resource_size_t`. -/
def int_to_resource_size (x : Int) : Nat := (x % 18446744073709551616).toNat

/-! ## sisvga_modes.h, sisvga_modes.c -/

/-- The `struct sisvga_mode` of sisvga_modes.h. -/
structure sisvga_mode where
  hdisplay : Int
  vdisplay : Int
  depth : Int
  clock : Int
  min_vram : Int
  flags : Int
  pixel_clock : sisvga_vclk
  deriving DecidableEq

/-- The macro `SISVGA_MODE(name_, hdisplay_, vdisplay_, frame_rate_, depth_, clock_,
min_vram_, flags_)`. The macro drops `name_` and `frame_rate_`; its token paste
`SISVGA_VCLK_ ## clock_` is passed as the last argument. -/
def SISVGA_MODE (hdisplay_ vdisplay_ depth_ clock_ min_vram_ flags_ : Int)
    (pixel_clock_ : sisvga_vclk) : sisvga_mode :=
  { hdisplay := hdisplay_, vdisplay := vdisplay_, depth := depth_, clock := clock_,
    min_vram := min_vram_, flags := flags_, pixel_clock := pixel_clock_ }

/-- The static function `depth_is_compatible(smode, bpp)`. -/
def depth_is_compatible (smode : sisvga_mode) (bpp : Int) : Bool :=
  (smode.depth == bpp) || ((smode.depth == 24) && (bpp == 32))

/-- The function `sisvga_mode_is_compatible(smode, mode, bpp)`. -/
def sisvga_mode_is_compatible (smode : sisvga_mode) (mode : drm_display_mode)
    (bpp : Int) : Bool :=
  (smode.hdisplay == mode.hdisplay) &&
  (smode.vdisplay == mode.vdisplay) &&
  (smode.clock == mode.clock) &&
  (depth_is_compatible smode bpp)

/-- The function `sisvga_find_compatible_mode(beg, end, mode, bpp)`. The pointer `beg` is
the index `beg` of the entry it points to, the list holds the entries of `[beg, end)` (it
is empty exactly when `beg < end` fails, and `++beg` moves to its tail); `none` is `NULL`. -/
def sisvga_find_compatible_mode (beg : Nat) (range : List sisvga_mode)
    (mode : drm_display_mode) (bpp : Int) : Option Nat :=
  match range with
  | [] => none
  | smode :: rest =>
    if sisvga_mode_is_compatible smode mode bpp then some beg
    else sisvga_find_compatible_mode (beg + 1) rest mode bpp

/-! ## sisvga_device.h -/

/-- The `enum sisvga_model` of sisvga_device.h. -/
inductive sisvga_model where
  | SISVGA_MODEL_6202
  | SISVGA_MODEL_6215
  | SISVGA_MODEL_6326
  deriving DecidableEq

open sisvga_model

/-- The `struct sisvga_device_info` of sisvga_device.h; the pair `vga_modes`,
`vga_modes_len` is the list `vga_modes`. -/
structure sisvga_device_info where
  model : sisvga_model
  max_size : Nat
  max_clock : Int
  supported_vclks : Nat
  max_htotal : Int
  max_hsync_start : Int
  max_hsync_end : Int
  max_hdisplay : Int
  max_vtotal : Int
  max_vsync_start : Int
  max_vsync_end : Int
  max_vdisplay : Int
  max_bpp : Int
  preferred_bpp : Int
  vga_modes : List sisvga_mode
  deriving DecidableEq

/-- The macro `SISVGA_DEVICE_INFO(...)`, arguments in the macro's order. -/
def SISVGA_DEVICE_INFO (model_ : sisvga_model) (size_ : Nat) (clock_ : Int)
    (supported_vclks_ : Nat)
    (htotal_ hsync_start_ hsync_end_ hdisplay_ vtotal_ vsync_start_ vsync_end_ vdisplay_ : Int)
    (bpp_ preferred_bpp_ : Int) (vga_modes_ : List sisvga_mode) : sisvga_device_info :=
  { model := model_, max_size := size_, max_clock := clock_,
    supported_vclks := supported_vclks_,
    max_htotal := htotal_, max_hsync_start := hsync_start_, max_hsync_end := hsync_end_,
    max_hdisplay := hdisplay_, max_vtotal := vtotal_, max_vsync_start := vsync_start_,
    max_vsync_end := vsync_end_, max_vdisplay := vdisplay_,
    max_bpp := bpp_, preferred_bpp := preferred_bpp_, vga_modes := vga_modes_ }

/-- The macro `SISVGA_VCLK_BIT(vclk_)`: `1ul << vclk_`. -/
def SISVGA_VCLK_BIT (vclk_ : sisvga_vclk) : Nat := 1 <<< vclk_.toNat

/-! ## sisvga_drv.c -/

/-- The table `sisvga_6202_mode_list[]` of sisvga_drv.c, in source order (51 rows). -/
def sisvga_6202_mode_list : List sisvga_mode :=
  [
    SISVGA_MODE  320  200  8  25175    0 0 SISVGA_VCLK_25175,
    SISVGA_MODE  640  350  8  25175    0 0 SISVGA_VCLK_25175,
    SISVGA_MODE  640  480  8  25175    0 0 SISVGA_VCLK_25175,
    SISVGA_MODE  640  480  8  31500    0 0 SISVGA_VCLK_31500,
    SISVGA_MODE  640  480  8  31500    0 0 SISVGA_VCLK_31500,
    SISVGA_MODE  640  400  8  25175    0 0 SISVGA_VCLK_25175,
    SISVGA_MODE  800  600  8  36000    0 0 SISVGA_VCLK_36000,
    SISVGA_MODE  800  600  8  40000    0 0 SISVGA_VCLK_40000,
    SISVGA_MODE  800  600  8  50000    0 0 SISVGA_VCLK_50000,
    SISVGA_MODE  800  600  8  50000    0 0 SISVGA_VCLK_50000,
    SISVGA_MODE 1024  768  8  44900    0 DRM_MODE_FLAG_INTERLACE SISVGA_VCLK_44900,
    SISVGA_MODE 1024  768  8  65000    0 0 SISVGA_VCLK_65000,
    SISVGA_MODE 1024  768  8  75000    0 0 SISVGA_VCLK_75000,
    SISVGA_MODE 1024  768  8  80000    0 0 SISVGA_VCLK_80000,
    SISVGA_MODE 1280 1024  8  80000 2048 DRM_MODE_FLAG_INTERLACE SISVGA_VCLK_80000,
    SISVGA_MODE 1280 1024  8 110000 2048 0 SISVGA_VCLK_110000,
    SISVGA_MODE  320  200 15  25175    0 0 SISVGA_VCLK_25175,
    SISVGA_MODE  320  200 16  25175    0 0 SISVGA_VCLK_25175,
    SISVGA_MODE  320  200 24  25175    0 0 SISVGA_VCLK_25175,
    SISVGA_MODE  640  480 15  25175    0 0 SISVGA_VCLK_25175,
    SISVGA_MODE  640  480 15  31500    0 0 SISVGA_VCLK_31500,
    SISVGA_MODE  640  480 15  31500    0 0 SISVGA_VCLK_31500,
    SISVGA_MODE  640  480 16  25175    0 0 SISVGA_VCLK_25175,
    SISVGA_MODE  640  480 16  31500    0 0 SISVGA_VCLK_31500,
    SISVGA_MODE  640  480 16  31500    0 0 SISVGA_VCLK_31500,
    SISVGA_MODE  640  480 24  25175    0 0 SISVGA_VCLK_25175,
    SISVGA_MODE  640  480 24  31500    0 0 SISVGA_VCLK_31500,
    SISVGA_MODE  640  480 24  31500    0 0 SISVGA_VCLK_31500,
    SISVGA_MODE  800  600 15  36000    0 0 SISVGA_VCLK_36000,
    SISVGA_MODE  800  600 15  40000    0 0 SISVGA_VCLK_40000,
    SISVGA_MODE  800  600 15  50000    0 0 SISVGA_VCLK_50000,
    SISVGA_MODE  800  600 15  50000    0 0 SISVGA_VCLK_50000,
    SISVGA_MODE  800  600 16  36000    0 0 SISVGA_VCLK_36000,
    SISVGA_MODE  800  600 16  40000    0 0 SISVGA_VCLK_40000,
    SISVGA_MODE  800  600 16  50000    0 0 SISVGA_VCLK_50000,
    SISVGA_MODE  800  600 16  50000    0 0 SISVGA_VCLK_50000,
    SISVGA_MODE  800  600 24  36000 2048 0 SISVGA_VCLK_36000,
    SISVGA_MODE  800  600 24  40000 2048 0 SISVGA_VCLK_40000,
    SISVGA_MODE  800  600 24  50000 2048 0 SISVGA_VCLK_50000,
    SISVGA_MODE  800  600 24  50000 2048 0 SISVGA_VCLK_50000,
    SISVGA_MODE 1024  768 15  44900 2048 DRM_MODE_FLAG_INTERLACE SISVGA_VCLK_44900,
    SISVGA_MODE 1024  768 15  65000 2048 0 SISVGA_VCLK_65000,
    SISVGA_MODE 1024  768 15  75000 2048 0 SISVGA_VCLK_75000,
    SISVGA_MODE 1024  768 15  80000 2048 0 SISVGA_VCLK_80000,
    SISVGA_MODE 1024  768 16  44900 2048 DRM_MODE_FLAG_INTERLACE SISVGA_VCLK_44900,
    SISVGA_MODE 1024  768 16  65000 2048 0 SISVGA_VCLK_65000,
    SISVGA_MODE 1024  768 16  75000 2048 0 SISVGA_VCLK_75000,
    SISVGA_MODE 1024  768 16  80000 2048 0 SISVGA_VCLK_80000,
    SISVGA_MODE 1024  768 24  44900 4096 DRM_MODE_FLAG_INTERLACE SISVGA_VCLK_44900,
    SISVGA_MODE 1280 1024 15  80000 4096 DRM_MODE_FLAG_INTERLACE SISVGA_VCLK_80000,
    SISVGA_MODE 1280 1024 16  80000 4096 DRM_MODE_FLAG_INTERLACE SISVGA_VCLK_80000 ]

/-- The table `sisvga_6215_mode_list[]` of sisvga_drv.c, in source order (60 rows). -/
def sisvga_6215_mode_list : List sisvga_mode :=
  [
    SISVGA_MODE  320  200  8  25175    0 0 SISVGA_VCLK_25175,
    SISVGA_MODE  640  350  8  25175    0 0 SISVGA_VCLK_25175,
    SISVGA_MODE  640  480  8  25175    0 0 SISVGA_VCLK_25175,
    SISVGA_MODE  640  480  8  31500    0 0 SISVGA_VCLK_31500,
    SISVGA_MODE  640  480  8  31500    0 0 SISVGA_VCLK_31500,
    SISVGA_MODE  640  480  8  36000    0 0 SISVGA_VCLK_36000,
    SISVGA_MODE  640  400  8  25175    0 0 SISVGA_VCLK_25175,
    SISVGA_MODE  800  600  8  36000    0 0 SISVGA_VCLK_36000,
    SISVGA_MODE  800  600  8  40000    0 0 SISVGA_VCLK_40000,
    SISVGA_MODE  800  600  8  50000    0 0 SISVGA_VCLK_50000,
    SISVGA_MODE  800  600  8  50000    0 0 SISVGA_VCLK_50000,
    SISVGA_MODE  800  600  8  56300    0 0 SISVGA_VCLK_56300,
    SISVGA_MODE 1024  768  8  44900    0 DRM_MODE_FLAG_INTERLACE SISVGA_VCLK_44900,
    SISVGA_MODE 1024  768  8  65000    0 0 SISVGA_VCLK_65000,
    SISVGA_MODE 1024  768  8  75000    0 0 SISVGA_VCLK_75000,
    SISVGA_MODE 1024  768  8  80000    0 0 SISVGA_VCLK_80000,
    SISVGA_MODE 1024  768  8  94500    0 0 SISVGA_VCLK_94500,
    SISVGA_MODE 1280 1024  8  80000 2048 DRM_MODE_FLAG_INTERLACE SISVGA_VCLK_80000,
    SISVGA_MODE 1280 1024  8 110000 2048 0 SISVGA_VCLK_110000,
    SISVGA_MODE 1280 1024  8 135000 2048 0 SISVGA_VCLK_135000,
    SISVGA_MODE  320  200 15  25175    0 0 SISVGA_VCLK_25175,
    SISVGA_MODE  320  200 16  25175    0 0 SISVGA_VCLK_25175,
    SISVGA_MODE  320  200 24  25175    0 0 SISVGA_VCLK_25175,
    SISVGA_MODE  640  480 15  25175    0 0 SISVGA_VCLK_25175,
    SISVGA_MODE  640  480 15  31500    0 0 SISVGA_VCLK_31500,
    SISVGA_MODE  640  480 15  31500    0 0 SISVGA_VCLK_31500,
    SISVGA_MODE  640  480 15  36000    0 0 SISVGA_VCLK_36000,
    SISVGA_MODE  640  480 16  25175    0 0 SISVGA_VCLK_25175,
    SISVGA_MODE  640  480 16  31500    0 0 SISVGA_VCLK_31500,
    SISVGA_MODE  640  480 16  31500    0 0 SISVGA_VCLK_31500,
    SISVGA_MODE  640  480 16  36000    0 0 SISVGA_VCLK_36000,
    SISVGA_MODE  640  480 24  25175    0 0 SISVGA_VCLK_25175,
    SISVGA_MODE  640  480 24  31500 2048 0 SISVGA_VCLK_31500,
    SISVGA_MODE  640  480 24  31500 2048 0 SISVGA_VCLK_31500,
    SISVGA_MODE  640  480 24  36000    0 0 SISVGA_VCLK_36000,
    SISVGA_MODE  800  600 15  36000    0 0 SISVGA_VCLK_36000,
    SISVGA_MODE  800  600 15  40000    0 0 SISVGA_VCLK_40000,
    SISVGA_MODE  800  600 15  50000 2048 0 SISVGA_VCLK_50000,
    SISVGA_MODE  800  600 15  50000 2048 0 SISVGA_VCLK_50000,
    SISVGA_MODE  800  600 15  56300    0 0 SISVGA_VCLK_56300,
    SISVGA_MODE  800  600 16  36000    0 0 SISVGA_VCLK_36000,
    SISVGA_MODE  800  600 16  40000    0 0 SISVGA_VCLK_40000,
    SISVGA_MODE  800  600 16  50000 2048 0 SISVGA_VCLK_50000,
    SISVGA_MODE  800  600 16  50000 2048 0 SISVGA_VCLK_50000,
    SISVGA_MODE  800  600 16  56300    0 0 SISVGA_VCLK_56300,
    SISVGA_MODE  800  600 24  36000 2048 0 SISVGA_VCLK_36000,
    SISVGA_MODE  800  600 24  40000 2048 0 SISVGA_VCLK_40000,
    SISVGA_MODE  800  600 24  50000 2048 0 SISVGA_VCLK_50000,
    SISVGA_MODE  800  600 24  50000 2048 0 SISVGA_VCLK_50000,
    SISVGA_MODE  800  600 24  56300 2048 0 SISVGA_VCLK_56300,
    SISVGA_MODE 1024  768 15  44900 2048 DRM_MODE_FLAG_INTERLACE SISVGA_VCLK_44900,
    SISVGA_MODE 1024  768 15  65000 2048 0 SISVGA_VCLK_65000,
    SISVGA_MODE 1024  768 15  75000 2048 0 SISVGA_VCLK_75000,
    SISVGA_MODE 1024  768 15  80000 2048 0 SISVGA_VCLK_80000,
    SISVGA_MODE 1024  768 15  94500 2048 0 SISVGA_VCLK_94500,
    SISVGA_MODE 1024  768 16  44900 2048 DRM_MODE_FLAG_INTERLACE SISVGA_VCLK_44900,
    SISVGA_MODE 1024  768 16  65000 2048 0 SISVGA_VCLK_65000,
    SISVGA_MODE 1024  768 16  75000 2048 0 SISVGA_VCLK_75000,
    SISVGA_MODE 1024  768 16  80000 2048 0 SISVGA_VCLK_80000,
    SISVGA_MODE 1024  768 16  94500 2048 0 SISVGA_VCLK_94500 ]

/-- The table `sisvga_6326_mode_list[]` of sisvga_drv.c, in source order (70 rows). -/
def sisvga_6326_mode_list : List sisvga_mode :=
  [
    SISVGA_MODE  320  200  8  25175    0 0 SISVGA_VCLK_25175,
    SISVGA_MODE  640  350  8  25175    0 0 SISVGA_VCLK_25175,
    SISVGA_MODE  640  480  8  25175    0 0 SISVGA_VCLK_25175,
    SISVGA_MODE  640  480  8  31500    0 0 SISVGA_VCLK_31500,
    SISVGA_MODE  640  480  8  31500    0 0 SISVGA_VCLK_31500,
    SISVGA_MODE  640  480  8  36000    0 0 SISVGA_VCLK_36000,
    SISVGA_MODE  640  400  8  25175    0 0 SISVGA_VCLK_25175,
    SISVGA_MODE  800  600  8  36000    0 0 SISVGA_VCLK_36000,
    SISVGA_MODE  800  600  8  40000    0 0 SISVGA_VCLK_40000,
    SISVGA_MODE  800  600  8  50000    0 0 SISVGA_VCLK_50000,
    SISVGA_MODE  800  600  8  50000    0 0 SISVGA_VCLK_50000,
    SISVGA_MODE  800  600  8  56300    0 0 SISVGA_VCLK_56300,
    SISVGA_MODE 1024  768  8  44900    0 DRM_MODE_FLAG_INTERLACE SISVGA_VCLK_44900,
    SISVGA_MODE 1024  768  8  65000    0 0 SISVGA_VCLK_65000,
    SISVGA_MODE 1024  768  8  75000    0 0 SISVGA_VCLK_75000,
    SISVGA_MODE 1024  768  8  80000    0 0 SISVGA_VCLK_80000,
    SISVGA_MODE 1024  768  8  94500    0 0 SISVGA_VCLK_94500,
    SISVGA_MODE 1280 1024  8  80000 2048 DRM_MODE_FLAG_INTERLACE SISVGA_VCLK_80000,
    SISVGA_MODE 1280 1024  8 110000 2048 0 SISVGA_VCLK_110000,
    SISVGA_MODE 1280 1024  8 135000 2048 0 SISVGA_VCLK_135000,
    SISVGA_MODE 1600 1200  8 135000 2048 0 SISVGA_VCLK_135000,
    SISVGA_MODE 1600 1200  8 162000 2048 0 SISVGA_VCLK_162000,
    SISVGA_MODE 1600 1200  8 175500 2048 0 SISVGA_VCLK_175500,
    SISVGA_MODE  320  200 15  25175    0 0 SISVGA_VCLK_25175,
    SISVGA_MODE  320  200 16  25175    0 0 SISVGA_VCLK_25175,
    SISVGA_MODE  320  200 24  25175    0 0 SISVGA_VCLK_25175,
    SISVGA_MODE  640  480 15  25175    0 0 SISVGA_VCLK_25175,
    SISVGA_MODE  640  480 15  31500    0 0 SISVGA_VCLK_31500,
    SISVGA_MODE  640  480 15  31500    0 0 SISVGA_VCLK_31500,
    SISVGA_MODE  640  480 15  36000    0 0 SISVGA_VCLK_36000,
    SISVGA_MODE  640  480 16  25175    0 0 SISVGA_VCLK_25175,
    SISVGA_MODE  640  480 16  31500    0 0 SISVGA_VCLK_31500,
    SISVGA_MODE  640  480 16  31500    0 0 SISVGA_VCLK_31500,
    SISVGA_MODE  640  480 16  36000    0 0 SISVGA_VCLK_36000,
    SISVGA_MODE  640  480 24  25175    0 0 SISVGA_VCLK_25175,
    SISVGA_MODE  640  480 24  31500 2048 0 SISVGA_VCLK_31500,
    SISVGA_MODE  640  480 24  31500 2048 0 SISVGA_VCLK_31500,
    SISVGA_MODE  640  480 24  36000    0 0 SISVGA_VCLK_36000,
    SISVGA_MODE  800  600 15  36000    0 0 SISVGA_VCLK_36000,
    SISVGA_MODE  800  600 15  40000    0 0 SISVGA_VCLK_40000,
    SISVGA_MODE  800  600 15  50000 2048 0 SISVGA_VCLK_50000,
    SISVGA_MODE  800  600 15  50000 2048 0 SISVGA_VCLK_50000,
    SISVGA_MODE  800  600 15  56300    0 0 SISVGA_VCLK_56300,
    SISVGA_MODE  800  600 16  36000    0 0 SISVGA_VCLK_36000,
    SISVGA_MODE  800  600 16  40000    0 0 SISVGA_VCLK_40000,
    SISVGA_MODE  800  600 16  50000 2048 0 SISVGA_VCLK_50000,
    SISVGA_MODE  800  600 16  50000 2048 0 SISVGA_VCLK_50000,
    SISVGA_MODE  800  600 16  56300    0 0 SISVGA_VCLK_56300,
    SISVGA_MODE  800  600 24  36000 2048 0 SISVGA_VCLK_36000,
    SISVGA_MODE  800  600 24  40000 2048 0 SISVGA_VCLK_40000,
    SISVGA_MODE  800  600 24  50000 2048 0 SISVGA_VCLK_50000,
    SISVGA_MODE  800  600 24  50000 2048 0 SISVGA_VCLK_50000,
    SISVGA_MODE  800  600 24  56300 2048 0 SISVGA_VCLK_56300,
    SISVGA_MODE 1024  768 15  44900 2048 DRM_MODE_FLAG_INTERLACE SISVGA_VCLK_44900,
    SISVGA_MODE 1024  768 15  65000 2048 0 SISVGA_VCLK_65000,
    SISVGA_MODE 1024  768 15  75000 2048 0 SISVGA_VCLK_75000,
    SISVGA_MODE 1024  768 15  80000 2048 0 SISVGA_VCLK_80000,
    SISVGA_MODE 1024  768 15  94500 2048 0 SISVGA_VCLK_94500,
    SISVGA_MODE 1024  768 16  44900 2048 DRM_MODE_FLAG_INTERLACE SISVGA_VCLK_44900,
    SISVGA_MODE 1024  768 16  65000 2048 0 SISVGA_VCLK_65000,
    SISVGA_MODE 1024  768 16  75000 2048 0 SISVGA_VCLK_75000,
    SISVGA_MODE 1024  768 16  80000 2048 0 SISVGA_VCLK_80000,
    SISVGA_MODE 1024  768 16  94500 2048 0 SISVGA_VCLK_94500,
    SISVGA_MODE 1024  768 24  44900 4096 DRM_MODE_FLAG_INTERLACE SISVGA_VCLK_44900,
    SISVGA_MODE 1024  768 24  65000 4096 0 SISVGA_VCLK_65000,
    SISVGA_MODE 1024  768 24  75000 4096 0 SISVGA_VCLK_75000,
    SISVGA_MODE 1024  768 24  80000 4096 0 SISVGA_VCLK_80000,
    SISVGA_MODE 1024  768 24  94500 4096 0 SISVGA_VCLK_94500,
    SISVGA_MODE 1280 1024 15  80000 4096 DRM_MODE_FLAG_INTERLACE SISVGA_VCLK_80000,
    SISVGA_MODE 1280 1024 16  80000 4096 DRM_MODE_FLAG_INTERLACE SISVGA_VCLK_80000 ]

/-- The entry `sisvga_device_info_list[SISVGA_MODEL_6202]`. -/
def sisvga_device_info_6202 : sisvga_device_info :=
  SISVGA_DEVICE_INFO SISVGA_MODEL_6202 (2 * 1024 * 1024) 130000
    (SISVGA_VCLK_BIT SISVGA_VCLK_25175 |||
     SISVGA_VCLK_BIT SISVGA_VCLK_28322 |||
     SISVGA_VCLK_BIT SISVGA_VCLK_31500 |||
     SISVGA_VCLK_BIT SISVGA_VCLK_36000 |||
     SISVGA_VCLK_BIT SISVGA_VCLK_40000 |||
     SISVGA_VCLK_BIT SISVGA_VCLK_44889 |||
     SISVGA_VCLK_BIT SISVGA_VCLK_50000 |||
     SISVGA_VCLK_BIT SISVGA_VCLK_65000 |||
     SISVGA_VCLK_BIT SISVGA_VCLK_75000 |||
     SISVGA_VCLK_BIT SISVGA_VCLK_77000 |||
     SISVGA_VCLK_BIT SISVGA_VCLK_80000 |||
     SISVGA_VCLK_BIT SISVGA_VCLK_94500 |||
     SISVGA_VCLK_BIT SISVGA_VCLK_110000 |||
     SISVGA_VCLK_BIT SISVGA_VCLK_120000 |||
     SISVGA_VCLK_BIT SISVGA_VCLK_130000 |||
     SISVGA_VCLK_BIT SISVGA_VCLK_30000 |||
     SISVGA_VCLK_BIT SISVGA_VCLK_44900)
    2048 2048 2048 1280
    1024 1024 1024 1024
    24 24
    sisvga_6202_mode_list

/-- The entry `sisvga_device_info_list[SISVGA_MODEL_6215]`. -/
def sisvga_device_info_6215 : sisvga_device_info :=
  SISVGA_DEVICE_INFO SISVGA_MODEL_6215 (2 * 1024 * 1024) 135000
    (SISVGA_VCLK_BIT SISVGA_VCLK_25175 |||
     SISVGA_VCLK_BIT SISVGA_VCLK_28322 |||
     SISVGA_VCLK_BIT SISVGA_VCLK_31500 |||
     SISVGA_VCLK_BIT SISVGA_VCLK_36000 |||
     SISVGA_VCLK_BIT SISVGA_VCLK_40000 |||
     SISVGA_VCLK_BIT SISVGA_VCLK_44889 |||
     SISVGA_VCLK_BIT SISVGA_VCLK_50000 |||
     SISVGA_VCLK_BIT SISVGA_VCLK_65000 |||
     SISVGA_VCLK_BIT SISVGA_VCLK_75000 |||
     SISVGA_VCLK_BIT SISVGA_VCLK_77000 |||
     SISVGA_VCLK_BIT SISVGA_VCLK_80000 |||
     SISVGA_VCLK_BIT SISVGA_VCLK_94500 |||
     SISVGA_VCLK_BIT SISVGA_VCLK_110000 |||
     SISVGA_VCLK_BIT SISVGA_VCLK_120000 |||
     SISVGA_VCLK_BIT SISVGA_VCLK_135000 |||
     SISVGA_VCLK_BIT SISVGA_VCLK_30000 |||
     SISVGA_VCLK_BIT SISVGA_VCLK_44900)
    2048 2048 2048 1280
    1024 1024 1024 1024
    24 24
    sisvga_6215_mode_list

/-- The entry `sisvga_device_info_list[SISVGA_MODEL_6326]`. -/
def sisvga_device_info_6326 : sisvga_device_info :=
  SISVGA_DEVICE_INFO SISVGA_MODEL_6326 (8 * 1024 * 1024) 175500
    (SISVGA_VCLK_BIT SISVGA_VCLK_25175 |||
     SISVGA_VCLK_BIT SISVGA_VCLK_28322 |||
     SISVGA_VCLK_BIT SISVGA_VCLK_30000 |||
     SISVGA_VCLK_BIT SISVGA_VCLK_31500 |||
     SISVGA_VCLK_BIT SISVGA_VCLK_36000 |||
     SISVGA_VCLK_BIT SISVGA_VCLK_40000 |||
     SISVGA_VCLK_BIT SISVGA_VCLK_44889 |||
     SISVGA_VCLK_BIT SISVGA_VCLK_50000 |||
     SISVGA_VCLK_BIT SISVGA_VCLK_65000 |||
     SISVGA_VCLK_BIT SISVGA_VCLK_77000 |||
     SISVGA_VCLK_BIT SISVGA_VCLK_80000 |||
     SISVGA_VCLK_BIT SISVGA_VCLK_94500 |||
     SISVGA_VCLK_BIT SISVGA_VCLK_110000 |||
     SISVGA_VCLK_BIT SISVGA_VCLK_110000 |||
     SISVGA_VCLK_BIT SISVGA_VCLK_120000 |||
     SISVGA_VCLK_BIT SISVGA_VCLK_135000 |||
     SISVGA_VCLK_BIT SISVGA_VCLK_162000 |||
     SISVGA_VCLK_BIT SISVGA_VCLK_175500 |||
     SISVGA_VCLK_BIT SISVGA_VCLK_44900 |||
     SISVGA_VCLK_BIT SISVGA_VCLK_56300 |||
     SISVGA_VCLK_BIT SISVGA_VCLK_75000)
    4096 4096 4096 1600
    2048 2048 2048 1200
    24 24
    sisvga_6326_mode_list

/-- The table `sisvga_device_info_list[]`, indexed by `enum sisvga_model`. -/
def sisvga_device_info_list : sisvga_model → sisvga_device_info
  | SISVGA_MODEL_6202 => sisvga_device_info_6202
  | SISVGA_MODEL_6215 => sisvga_device_info_6215
  | SISVGA_MODEL_6326 => sisvga_device_info_6326

/-! ## sisvga_connector.c -/

/-- The function `sisvga_connector_helper_mode_valid_vga(connector, mode)`. It reads
`sdev->info` (`info`), `sdev->vram.size` (`vram_size`) and `connector->cmdline_mode`
(`cmdline_mode`); it returns the mode status together with `connector->cmdline_mode` as the
call leaves it. -/
def sisvga_connector_helper_mode_valid_vga (info : sisvga_device_info) (vram_size : Nat)
    (cmdline_mode : drm_cmdline_mode) (mode : drm_display_mode) :
    drm_mode_status × drm_cmdline_mode :=
  let bpp := info.max_bpp
  -- validate dotclock
  if mode.clock > info.max_clock then (MODE_CLOCK_HIGH, cmdline_mode) else
  match sisvga_vclk_of_clock (int_to_uint mode.clock) with
  | .error _ => (MODE_CLOCK_RANGE, cmdline_mode)
  | .ok vclk =>
  if (info.supported_vclks &&& SISVGA_VCLK_BIT vclk) = 0 then
    (MODE_CLOCK_RANGE, cmdline_mode) else
  -- validate display size
  if mode.hdisplay > info.max_hdisplay then (MODE_VIRTUAL_X, cmdline_mode) else
  if mode.vdisplay > info.max_vdisplay then (MODE_VIRTUAL_Y, cmdline_mode) else
  if (mode.hdisplay.tmod 8 ≠ 0 ∨
      mode.hsync_start.tmod 8 ≠ 0 ∨
      mode.hsync_end.tmod 8 ≠ 0 ∨
      mode.htotal.tmod 8 ≠ 0) ∧
     (mode.hdisplay.tmod 9 ≠ 0 ∨
      mode.hsync_start.tmod 9 ≠ 0 ∨
      mode.hsync_end.tmod 9 ≠ 0 ∨
      mode.htotal.tmod 9 ≠ 0) then (MODE_H_ILLEGAL, cmdline_mode) else
  if mode.hdisplay > info.max_hdisplay ∨
     mode.hsync_start > info.max_hsync_start ∨
     mode.hsync_end > info.max_hsync_end ∨
     mode.htotal > info.max_htotal ∨
     mode.vdisplay > info.max_vdisplay ∨
     mode.vsync_start > info.max_vsync_start ∨
     mode.vsync_end > info.max_vsync_end ∨
     mode.vtotal > info.max_vtotal then (MODE_BAD, cmdline_mode) else
  -- validate memory requirements
  let bpp := if cmdline_mode.specified then
      (if cmdline_mode.bpp_specified then cmdline_mode.bpp else bpp) else bpp
  if int_to_resource_size (int_mul (int_mul mode.hdisplay mode.vdisplay) (bpp.tdiv 8))
      > vram_size then
    (MODE_BAD,
      if cmdline_mode.specified then { cmdline_mode with specified := false }
      else cmdline_mode) else
  -- see if the mode is supported by the device
  match sisvga_find_compatible_mode 0 info.vga_modes mode bpp with
  | none => (MODE_BAD, cmdline_mode)
  | some _ => (MODE_OK, cmdline_mode)

/-! ## The six checks of the validator, one definition per block of its body -/

/-- Check 1, the block "validate dotclock": the reason it returns, `none` when it lets the
mode through. -/
def check_clock (info : sisvga_device_info) (mode : drm_display_mode) :
    Option drm_mode_status :=
  if mode.clock > info.max_clock then some MODE_CLOCK_HIGH else
  match sisvga_vclk_of_clock (int_to_uint mode.clock) with
  | .error _ => some MODE_CLOCK_RANGE
  | .ok vclk =>
    if (info.supported_vclks &&& SISVGA_VCLK_BIT vclk) = 0 then some MODE_CLOCK_RANGE
    else none

/-- Check 2, the block "validate display size". -/
def check_display_size (info : sisvga_device_info) (mode : drm_display_mode) :
    Option drm_mode_status :=
  if mode.hdisplay > info.max_hdisplay then some MODE_VIRTUAL_X else
  if mode.vdisplay > info.max_vdisplay then some MODE_VIRTUAL_Y else none

/-- Check 3, the test on the remainders of the horizontal fields modulo 8 and 9. -/
def check_dot_unit (mode : drm_display_mode) : Option drm_mode_status :=
  if (mode.hdisplay.tmod 8 ≠ 0 ∨
      mode.hsync_start.tmod 8 ≠ 0 ∨
      mode.hsync_end.tmod 8 ≠ 0 ∨
      mode.htotal.tmod 8 ≠ 0) ∧
     (mode.hdisplay.tmod 9 ≠ 0 ∨
      mode.hsync_start.tmod 9 ≠ 0 ∨
      mode.hsync_end.tmod 9 ≠ 0 ∨
      mode.htotal.tmod 9 ≠ 0) then some MODE_H_ILLEGAL else none

/-- Check 4, the comparison of the eight timing fields with the device maxima. -/
def check_crtc_fields (info : sisvga_device_info) (mode : drm_display_mode) :
    Option drm_mode_status :=
  if mode.hdisplay > info.max_hdisplay ∨
     mode.hsync_start > info.max_hsync_start ∨
     mode.hsync_end > info.max_hsync_end ∨
     mode.htotal > info.max_htotal ∨
     mode.vdisplay > info.max_vdisplay ∨
     mode.vsync_start > info.max_vsync_start ∨
     mode.vsync_end > info.max_vsync_end ∨
     mode.vtotal > info.max_vtotal then some MODE_BAD else none

/-- The value of the local `bpp` from the block "validate memory requirements" on:
`info->max_bpp`, replaced by the command-line depth when one was given. -/
def mode_valid_bpp (info : sisvga_device_info) (cmdline_mode : drm_cmdline_mode) : Int :=
  if cmdline_mode.specified then
    (if cmdline_mode.bpp_specified then cmdline_mode.bpp else info.max_bpp)
  else info.max_bpp

/-- Check 5, the block "validate memory requirements". -/
def check_vram (vram_size : Nat) (mode : drm_display_mode) (bpp : Int) :
    Option drm_mode_status :=
  if int_to_resource_size (int_mul (int_mul mode.hdisplay mode.vdisplay) (bpp.tdiv 8))
      > vram_size then some MODE_BAD else none

/-- Check 6, the block "see if the mode is supported by the device". -/
def check_catalog (info : sisvga_device_info) (mode : drm_display_mode) (bpp : Int) :
    Option drm_mode_status :=
  match sisvga_find_compatible_mode 0 info.vga_modes mode bpp with
  | none => some MODE_BAD
  | some _ => none

/-- The reason of the first failing check of a sequence of checks, `MODE_OK` when none
fails. -/
def first_failure : List (Option drm_mode_status) → drm_mode_status
  | [] => MODE_OK
  | some r :: _ => r
  | none :: rest => first_failure rest

/-- The match condition of a catalog entry `e` for a request `(mode, bpp)` as the
specification words it: same hdisplay, vdisplay and clock, and the same depth or a 24-bit
entry for a 32-bit request. -/
def catalog_match (e : sisvga_mode) (mode : drm_display_mode) (bpp : Int) : Prop :=
  e.hdisplay = mode.hdisplay ∧ e.vdisplay = mode.vdisplay ∧ e.clock = mode.clock ∧
  (e.depth = bpp ∨ (e.depth = 24 ∧ bpp = 32))

/-- All four horizontal fields of the mode are multiples of `d`. -/
def all_multiples (d : Int) (mode : drm_display_mode) : Prop :=
  d ∣ mode.hdisplay ∧ d ∣ mode.hsync_start ∧ d ∣ mode.hsync_end ∧ d ∣ mode.htotal

instance (d : Int) (mode : drm_display_mode) : Decidable (all_multiples d mode) := by
  unfold all_multiples; infer_instance

/-- The 800x600 @ 56 Hz mode (pixel clock 36000 kHz). -/
def mode_800x600_56 : drm_display_mode :=
  { clock := 36000, hdisplay := 800, hsync_start := 824, hsync_end := 896, htotal := 1024,
    vdisplay := 600, vsync_start := 601, vsync_end := 603, vtotal := 625 }

/-- The 1024x768 @ 60 Hz mode (pixel clock 65000 kHz). -/
def mode_1024x768_60 : drm_display_mode :=
  { clock := 65000, hdisplay := 1024, hsync_start := 1048, hsync_end := 1184,
    htotal := 1344, vdisplay := 768, vsync_start := 771, vsync_end := 777, vtotal := 806 }

/-- The 800x600 @ 56 Hz timings with a vertical total above the 1024 lines of the 6202. -/
def mode_vtotal_1100 : drm_display_mode :=
  { mode_800x600_56 with vtotal := 1100 }

/-- A 640x480 request with the 36000 kHz clock, a combination the 6202 catalog lacks. -/
def mode_640x480_36000 : drm_display_mode :=
  { mode_800x600_56 with hdisplay := 640, vdisplay := 480 }

/-- The 800x600 @ 56 Hz timings with the pixel clock replaced by `clock`. -/
def mode_with_clock (clock : Int) : drm_display_mode :=
  { mode_800x600_56 with clock := clock }

/-- A command line that asks for 8 bits per pixel. -/
def cmdline_8bpp : drm_cmdline_mode :=
  { specified := true, bpp_specified := true, bpp := 8 }

instance instDecidableEqExcept {ε α : Type} [DecidableEq ε] [DecidableEq α] :
    DecidableEq (Except ε α)
  | .ok a, .ok b => if h : a = b then isTrue (by rw [h]) else isFalse (by simp [h])
  | .error a, .error b => if h : a = b then isTrue (by rw [h]) else isFalse (by simp [h])
  | .ok _, .error _ => isFalse (by simp)
  | .error _, .ok _ => isFalse (by simp)

/-- Whether `f` is within 0.1 % of the target `t` (both in Hz): `|f - t| <= t / 1000`,
written without division. -/
def within_permille (f t : Int) : Prop := |f - t| * 1000 ≤ t

instance (f t : Int) : Decidable (within_permille f t) := by
  unfold within_permille; infer_instance

/-! ## DRM mode flags (drm/drm_mode.h) -/

/-- The flag `DRM_MODE_FLAG_PHSYNC` (`1 << 0`). -/
def DRM_MODE_FLAG_PHSYNC : Nat := 1

/-- The flag `DRM_MODE_FLAG_NHSYNC` (`1 << 1`). -/
def DRM_MODE_FLAG_NHSYNC : Nat := 2

/-- The flag `DRM_MODE_FLAG_PVSYNC` (`1 << 2`). -/
def DRM_MODE_FLAG_PVSYNC : Nat := 4

/-- The flag `DRM_MODE_FLAG_NVSYNC` (`1 << 3`). -/
def DRM_MODE_FLAG_NVSYNC : Nat := 8

/-- The flag `DRM_MODE_FLAG_INTERLACE` (`1 << 4`), as a bit of the `unsigned int` flags of a
display mode. -/
def DRM_MODE_FLAG_INTERLACE_BIT : Nat := 16

/-- The flag `DRM_MODE_FLAG_DBLSCAN` (`1 << 5`). -/
def DRM_MODE_FLAG_DBLSCAN : Nat := 32

/-- The flag `DRM_MODE_FLAG_HSKEW` (`1 << 9`). -/
def DRM_MODE_FLAG_HSKEW : Nat := 512

/-- The flag `DRM_MODE_FLAG_CLKDIV2` (`1 << 13`). -/
def DRM_MODE_FLAG_CLKDIV2 : Nat := 8192

/-! ## sisvga_reg.h: the register transport -/

/-- The outcome of running driver code that polls the hardware or asserts: it returned a
value, a `BUG_ON` / `BUG()` fired, or a polling loop was still waiting when the fuel given
to it was used up. -/
inductive run (α : Type) where
  | ret : α → run α
  | bug : run α
  | spin : run α

/-- The port accessors `ioread8` and `iowrite8` of a device whose state is `σ`: a read
yields the value on the port and the state after the access, a write the state after it. -/
structure io_ports (σ : Type) where
  ioread8 : Nat → σ → Nat × σ
  iowrite8 : Nat → Nat → σ → σ

/-- The register `REG_MISC_IN`. -/
def REG_MISC_IN : Nat := 0x3cc

/-- The register `REG_MISC_OUT`. -/
def REG_MISC_OUT : Nat := 0x3c2

/-- The register `REG_INPUT1`. -/
def REG_INPUT1 : Nat := 0x3da

/-- The register `REG_CRI`. -/
def REG_CRI : Nat := 0x3d4

/-- The register `REG_CR`. -/
def REG_CR : Nat := 0x3d5

/-- The register `REG_SRI`. -/
def REG_SRI : Nat := 0x3c4

/-- The register `REG_SR`. -/
def REG_SR : Nat := 0x3c5

/-- The register `REG_GRI`. -/
def REG_GRI : Nat := 0x3ce

/-- The register `REG_GR`. -/
def REG_GR : Nat := 0x3cf

/-- The register `REG_ARI`. -/
def REG_ARI : Nat := 0x3c0

/-- The register `REG_AR_IN`. -/
def REG_AR_IN : Nat := 0x3c1

/-- The register `REG_AR_OUT`. -/
def REG_AR_OUT : Nat := 0x3c0

/-- The macro `RREG8(reg)`; the value is assigned to a `u8`. -/
def RREG8 {σ : Type} (io : io_ports σ) (reg : Nat) (s : σ) : Nat × σ :=
  ((io.ioread8 reg s).1 % 256, (io.ioread8 reg s).2)

/-- The macro `WREG8(reg, v)`; `iowrite8` takes a `u8`. -/
def WREG8 {σ : Type} (io : io_ports σ) (reg v : Nat) (s : σ) : σ :=
  io.iowrite8 reg (v % 256) s

/-- The macro `WAIT8(reg, v)`: poll until the port reads `v`; every iteration of its
`do ... while (1)` loop uses one unit of fuel, `none` is a loop that is still polling. -/
def WAIT8 {σ : Type} (io : io_ports σ) (fuel reg v : Nat) (s : σ) : Option σ :=
  match fuel with
  | 0 => none
  | n + 1 =>
    if (RREG8 io reg s).1 = v % 256 then some (RREG8 io reg s).2
    else WAIT8 io n reg v (RREG8 io reg s).2

/-- The macro `RREG8_MASKED(reg, mask)`. -/
def RREG8_MASKED {σ : Type} (io : io_ports σ) (reg mask : Nat) (s : σ) : Nat × σ :=
  ((RREG8 io reg s).1 &&& mask, (RREG8 io reg s).2)

/-- The macro `WAIT8_MASKED(reg, v, mask)`: poll until the masked port value is
`v & mask`; fuel as for `WAIT8`. -/
def WAIT8_MASKED {σ : Type} (io : io_ports σ) (fuel reg v mask : Nat) (s : σ) : Option σ :=
  match fuel with
  | 0 => none
  | n + 1 =>
    if (RREG8_MASKED io reg (mask % 256) s).1 = (v &&& (mask % 256)) % 256 then
      some (RREG8_MASKED io reg (mask % 256) s).2
    else WAIT8_MASKED io n reg v mask (RREG8_MASKED io reg (mask % 256) s).2

/-- The macro `RREG_I(index, reg, data, v)`. -/
def RREG_I {σ : Type} (io : io_ports σ) (index reg data : Nat) (s : σ) : Nat × σ :=
  RREG8 io data (WREG8 io index reg s)

/-- The macro `WREG_I(index, reg, data, v)`. -/
def WREG_I {σ : Type} (io : io_ports σ) (index reg data v : Nat) (s : σ) : σ :=
  WREG8 io data v (WREG8 io index reg s)

/-- The macro `WAIT_I(index, reg, data, v)`. -/
def WAIT_I {σ : Type} (io : io_ports σ) (fuel index reg data v : Nat) (s : σ) : Option σ :=
  WAIT8 io fuel data v (WREG8 io index reg s)

/-- The macro `WAIT_I_MASKED(index, reg, data, v, mask)`. -/
def WAIT_I_MASKED {σ : Type} (io : io_ports σ) (fuel index reg data v mask : Nat) (s : σ) :
    Option σ :=
  WAIT8_MASKED io fuel data v mask (WREG8 io index reg s)

/-- The macro `RREG_CR(reg, v)`. -/
def RREG_CR {σ : Type} (io : io_ports σ) (reg : Nat) (s : σ) : Nat × σ :=
  RREG_I io REG_CRI reg REG_CR s

/-- The macro `WREG_CR(reg, v)`. -/
def WREG_CR {σ : Type} (io : io_ports σ) (reg v : Nat) (s : σ) : σ :=
  WREG_I io REG_CRI reg REG_CR v s

/-- The macro `RREG_SR(reg, v)`. -/
def RREG_SR {σ : Type} (io : io_ports σ) (reg : Nat) (s : σ) : Nat × σ :=
  RREG_I io REG_SRI reg REG_SR s

/-- The macro `WREG_SR(reg, v)`. -/
def WREG_SR {σ : Type} (io : io_ports σ) (reg v : Nat) (s : σ) : σ :=
  WREG_I io REG_SRI reg REG_SR v s

/-- The macro `WAIT_SR(reg, v)`. -/
def WAIT_SR {σ : Type} (io : io_ports σ) (fuel reg v : Nat) (s : σ) : Option σ :=
  WAIT_I io fuel REG_SRI reg REG_SR v s

/-- The macro `WAIT_SR_MASKED(reg, v, mask)`. -/
def WAIT_SR_MASKED {σ : Type} (io : io_ports σ) (fuel reg v mask : Nat) (s : σ) : Option σ :=
  WAIT_I_MASKED io fuel REG_SRI reg REG_SR v mask s

/-! ## sisvga_device.h: model tests -/

/-- The C value of an `enum sisvga_model` enumerator. -/
def sisvga_model.toNat : sisvga_model → Nat
  | SISVGA_MODEL_6202 => 0
  | SISVGA_MODEL_6215 => 1
  | SISVGA_MODEL_6326 => 2

/-- The macro `MODEL_IS_GE(num_)`: `sdev->info->model >= SISVGA_MODEL_num_`. -/
def MODEL_IS_GE (info : sisvga_device_info) (num_ : sisvga_model) : Bool :=
  decide (info.model.toNat ≥ num_.toNat)

/-! ## sisvga_crtc.c: the timing compiler -/

/-- The bits of `x & m` for an `int` `x` and a non-negative constant `m`: the bitwise and
of the two-complement representation of `x` with `m`. -/
def int_and (x : Int) (m : Nat) : Nat := int_to_uint x &&& m

/-- The static function `is_9_dot_mode(mode)`. -/
def is_9_dot_mode (mode : drm_display_mode) : Bool :=
  let hdisplay := mode.hdisplay
  let hdisplay :=
    if mode.flags &&& DRM_MODE_FLAG_CLKDIV2 ≠ 0 then int_mul hdisplay 2 else hdisplay
  (hdisplay.tmod 9 == 0) && ((int_mul mode.vdisplay 9).tdiv 5 == hdisplay)

/-- The table `freq_bits_list[]` of `set_display_mode`. -/
def freq_bits_list : sisvga_freq → Nat
  | SISVGA_FREQ_14318 => 0x03
  | SISVGA_FREQ_25175 => 0x00
  | SISVGA_FREQ_28322 => 0x01

/-- The table `freqi_bits_list[]` of `set_display_mode`. -/
def freqi_bits_list : sisvga_freq → Nat
  | SISVGA_FREQ_14318 => 0x00
  | SISVGA_FREQ_25175 => 0x01
  | SISVGA_FREQ_28322 => 0x02

/-- The values that `set_display_mode` reads from the device before it computes the
register image: the locals `misc`, `cr08`, `cr14`, `cr17`, `sr01`, `sr06`, `sr07`, `sr13`,
`sr0a`, `sr2a`, `sr2b` and `sr38` as they stand after line 447 of sisvga_crtc.c. -/
structure display_mode_reads where
  misc : Nat
  cr08 : Nat
  cr14 : Nat
  cr17 : Nat
  sr01 : Nat
  sr06 : Nat
  sr07 : Nat
  sr13 : Nat
  sr0a : Nat
  sr2a : Nat
  sr2b : Nat
  sr38 : Nat
  deriving DecidableEq

/-- The `u8` locals of `set_display_mode` as they stand before the write phase (line 565 of
sisvga_crtc.c): the register image it is about to write. -/
structure display_mode_regs where
  misc : Nat
  sr01 : Nat
  sr06 : Nat
  sr07 : Nat
  sr0a : Nat
  sr12 : Nat
  sr13 : Nat
  sr2a : Nat
  sr2b : Nat
  sr38 : Nat
  cr00 : Nat
  cr01 : Nat
  cr02 : Nat
  cr03 : Nat
  cr04 : Nat
  cr05 : Nat
  cr06 : Nat
  cr07 : Nat
  cr08 : Nat
  cr09 : Nat
  cr0a : Nat
  cr0b : Nat
  cr0c : Nat
  cr0d : Nat
  cr0e : Nat
  cr0f : Nat
  cr10 : Nat
  cr11 : Nat
  cr12 : Nat
  cr14 : Nat
  cr15 : Nat
  cr16 : Nat
  cr17 : Nat
  cr18 : Nat
  deriving DecidableEq

/-- The read phase of `set_display_mode` (lines 415 to 447 of sisvga_crtc.c): the values
read, and the device state after the reads and after the write of the clock-register
selector to sr38; `none` when the wait for sr38 is still polling. -/
def set_display_mode_read {σ : Type} (io : io_ports σ) (fuel : Nat)
    (info : sisvga_device_info) (freqi_bits : Nat) (s : σ) :
    Option (display_mode_reads × σ) :=
  let misc := (RREG8 io REG_MISC_IN s).1
  let s := (RREG8 io REG_MISC_IN s).2
  let cr08 := (RREG_CR io 0x08 s).1
  let s := (RREG_CR io 0x08 s).2
  let s := (RREG_CR io 0x09 s).2
  let s := (RREG_CR io 0x11 s).2
  let cr14 := (RREG_CR io 0x14 s).1
  let s := (RREG_CR io 0x14 s).2
  let cr17 := (RREG_CR io 0x17 s).1
  let s := (RREG_CR io 0x17 s).2
  let sr38 := (RREG_SR io 0x38 s).1
  let s := (RREG_SR io 0x38 s).2
  let sr38 := sr38 &&& 0xfc
  let sr38 := sr38 ||| freqi_bits
  let s := WREG_SR io 0x38 sr38 s
  match WAIT_SR_MASKED io fuel 0x38 freqi_bits 0x03 s with
  | none => none
  | some s =>
  let sr01 := (RREG_SR io 0x01 s).1
  let s := (RREG_SR io 0x01 s).2
  let sr06 := (RREG_SR io 0x06 s).1
  let s := (RREG_SR io 0x06 s).2
  let sr07 := (RREG_SR io 0x07 s).1
  let s := (RREG_SR io 0x07 s).2
  let sr13 := if MODEL_IS_GE info SISVGA_MODEL_6326 then (RREG_SR io 0x13 s).1 else 0
  let s := if MODEL_IS_GE info SISVGA_MODEL_6326 then (RREG_SR io 0x13 s).2 else s
  let sr0a := (RREG_SR io 0x0a s).1
  let s := (RREG_SR io 0x0a s).2
  let sr2a := (RREG_SR io 0x2a s).1
  let s := (RREG_SR io 0x2a s).2
  let sr2b := (RREG_SR io 0x2b s).1
  let s := (RREG_SR io 0x2b s).2
  let sr38 := if MODEL_IS_GE info SISVGA_MODEL_6326 then (RREG_SR io 0x38 s).1 else 0
  let s := if MODEL_IS_GE info SISVGA_MODEL_6326 then (RREG_SR io 0x38 s).2 else s
  some ({ misc := misc, cr08 := cr08, cr14 := cr14, cr17 := cr17, sr01 := sr01,
          sr06 := sr06, sr07 := sr07, sr13 := sr13, sr0a := sr0a, sr2a := sr2a,
          sr2b := sr2b, sr38 := sr38 }, s)

/-- The computations of `set_display_mode`: the timing values of lines 366 to 392 and the
register image of lines 408 to 413 and 449 to 563 of sisvga_crtc.c, from the mode, the
synthesizer values `r` that `sisvga_vclk_regs` handed out, and the values read from the
device. A `u8` local that is assigned more than once is rebound. -/
def set_display_mode_regs (info : sisvga_device_info) (mode : drm_display_mode)
    (r : sisvga_vclk_regs_out) (rd : display_mode_reads) : display_mode_regs :=
  let dots : Int := if is_9_dot_mode mode then 9 else 8
  let htotal := mode.crtc_htotal.tdiv dots - 5
  let hsync_start := mode.crtc_hsync_start.tdiv dots - 1
  let hsync_end := mode.crtc_hsync_end.tdiv dots - 1
  let hdisplay := mode.crtc_hdisplay.tdiv dots - 1
  let hskew := if mode.flags &&& DRM_MODE_FLAG_HSKEW ≠ 0 then mode.hskew.tdiv dots else 0
  let hblank_start := mode.crtc_hblank_start.tdiv dots - 1
  let hblank_end := mode.crtc_hblank_end.tdiv dots - 1
  let vtotal := wrap_int (mode.crtc_vtotal - 2)
  let vsync_start := wrap_int (mode.crtc_vsync_start - 1)
  let vsync_end := wrap_int (mode.crtc_vsync_end - 1)
  let vdisplay := wrap_int (mode.crtc_vdisplay - 1)
  let vscan := if mode.vscan ≠ 0 then wrap_int (mode.vscan - 1) else 0
  let vblank_start := wrap_int (mode.crtc_vblank_start - 1)
  let vblank_end := wrap_int (mode.crtc_vblank_end - 1)
  let line_compare := wrap_int (mode.crtc_vtotal + 1)
  let freq_bits := freq_bits_list r.freq
  let num_bits := (r.num - 1) % 256
  let denum_bits := (r.denum - 1) % 256
  let div_bits := (r.div - 1) % 256
  let postscal_bits := (r.postscal - 1) % 256
  let cr00 := int_and htotal 0xff
  let cr01 := int_and hdisplay 0xff
  let cr02 := int_and hblank_start 0xff
  let cr03 := 0x80 ||| ((int_and hskew 0x03) <<< 5) ||| (int_and hblank_end 0x1f)
  let cr04 := int_and hsync_start 0xff
  let cr05 := ((int_and hblank_end 0x20) <<< 2) ||| (int_and hsync_end 0x1f)
  let cr06 := int_and vtotal 0xff
  let cr07 := ((int_and vsync_start 0x200) >>> 2) |||
              ((int_and vdisplay 0x200) >>> 3) |||
              ((int_and vtotal 0x200) >>> 4) |||
              ((int_and line_compare 0x100) >>> 4) |||
              ((int_and vblank_start 0x100) >>> 5) |||
              ((int_and vsync_start 0x100) >>> 6) |||
              ((int_and vdisplay 0x100) >>> 7) |||
              ((int_and vtotal 0x100) >>> 8)
  let cr08 := rd.cr08 &&& 0x80
  let cr09 := ((int_and line_compare 0x200) >>> 3) |||
              ((int_and vblank_start 0x200) >>> 4) |||
              (int_and vscan 0x1f)
  let cr09 := if mode.flags &&& DRM_MODE_FLAG_DBLSCAN ≠ 0 then cr09 ||| 0x80 else cr09
  let cr0a := 0
  let cr0b := 0
  let cr0c := 0
  let cr0d := 0
  let cr0e := 0
  let cr0f := 0
  let cr10 := int_and vsync_start 0xff
  let cr11 := int_and vsync_end 0x0f
  let cr12 := int_and vdisplay 0xff
  let cr14 := rd.cr14 &&& 0x80
  let cr15 := int_and vblank_start 0xff
  let cr16 := int_and vblank_end 0xff
  let cr17 := rd.cr17 ||| (0x40 ||| 0x03)
  let cr18 := int_and line_compare 0xff
  let sr01 := if dots = 9 then rd.sr01 &&& 0xfe else rd.sr01 ||| 0x01
  let sr0a := rd.sr0a &&& 0xf0
  let sr0a := sr0a ||| (((int_and vsync_start 0x400) >>> 7) |||
                        ((int_and vblank_start 0x400) >>> 8) |||
                        ((int_and vdisplay 0x400) >>> 9) |||
                        ((int_and vtotal 0x400) >>> 10))
  let sr12 :=
    if MODEL_IS_GE info SISVGA_MODEL_6326 then
      ((int_and hblank_end 0x40) >>> 2) |||
      ((int_and hsync_start 0x100) >>> 5) |||
      ((int_and hblank_start 0x100) >>> 6) |||
      ((int_and hdisplay 0x100) >>> 7) |||
      ((int_and htotal 0x100) >>> 8)
    else 0
  let misc := rd.misc &&& 0x3f
  let misc := if mode.flags &&& DRM_MODE_FLAG_NVSYNC ≠ 0 then misc ||| 0x80 else misc
  let misc := if mode.flags &&& DRM_MODE_FLAG_NHSYNC ≠ 0 then misc ||| 0x40 else misc
  let misc := misc &&& 0xf3
  let misc := misc ||| (freq_bits <<< 2)
  let sr01 := if mode.flags &&& DRM_MODE_FLAG_CLKDIV2 ≠ 0 then sr01 ||| 0x08
              else sr01 &&& 0xf7
  let sr06 := if mode.flags &&& DRM_MODE_FLAG_INTERLACE_BIT ≠ 0 then rd.sr06 ||| 0x20
              else rd.sr06 &&& 0xdf
  let sr07 := if mode.clock > 135 * 1000 then rd.sr07 ||| 0x02 else rd.sr07 &&& 0xfd
  let sr13 :=
    if r.freq = SISVGA_FREQ_14318 then
      (if MODEL_IS_GE info SISVGA_MODEL_6326 then
        (if postscal_bits &&& 0x04 ≠ 0 then rd.sr13 ||| 0x40 else rd.sr13 &&& 0xbf)
       else rd.sr13)
    else rd.sr13
  let sr2a :=
    if r.freq = SISVGA_FREQ_14318 then ((div_bits &&& 0x01) <<< 7) ||| (num_bits &&& 0x7f)
    else rd.sr2a
  let sr2b :=
    if r.freq = SISVGA_FREQ_14318 then
      (if mode.clock > 135 * 1000 then
        (((postscal_bits &&& 0x03) <<< 5) ||| (denum_bits &&& 0x1f)) ||| 0x80
       else ((postscal_bits &&& 0x03) <<< 5) ||| (denum_bits &&& 0x1f))
    else rd.sr2b
  let sr06 := if r.freq = SISVGA_FREQ_14318 then sr06 ||| 0x03 else sr06 &&& 0xfc
  let sr38 := if MODEL_IS_GE info SISVGA_MODEL_6326 then rd.sr38 ||| 0x04 else rd.sr38
  { misc := misc, sr01 := sr01, sr06 := sr06, sr07 := sr07, sr0a := sr0a, sr12 := sr12,
    sr13 := sr13, sr2a := sr2a, sr2b := sr2b, sr38 := sr38,
    cr00 := cr00, cr01 := cr01, cr02 := cr02, cr03 := cr03, cr04 := cr04, cr05 := cr05,
    cr06 := cr06, cr07 := cr07, cr08 := cr08, cr09 := cr09, cr0a := cr0a, cr0b := cr0b,
    cr0c := cr0c, cr0d := cr0d, cr0e := cr0e, cr0f := cr0f, cr10 := cr10, cr11 := cr11,
    cr12 := cr12, cr14 := cr14, cr15 := cr15, cr16 := cr16, cr17 := cr17, cr18 := cr18 }

/-- The write phase of `set_display_mode` (lines 565 to 611 of sisvga_crtc.c): the device
state after the register image `g` is written; `none` when the wait for the miscellaneous
output register is still polling. -/
def set_display_mode_write {σ : Type} (io : io_ports σ) (fuel : Nat)
    (info : sisvga_device_info) (freq : sisvga_freq) (g : display_mode_regs) (s : σ) :
    Option σ :=
  let s := WREG8 io REG_MISC_OUT g.misc s
  match WAIT8_MASKED io fuel REG_MISC_IN g.misc 0xef s with
  | none => none
  | some s =>
  let s := WREG_SR io 0x01 g.sr01 s
  let s :=
    if freq = SISVGA_FREQ_14318 then
      WREG_SR io 0x2b g.sr2b (WREG_SR io 0x2a g.sr2a
        (if MODEL_IS_GE info SISVGA_MODEL_6326 then WREG_SR io 0x13 g.sr13 s else s))
    else s
  let s := WREG_SR io 0x0a g.sr0a s
  let s := WREG_SR io 0x06 g.sr06 s
  let s := WREG_SR io 0x07 g.sr07 s
  let s :=
    if MODEL_IS_GE info SISVGA_MODEL_6326 then
      WREG_SR io 0x38 g.sr38 (WREG_SR io 0x12 g.sr12 s)
    else s
  let s := WREG_CR io 0x00 g.cr00 s
  let s := WREG_CR io 0x01 g.cr01 s
  let s := WREG_CR io 0x02 g.cr02 s
  let s := WREG_CR io 0x03 g.cr03 s
  let s := WREG_CR io 0x04 g.cr04 s
  let s := WREG_CR io 0x05 g.cr05 s
  let s := WREG_CR io 0x06 g.cr06 s
  let s := WREG_CR io 0x07 g.cr07 s
  let s := WREG_CR io 0x08 g.cr08 s
  let s := WREG_CR io 0x09 g.cr09 s
  let s := WREG_CR io 0x0a g.cr0a s
  let s := WREG_CR io 0x0b g.cr0b s
  let s := WREG_CR io 0x0c g.cr0c s
  let s := WREG_CR io 0x0d g.cr0d s
  let s := WREG_CR io 0x0e g.cr0e s
  let s := WREG_CR io 0x0f g.cr0f s
  let s := WREG_CR io 0x10 g.cr10 s
  let s := WREG_CR io 0x11 g.cr11 s
  let s := WREG_CR io 0x12 g.cr12 s
  let s := WREG_CR io 0x14 g.cr14 s
  let s := WREG_CR io 0x15 g.cr15 s
  let s := WREG_CR io 0x16 g.cr16 s
  let s := WREG_CR io 0x17 g.cr17 s
  let s := WREG_CR io 0x18 g.cr18 s
  some s

/-- The static function `set_display_mode(sdev, mode)` over the ports `io` of the device:
`sdev->info` is `info`, the device registers are the state `s`. The result is the returned
`int` with the device state the call leaves; `fuel` bounds each of the two polling loops.
The body is the clock resolution of lines 399 to 406, then the read phase, the
computations and the write phase. -/
def set_display_mode {σ : Type} (io : io_ports σ) (fuel : Nat) (info : sisvga_device_info)
    (mode : drm_display_mode) (s : σ) : run (Int × σ) :=
  match sisvga_vclk_of_clock (int_to_uint mode.clock) with
  | .error ret => .ret (ret, s)
  | .ok vclk =>
  match sisvga_vclk_regs vclk with
  | none => .bug
  | some r =>
  match set_display_mode_read io fuel info (freqi_bits_list r.freq) s with
  | none => .spin
  | some (rd, s) =>
  match set_display_mode_write io fuel info r.freq (set_display_mode_regs info mode r rd) s with
  | none => .spin
  | some s => .ret (0, s)

/-! ## sisvga_debug.c: the mode decoder -/

/-- The registers that `sisvga_debug_print_mode` reads first (lines 28 to 48 of
sisvga_debug.c), those that reach the printed mode. -/
structure debug_mode_reads where
  misc : Nat
  sr01 : Nat
  sr12 : Nat
  sr0a : Nat
  cr00 : Nat
  cr01 : Nat
  cr04 : Nat
  cr05 : Nat
  cr06 : Nat
  cr07 : Nat
  cr09 : Nat
  cr10 : Nat
  cr11 : Nat
  cr12 : Nat
  deriving DecidableEq

/-- The first reads of `sisvga_debug_print_mode` (lines 28 to 48 of sisvga_debug.c). -/
def debug_print_mode_read {σ : Type} (io : io_ports σ) (s : σ) : debug_mode_reads × σ :=
  let misc := (RREG8 io REG_MISC_IN s).1
  let s := (RREG8 io REG_MISC_IN s).2
  let sr01 := (RREG_SR io 0x01 s).1
  let s := (RREG_SR io 0x01 s).2
  let s := (RREG_SR io 0x05 s).2
  let sr12 := (RREG_SR io 0x12 s).1
  let s := (RREG_SR io 0x12 s).2
  let sr0a := (RREG_SR io 0x0a s).1
  let s := (RREG_SR io 0x0a s).2
  let cr00 := (RREG_CR io 0x00 s).1
  let s := (RREG_CR io 0x00 s).2
  let cr01 := (RREG_CR io 0x01 s).1
  let s := (RREG_CR io 0x01 s).2
  let s := (RREG_CR io 0x02 s).2
  let s := (RREG_CR io 0x03 s).2
  let cr04 := (RREG_CR io 0x04 s).1
  let s := (RREG_CR io 0x04 s).2
  let cr05 := (RREG_CR io 0x05 s).1
  let s := (RREG_CR io 0x05 s).2
  let cr06 := (RREG_CR io 0x06 s).1
  let s := (RREG_CR io 0x06 s).2
  let cr07 := (RREG_CR io 0x07 s).1
  let s := (RREG_CR io 0x07 s).2
  let cr09 := (RREG_CR io 0x09 s).1
  let s := (RREG_CR io 0x09 s).2
  let cr10 := (RREG_CR io 0x10 s).1
  let s := (RREG_CR io 0x10 s).2
  let cr11 := (RREG_CR io 0x11 s).1
  let s := (RREG_CR io 0x11 s).2
  let cr12 := (RREG_CR io 0x12 s).1
  let s := (RREG_CR io 0x12 s).2
  let s := (RREG_CR io 0x15 s).2
  let s := (RREG_CR io 0x16 s).2
  ({ misc := misc, sr01 := sr01, sr12 := sr12, sr0a := sr0a, cr00 := cr00, cr01 := cr01,
     cr04 := cr04, cr05 := cr05, cr06 := cr06, cr07 := cr07, cr09 := cr09, cr10 := cr10,
     cr11 := cr11, cr12 := cr12 }, s)

/-- The timings and flags that `sisvga_debug_print_mode` decodes (lines 50 to 117 of
sisvga_debug.c), as the printed mode with its clock still zero from the `memset`. The
locals `hblank_start`, `hblank_end`, `vblank_start` and `vblank_end` do not reach the mode
and are left out, as is the field `type`. -/
def debug_print_mode_timings (rd : debug_mode_reads) : drm_display_mode :=
  let dots : Nat := if rd.sr01 &&& 0x01 ≠ 0 then 8 else 9
  let htotal := ((rd.sr12 &&& 0x01) <<< 8) ||| rd.cr00
  let hdisplay := ((rd.sr12 &&& 0x02) <<< 7) ||| rd.cr01
  let hsync_start := ((rd.sr12 &&& 0x08) <<< 5) ||| rd.cr04
  let hsync_end := ((rd.sr12 &&& 0x08) <<< 5) ||| (rd.cr04 &&& 0xe0) ||| (rd.cr05 &&& 0x1f)
  let hskew := (rd.cr05 &&& 0x60) >>> 5
  let vtotal := ((rd.sr0a &&& 0x01) <<< 9) ||| ((rd.cr07 &&& 0x20) <<< 4) |||
                ((rd.cr07 &&& 0x01) <<< 8) ||| rd.cr06
  let vdisplay := ((rd.sr0a &&& 0x02) <<< 8) ||| ((rd.cr07 &&& 0x02) <<< 7) |||
                  ((rd.cr07 &&& 0x40) <<< 3) ||| rd.cr12
  let vsync_start := ((rd.sr0a &&& 0x08) <<< 6) ||| ((rd.cr07 &&& 0x80) <<< 2) |||
                     ((rd.cr07 &&& 0x04) <<< 6) ||| rd.cr10
  let vsync_end := ((rd.sr0a &&& 0x08) <<< 6) ||| ((rd.cr07 &&& 0x80) <<< 2) |||
                   ((rd.cr07 &&& 0x04) <<< 6) ||| (rd.cr10 &&& 0xf0) ||| (rd.cr11 &&& 0x0f)
  let vscan := rd.cr09 &&& 0x1f
  let flags : Nat := 0
  let flags := if rd.misc &&& 0x80 ≠ 0 then flags ||| DRM_MODE_FLAG_NVSYNC
               else flags ||| DRM_MODE_FLAG_PVSYNC
  let flags := if rd.misc &&& 0x40 ≠ 0 then flags ||| DRM_MODE_FLAG_NHSYNC
               else flags ||| DRM_MODE_FLAG_PHSYNC
  let flags := if rd.cr09 &&& 0x80 ≠ 0 then flags ||| DRM_MODE_FLAG_DBLSCAN else flags
  let flags := if hskew ≠ 0 then flags ||| DRM_MODE_FLAG_HSKEW else flags
  let flags := if rd.sr01 &&& 0x08 ≠ 0 then flags ||| DRM_MODE_FLAG_CLKDIV2 else flags
  { htotal := ((htotal + 5) * dots : Nat),
    hdisplay := ((hdisplay + 1) * dots : Nat),
    hsync_start := ((hsync_start + 1) * dots : Nat),
    hsync_end := ((hsync_end + 1) * dots : Nat),
    hskew := ((hskew * dots : Nat) : Int),
    vtotal := ((vtotal + 2 : Nat) : Int),
    vdisplay := ((vdisplay + 1 : Nat) : Int),
    vsync_start := ((vsync_start + 1 : Nat) : Int),
    vsync_end := ((vsync_end + 1 : Nat) : Int),
    vscan := if vscan ≠ 0 then ((vscan + 1 : Nat) : Int) else 0,
    flags := flags }

/-- The `switch (misc & 0x0c)` of `sisvga_debug_print_mode`: the reference frequency `fr`
in kHz and the selector `freqi`; `none` is the `default:` case with its `BUG()`. -/
def debug_print_mode_fr (misc : Nat) : Option (Nat × Nat) :=
  if misc &&& 0x0c = 0x00 then some (25175, 0x01)
  else if misc &&& 0x0c = 0x04 then some (28322, 0x02)
  else if misc &&& 0x0c = 0x0c then some (14813, 0x00)
  else none

/-- The clock that `sisvga_debug_print_mode` decodes (lines 155 to 163 of
sisvga_debug.c) from the reference frequency and the registers sr13, sr2a and sr2b. -/
def debug_print_mode_clock (fr sr13 sr2a sr2b : Nat) : Nat :=
  let div := ((sr2a &&& 0x80) >>> 7) + 1
  let num := (sr2a &&& 0x7f) + 1
  let denum := (sr2b &&& 0x1f) + 1
  let postscal := ((sr2b &&& 0x60) >>> 5) + 1
  let postscal := if sr13 &&& 0x80 ≠ 0 then postscal * 2 else postscal
  (fr * num * div) / (denum * postscal)

/-- The function `sisvga_debug_print_mode(sdev)`: the display mode it decodes from the
registers and prints, with the device state the call leaves. `fuel` bounds each of its two
polling loops. The body is the first reads, the decoding of the timings, the selection of
the PLL registers through sr38 (lines 119 to 153 of sisvga_debug.c) and the decoding of
the clock. -/
def sisvga_debug_print_mode {σ : Type} (io : io_ports σ) (fuel : Nat) (s : σ) :
    run (drm_display_mode × σ) :=
  let rd := (debug_print_mode_read io s).1
  let s := (debug_print_mode_read io s).2
  let mode := debug_print_mode_timings rd
  let sr38 := (RREG_SR io 0x38 s).1
  let s := (RREG_SR io 0x38 s).2
  let saved_sr38 := sr38
  match debug_print_mode_fr rd.misc with
  | none => .bug
  | some (fr, freqi) =>
  let sr38 := sr38 &&& 0xfc
  let sr38 := sr38 ||| freqi
  let s := WREG_SR io 0x38 sr38 s
  match WAIT_SR_MASKED io fuel 0x38 freqi 0x03 s with
  | none => .spin
  | some s =>
  let sr13 := (RREG_SR io 0x13 s).1
  let s := (RREG_SR io 0x13 s).2
  let sr2a := (RREG_SR io 0x2a s).1
  let s := (RREG_SR io 0x2a s).2
  let sr2b := (RREG_SR io 0x2b s).1
  let s := (RREG_SR io 0x2b s).2
  let s := WREG_SR io 0x38 saved_sr38 s
  match WAIT_SR io fuel 0x38 saved_sr38 s with
  | none => .spin
  | some s =>
  .ret ({ mode with clock := ((debug_print_mode_clock fr sr13 sr2a sr2b : Nat) : Int) }, s)

/-! ## An idealised VGA register file -/

/-- The state of a VGA register file in which every register is a byte cell that reads
back what was last written to it: the miscellaneous output register and the indexed
sequencer, CRT controller, graphics controller and attribute controller banks with their
index registers (`ar_data` tells whether the next write to the attribute port is data). -/
structure vga_regs where
  misc : Nat
  sri : Nat
  sr : Nat → Nat
  cri : Nat
  cr : Nat → Nat
  gri : Nat
  gr : Nat → Nat
  ari : Nat
  ar : Nat → Nat
  ar_data : Bool

/-- Reading a port of the idealised register file. -/
def vga_ioread8 (reg : Nat) (s : vga_regs) : Nat × vga_regs :=
  if reg = REG_MISC_IN then (s.misc, s)
  else if reg = REG_SR then (s.sr s.sri, s)
  else if reg = REG_CR then (s.cr s.cri, s)
  else if reg = REG_GR then (s.gr s.gri, s)
  else if reg = REG_AR_IN then (s.ar s.ari, s)
  else if reg = REG_INPUT1 then (0, { s with ar_data := false })
  else (0, s)

/-- Writing a port of the idealised register file. -/
def vga_iowrite8 (reg v : Nat) (s : vga_regs) : vga_regs :=
  if reg = REG_MISC_OUT then { s with misc := v }
  else if reg = REG_SRI then { s with sri := v }
  else if reg = REG_SR then { s with sr := Function.update s.sr s.sri v }
  else if reg = REG_CRI then { s with cri := v }
  else if reg = REG_CR then { s with cr := Function.update s.cr s.cri v }
  else if reg = REG_GRI then { s with gri := v }
  else if reg = REG_GR then { s with gr := Function.update s.gr s.gri v }
  else if reg = REG_ARI then
    (if s.ar_data then { s with ar := Function.update s.ar s.ari v, ar_data := false }
     else { s with ari := v, ar_data := true })
  else s

/-- The ports of the idealised register file. -/
def vga_ports : io_ports vga_regs :=
  { ioread8 := vga_ioread8, iowrite8 := vga_iowrite8 }

/-- A register file with every cell zero. -/
def vga_regs_zero : vga_regs :=
  { misc := 0, sri := 0, sr := fun _ => 0, cri := 0, cr := fun _ => 0,
    gri := 0, gr := fun _ => 0, ari := 0, ar := fun _ => 0, ar_data := false }

/-- The returned value of a run, when it returned. -/
def run.value {α β : Type} : run (α × β) → Option α
  | .ret (a, _) => some a
  | .bug => none
  | .spin => none

/-- The device state a run leaves, when it returned. -/
def run.state {α β : Type} : run (α × β) → Option β
  | .ret (_, s) => some s
  | .bug => none
  | .spin => none

/-- The mode that `sisvga_debug_print_mode` decodes from the registers left by
`set_display_mode` on the idealised register file, when both return. -/
def decode_after_set (fuel : Nat) (info : sisvga_device_info) (mode : drm_display_mode)
    (s : vga_regs) : Option drm_display_mode :=
  match set_display_mode vga_ports fuel info mode s with
  | .ret (_, s1) => (sisvga_debug_print_mode vga_ports fuel s1).value
  | .bug => none
  | .spin => none

/-- The 1600x1200 @ 60 Hz mode (pixel clock 162000 kHz) with its CRTC timings. -/
def mode_1600x1200_60 : drm_display_mode :=
  { clock := 162000, hdisplay := 1600, hsync_start := 1664, hsync_end := 1856,
    htotal := 2160, vdisplay := 1200, vsync_start := 1201, vsync_end := 1204,
    vtotal := 1250,
    crtc_clock := 162000, crtc_hdisplay := 1600, crtc_hblank_start := 1600,
    crtc_hblank_end := 2160, crtc_hsync_start := 1664, crtc_hsync_end := 1856,
    crtc_htotal := 2160, crtc_vdisplay := 1200, crtc_vblank_start := 1200,
    crtc_vblank_end := 1250, crtc_vsync_start := 1201, crtc_vsync_end := 1204,
    crtc_vtotal := 1250 }


/-- The sequencer bank of the idealised register file after the write phase of
`set_display_mode` has written the register image `g`, in the order of the writes. -/
def vga_write_sr (info : sisvga_device_info) (freq : sisvga_freq) (g : display_mode_regs)
    (sr : Nat → Nat) : Nat → Nat :=
  let sr := Function.update sr 0x01 (g.sr01 % 256)
  let sr :=
    if freq = SISVGA_FREQ_14318 then
      Function.update (Function.update
        (if MODEL_IS_GE info SISVGA_MODEL_6326 then Function.update sr 0x13 (g.sr13 % 256)
         else sr) 0x2a (g.sr2a % 256)) 0x2b (g.sr2b % 256)
    else sr
  let sr := Function.update sr 0x0a (g.sr0a % 256)
  let sr := Function.update sr 0x06 (g.sr06 % 256)
  let sr := Function.update sr 0x07 (g.sr07 % 256)
  if MODEL_IS_GE info SISVGA_MODEL_6326 then
    Function.update (Function.update sr 0x12 (g.sr12 % 256)) 0x38 (g.sr38 % 256)
  else sr

/-- The CRT controller bank of the idealised register file after the write phase of
`set_display_mode` has written the register image `g`, in the order of the writes. -/
def vga_write_cr (g : display_mode_regs) (cr : Nat → Nat) : Nat → Nat :=
  let cr := Function.update cr 0x00 (g.cr00 % 256)
  let cr := Function.update cr 0x01 (g.cr01 % 256)
  let cr := Function.update cr 0x02 (g.cr02 % 256)
  let cr := Function.update cr 0x03 (g.cr03 % 256)
  let cr := Function.update cr 0x04 (g.cr04 % 256)
  let cr := Function.update cr 0x05 (g.cr05 % 256)
  let cr := Function.update cr 0x06 (g.cr06 % 256)
  let cr := Function.update cr 0x07 (g.cr07 % 256)
  let cr := Function.update cr 0x08 (g.cr08 % 256)
  let cr := Function.update cr 0x09 (g.cr09 % 256)
  let cr := Function.update cr 0x0a (g.cr0a % 256)
  let cr := Function.update cr 0x0b (g.cr0b % 256)
  let cr := Function.update cr 0x0c (g.cr0c % 256)
  let cr := Function.update cr 0x0d (g.cr0d % 256)
  let cr := Function.update cr 0x0e (g.cr0e % 256)
  let cr := Function.update cr 0x0f (g.cr0f % 256)
  let cr := Function.update cr 0x10 (g.cr10 % 256)
  let cr := Function.update cr 0x11 (g.cr11 % 256)
  let cr := Function.update cr 0x12 (g.cr12 % 256)
  let cr := Function.update cr 0x14 (g.cr14 % 256)
  let cr := Function.update cr 0x15 (g.cr15 % 256)
  let cr := Function.update cr 0x16 (g.cr16 % 256)
  let cr := Function.update cr 0x17 (g.cr17 % 256)
  Function.update cr 0x18 (g.cr18 % 256)

/-- What `set_display_mode` reads from the idealised register file `s` when the selector
of the clock source `freq` has been written to sr38. -/
def vga_display_mode_reads (info : sisvga_device_info) (freq : sisvga_freq) (s : vga_regs) :
    display_mode_reads :=
  { misc := s.misc % 256, cr08 := s.cr 0x08 % 256, cr14 := s.cr 0x14 % 256,
    cr17 := s.cr 0x17 % 256, sr01 := s.sr 0x01 % 256, sr06 := s.sr 0x06 % 256,
    sr07 := s.sr 0x07 % 256,
    sr13 := if MODEL_IS_GE info SISVGA_MODEL_6326 then s.sr 0x13 % 256 else 0,
    sr0a := s.sr 0x0a % 256, sr2a := s.sr 0x2a % 256, sr2b := s.sr 0x2b % 256,
    sr38 := if MODEL_IS_GE info SISVGA_MODEL_6326 then
        (s.sr 0x38 % 256 &&& 252 ||| freqi_bits_list freq) % 256 % 256
      else 0 }

/-- The idealised register file that a successful `set_display_mode` leaves when it
started from `s` and `sisvga_vclk_regs` handed out `r`: the image computed from the values
read, written over the state the read phase left. -/
def vga_display_mode_image (info : sisvga_device_info) (mode : drm_display_mode)
    (r : sisvga_vclk_regs_out) (s : vga_regs) : vga_regs :=
  { s with
    misc := (set_display_mode_regs info mode r (vga_display_mode_reads info r.freq s)).misc
      % 256,
    sri := if MODEL_IS_GE info SISVGA_MODEL_6326 then 0x38 else 0x07,
    sr := vga_write_sr info r.freq
      (set_display_mode_regs info mode r (vga_display_mode_reads info r.freq s))
      (Function.update s.sr 0x38
        ((s.sr 0x38 % 256 &&& 252 ||| freqi_bits_list r.freq) % 256)),
    cri := 0x18,
    cr := vga_write_cr
      (set_display_mode_regs info mode r (vga_display_mode_reads info r.freq s)) s.cr }

/-- What `sisvga_debug_print_mode` reads first from the idealised register file `s`. -/
def vga_debug_mode_reads (s : vga_regs) : debug_mode_reads :=
  { misc := s.misc % 256, sr01 := s.sr 0x01 % 256, sr12 := s.sr 0x12 % 256,
    sr0a := s.sr 0x0a % 256, cr00 := s.cr 0x00 % 256, cr01 := s.cr 0x01 % 256,
    cr04 := s.cr 0x04 % 256, cr05 := s.cr 0x05 % 256, cr06 := s.cr 0x06 % 256,
    cr07 := s.cr 0x07 % 256, cr09 := s.cr 0x09 % 256, cr10 := s.cr 0x10 % 256,
    cr11 := s.cr 0x11 % 256, cr12 := s.cr 0x12 % 256 }

/-- The dot unit that `set_display_mode` chooses for a mode. -/
def dot_unit (mode : drm_display_mode) : Int := if is_9_dot_mode mode then 9 else 8

/-- The 1024x768 @ 60 Hz mode (pixel clock 65000 kHz) with its CRTC timings. -/
def mode_1024x768_60_crtc : drm_display_mode :=
  { mode_1024x768_60 with
    crtc_clock := 65000, crtc_hdisplay := 1024, crtc_hblank_start := 1024,
    crtc_hblank_end := 1344, crtc_hsync_start := 1048, crtc_hsync_end := 1184,
    crtc_htotal := 1344, crtc_vdisplay := 768, crtc_vblank_start := 768,
    crtc_vblank_end := 806, crtc_vsync_start := 771, crtc_vsync_end := 777,
    crtc_vtotal := 806 }

/-- The 1600x1200 @ 60 Hz timings with `crtc_vdisplay` replaced by `v`. -/
def mode_with_crtc_vdisplay (v : Int) : drm_display_mode :=
  { mode_1600x1200_60 with crtc_vdisplay := v }

/-! ## sisvga_bo.c: buffer objects -/

/-- The `struct ttm_place` of TTM: `fpfn` and `lpfn` are `unsigned`, `flags` is a
`uint32_t`. -/
structure ttm_place where
  fpfn : Nat := 0
  lpfn : Nat := 0
  flags : Nat := 0
  deriving DecidableEq

/-- The `struct ttm_placement` of TTM. The pointers `placement` and `busy_placement` are
`true` when they point to the array `placements` of the buffer object, the one value the
driver assigns to them, and `false` when they are `NULL`. -/
structure ttm_placement where
  num_placement : Nat := 0
  placement : Bool := false
  num_busy_placement : Nat := 0
  busy_placement : Bool := false
  deriving DecidableEq

/-- The array `struct ttm_place placements[3]` of `struct sisvga_bo`. -/
structure ttm_place_array where
  p0 : ttm_place := {}
  p1 : ttm_place := {}
  p2 : ttm_place := {}
  deriving DecidableEq

/-- The entries of the array, in order. -/
def ttm_place_array.toList (ps : ttm_place_array) : List ttm_place := [ps.p0, ps.p1, ps.p2]

/-- The `struct sisvga_bo` of sisvga_device.h, without the member `gem` that the functions
of sisvga_bo.c modelled here leave alone. `τ` is the state of the
`struct ttm_buffer_object bo`, `κ` that of the `struct ttm_bo_kmap_obj kmap`. -/
structure sisvga_bo (τ κ : Type) where
  bo : τ
  placement : ttm_placement
  kmap : κ
  placements : ttm_place_array
  pin_count : Int

/-- What `sisvga_bo.c` uses of TTM, which is kernel code outside the driver: the flag
constants of `ttm_placement.h`, the member `offset` of `struct ttm_buffer_object`, the
function `ttm_bo_validate(bo, placement, ctx)` as the value it returns and the buffer
state it leaves, given the placement and the array it points to (the driver always passes
the `ctx` `{ false, false }`), the test `kmap.virtual != NULL` and the function
`ttm_bo_kunmap(map)`, which may touch the buffer that the mapping belongs to. -/
structure ttm_interface (τ κ : Type) where
  TTM_PL_FLAG_SYSTEM : Nat
  TTM_PL_FLAG_VRAM : Nat
  TTM_PL_FLAG_UNCACHED : Nat
  TTM_PL_FLAG_WC : Nat
  TTM_PL_MASK_CACHING : Nat
  TTM_PL_FLAG_NO_EVICT : Nat
  offset : τ → Nat
  ttm_bo_validate : τ → ttm_placement → ttm_place_array → Int × τ
  virtual : κ → Bool
  ttm_bo_kunmap : τ → κ → τ × κ

/-- The complement `~x` of a flag, as the `uint32_t` it is combined with. -/
def u32_not (x : Nat) : Nat := 2 ^ 32 - 1 - x % 2 ^ 32

/-- The assignment `placements[i].flags = flags` for an index inside the array; the driver
uses it with the indices 0 and 1 only. -/
def placements_set_flags (ps : ttm_place_array) (i : Nat) (flags : Nat) : ttm_place_array :=
  match i with
  | 0 => { ps with p0 := { ps.p0 with flags := flags % 2 ^ 32 } }
  | 1 => { ps with p1 := { ps.p1 with flags := flags % 2 ^ 32 } }
  | 2 => { ps with p2 := { ps.p2 with flags := flags % 2 ^ 32 } }
  | _ => ps

/-- The loops `for (i = 0; i < n; ++i) placements[i] = f(placements[i])` of sisvga_bo.c
over the array of three entries; `none` when the loop runs past the end of the array. -/
def placements_for (n : Nat) (f : ttm_place → ttm_place) (ps : ttm_place_array) :
    Option ttm_place_array :=
  match n with
  | 0 => some ps
  | 1 => some { ps with p0 := f ps.p0 }
  | 2 => some { ps with p0 := f ps.p0, p1 := f ps.p1 }
  | 3 => some { p0 := f ps.p0, p1 := f ps.p1, p2 := f ps.p2 }
  | _ => none

/-- The function `sisvga_bo_ttm_placement(bo, domain)`; `domain` is the bit pattern of the
`int` argument. -/
def sisvga_bo_ttm_placement {τ κ : Type} (api : ttm_interface τ κ) (bo : sisvga_bo τ κ)
    (domain : Nat) : Option (sisvga_bo τ κ) :=
  let c : Nat := 0
  let placement := { bo.placement with placement := true, busy_placement := true }
  let ps := bo.placements
  let ps := if domain &&& api.TTM_PL_FLAG_VRAM ≠ 0 then
      placements_set_flags ps c
        (api.TTM_PL_FLAG_WC ||| api.TTM_PL_FLAG_UNCACHED ||| api.TTM_PL_FLAG_VRAM)
    else ps
  let c := if domain &&& api.TTM_PL_FLAG_VRAM ≠ 0 then c + 1 else c
  let ps := if domain &&& api.TTM_PL_FLAG_SYSTEM ≠ 0 then
      placements_set_flags ps c (api.TTM_PL_MASK_CACHING ||| api.TTM_PL_FLAG_SYSTEM)
    else ps
  let c := if domain &&& api.TTM_PL_FLAG_SYSTEM ≠ 0 then c + 1 else c
  let ps := if c = 0 then
      placements_set_flags ps c (api.TTM_PL_MASK_CACHING ||| api.TTM_PL_FLAG_SYSTEM)
    else ps
  let c := if c = 0 then c + 1 else c
  let placement := { placement with num_placement := c, num_busy_placement := c }
  match placements_for c (fun p => { p with fpfn := 0, lpfn := 0 }) ps with
  | none => none
  | some ps => some { bo with placement := placement, placements := ps }

/-- The statement `placements[i].flags |= TTM_PL_FLAG_NO_EVICT`. -/
def set_no_evict {τ κ : Type} (api : ttm_interface τ κ) (p : ttm_place) : ttm_place :=
  { p with flags := (p.flags ||| api.TTM_PL_FLAG_NO_EVICT) % 2 ^ 32 }

/-- The statement `placements[i].flags &= ~TTM_PL_FLAG_NO_EVICT`. -/
def clear_no_evict {τ κ : Type} (api : ttm_interface τ κ) (p : ttm_place) : ttm_place :=
  { p with flags := p.flags &&& u32_not api.TTM_PL_FLAG_NO_EVICT }

/-- The function `sisvga_bo_pin(bo, pl_flag, gpu_addr)`: the value it returns, the buffer
object it leaves and the content of `*gpu_addr`. The argument `gpu_addr` is `none` for a
`NULL` pointer and otherwise the content of the variable it points to; the result `none`
is an access past the end of `placements`. -/
def sisvga_bo_pin {τ κ : Type} (api : ttm_interface τ κ) (bo : sisvga_bo τ κ)
    (pl_flag : Nat) (gpu_addr : Option Nat) : Option (Int × sisvga_bo τ κ × Option Nat) :=
  if bo.pin_count ≠ 0 then
    let bo := { bo with pin_count := wrap_int (bo.pin_count + 1) }
    some (0, bo, gpu_addr.map (fun _ => api.offset bo.bo))
  else
    match sisvga_bo_ttm_placement api bo pl_flag with
    | none => none
    | some bo =>
    match placements_for bo.placement.num_placement (set_no_evict api) bo.placements with
    | none => none
    | some ps =>
    let bo := { bo with placements := ps }
    let ret := (api.ttm_bo_validate bo.bo bo.placement bo.placements).1
    let bo := { bo with bo := (api.ttm_bo_validate bo.bo bo.placement bo.placements).2 }
    if ret ≠ 0 then some (ret, bo, gpu_addr)
    else
      let bo := { bo with pin_count := 1 }
      some (0, bo, gpu_addr.map (fun _ => api.offset bo.bo))

/-- The function `sisvga_bo_unpin(bo)`: the value it returns and the buffer object it
leaves; `none` is an access past the end of `placements`. -/
def sisvga_bo_unpin {τ κ : Type} (api : ttm_interface τ κ) (bo : sisvga_bo τ κ) :
    Option (Int × sisvga_bo τ κ) :=
  if bo.pin_count = 0 then some (0, bo)
  else
    let bo := { bo with pin_count := wrap_int (bo.pin_count - 1) }
    if bo.pin_count ≠ 0 then some (0, bo)
    else
      match placements_for bo.placement.num_placement (clear_no_evict api)
          bo.placements with
      | none => none
      | some ps =>
      let bo := { bo with placements := ps }
      some ((api.ttm_bo_validate bo.bo bo.placement bo.placements).1,
        { bo with bo := (api.ttm_bo_validate bo.bo bo.placement bo.placements).2 })

/-- The function `sisvga_bo_push_to_system(bo)`: the value it returns and the buffer
object it leaves; `none` is an access past the end of `placements`. -/
def sisvga_bo_push_to_system {τ κ : Type} (api : ttm_interface τ κ) (bo : sisvga_bo τ κ) :
    Option (Int × sisvga_bo τ κ) :=
  if bo.pin_count = 0 then some (0, bo)
  else
    let bo := { bo with pin_count := wrap_int (bo.pin_count - 1) }
    if bo.pin_count ≠ 0 then some (0, bo)
    else
      let bo := if api.virtual bo.kmap then
          { bo with bo := (api.ttm_bo_kunmap bo.bo bo.kmap).1,
                    kmap := (api.ttm_bo_kunmap bo.bo bo.kmap).2 }
        else bo
      match sisvga_bo_ttm_placement api bo api.TTM_PL_FLAG_SYSTEM with
      | none => none
      | some bo =>
      match placements_for bo.placement.num_placement (set_no_evict api) bo.placements with
      | none => none
      | some ps =>
      let bo := { bo with placements := ps }
      let ret := (api.ttm_bo_validate bo.bo bo.placement bo.placements).1
      let bo := { bo with bo := (api.ttm_bo_validate bo.bo bo.placement bo.placements).2 }
      if ret ≠ 0 then some (ret, bo) else some (0, bo)

/-- A run of `sisvga_bo_pin` calls, one per requested domain of the list, each with a
`NULL` `gpu_addr`: the values returned, in order, and the buffer object left. -/
def pin_calls {τ κ : Type} (api : ttm_interface τ κ) :
    List Nat → sisvga_bo τ κ → Option (List Int × sisvga_bo τ κ)
  | [], bo => some ([], bo)
  | d :: ds, bo =>
    match sisvga_bo_pin api bo d none with
    | none => none
    | some (r, bo, _) =>
      match pin_calls api ds bo with
      | none => none
      | some (rs, bo) => some (r :: rs, bo)

/-- A run of `k` calls of `sisvga_bo_unpin`: the values returned, in order, and the buffer
object left. -/
def unpin_calls {τ κ : Type} (api : ttm_interface τ κ) :
    Nat → sisvga_bo τ κ → Option (List Int × sisvga_bo τ κ)
  | 0, bo => some ([], bo)
  | k + 1, bo =>
    match sisvga_bo_unpin api bo with
    | none => none
    | some (r, bo) =>
      match unpin_calls api k bo with
      | none => none
      | some (rs, bo) => some (r :: rs, bo)

/-- The placement list that TTM sees: the first `num_placement` entries of `placements`. -/
def placement_list {τ κ : Type} (bo : sisvga_bo τ κ) : List ttm_place :=
  bo.placements.toList.take bo.placement.num_placement

/-- Every placement of the list carries `TTM_PL_FLAG_NO_EVICT`. -/
def no_evict {τ κ : Type} (api : ttm_interface τ κ) (bo : sisvga_bo τ κ) : Prop :=
  ∀ p ∈ placement_list bo, p.flags &&& api.TTM_PL_FLAG_NO_EVICT = api.TTM_PL_FLAG_NO_EVICT

/-- No placement of the list carries a bit of `TTM_PL_FLAG_NO_EVICT`. -/
def evictable {τ κ : Type} (api : ttm_interface τ κ) (bo : sisvga_bo τ κ) : Prop :=
  ∀ p ∈ placement_list bo, p.flags &&& api.TTM_PL_FLAG_NO_EVICT = 0

/-- A TTM stand-in for closed examples: the flag values of the kernel header, a buffer
state that is its offset, a validation that always succeeds and leaves the buffer where it
is, and a mapping state that is the flag `virtual != NULL`. -/
def ttm_sample : ttm_interface Nat Bool :=
  { TTM_PL_FLAG_SYSTEM := 1 <<< 0, TTM_PL_FLAG_VRAM := 1 <<< 2,
    TTM_PL_FLAG_UNCACHED := 1 <<< 17, TTM_PL_FLAG_WC := 1 <<< 18,
    TTM_PL_MASK_CACHING := 1 <<< 16 ||| 1 <<< 17 ||| 1 <<< 18,
    TTM_PL_FLAG_NO_EVICT := 1 <<< 21,
    offset := fun t => t,
    ttm_bo_validate := fun t _ _ => (0, t),
    virtual := fun k => k,
    ttm_bo_kunmap := fun t _ => (t, false) }

/-- The stand-in with a validation that fails with `-ENOMEM`. -/
def ttm_sample_failing : ttm_interface Nat Bool :=
  { ttm_sample with ttm_bo_validate := fun t _ _ => (-12, t) }

/-- A fresh, unpinned buffer object at offset 4096 with no CPU mapping. -/
def bo_unpinned : sisvga_bo Nat Bool :=
  { bo := 4096, placement := {}, kmap := false, placements := {}, pin_count := 0 }

/-! ## Sample modes and readings of the claims on the timing compiler -/

/-- The displayed width that `is_9_dot_mode` tests: `hdisplay`, doubled when the mode has
`DRM_MODE_FLAG_CLKDIV2` (the product taken in the integers). -/
def doubled_hdisplay (mode : drm_display_mode) : Int :=
  if mode.flags &&& DRM_MODE_FLAG_CLKDIV2 ≠ 0 then mode.hdisplay * 2 else mode.hdisplay

/-- The ratio test as the specification words it: `(vdisplay * 9 / 5) == hdisplay` with
integer division, `hdisplay` doubled first under the half-rate-dot-clock flag. -/
def ratio_9_to_5 (mode : drm_display_mode) : Prop :=
  mode.vdisplay * 9 / 5 = doubled_hdisplay mode

instance (mode : drm_display_mode) : Decidable (ratio_9_to_5 mode) := by
  unfold ratio_9_to_5; infer_instance

/-- The VGA text-like 720x400 @ 70 Hz mode (pixel clock 28322 kHz), 9 dots per character. -/
def mode_720x400_70 : drm_display_mode :=
  { clock := 28322, hdisplay := 720, hsync_start := 738, hsync_end := 846, htotal := 900,
    vdisplay := 400, vsync_start := 412, vsync_end := 414, vtotal := 449,
    crtc_clock := 28322, crtc_hdisplay := 720, crtc_hblank_start := 720,
    crtc_hblank_end := 900, crtc_hsync_start := 738, crtc_hsync_end := 846,
    crtc_htotal := 900, crtc_vdisplay := 400, crtc_vblank_start := 400,
    crtc_vblank_end := 449, crtc_vsync_start := 412, crtc_vsync_end := 414,
    crtc_vtotal := 449 }

/-- The horizontal timings of 720x400 with 480 lines: all four horizontal fields are
multiples of 9, `hsync_start` and `hsync_end` are not multiples of 8, and the 9:5 ratio
does not hold. -/
def mode_720x480_by9 : drm_display_mode :=
  { mode_720x400_70 with
    vdisplay := 480, vsync_start := 490, vsync_end := 492, vtotal := 525,
    crtc_vdisplay := 480, crtc_vblank_start := 480, crtc_vblank_end := 525,
    crtc_vsync_start := 490, crtc_vsync_end := 492, crtc_vtotal := 525 }

/-- A 720x400 mode whose four horizontal fields are all multiples of 8 (720, 728, 848,
904), two of them not multiples of 9, with the 9:5 ratio. -/
def mode_720x400_by8 : drm_display_mode :=
  { mode_720x400_70 with
    hsync_start := 728, hsync_end := 848, htotal := 904,
    crtc_hblank_end := 904, crtc_hsync_start := 728, crtc_hsync_end := 848,
    crtc_htotal := 904 }

/-- A mode of 721 by 401 pixels: `401 * 9 / 5 = 721`, and 721 is not a multiple of 9. -/
def mode_721x401 : drm_display_mode :=
  { mode_720x400_70 with hdisplay := 721, vdisplay := 401 }

/-- The 800x600 @ 56 Hz mode (pixel clock 36000 kHz) with its CRTC timings. -/
def mode_800x600_56_crtc : drm_display_mode :=
  { mode_800x600_56 with
    crtc_clock := 36000, crtc_hdisplay := 800, crtc_hblank_start := 800,
    crtc_hblank_end := 1024, crtc_hsync_start := 824, crtc_hsync_end := 896,
    crtc_htotal := 1024, crtc_vdisplay := 600, crtc_vblank_start := 600,
    crtc_vblank_end := 625, crtc_vsync_start := 601, crtc_vsync_end := 603,
    crtc_vtotal := 625 }

/-- The vertical total as the registers hold it: bits 0 to 7 in cr06, bit 8 in cr07 bit 0,
bit 9 in cr07 bit 5, bit 10 in sr0a bit 0. -/
def stored_vtotal (s : vga_regs) : Nat :=
  s.cr 0x06 ||| ((s.cr 0x07 &&& 0x01) <<< 8) ||| ((s.cr 0x07 &&& 0x20) <<< 4) |||
    ((s.sr 0x0a &&& 0x01) <<< 10)

/-- The vertical display end as the registers hold it: bits 0 to 7 in cr12, bit 8 in cr07
bit 1, bit 9 in cr07 bit 6, bit 10 in sr0a bit 1. -/
def stored_vdisplay (s : vga_regs) : Nat :=
  s.cr 0x12 ||| ((s.cr 0x07 &&& 0x02) <<< 7) ||| ((s.cr 0x07 &&& 0x40) <<< 3) |||
    ((s.sr 0x0a &&& 0x02) <<< 9)

/-- The vertical sync start as the registers hold it: bits 0 to 7 in cr10, bit 8 in cr07
bit 2, bit 9 in cr07 bit 7, bit 10 in sr0a bit 3. -/
def stored_vsync_start (s : vga_regs) : Nat :=
  s.cr 0x10 ||| ((s.cr 0x07 &&& 0x04) <<< 6) ||| ((s.cr 0x07 &&& 0x80) <<< 2) |||
    ((s.sr 0x0a &&& 0x08) <<< 7)

/-- The vertical blank start as the registers hold it: bits 0 to 7 in cr15, bit 8 in cr07
bit 3, bit 9 in cr09 bit 5, bit 10 in sr0a bit 2. -/
def stored_vblank_start (s : vga_regs) : Nat :=
  s.cr 0x15 ||| ((s.cr 0x07 &&& 0x08) <<< 5) ||| ((s.cr 0x09 &&& 0x20) <<< 4) |||
    ((s.sr 0x0a &&& 0x04) <<< 8)

/-- The line-compare value as the registers hold it: bits 0 to 7 in cr18, bit 8 in cr07
bit 4, bit 9 in cr09 bit 6. -/
def stored_line_compare (s : vga_regs) : Nat :=
  s.cr 0x18 ||| ((s.cr 0x07 &&& 0x10) <<< 4) ||| ((s.cr 0x09 &&& 0x40) <<< 3)

/-- A register file with every cell 0xff. -/
def vga_regs_ones : vga_regs :=
  { misc := 0xff, sri := 0xff, sr := fun _ => 0xff, cri := 0xff, cr := fun _ => 0xff,
    gri := 0xff, gr := fun _ => 0xff, ari := 0xff, ar := fun _ => 0xff, ar_data := false }

/-! ## Pixel formats (drm/drm_fourcc.h) and framebuffers -/

/-- The macro `fourcc_code(a, b, c, d)` of drm_fourcc.h, on the character codes. -/
def fourcc_code (a b c d : Nat) : Nat := a ||| (b <<< 8) ||| (c <<< 16) ||| (d <<< 24)

/-- The format `DRM_FORMAT_C8`, `fourcc_code('C', '8', ' ', ' ')`. -/
def DRM_FORMAT_C8 : Nat := fourcc_code 0x43 0x38 0x20 0x20

/-- The format `DRM_FORMAT_XRGB1555`, `fourcc_code('X', 'R', '1', '5')`. -/
def DRM_FORMAT_XRGB1555 : Nat := fourcc_code 0x58 0x52 0x31 0x35

/-- The format `DRM_FORMAT_RGB565`, `fourcc_code('R', 'G', '1', '6')`. -/
def DRM_FORMAT_RGB565 : Nat := fourcc_code 0x52 0x47 0x31 0x36

/-- The format `DRM_FORMAT_RGB888`, `fourcc_code('R', 'G', '2', '4')`. -/
def DRM_FORMAT_RGB888 : Nat := fourcc_code 0x52 0x47 0x32 0x34

/-- The format `DRM_FORMAT_BGR888`, `fourcc_code('B', 'G', '2', '4')`. -/
def DRM_FORMAT_BGR888 : Nat := fourcc_code 0x42 0x47 0x32 0x34

/-- The format `DRM_FORMAT_XRGB8888`, `fourcc_code('X', 'R', '2', '4')`. -/
def DRM_FORMAT_XRGB8888 : Nat := fourcc_code 0x58 0x52 0x32 0x34

/-- The flag `DRM_FORMAT_BIG_ENDIAN` (`1 << 31`). -/
def DRM_FORMAT_BIG_ENDIAN : Nat := 1 <<< 31

/-- What the driver reads of a `struct drm_format_info`: the fourcc `format` (a `u32`),
`num_planes` (a `u8`) and the array `cpp[3]` of bytes per pixel of each plane. -/
structure drm_format_info where
  format : Nat
  num_planes : Nat
  cpp : List Nat
  deriving DecidableEq

/-- What the driver reads of a `struct drm_framebuffer`: `width`, `height` (both
`unsigned int`) and the format description `format` points to. -/
structure drm_framebuffer where
  width : Nat
  height : Nat
  format : drm_format_info
  deriving DecidableEq

/-- The `struct sisvga_framebuffer` of sisvga_device.h; `gem_obj` names the GEM object,
and through `gem_to_sisvga_bo` the buffer object, that backs the framebuffer. -/
structure sisvga_framebuffer where
  base : drm_framebuffer
  gem_obj : Nat
  deriving DecidableEq

/-- The array `primary_formats[]` of `sisvga_mode_config_init` (sisvga_device.c). -/
def primary_formats : List Nat :=
  [DRM_FORMAT_RGB888, DRM_FORMAT_BGR888, DRM_FORMAT_RGB565, DRM_FORMAT_C8]

/-! ## sisvga_reg.h: graphics and attribute controller -/

/-- The macro `RREG_GR(reg, v)`. -/
def RREG_GR {σ : Type} (io : io_ports σ) (reg : Nat) (s : σ) : Nat × σ :=
  RREG_I io REG_GRI reg REG_GR s

/-- The macro `WREG_GR(reg, v)`. -/
def WREG_GR {σ : Type} (io : io_ports σ) (reg v : Nat) (s : σ) : σ :=
  WREG_I io REG_GRI reg REG_GR v s

/-- The macro `RREG_AR(reg, v)` (`SISVGA_DEBUG` is not defined, so `_xREG_AR_CHECK_INTR`
is empty): read `REG_INPUT1`, write the index, read `REG_AR_IN`. -/
def RREG_AR {σ : Type} (io : io_ports σ) (reg : Nat) (s : σ) : Nat × σ :=
  RREG8 io REG_AR_IN (WREG8 io REG_ARI reg (RREG8 io REG_INPUT1 s).2)

/-- The macro `WREG_AR(reg, v)`: read `REG_INPUT1`, write the index, write `REG_AR_OUT`. -/
def WREG_AR {σ : Type} (io : io_ports σ) (reg v : Nat) (s : σ) : σ :=
  WREG8 io REG_AR_OUT v (WREG8 io REG_ARI reg (RREG8 io REG_INPUT1 s).2)

/-! ## sisvga_crtc.c: the colour configurator -/

/-- The values that `set_color_mode` reads from the device (lines 199 to 214 of
sisvga_crtc.c). -/
structure color_mode_reads where
  cr14 : Nat
  cr17 : Nat
  gr00 : Nat
  gr01 : Nat
  gr02 : Nat
  gr03 : Nat
  gr04 : Nat
  gr05 : Nat
  gr06 : Nat
  gr07 : Nat
  ar10 : Nat
  ar12 : Nat
  ar13 : Nat
  ar14 : Nat
  sr06 : Nat
  sr0b : Nat
  deriving DecidableEq

/-- The register image that `set_color_mode` writes (lines 292 to 312). -/
structure color_mode_regs where
  cr14 : Nat
  cr17 : Nat
  gr00 : Nat
  gr01 : Nat
  gr02 : Nat
  gr03 : Nat
  gr04 : Nat
  gr05 : Nat
  gr06 : Nat
  gr07 : Nat
  gr08 : Nat
  ar10 : Nat
  ar11 : Nat
  ar12 : Nat
  ar13 : Nat
  ar14 : Nat
  sr06 : Nat
  sr0b : Nat
  deriving DecidableEq

/-- The read phase of `set_color_mode`: the sixteen register reads, in order, and the
device state they leave. -/
def set_color_mode_read {σ : Type} (io : io_ports σ) (s : σ) : color_mode_reads × σ :=
  let cr14 := (RREG_CR io 0x14 s).1
  let s := (RREG_CR io 0x14 s).2
  let cr17 := (RREG_CR io 0x17 s).1
  let s := (RREG_CR io 0x17 s).2
  let gr00 := (RREG_GR io 0x00 s).1
  let s := (RREG_GR io 0x00 s).2
  let gr01 := (RREG_GR io 0x01 s).1
  let s := (RREG_GR io 0x01 s).2
  let gr02 := (RREG_GR io 0x02 s).1
  let s := (RREG_GR io 0x02 s).2
  let gr03 := (RREG_GR io 0x03 s).1
  let s := (RREG_GR io 0x03 s).2
  let gr04 := (RREG_GR io 0x04 s).1
  let s := (RREG_GR io 0x04 s).2
  let gr05 := (RREG_GR io 0x05 s).1
  let s := (RREG_GR io 0x05 s).2
  let gr06 := (RREG_GR io 0x06 s).1
  let s := (RREG_GR io 0x06 s).2
  let gr07 := (RREG_GR io 0x07 s).1
  let s := (RREG_GR io 0x07 s).2
  let ar10 := (RREG_AR io 0x10 s).1
  let s := (RREG_AR io 0x10 s).2
  let ar12 := (RREG_AR io 0x12 s).1
  let s := (RREG_AR io 0x12 s).2
  let ar13 := (RREG_AR io 0x13 s).1
  let s := (RREG_AR io 0x13 s).2
  let ar14 := (RREG_AR io 0x14 s).1
  let s := (RREG_AR io 0x14 s).2
  let sr06 := (RREG_SR io 0x06 s).1
  let s := (RREG_SR io 0x06 s).2
  let sr0b := (RREG_SR io 0x0b s).1
  let s := (RREG_SR io 0x0b s).2
  ({ cr14 := cr14, cr17 := cr17, gr00 := gr00, gr01 := gr01, gr02 := gr02, gr03 := gr03,
     gr04 := gr04, gr05 := gr05, gr06 := gr06, gr07 := gr07, ar10 := ar10, ar12 := ar12,
     ar13 := ar13, ar14 := ar14, sr06 := sr06, sr0b := sr0b }, s)

/-- The computations of `set_color_mode` between its reads and its writes (lines 216 to
290): the register image for the fourcc `format`, `none` in the `default:` case of the
`switch`. -/
def set_color_mode_regs (format : Nat) (rd : color_mode_reads) : Option color_mode_regs :=
  let cr14 := rd.cr14 ||| 0x40
  let cr17 := rd.cr17 &&& 0xbf
  let cr17 := cr17 ||| 0x80
  let gr00 := rd.gr00 &&& 0xf0
  let gr01 := rd.gr01 &&& 0xf0
  let gr02 := rd.gr02 &&& 0xf0
  let gr03 := rd.gr03 &&& 0xe0
  let gr04 := rd.gr04 &&& 0xfa
  let gr05 := rd.gr05 &&& 0x84
  let gr06 := rd.gr06 &&& 0xf0
  let gr06 := gr06 ||| 0x01
  let gr07 := rd.gr07 &&& 0xf0
  let gr07 := gr07 ||| 0x0f
  let gr08 := 0xff
  let ar10 := rd.ar10 &&& 0x10
  let ar10 := ar10 ||| 0x01
  let ar11 := 0x00
  let ar12 := rd.ar12 &&& 0xf0
  let ar13 := rd.ar13 &&& 0xf0
  let ar14 := rd.ar14 &&& 0xf0
  if format = DRM_FORMAT_RGB888 then
    let sr06 := rd.sr06 &&& 0xe0
    let sr06 := sr06 ||| 0x10
    let sr06 := sr06 ||| 0x02
    let sr0b := if format &&& DRM_FORMAT_BIG_ENDIAN ≠ 0 then rd.sr0b &&& 0x7f
                else rd.sr0b ||| 0x80
    some { cr14 := cr14, cr17 := cr17, gr00 := gr00, gr01 := gr01, gr02 := gr02,
           gr03 := gr03, gr04 := gr04, gr05 := gr05, gr06 := gr06, gr07 := gr07,
           gr08 := gr08, ar10 := ar10, ar11 := ar11, ar12 := ar12, ar13 := ar13,
           ar14 := ar14, sr06 := sr06, sr0b := sr0b }
  else if format = DRM_FORMAT_BGR888 then
    let sr06 := rd.sr06 &&& 0xe0
    let sr06 := sr06 ||| 0x10
    let sr06 := sr06 ||| 0x02
    let sr0b := if format &&& DRM_FORMAT_BIG_ENDIAN ≠ 0 then rd.sr0b ||| 0x80
                else rd.sr0b &&& 0x7f
    some { cr14 := cr14, cr17 := cr17, gr00 := gr00, gr01 := gr01, gr02 := gr02,
           gr03 := gr03, gr04 := gr04, gr05 := gr05, gr06 := gr06, gr07 := gr07,
           gr08 := gr08, ar10 := ar10, ar11 := ar11, ar12 := ar12, ar13 := ar13,
           ar14 := ar14, sr06 := sr06, sr0b := sr0b }
  else if format = DRM_FORMAT_RGB565 then
    let sr06 := rd.sr06 &&& 0xe0
    let sr06 := sr06 ||| 0x08
    let sr06 := sr06 ||| 0x02
    let sr0b := rd.sr0b &&& 0x7f
    some { cr14 := cr14, cr17 := cr17, gr00 := gr00, gr01 := gr01, gr02 := gr02,
           gr03 := gr03, gr04 := gr04, gr05 := gr05, gr06 := gr06, gr07 := gr07,
           gr08 := gr08, ar10 := ar10, ar11 := ar11, ar12 := ar12, ar13 := ar13,
           ar14 := ar14, sr06 := sr06, sr0b := sr0b }
  else if format = DRM_FORMAT_XRGB1555 then
    let sr06 := rd.sr06 &&& 0xe0
    let sr06 := sr06 ||| 0x04
    let sr06 := sr06 ||| 0x02
    let sr0b := rd.sr0b &&& 0x7f
    some { cr14 := cr14, cr17 := cr17, gr00 := gr00, gr01 := gr01, gr02 := gr02,
           gr03 := gr03, gr04 := gr04, gr05 := gr05, gr06 := gr06, gr07 := gr07,
           gr08 := gr08, ar10 := ar10, ar11 := ar11, ar12 := ar12, ar13 := ar13,
           ar14 := ar14, sr06 := sr06, sr0b := sr0b }
  else if format = DRM_FORMAT_C8 then
    let gr05 := 0x40
    let ar10 := ar10 ||| 0x40
    let sr06 := rd.sr06 &&& 0xe3
    let sr0b := rd.sr0b &&& 0x7f
    some { cr14 := cr14, cr17 := cr17, gr00 := gr00, gr01 := gr01, gr02 := gr02,
           gr03 := gr03, gr04 := gr04, gr05 := gr05, gr06 := gr06, gr07 := gr07,
           gr08 := gr08, ar10 := ar10, ar11 := ar11, ar12 := ar12, ar13 := ar13,
           ar14 := ar14, sr06 := sr06, sr0b := sr0b }
  else none

/-- The write phase of `set_color_mode` (lines 292 to 312): the eighteen register writes,
in order. -/
def set_color_mode_write {σ : Type} (io : io_ports σ) (g : color_mode_regs) (s : σ) : σ :=
  let s := WREG_CR io 0x14 g.cr14 s
  let s := WREG_CR io 0x17 g.cr17 s
  let s := WREG_GR io 0x00 g.gr00 s
  let s := WREG_GR io 0x01 g.gr01 s
  let s := WREG_GR io 0x02 g.gr02 s
  let s := WREG_GR io 0x03 g.gr03 s
  let s := WREG_GR io 0x04 g.gr04 s
  let s := WREG_GR io 0x05 g.gr05 s
  let s := WREG_GR io 0x06 g.gr06 s
  let s := WREG_GR io 0x07 g.gr07 s
  let s := WREG_GR io 0x08 g.gr08 s
  let s := WREG_AR io 0x10 g.ar10 s
  let s := WREG_AR io 0x11 g.ar11 s
  let s := WREG_AR io 0x12 g.ar12 s
  let s := WREG_AR io 0x13 g.ar13 s
  let s := WREG_AR io 0x14 g.ar14 s
  let s := WREG_SR io 0x06 g.sr06 s
  WREG_SR io 0x0b g.sr0b s

/-- The static function `set_color_mode(sdev, fb)` over the ports `io`: the returned `int`
and the device state the call leaves. -/
def set_color_mode {σ : Type} (io : io_ports σ) (fb : drm_framebuffer) (s : σ) : Int × σ :=
  match set_color_mode_regs fb.format.format (set_color_mode_read io s).1 with
  | none => (-EINVAL, (set_color_mode_read io s).2)
  | some g => (0, set_color_mode_write io g (set_color_mode_read io s).2)

/-- The formats for which the specification says the colour configurator succeeds. -/
def color_formats : List Nat :=
  [DRM_FORMAT_C8, DRM_FORMAT_XRGB1555, DRM_FORMAT_RGB565, DRM_FORMAT_RGB888,
   DRM_FORMAT_BGR888]

/-- The description of a single-plane format with `cpp` bytes per pixel. -/
def format_info (format cpp : Nat) : drm_format_info :=
  { format := format, num_planes := 1, cpp := [cpp, 0, 0] }

/-- An 800x600 framebuffer of the given format description. -/
def fb_800x600 (format : drm_format_info) : drm_framebuffer :=
  { width := 800, height := 600, format := format }

/-! ## sisvga_bo.c: reservation -/

/-- What `sisvga_bo_reserve` and `sisvga_bo_unreserve` use of TTM:
`ttm_bo_reserve(bo, interruptible, no_wait, NULL)` as the value it returns and the buffer
state it leaves, and `ttm_bo_unreserve(bo)` as the buffer state it leaves. -/
structure ttm_reserve_interface (τ : Type) where
  ttm_bo_reserve : τ → Bool → Bool → Int × τ
  ttm_bo_unreserve : τ → τ

/-- The function `sisvga_bo_reserve(bo, no_wait)`: the value it returns and the buffer
object it leaves. -/
def sisvga_bo_reserve {τ κ : Type} (rsv : ttm_reserve_interface τ) (bo : sisvga_bo τ κ)
    (no_wait : Bool) : Int × sisvga_bo τ κ :=
  let ret := (rsv.ttm_bo_reserve bo.bo true no_wait).1
  let bo := { bo with bo := (rsv.ttm_bo_reserve bo.bo true no_wait).2 }
  if ret ≠ 0 then (ret, bo) else (0, bo)

/-- The function `sisvga_bo_unreserve(bo)`. -/
def sisvga_bo_unreserve {τ κ : Type} (rsv : ttm_reserve_interface τ) (bo : sisvga_bo τ κ) :
    sisvga_bo τ κ :=
  { bo with bo := rsv.ttm_bo_unreserve bo.bo }

/-! ## sisvga_crtc.c: the scanout buffer and the mode set -/

/-- The part of a `struct sisvga_device` that a mode set works on: the device registers,
the buffer objects (`bos g` is the `struct sisvga_bo` that `gem_to_sisvga_bo` finds for the
GEM object `g`) and the bytes of the mapping `vram.mem`. Each buffer object carries its
own TTM state: what a validation does to other buffers is outside this model. -/
structure sisvga_device_state (σ τ κ : Type) where
  regs : σ
  bos : Nat → sisvga_bo τ κ
  vram_mem : Nat → Nat

/-- The static function `bytes_per_pixel(format)`, a `u32`; `cpp` has three entries and the
loop adds the first `num_planes` of them. -/
def bytes_per_pixel (format : drm_format_info) : Nat :=
  (format.cpp.take format.num_planes).foldl (fun bpp c => (bpp + c) % 2 ^ 32) 0

/-- The static function `compute_offset(width, format, addr_incr, interlaced)`: the
product is taken in `unsigned int` and converted to the `int` `offset`. -/
def compute_offset (width : Nat) (format : drm_format_info) (addr_incr : Nat)
    (interlaced : Bool) : Int :=
  let offset : Int := wrap_int (((width * bytes_per_pixel format) % 2 ^ 32 : Nat) : Int)
  let offset := if interlaced then int_mul offset 2 else offset
  offset.tdiv (int_mul (addr_incr : Int) 2)

/-- The register accesses of `set_framebuffer` (lines 146 to 187 of sisvga_crtc.c) for the
computed `offset` and `start_address`: seven reads, the computations and twelve writes. -/
def set_framebuffer_registers {σ : Type} (io : io_ports σ) (offset : Int)
    (start_address : Nat) (s : σ) : σ :=
  let sr02 := (RREG_SR io 0x02 s).1
  let s := (RREG_SR io 0x02 s).2
  let sr03 := (RREG_SR io 0x03 s).1
  let s := (RREG_SR io 0x03 s).2
  let sr04 := (RREG_SR io 0x04 s).1
  let s := (RREG_SR io 0x04 s).2
  let sr06 := (RREG_SR io 0x06 s).1
  let s := (RREG_SR io 0x06 s).2
  let sr0a := (RREG_SR io 0x0a s).1
  let s := (RREG_SR io 0x0a s).2
  let sr27 := (RREG_SR io 0x27 s).1
  let s := (RREG_SR io 0x27 s).2
  let sr3e := (RREG_SR io 0x3e s).1
  let s := (RREG_SR io 0x3e s).2
  let cr13 := int_and offset 0xff
  let cr0c := (start_address &&& 0x0000ff00) >>> 8
  let cr0d := start_address &&& 0x000000ff
  let sr02 := sr02 &&& 0xf0
  let sr02 := sr02 ||| 0x0f
  let sr03 := sr03 &&& 0xc0
  let sr04 := sr04 &&& 0xf1
  let sr04 := sr04 ||| (0x08 ||| 0x04 ||| 0x02)
  let sr06 := sr06 ||| 0x80
  let sr0a := sr0a &&& 0x0f
  let sr0a := sr0a ||| ((int_and offset 0xf00) >>> 4)
  let sr0c := 0x80
  let sr26 := 0x10
  let sr27 := sr27 &&& 0xf0
  let sr27 := sr27 ||| ((start_address &&& 0x000f0000) >>> 16)
  let s := WREG_CR io 0x13 cr13 s
  let s := WREG_CR io 0x0c cr0c s
  let s := WREG_CR io 0x0d cr0d s
  let s := WREG_SR io 0x02 sr02 s
  let s := WREG_SR io 0x03 sr03 s
  let s := WREG_SR io 0x04 sr04 s
  let s := WREG_SR io 0x06 sr06 s
  let s := WREG_SR io 0x0a sr0a s
  let s := WREG_SR io 0x0c sr0c s
  let s := WREG_SR io 0x26 sr26 s
  let s := WREG_SR io 0x27 sr27 s
  WREG_SR io 0x3e sr3e s

/-- The first block of `set_framebuffer` (lines 117 to 125, under the comment "push the
previous fb to system ram"): the value with which the function returns from inside the
block, or 0 when it goes on, and the buffer objects the block leaves. `old_sis_fb` is
`none` for a `NULL` pointer; the value `sisvga_bo_push_to_system` returns is dropped. -/
def set_framebuffer_push_old {τ κ : Type} (api : ttm_interface τ κ)
    (rsv : ttm_reserve_interface τ) (old_sis_fb : Option sisvga_framebuffer) (atomic : Bool)
    (bos : Nat → sisvga_bo τ κ) : Option (Int × (Nat → sisvga_bo τ κ)) :=
  match atomic, old_sis_fb with
  | false, some old =>
    let bo := bos old.gem_obj
    let ret := (sisvga_bo_reserve rsv bo false).1
    let bo := (sisvga_bo_reserve rsv bo false).2
    if ret ≠ 0 then some (ret, Function.update bos old.gem_obj bo)
    else
      match sisvga_bo_push_to_system api bo with
      | none => none
      | some (_, bo) =>
        some (0, Function.update bos old.gem_obj (sisvga_bo_unreserve rsv bo))
  | _, _ => some (0, bos)

/-- The second block of `set_framebuffer` (lines 127 to 139): reserve the buffer of the
new framebuffer, pin it to `TTM_PL_FLAG_VRAM`, unreserve it. The result is the value of
`ret` (not 0 when the function returns from inside the block), the buffer objects and the
content of `gpu_addr`. That variable is uninitialised before the call of `sisvga_bo_pin`
and is read only after a successful pin has assigned it; its first content is taken as
0. -/
def set_framebuffer_pin_new {τ κ : Type} (api : ttm_interface τ κ)
    (rsv : ttm_reserve_interface τ) (new_sis_fb : sisvga_framebuffer)
    (bos : Nat → sisvga_bo τ κ) : Option (Int × (Nat → sisvga_bo τ κ) × Nat) :=
  let bo := bos new_sis_fb.gem_obj
  let ret := (sisvga_bo_reserve rsv bo false).1
  let bo := (sisvga_bo_reserve rsv bo false).2
  if ret ≠ 0 then some (ret, Function.update bos new_sis_fb.gem_obj bo, 0)
  else
    match sisvga_bo_pin api bo api.TTM_PL_FLAG_VRAM (some 0) with
    | none => none
    | some (ret, bo, gpu_addr) =>
      some (ret, Function.update bos new_sis_fb.gem_obj (sisvga_bo_unreserve rsv bo),
        gpu_addr.getD 0)

/-- The static function `set_framebuffer(sdev, new_sis_fb, old_sis_fb, atomic,
interlaced)`: the returned `int` and the device state the call leaves; `none` is an access
past the end of `placements` in one of the buffer-object functions. -/
def set_framebuffer {σ τ κ : Type} (io : io_ports σ) (api : ttm_interface τ κ)
    (rsv : ttm_reserve_interface τ) (new_sis_fb : sisvga_framebuffer)
    (old_sis_fb : Option sisvga_framebuffer) (atomic interlaced : Bool)
    (st : sisvga_device_state σ τ κ) : Option (Int × sisvga_device_state σ τ κ) :=
  match set_framebuffer_push_old api rsv old_sis_fb atomic st.bos with
  | none => none
  | some (ret, bos) =>
  if ret ≠ 0 then some (ret, { st with bos := bos })
  else
  match set_framebuffer_pin_new api rsv new_sis_fb bos with
  | none => none
  | some (ret, bos, gpu_addr) =>
  if ret ≠ 0 then some (ret, { st with bos := bos })
  else
  let ret := compute_offset new_sis_fb.base.width new_sis_fb.base.format 4 interlaced
  if ret < 0 then some (ret, { st with bos := bos })
  else
  let offset := ret
  let start_address := (gpu_addr >>> 2) % 2 ^ 32
  some (0, { st with bos := bos,
                     regs := set_framebuffer_registers io offset start_address st.regs })

/-- The function `sisvga_crtc_helper_mode_set(crtc, mode, adj_mode, x, y, old_fb)`:
`primary_fb` is `sisvga_framebuffer_of(crtc->primary->fb)`, `old_fb` is `none` for a
`NULL` pointer. The result is the returned `int` and the device state the call leaves;
`fuel` bounds the polling loops of `set_display_mode`, and an access past the end of
`placements` inside `set_framebuffer` is reported as `.bug`. The last block fills the
first `len` bytes of `vram.mem` with `0xff`. -/
def sisvga_crtc_helper_mode_set {σ τ κ : Type} (io : io_ports σ) (api : ttm_interface τ κ)
    (rsv : ttm_reserve_interface τ) (fuel : Nat) (info : sisvga_device_info)
    (mode adj_mode : drm_display_mode) (primary_fb : sisvga_framebuffer)
    (old_fb : Option sisvga_framebuffer) (st : sisvga_device_state σ τ κ) :
    run (Int × sisvga_device_state σ τ κ) :=
  match set_display_mode io fuel info adj_mode st.regs with
  | .bug => .bug
  | .spin => .spin
  | .ret (ret, regs) =>
  if ret < 0 then .ret (ret, { st with regs := regs })
  else
  let ret := (set_color_mode io primary_fb.base regs).1
  let regs := (set_color_mode io primary_fb.base regs).2
  if ret < 0 then .ret (ret, { st with regs := regs })
  else
  match set_framebuffer io api rsv primary_fb old_fb false
      (decide (mode.flags &&& DRM_MODE_FLAG_INTERLACE_BIT ≠ 0)) { st with regs := regs } with
  | none => .bug
  | some (ret, st) =>
  if ret < 0 then .ret (ret, st)
  else
  let len : Int :=
    wrap_int (((3 * primary_fb.base.width * primary_fb.base.height) % 2 ^ 32 : Nat) : Int)
  .ret (0, { st with vram_mem := fun i => if (i : Int) < len then 0xff else st.vram_mem i })

/-! ## Samples for the scanout buffer -/

/-- The TTM stand-in with no room in VRAM: a validation whose first placement asks for
`TTM_PL_FLAG_VRAM` fails with `-ENOMEM`, every other validation succeeds. -/
def ttm_sample_vram_full : ttm_interface Nat Bool :=
  { ttm_sample with
    ttm_bo_validate := fun t _ ps =>
      if ps.p0.flags &&& ttm_sample.TTM_PL_FLAG_VRAM ≠ 0 then (-12, t) else (0, t) }

/-- A reservation that always succeeds and leaves the buffer state alone. -/
def reserve_sample : ttm_reserve_interface Nat :=
  { ttm_bo_reserve := fun t _ _ => (0, t), ttm_bo_unreserve := fun t => t }

/-- The buffer object `bo_unpinned` after one successful `sisvga_bo_pin` to VRAM. -/
def bo_pinned_vram : sisvga_bo Nat Bool :=
  { bo := 4096,
    placement :=
      { num_placement := 1, placement := true, num_busy_placement := 1,
        busy_placement := true },
    kmap := false,
    placements := { p0 := { fpfn := 0, lpfn := 0, flags := 2490372 } },
    pin_count := 1 }

/-- Two buffer objects: GEM object 1 backs the framebuffer on display and is pinned once
in VRAM, every other GEM object has a fresh, unpinned buffer. -/
def bos_sample : Nat → sisvga_bo Nat Bool :=
  fun g => if g = 1 then bo_pinned_vram else bo_unpinned

/-- The framebuffer on display: 800x600 in C8, backed by GEM object 1. -/
def old_fb_sample : sisvga_framebuffer :=
  { base := fb_800x600 (format_info DRM_FORMAT_C8 1), gem_obj := 1 }

/-- The framebuffer to display: 800x600 in C8, backed by GEM object 2. -/
def new_fb_sample : sisvga_framebuffer :=
  { base := fb_800x600 (format_info DRM_FORMAT_C8 1), gem_obj := 2 }

/-- The idealised device with all registers 0, the sample buffer objects and an all-zero
`vram.mem`. -/
def device_state_sample : sisvga_device_state vga_regs Nat Bool :=
  { regs := vga_regs_zero, bos := bos_sample, vram_mem := fun _ => 0 }

/-! ## Samples for the colour configurator -/

/-- The framebuffer `fb` with the fourcc of its format replaced by `format`. -/
def fb_with_format (fb : drm_framebuffer) (format : Nat) : drm_framebuffer :=
  { fb with format := { fb.format with format := format } }

/-! ## Readings of the claims on the tables -/

/-- The first argument of each row of `sisvga_vclk_configs[]`, the description that the
macro `SISVGA_CLK_CONFIG` drops, in source order (commented-out rows left out). -/
def sisvga_vclk_config_descriptions : List String :=
  [ "25.175 MHz", "28.322 MHz", "30.000 MHz", "31.500 MHz", "36.000 MHz", "40.000 MHz",
    "44.889 MHz", "44.900 MHz", "50.000 MHz", "56.300 MHz", "65.000 MHz", "75.000 MHz",
    "77.000 MHz", "80.000 MHz", "94.500 MHz", "110.000 MHz", "120.000 MHz", "130.000 MHz",
    "135.000 MHz", "162.000 MHz", "175.500 MHz" ]

/-- The frequency that the name of an enumerator of `enum sisvga_vclk` spells out, written
as the descriptions of the table write it. -/
def sisvga_vclk.description : sisvga_vclk → String
  | SISVGA_VCLK_25175 => "25.175 MHz"
  | SISVGA_VCLK_28322 => "28.322 MHz"
  | SISVGA_VCLK_30000 => "30.000 MHz"
  | SISVGA_VCLK_31500 => "31.500 MHz"
  | SISVGA_VCLK_36000 => "36.000 MHz"
  | SISVGA_VCLK_40000 => "40.000 MHz"
  | SISVGA_VCLK_44889 => "44.889 MHz"
  | SISVGA_VCLK_44900 => "44.900 MHz"
  | SISVGA_VCLK_50000 => "50.000 MHz"
  | SISVGA_VCLK_56300 => "56.300 MHz"
  | SISVGA_VCLK_65000 => "65.000 MHz"
  | SISVGA_VCLK_75000 => "75.000 MHz"
  | SISVGA_VCLK_77000 => "77.000 MHz"
  | SISVGA_VCLK_80000 => "80.000 MHz"
  | SISVGA_VCLK_94500 => "94.500 MHz"
  | SISVGA_VCLK_110000 => "110.000 MHz"
  | SISVGA_VCLK_120000 => "120.000 MHz"
  | SISVGA_VCLK_130000 => "130.000 MHz"
  | SISVGA_VCLK_135000 => "135.000 MHz"
  | SISVGA_VCLK_162000 => "162.000 MHz"
  | SISVGA_VCLK_175500 => "175.500 MHz"

/-- The enumerators of `enum sisvga_vclk`, in the order of the enum. -/
def sisvga_vclk_values : List sisvga_vclk :=
  [ SISVGA_VCLK_25175, SISVGA_VCLK_28322, SISVGA_VCLK_30000, SISVGA_VCLK_31500,
    SISVGA_VCLK_36000, SISVGA_VCLK_40000, SISVGA_VCLK_44889, SISVGA_VCLK_44900,
    SISVGA_VCLK_50000, SISVGA_VCLK_56300, SISVGA_VCLK_65000, SISVGA_VCLK_75000,
    SISVGA_VCLK_77000, SISVGA_VCLK_80000, SISVGA_VCLK_94500, SISVGA_VCLK_110000,
    SISVGA_VCLK_120000, SISVGA_VCLK_130000, SISVGA_VCLK_135000, SISVGA_VCLK_162000,
    SISVGA_VCLK_175500 ]

/-- The consistency of a catalog entry with the capabilities of a model, as the
specification words it: the clock is at most `max_clock`, resolves through
`sisvga_vclk_of_clock` to a synthesizer entry contained in `supported_vclks`, and the
displayed size is within the maxima of the model. -/
def catalog_entry_consistent (info : sisvga_device_info) (m : sisvga_mode) : Bool :=
  decide (m.clock ≤ info.max_clock) &&
  (match sisvga_vclk_of_clock (int_to_uint m.clock) with
   | .ok v => decide (info.supported_vclks &&& SISVGA_VCLK_BIT v ≠ 0)
   | .error _ => false) &&
  decide (m.hdisplay ≤ info.max_hdisplay) && decide (m.vdisplay ≤ info.max_vdisplay)

/-! ## sisvga_device.c: dumb buffers -/

/-- The members of `struct drm_mode_create_dumb` (drm/drm_mode.h): all are `__u32`,
except `size`, which is `__u64`. -/
structure drm_mode_create_dumb where
  height : Nat
  width : Nat
  bpp : Nat
  flags : Nat
  handle : Nat
  pitch : Nat
  size : Nat
  deriving DecidableEq

/-- The first two statements of `sisvga_device_create_dumb` (lines 560 and 561 of
sisvga_device.c), which fix the layout of the buffer that the rest of the function
allocates: `pitch` and `size` from `width`, `height` and `bpp`, the products taken in
`__u32`. -/
def create_dumb_layout (args : drm_mode_create_dumb) : drm_mode_create_dumb :=
  let args := { args with pitch := (args.width * (((args.bpp + 7) % 2 ^ 32) / 8)) % 2 ^ 32 }
  { args with size := (args.pitch * args.height) % 2 ^ 32 }

/-- The request for a dumb buffer of `width` x `height` pixels with `bpp` bits each. -/
def create_dumb_request (width height bpp : Nat) : drm_mode_create_dumb :=
  { height := height, width := width, bpp := bpp, flags := 0, handle := 0, pitch := 0,
    size := 0 }

/-- A command line that asks for 15 bits per pixel. -/
def cmdline_15bpp : drm_cmdline_mode :=
  { specified := true, bpp_specified := true, bpp := 15 }

/-! ## Readings of the claim on the register widths -/

/-- The mode is well-formed: the horizontal and the vertical timings are in order. -/
def mode_well_formed (mode : drm_display_mode) : Prop :=
  mode.hdisplay ≤ mode.hsync_start ∧ mode.hsync_start ≤ mode.hsync_end ∧
  mode.hsync_end ≤ mode.htotal ∧
  mode.vdisplay ≤ mode.vsync_start ∧ mode.vsync_start ≤ mode.vsync_end ∧
  mode.vsync_end ≤ mode.vtotal

instance (mode : drm_display_mode) : Decidable (mode_well_formed mode) := by
  unfold mode_well_formed; infer_instance

/-- The CRTC timings that `set_display_mode` compiles are the timings of the mode that the
validator looks at, as `drm_mode_set_crtcinfo` leaves them for a mode without interlace,
double scan and `vscan`. -/
def crtc_timings_plain (mode : drm_display_mode) : Prop :=
  mode.crtc_htotal = mode.htotal ∧ mode.crtc_hdisplay = mode.hdisplay ∧
  mode.crtc_hsync_start = mode.hsync_start ∧
  mode.crtc_vtotal = mode.vtotal ∧ mode.crtc_vdisplay = mode.vdisplay ∧
  mode.crtc_vsync_start = mode.vsync_start

instance (mode : drm_display_mode) : Decidable (crtc_timings_plain mode) := by
  unfold crtc_timings_plain; infer_instance

/-- The largest value of a horizontal counter of the model: 8 bits in the CRTC registers,
and on the 6326 a ninth bit in sr12. -/
def horizontal_counter_max (model : sisvga_model) : Int :=
  if MODEL_IS_GE (sisvga_device_info_list model) SISVGA_MODEL_6326 then 511 else 255

/-- The horizontal total that the registers hold, in character clocks less 5: cr00, and on
the 6326 bit 0 of sr12 as the ninth bit. -/
def stored_htotal (model : sisvga_model) (s : vga_regs) : Nat :=
  if MODEL_IS_GE (sisvga_device_info_list model) SISVGA_MODEL_6326 then
    s.cr 0x00 ||| ((s.sr 0x12 &&& 0x01) <<< 8)
  else s.cr 0x00

/-- The displayed width that the registers hold, in character clocks less 1: cr01, and on
the 6326 bit 1 of sr12 as the ninth bit. -/
def stored_hdisplay (model : sisvga_model) (s : vga_regs) : Nat :=
  if MODEL_IS_GE (sisvga_device_info_list model) SISVGA_MODEL_6326 then
    s.cr 0x01 ||| ((s.sr 0x12 &&& 0x02) <<< 7)
  else s.cr 0x01

/-- The horizontal sync start that the registers hold, in character clocks less 1: cr04,
and on the 6326 bit 3 of sr12 as the ninth bit. -/
def stored_hsync_start (model : sisvga_model) (s : vga_regs) : Nat :=
  if MODEL_IS_GE (sisvga_device_info_list model) SISVGA_MODEL_6326 then
    s.cr 0x04 ||| ((s.sr 0x12 &&& 0x08) <<< 5)
  else s.cr 0x04

/-! ## sisvga_device.c: the VRAM window -/

/-- The macro `KiB_TO_BYTE(_kib)` of sisvga_drv.h. -/
def KiB_TO_BYTE (kib : Nat) : Nat := kib * 1024

/-- The value of `sr21` that `sisvga_vram_init` computes (lines 231 to 238 of
sisvga_device.c) from the start `base` and the length `size` of the VRAM resource and the
value read from sr21. `sizeexp` is an `unsigned long`, taken as 64 bits wide; `sr21` is a
`u8`. -/
def sisvga_vram_init_sr21 (base size sr21 : Nat) : Nat :=
  let sizeexp := ((size >>> 20) + 2 ^ 64 - 1) % 2 ^ 64
  let sr21 :=
    if size > KiB_TO_BYTE 4096 then (sizeexp <<< 5) % 256
    else (sr21 &&& 0x80) ||| (((sizeexp &&& 0x03) <<< 5) % 256)
  (sr21 ||| ((base &&& 0xf8000000) >>> 27)) % 256

/-- The register accesses of `sisvga_vram_init` (lines 199 to 249 of sisvga_device.c) for
the VRAM resource `[base, base + size)`: eight reads, the computations and the five
writes that are not commented out. The reservation and mapping of the resource that
follow are left out. -/
def sisvga_vram_init_registers {σ : Type} (io : io_ports σ) (base size : Nat) (s : σ) : σ :=
  let misc := (RREG8 io REG_MISC_IN s).1
  let s := (RREG8 io REG_MISC_IN s).2
  let gr06 := (RREG_GR io 0x06 s).1
  let s := (RREG_GR io 0x06 s).2
  let sr06 := (RREG_SR io 0x06 s).1
  let s := (RREG_SR io 0x06 s).2
  let s := (RREG_SR io 0x0b s).2
  let s := (RREG_SR io 0x0c s).2
  let s := (RREG_SR io 0x20 s).2
  let sr21 := (RREG_SR io 0x21 s).1
  let s := (RREG_SR io 0x21 s).2
  let s := (RREG_SR io 0x2d s).2
  let misc := misc ||| (0x02 ||| 0x01)
  let gr06 := gr06 &&& 0xf3
  let sr06 := sr06 ||| 0x80
  let sr20 := ((base &&& 0x07f80000) >>> 19) % 256
  let sr21 := sisvga_vram_init_sr21 base size sr21
  let s := WREG8 io REG_MISC_OUT misc s
  let s := WREG_GR io 0x06 gr06 s
  let s := WREG_SR io 0x06 sr06 s
  let s := WREG_SR io 0x20 sr20 s
  WREG_SR io 0x21 sr21 s

/-- The size that the comment in `sisvga_vram_init` assigns to a value of the field
sr21[7:5]: `size = 2 ^ sr21[7:5] * 512 * 1024`. -/
def vram_size_of_field (sr21 : Nat) : Nat := 2 ^ ((sr21 % 256) >>> 5) * 512 * 1024

/-! ## sisvga_device.c: the device lock -/

/-- The errno `ETIMEDOUT` of linux/errno.h. -/
def ETIMEDOUT : Int := 110

/-- The `do ... while (i++ < 50)` loop of `modify_device_lock`, entered with the counter
`i`, the last value read `sr05` and the device state `s`: the value the function returns
and the state it leaves. Every iteration uses one unit of fuel, `none` is a loop cut short
by the fuel; `udelay` leaves the device alone. -/
def modify_device_lock_loop {σ : Type} (io : io_ports σ) (wr rd : Nat) :
    Nat → Int → Nat → σ → Option (Int × σ)
  | 0, _, _, _ => none
  | fuel + 1, i, sr05, s =>
    if sr05 = rd % 256 then some (0, s)
    else
      let s := if i ≠ 0 then s else WREG_SR io 0x05 wr s
      if i < 50 then
        modify_device_lock_loop io wr rd fuel (wrap_int (i + 1)) (RREG_SR io 0x05 s).1
          (RREG_SR io 0x05 s).2
      else some (-ETIMEDOUT, (RREG_SR io 0x05 s).2)

/-- The static function `modify_device_lock(sdev, wr, rd)` over the ports `io`. -/
def modify_device_lock {σ : Type} (io : io_ports σ) (fuel wr rd : Nat) (s : σ) :
    Option (Int × σ) :=
  modify_device_lock_loop io wr rd fuel 0 (RREG_SR io 0x05 s).1 (RREG_SR io 0x05 s).2

/-- A device together with a record of the port accesses made so far: the values read, as
the `u8` the driver sees, each with its port, and the values written, each with its
port, both in order. -/
structure io_trace (σ : Type) where
  state : σ
  reads : List (Nat × Nat)
  writes : List (Nat × Nat)

/-- The ports `io` with every access recorded. -/
def io_traced {σ : Type} (io : io_ports σ) : io_ports (io_trace σ) :=
  { ioread8 := fun reg t =>
      ((io.ioread8 reg t.state).1,
       { t with state := (io.ioread8 reg t.state).2,
                reads := t.reads ++ [(reg, (io.ioread8 reg t.state).1 % 256)] }),
    iowrite8 := fun reg v t =>
      { t with state := io.iowrite8 reg v t.state, writes := t.writes ++ [(reg, v)] } }

/-- The start of a record: the device in state `s`, nothing read or written yet. -/
def io_trace_start {σ : Type} (s : σ) : io_trace σ := { state := s, reads := [], writes := [] }

/-- The values written to the port `reg`, in order. -/
def io_trace.written {σ : Type} (t : io_trace σ) (reg : Nat) : List Nat :=
  (t.writes.filter (fun w => decide (w.1 = reg))).map (fun w => w.2)

/-- The values read from the port `reg`, in order. -/
def io_trace.values_read {σ : Type} (t : io_trace σ) (reg : Nat) : List Nat :=
  (t.reads.filter (fun w => decide (w.1 = reg))).map (fun w => w.2)

/-- A device that answers every read with `0xff` and ignores every write: the bus with
nothing driving it. -/
def dead_ports : io_ports Unit :=
  { ioread8 := fun _ s => (0xff, s), iowrite8 := fun _ _ s => s }

/-- A device whose lock register answers with the values of the list `vs`, one per read,
and with 0 once the list is used up; writes are ignored. -/
def scripted_ports : io_ports (List Nat) :=
  { ioread8 := fun _ vs => (vs.headD 0, vs.tail), iowrite8 := fun _ _ vs => vs }

/-! ## Sequences of calls on a buffer object -/

/-- A call of one of the three functions of sisvga_bo.c that change the pin count:
`sisvga_bo_pin(bo, pl_flag, NULL)`, `sisvga_bo_unpin(bo)` or
`sisvga_bo_push_to_system(bo)`. -/
inductive bo_call where
  | pin (pl_flag : Nat)
  | unpin
  | push_to_system
  deriving DecidableEq

/-- One call on the buffer object: the value returned and the buffer object left. -/
def bo_call.run {τ κ : Type} (api : ttm_interface τ κ) (c : bo_call) (bo : sisvga_bo τ κ) :
    Option (Int × sisvga_bo τ κ) :=
  match c with
  | .pin pl_flag =>
    match sisvga_bo_pin api bo pl_flag none with
    | none => none
    | some (ret, bo, _) => some (ret, bo)
  | .unpin => sisvga_bo_unpin api bo
  | .push_to_system => sisvga_bo_push_to_system api bo

/-- A sequence of calls on the buffer object: the values returned, in order, and the
buffer object left. -/
def bo_calls {τ κ : Type} (api : ttm_interface τ κ) :
    List bo_call → sisvga_bo τ κ → Option (List Int × sisvga_bo τ κ)
  | [], bo => some ([], bo)
  | c :: cs, bo =>
    match c.run api bo with
    | none => none
    | some (r, bo) =>
      match bo_calls api cs bo with
      | none => none
      | some (rs, bo) => some (r :: rs, bo)

/-- The buffer object as `sisvga_bo_create` sets it up: the structure zeroed by `kzalloc`,
then `sisvga_bo_ttm_placement(sis_bo, TTM_PL_FLAG_VRAM | TTM_PL_FLAG_SYSTEM)`; `t` and `k`
are the states of the TTM members `bo` and `kmap`. -/
def sisvga_bo_create_placement {τ κ : Type} (api : ttm_interface τ κ) (t : τ) (k : κ) :
    Option (sisvga_bo τ κ) :=
  sisvga_bo_ttm_placement api
    { bo := t, placement := {}, kmap := k, placements := {}, pin_count := 0 }
    (api.TTM_PL_FLAG_VRAM ||| api.TTM_PL_FLAG_SYSTEM)

/-- The flag `TTM_PL_FLAG_NO_EVICT` is a bit pattern of a `uint32_t`, not 0, and shares no
bit with the flags that `sisvga_bo_ttm_placement` assigns. -/
def no_evict_flag_apart {τ κ : Type} (api : ttm_interface τ κ) : Prop :=
  api.TTM_PL_FLAG_NO_EVICT ≠ 0 ∧ api.TTM_PL_FLAG_NO_EVICT < 2 ^ 32 ∧
  ((api.TTM_PL_FLAG_WC ||| api.TTM_PL_FLAG_UNCACHED ||| api.TTM_PL_FLAG_VRAM) % 2 ^ 32) &&&
    api.TTM_PL_FLAG_NO_EVICT = 0 ∧
  ((api.TTM_PL_MASK_CACHING ||| api.TTM_PL_FLAG_SYSTEM) % 2 ^ 32) &&&
    api.TTM_PL_FLAG_NO_EVICT = 0

/-- The calls are pins and unpins only, and every pin returned 0. -/
def pins_succeed_no_push : List bo_call → List Int → Prop
  | [], _ => True
  | _ :: _, [] => True
  | c :: cs, r :: rs =>
    (c = .unpin ∨ ((∃ pl_flag, c = .pin pl_flag) ∧ r = 0)) ∧ pins_succeed_no_push cs rs

/-- The pin count is not negative, the placement list has between one and three entries,
and a pinned buffer carries the no-evict flag on every placement. -/
def bo_pins_tracked {τ κ : Type} (api : ttm_interface τ κ) (bo : sisvga_bo τ κ) : Prop :=
  0 ≤ bo.pin_count ∧ 1 ≤ bo.placement.num_placement ∧ bo.placement.num_placement ≤ 3 ∧
  (0 < bo.pin_count → no_evict api bo)

/-! ## Inputs for the memory check and the line compare -/

/-- A command line that asks for 71582792 bits per pixel, `video=800x600-71582792`: the
depth of the command line is taken over as it is parsed. 71582792 is 8 * 8947849. -/
def cmdline_bpp_71582792 : drm_cmdline_mode :=
  { specified := true, bpp_specified := true, bpp := 71582792 }

/-- The 1024x768 timings at 65000 kHz with a vertical total of `vtotal` lines, with the CRTC
timings that belong to them. -/
def mode_1024x768_vtotal (vtotal : Int) : drm_display_mode :=
  { mode_1024x768_60_crtc with
    vtotal := vtotal, crtc_vtotal := vtotal, crtc_vblank_end := vtotal }

/-! ## Auxiliary lemmas -/

theorem mode_valid_status (info : sisvga_device_info) (vram_size : Nat)
    (cmdline_mode : drm_cmdline_mode) (mode : drm_display_mode) :
    (sisvga_connector_helper_mode_valid_vga info vram_size cmdline_mode mode).1 =
      first_failure
        [check_clock info mode, check_display_size info mode, check_dot_unit mode,
         check_crtc_fields info mode,
         check_vram vram_size mode (mode_valid_bpp info cmdline_mode),
         check_catalog info mode (mode_valid_bpp info cmdline_mode)] := by
  unfold sisvga_connector_helper_mode_valid_vga check_clock check_display_size
    check_dot_unit check_crtc_fields check_vram check_catalog mode_valid_bpp
  simp only []
  generalize (if cmdline_mode.specified = true then
      (if cmdline_mode.bpp_specified = true then cmdline_mode.bpp else info.max_bpp)
    else info.max_bpp) = bpp
  by_cases h1 : mode.clock > info.max_clock
  · simp only [if_pos h1, first_failure]
  simp only [if_neg h1]
  cases hv : sisvga_vclk_of_clock (int_to_uint mode.clock) with
  | error e => simp only [first_failure]
  | ok vclk =>
    simp only []
    by_cases h2 : (info.supported_vclks &&& SISVGA_VCLK_BIT vclk) = 0
    · simp only [if_pos h2, first_failure]
    simp only [if_neg h2]
    by_cases h3 : mode.hdisplay > info.max_hdisplay
    · simp only [if_pos h3, first_failure]
    simp only [if_neg h3]
    by_cases h4 : mode.vdisplay > info.max_vdisplay
    · simp only [if_pos h4, first_failure]
    simp only [if_neg h4]
    by_cases h5 : (mode.hdisplay.tmod 8 ≠ 0 ∨ mode.hsync_start.tmod 8 ≠ 0 ∨
        mode.hsync_end.tmod 8 ≠ 0 ∨ mode.htotal.tmod 8 ≠ 0) ∧
        (mode.hdisplay.tmod 9 ≠ 0 ∨ mode.hsync_start.tmod 9 ≠ 0 ∨
        mode.hsync_end.tmod 9 ≠ 0 ∨ mode.htotal.tmod 9 ≠ 0)
    · simp only [if_pos h5, first_failure]
    simp only [if_neg h5]
    by_cases h6 : mode.hdisplay > info.max_hdisplay ∨
        mode.hsync_start > info.max_hsync_start ∨
        mode.hsync_end > info.max_hsync_end ∨
        mode.htotal > info.max_htotal ∨
        mode.vdisplay > info.max_vdisplay ∨
        mode.vsync_start > info.max_vsync_start ∨
        mode.vsync_end > info.max_vsync_end ∨
        mode.vtotal > info.max_vtotal
    · simp only [if_pos h6, first_failure]
    simp only [if_neg h6]
    by_cases h7 : int_to_resource_size
        (int_mul (int_mul mode.hdisplay mode.vdisplay) (bpp.tdiv 8)) > vram_size
    · simp only [if_pos h7, first_failure]
    simp only [if_neg h7]
    cases sisvga_find_compatible_mode 0 info.vga_modes mode bpp <;>
      simp only [first_failure]
theorem sisvga_mode_is_compatible_iff (e : sisvga_mode) (mode : drm_display_mode)
    (bpp : Int) : sisvga_mode_is_compatible e mode bpp = true ↔ catalog_match e mode bpp := by
  simp [sisvga_mode_is_compatible, depth_is_compatible, catalog_match, and_assoc]

theorem find_compatible_none_iff (beg : Nat) (range : List sisvga_mode)
    (mode : drm_display_mode) (bpp : Int) :
    sisvga_find_compatible_mode beg range mode bpp = none ↔
      ∀ e ∈ range, ¬ catalog_match e mode bpp := by
  induction range generalizing beg with
  | nil => simp [sisvga_find_compatible_mode]
  | cons smode rest ih =>
    unfold sisvga_find_compatible_mode
    by_cases hc : sisvga_mode_is_compatible smode mode bpp = true
    · have hm := (sisvga_mode_is_compatible_iff smode mode bpp).mp hc
      simp [hc, hm]
    · have hm : ¬ catalog_match smode mode bpp :=
        fun h => hc ((sisvga_mode_is_compatible_iff smode mode bpp).mpr h)
      simp [hc, hm, ih]

theorem find_compatible_some_iff (beg : Nat) (range : List sisvga_mode)
    (mode : drm_display_mode) (bpp : Int) (p : Nat) :
    sisvga_find_compatible_mode beg range mode bpp = some p ↔
      ∃ i e, p = beg + i ∧ range[i]? = some e ∧ catalog_match e mode bpp ∧
        ∀ j e2, j < i → range[j]? = some e2 → ¬ catalog_match e2 mode bpp := by
  induction range generalizing beg with
  | nil => simp [sisvga_find_compatible_mode]
  | cons smode rest ih =>
    unfold sisvga_find_compatible_mode
    by_cases hc : sisvga_mode_is_compatible smode mode bpp = true
    · have hm := (sisvga_mode_is_compatible_iff smode mode bpp).mp hc
      simp only [hc, if_true, Option.some.injEq]
      constructor
      · intro h
        exact ⟨0, smode, by omega, List.getElem?_cons_zero, hm, fun j e2 hj => absurd hj (Nat.not_lt_zero j)⟩
      · rintro ⟨i, e, hp, hi, he, hlt⟩
        cases i with
        | zero => omega
        | succ k => exact absurd hm (hlt 0 smode (Nat.succ_pos k) List.getElem?_cons_zero)
    · have hm : ¬ catalog_match smode mode bpp :=
        fun h => hc ((sisvga_mode_is_compatible_iff smode mode bpp).mpr h)
      simp only [hc, Bool.false_eq_true, if_false]
      rw [ih (beg + 1)]
      constructor
      · rintro ⟨i, e, hp, hi, he, hlt⟩
        refine ⟨i + 1, e, by omega, by simpa using hi, he, ?_⟩
        intro j e2 hj hj2
        cases j with
        | zero =>
          simp only [List.getElem?_cons_zero, Option.some.injEq] at hj2
          exact hj2 ▸ hm
        | succ k =>
          exact hlt k e2 (by omega) (by simpa using hj2)
      · rintro ⟨i, e, hp, hi, he, hlt⟩
        cases i with
        | zero =>
          simp only [List.getElem?_cons_zero, Option.some.injEq] at hi
          exact absurd (hi ▸ he) hm
        | succ k =>
          refine ⟨k, e, by omega, by simpa using hi, he, ?_⟩
          intro j e2 hj hj2
          exact hlt (j + 1) e2 (by omega) (by simpa using hj2)

theorem find_compatible_ignores (beg : Nat) (range : List sisvga_mode)
    (mode : drm_display_mode) (bpp : Int) (mv fl : sisvga_mode → Int) :
    sisvga_find_compatible_mode beg
        (range.map fun e => { e with min_vram := mv e, flags := fl e }) mode bpp =
      sisvga_find_compatible_mode beg range mode bpp := by
  induction range generalizing beg with
  | nil => rfl
  | cons smode rest ih =>
    simp only [List.map_cons, sisvga_find_compatible_mode]
    rw [ih (beg + 1)]
    rfl

theorem check_clock_ne_ok (info : sisvga_device_info) (mode : drm_display_mode) :
    check_clock info mode ≠ some MODE_OK := by
  unfold check_clock
  split_ifs
  · simp
  · split
    · simp
    · split_ifs <;> simp

theorem check_display_size_ne_ok (info : sisvga_device_info) (mode : drm_display_mode) :
    check_display_size info mode ≠ some MODE_OK := by
  unfold check_display_size
  split_ifs <;> simp

theorem check_dot_unit_eq (mode : drm_display_mode) :
    check_dot_unit mode =
      if all_multiples 8 mode ∨ all_multiples 9 mode then none else some MODE_H_ILLEGAL := by
  have key : ∀ a b : Int, b.tmod a = 0 ↔ a ∣ b :=
    fun a b => ⟨Int.dvd_of_tmod_eq_zero, Int.tmod_eq_zero_of_dvd⟩
  unfold check_dot_unit all_multiples
  simp only [ne_eq, key]
  split_ifs with h1 h2 h2
  · exact absurd h2 (by tauto)
  · rfl
  · rfl
  · exact absurd h1 (by tauto)

theorem check_crtc_fields_eq (info : sisvga_device_info) (mode : drm_display_mode) :
    check_crtc_fields info mode = none ∨ check_crtc_fields info mode = some MODE_BAD := by
  unfold check_crtc_fields
  split_ifs <;> simp

theorem check_vram_eq (vram_size : Nat) (mode : drm_display_mode) (bpp : Int) :
    check_vram vram_size mode bpp = none ∨ check_vram vram_size mode bpp = some MODE_BAD := by
  unfold check_vram
  split_ifs <;> simp

theorem check_catalog_eq (info : sisvga_device_info) (mode : drm_display_mode) (bpp : Int) :
    check_catalog info mode bpp = none ∨ check_catalog info mode bpp = some MODE_BAD := by
  unfold check_catalog
  split <;> simp

theorem check_vram_of_small (vram_size : Nat) (mode : drm_display_mode) (bpp : Int)
    (h0 : 0 ≤ mode.hdisplay * mode.vdisplay * bpp.tdiv 8)
    (h1 : mode.hdisplay * mode.vdisplay * bpp.tdiv 8 < 2147483648) :
    check_vram vram_size mode bpp =
      if (vram_size : Int) < mode.hdisplay * mode.vdisplay * bpp.tdiv 8 then some MODE_BAD
      else none := by
  have hw : int_mul (int_mul mode.hdisplay mode.vdisplay) (bpp.tdiv 8) =
      mode.hdisplay * mode.vdisplay * bpp.tdiv 8 := by
    unfold int_mul wrap_int
    generalize mode.hdisplay * mode.vdisplay = a at h0 h1 ⊢
    generalize bpp.tdiv 8 = b at h0 h1 ⊢
    have e1 : ((a + 2147483648) % 4294967296 - 2147483648) * b + 2147483648 =
        a * b + 2147483648 + (-((a + 2147483648) / 4294967296) * b) * 4294967296 := by
      have := Int.emod_add_ediv (a + 2147483648) 4294967296
      linear_combination b * this
    rw [e1, Int.add_mul_emod_self]
    omega
  unfold check_vram
  rw [hw]
  generalize mode.hdisplay * mode.vdisplay * bpp.tdiv 8 = q at h0 h1 ⊢
  have hq : int_to_resource_size q > vram_size ↔ (vram_size : Int) < q := by
    unfold int_to_resource_size
    omega
  by_cases hlt : (vram_size : Int) < q
  · rw [if_pos (hq.mpr hlt), if_pos hlt]
  · rw [if_neg (fun h => hlt (hq.mp h)), if_neg hlt]

/-! ## Clock model -/

/-- C1: `sisvga_vclk_of_clock` succeeds exactly on the 23 clocks of the closed set, and on
every other value it returns `-EINVAL` (no nearest entry is picked). -/
theorem sisvga_vclk_of_clock_closed_set (clock_khz : Nat) :
    ((∃ v, sisvga_vclk_of_clock clock_khz = .ok v) ↔ clock_khz ∈ known_clocks) ∧
    (clock_khz ∉ known_clocks → sisvga_vclk_of_clock clock_khz = .error (-EINVAL)) := by
  unfold sisvga_vclk_of_clock known_clocks
  split <;> simp_all

/-- C2: the table has 21 entries and each stored `clock_hz` is
`floor(crystal_hz * num * div / (denum * postscal))`; the same holds for the values that
`sisvga_vclk_regs` hands out for each of the 21 indices. -/
theorem sisvga_vclk_configs_clock_hz :
    sisvga_vclk_configs.length = 21 ∧
    (∀ c ∈ sisvga_vclk_configs,
      c.clock_hz = ((crystal_hz c.freq * c.num * c.div / (c.denum * c.postscal) : Nat) : Int)) ∧
    (∀ v : sisvga_vclk, ∃ r, sisvga_vclk_regs v = some r ∧
      r.f = crystal_hz r.freq * r.num * r.div / (r.denum * r.postscal)) := by
  refine ⟨by decide, by decide, ?_⟩
  intro v
  cases v <;> exact ⟨_, rfl, by decide⟩

/-- C3, as stated, fails: 25000 kHz is accepted and resolves to the 25.175 MHz entry, whose
25175000 Hz are 0.7 % above the nominal 25000000 Hz. -/
theorem sisvga_vclk_25000_not_within_permille :
    ∃ v r, sisvga_vclk_of_clock 25000 = .ok v ∧ sisvga_vclk_regs v = some r ∧
      ¬ within_permille r.f (25000 * 1000) :=
  ⟨SISVGA_VCLK_25175, _, rfl, rfl, by decide⟩

/-- C3, amended: every accepted clock resolves to an entry that `sisvga_vclk_regs` hands
out; its frequency is within 0.1 % of `clock_khz * 1000` Hz unless `clock_khz` is 25000,
28000 or 162000, for which it is 25175000 Hz, 28322000 Hz and 162272706 Hz; 65000 yields
64982509 Hz. -/
theorem sisvga_vclk_resolved_within_permille (clock_khz : Nat) (v : sisvga_vclk)
    (h : sisvga_vclk_of_clock clock_khz = .ok v) :
    ∃ r, sisvga_vclk_regs v = some r ∧
      (clock_khz ≠ 25000 → clock_khz ≠ 28000 → clock_khz ≠ 162000 →
        within_permille r.f (clock_khz * 1000)) ∧
      (clock_khz = 25000 → r.f = 25175000) ∧
      (clock_khz = 28000 → r.f = 28322000) ∧
      (clock_khz = 162000 → r.f = 162272706) ∧
      (clock_khz = 65000 → r.f = 64982509) := by
  unfold sisvga_vclk_of_clock at h
  split at h <;> cases h <;>
    exact ⟨_, rfl, by decide, by decide, by decide, by decide, by decide⟩

/-- Witness of C3 (amended) at 65000 kHz. -/
theorem sisvga_vclk_resolved_within_permille_witness :
    sisvga_vclk_of_clock 65000 = .ok SISVGA_VCLK_65000 ∧
    ∃ r, sisvga_vclk_regs SISVGA_VCLK_65000 = some r ∧
      ((65000 : Nat) ≠ 25000 → (65000 : Nat) ≠ 28000 → (65000 : Nat) ≠ 162000 →
        within_permille r.f ((65000 : Nat) * 1000)) ∧
      ((65000 : Nat) = 25000 → r.f = 25175000) ∧
      ((65000 : Nat) = 28000 → r.f = 28322000) ∧
      ((65000 : Nat) = 162000 → r.f = 162272706) ∧
      ((65000 : Nat) = 65000 → r.f = 64982509) :=
  ⟨rfl, sisvga_vclk_resolved_within_permille 65000 SISVGA_VCLK_65000 rfl⟩

/-- C4: the entries of the two base frequencies use their own fixed crystal with
num = denum = div = postscal = 1, and every other entry uses the internal PLL source
`SISVGA_FREQ_14318`. -/
theorem sisvga_vclk_configs_source (v : sisvga_vclk) :
    ∃ c, sisvga_vclk_configs[v.toNat]? = some c ∧
      (v = SISVGA_VCLK_25175 → c.freq = SISVGA_FREQ_25175 ∧
        c.num = 1 ∧ c.denum = 1 ∧ c.div = 1 ∧ c.postscal = 1) ∧
      (v = SISVGA_VCLK_28322 → c.freq = SISVGA_FREQ_28322 ∧
        c.num = 1 ∧ c.denum = 1 ∧ c.div = 1 ∧ c.postscal = 1) ∧
      (v ≠ SISVGA_VCLK_25175 → v ≠ SISVGA_VCLK_28322 → c.freq = SISVGA_FREQ_14318) := by
  cases v <;> exact ⟨_, rfl, by decide, by decide, by decide⟩

/-! ## Mode catalog -/

/-- C6: `sisvga_find_compatible_mode` returns `NULL` exactly when no entry of `[beg, end)`
matches, and otherwise the pointer to the lowest-index matching entry, where an entry matches
when hdisplay, vdisplay and clock are equal and its depth is `bpp`, or 24 for `bpp` = 32. A
32-bit entry never matches a 24-bit request, and `min_vram` and `flags` play no role. -/
theorem sisvga_find_compatible_mode_first_match (beg : Nat) (range : List sisvga_mode)
    (mode : drm_display_mode) (bpp : Int) :
    (sisvga_find_compatible_mode beg range mode bpp = none ↔
      ∀ e ∈ range, ¬ catalog_match e mode bpp) ∧
    (∀ p, sisvga_find_compatible_mode beg range mode bpp = some p ↔
      ∃ i e, p = beg + i ∧ range[i]? = some e ∧ catalog_match e mode bpp ∧
        ∀ j e2, j < i → range[j]? = some e2 → ¬ catalog_match e2 mode bpp) ∧
    (∀ e : sisvga_mode, e.depth = 32 → sisvga_mode_is_compatible e mode 24 = false) ∧
    (∀ mv fl : sisvga_mode → Int,
      sisvga_find_compatible_mode beg
          (range.map fun e => { e with min_vram := mv e, flags := fl e }) mode bpp =
        sisvga_find_compatible_mode beg range mode bpp) := by
  refine ⟨find_compatible_none_iff beg range mode bpp,
    find_compatible_some_iff beg range mode bpp, ?_,
    find_compatible_ignores beg range mode bpp⟩
  intro e he
  simp [sisvga_mode_is_compatible, depth_is_compatible, he]

/-! ## Capability validator -/

/-- C5, as stated, fails: on the 6202, 56300 kHz is below `max_clock`, resolves to
`SISVGA_VCLK_56300` and is missing from `supported_vclks`, and the validator reports it with
the very reason it reports for 12345 kHz, which is outside the closed set. -/
theorem mode_valid_unsupported_vclk_same_reason :
    (56300 : Int) ≤ sisvga_device_info_6202.max_clock ∧
    sisvga_vclk_of_clock (int_to_uint 56300) = .ok SISVGA_VCLK_56300 ∧
    sisvga_device_info_6202.supported_vclks &&& SISVGA_VCLK_BIT SISVGA_VCLK_56300 = 0 ∧
    sisvga_vclk_of_clock (int_to_uint 12345) = .error (-EINVAL) ∧
    (sisvga_connector_helper_mode_valid_vga sisvga_device_info_6202 (2 * 1024 * 1024) {}
        (mode_with_clock 56300)).1 = MODE_CLOCK_RANGE ∧
    (sisvga_connector_helper_mode_valid_vga sisvga_device_info_6202 (2 * 1024 * 1024) {}
        (mode_with_clock 12345)).1 = MODE_CLOCK_RANGE ∧
    ¬ ((sisvga_connector_helper_mode_valid_vga sisvga_device_info_6202 (2 * 1024 * 1024) {}
          (mode_with_clock 56300)).1 ≠
        (sisvga_connector_helper_mode_valid_vga sisvga_device_info_6202 (2 * 1024 * 1024) {}
          (mode_with_clock 12345)).1) := by
  decide

/-- C5, amended: for every device description, a mode whose clock is at most `max_clock`
and resolves to a synthesizer entry missing from `supported_vclks` is rejected with
`MODE_CLOCK_RANGE`, the same reason as for a clock at most `max_clock` that is outside the
closed set. -/
theorem mode_valid_unsupported_vclk (info : sisvga_device_info) (vram_size : Nat)
    (cmdline_mode : drm_cmdline_mode) (mode : drm_display_mode) (vclk : sisvga_vclk)
    (hmax : mode.clock ≤ info.max_clock)
    (hres : sisvga_vclk_of_clock (int_to_uint mode.clock) = .ok vclk)
    (hbit : info.supported_vclks &&& SISVGA_VCLK_BIT vclk = 0) :
    (sisvga_connector_helper_mode_valid_vga info vram_size cmdline_mode mode).1 =
      MODE_CLOCK_RANGE ∧
    ∀ other : drm_display_mode, other.clock ≤ info.max_clock →
      (∀ v, sisvga_vclk_of_clock (int_to_uint other.clock) ≠ .ok v) →
      (sisvga_connector_helper_mode_valid_vga info vram_size cmdline_mode other).1 =
        MODE_CLOCK_RANGE := by
  constructor
  · rw [mode_valid_status]
    have h1 : check_clock info mode = some MODE_CLOCK_RANGE := by
      unfold check_clock
      rw [if_neg (not_lt.mpr hmax), hres]
      simp only [if_pos hbit]
    rw [h1]
    rfl
  · intro other hmax2 hno
    rw [mode_valid_status]
    have h1 : check_clock info other = some MODE_CLOCK_RANGE := by
      unfold check_clock
      rw [if_neg (not_lt.mpr hmax2)]
      cases hv : sisvga_vclk_of_clock (int_to_uint other.clock) with
      | error e => rfl
      | ok v => exact absurd hv (hno v)
    rw [h1]
    rfl

/-- Witness of C5 (amended): the 6202 and a mode with the unsupported clock 56300 kHz. -/
theorem mode_valid_unsupported_vclk_witness :
    (sisvga_connector_helper_mode_valid_vga sisvga_device_info_6202 (2 * 1024 * 1024) {}
        (mode_with_clock 56300)).1 = MODE_CLOCK_RANGE :=
  (mode_valid_unsupported_vclk sisvga_device_info_6202 (2 * 1024 * 1024) {}
    (mode_with_clock 56300) SISVGA_VCLK_56300
    (by decide) (by decide) (by decide)).1

/-- C7: the validator returns the reason of the first failing check in the order clock,
display size, dot unit, CRTC fields, VRAM, catalog, and `MODE_OK` exactly when all six
pass; in particular a failing clock check decides the reason whatever the later checks
would say. -/
theorem mode_valid_first_failing_check (info : sisvga_device_info) (vram_size : Nat)
    (cmdline_mode : drm_cmdline_mode) (mode : drm_display_mode) :
    (sisvga_connector_helper_mode_valid_vga info vram_size cmdline_mode mode).1 =
      first_failure
        [check_clock info mode, check_display_size info mode, check_dot_unit mode,
         check_crtc_fields info mode,
         check_vram vram_size mode (mode_valid_bpp info cmdline_mode),
         check_catalog info mode (mode_valid_bpp info cmdline_mode)] ∧
    ((sisvga_connector_helper_mode_valid_vga info vram_size cmdline_mode mode).1 = MODE_OK ↔
      (check_clock info mode = none ∧ check_display_size info mode = none ∧
       check_dot_unit mode = none ∧ check_crtc_fields info mode = none ∧
       check_vram vram_size mode (mode_valid_bpp info cmdline_mode) = none ∧
       check_catalog info mode (mode_valid_bpp info cmdline_mode) = none)) ∧
    (∀ r, check_clock info mode = some r →
      (sisvga_connector_helper_mode_valid_vga info vram_size cmdline_mode mode).1 = r) := by
  refine ⟨mode_valid_status info vram_size cmdline_mode mode, ?_, ?_⟩
  · rw [mode_valid_status]
    have n1 := check_clock_ne_ok info mode
    have n2 := check_display_size_ne_ok info mode
    have n3 := check_dot_unit_eq mode
    have n4 := check_crtc_fields_eq info mode
    have n5 := check_vram_eq vram_size mode (mode_valid_bpp info cmdline_mode)
    have n6 := check_catalog_eq info mode (mode_valid_bpp info cmdline_mode)
    rcases h1 : check_clock info mode with _ | r1
    · rcases h2 : check_display_size info mode with _ | r2
      · rcases h3 : check_dot_unit mode with _ | r3
        · rcases n4 with h4 | h4 <;> rcases n5 with h5 | h5 <;> rcases n6 with h6 | h6 <;>
            simp [h4, h5, h6, first_failure]
        · rw [h3] at n3
          split_ifs at n3
          cases n3
          simp [first_failure]
      · rw [h2] at n2
        simpa [first_failure] using n2
    · rw [h1] at n1
      simpa [first_failure] using n1
  · intro r hr
    rw [mode_valid_status, hr]
    rfl

/-- C8: for a mode that passes checks 1 and 2, the dot-unit check passes exactly when the
four horizontal fields are all multiples of 8 or all multiples of 9; then the result is
that of the remaining checks, and in every other case the validator returns
`MODE_H_ILLEGAL`. -/
theorem mode_valid_dot_unit (info : sisvga_device_info) (vram_size : Nat)
    (cmdline_mode : drm_cmdline_mode) (mode : drm_display_mode)
    (h1 : check_clock info mode = none) (h2 : check_display_size info mode = none) :
    (check_dot_unit mode = none ↔ all_multiples 8 mode ∨ all_multiples 9 mode) ∧
    (all_multiples 8 mode ∨ all_multiples 9 mode →
      (sisvga_connector_helper_mode_valid_vga info vram_size cmdline_mode mode).1 =
        first_failure
          [check_crtc_fields info mode,
           check_vram vram_size mode (mode_valid_bpp info cmdline_mode),
           check_catalog info mode (mode_valid_bpp info cmdline_mode)] ∧
      (sisvga_connector_helper_mode_valid_vga info vram_size cmdline_mode mode).1 ≠
        MODE_H_ILLEGAL) ∧
    (¬ (all_multiples 8 mode ∨ all_multiples 9 mode) →
      (sisvga_connector_helper_mode_valid_vga info vram_size cmdline_mode mode).1 =
        MODE_H_ILLEGAL) := by
  rw [mode_valid_status, h1, h2, check_dot_unit_eq]
  refine ⟨?_, ?_, ?_⟩
  · split_ifs with h <;> simp [h]
  · intro h
    rw [if_pos h]
    refine ⟨rfl, ?_⟩
    rcases check_crtc_fields_eq info mode with h4 | h4 <;>
      rcases check_vram_eq vram_size mode (mode_valid_bpp info cmdline_mode) with h5 | h5 <;>
      rcases check_catalog_eq info mode (mode_valid_bpp info cmdline_mode) with h6 | h6 <;>
      simp [h4, h5, h6, first_failure]
  · intro h
    rw [if_neg h]
    rfl

/-- Witness of C8: the 800x600 @ 56 Hz mode on the 6202, all horizontal fields multiples
of 8. -/
theorem mode_valid_dot_unit_witness :
    all_multiples 8 mode_800x600_56 ∧
    (sisvga_connector_helper_mode_valid_vga sisvga_device_info_6202 (2 * 1024 * 1024)
        cmdline_8bpp mode_800x600_56).1 ≠ MODE_H_ILLEGAL :=
  ⟨by decide,
   ((mode_valid_dot_unit sisvga_device_info_6202 (2 * 1024 * 1024) cmdline_8bpp
      mode_800x600_56 (by decide) (by decide)).2.1 (Or.inl (by decide))).2⟩

theorem mode_valid_vram_in_range (info : sisvga_device_info) (vram_size : Nat)
    (cmdline_mode : drm_cmdline_mode) (mode : drm_display_mode)
    (h1 : check_clock info mode = none) (h2 : check_display_size info mode = none)
    (h3 : check_dot_unit mode = none) (h4 : check_crtc_fields info mode = none)
    (hlo : 0 ≤ mode.hdisplay * mode.vdisplay * (mode_valid_bpp info cmdline_mode).tdiv 8)
    (hhi : mode.hdisplay * mode.vdisplay * (mode_valid_bpp info cmdline_mode).tdiv 8
      < 2147483648) :
    (check_vram vram_size mode (mode_valid_bpp info cmdline_mode) = some MODE_BAD ↔
      (vram_size : Int) <
        mode.hdisplay * mode.vdisplay * (mode_valid_bpp info cmdline_mode).tdiv 8) ∧
    ((vram_size : Int) <
        mode.hdisplay * mode.vdisplay * (mode_valid_bpp info cmdline_mode).tdiv 8 →
      (sisvga_connector_helper_mode_valid_vga info vram_size cmdline_mode mode).1 =
        MODE_BAD) ∧
    (mode.hdisplay * mode.vdisplay * (mode_valid_bpp info cmdline_mode).tdiv 8 ≤ vram_size →
      (sisvga_connector_helper_mode_valid_vga info vram_size cmdline_mode mode).1 =
        first_failure [check_catalog info mode (mode_valid_bpp info cmdline_mode)]) := by
  rw [mode_valid_status, h1, h2, h3, h4, check_vram_of_small vram_size mode _ hlo hhi]
  refine ⟨?_, ?_, ?_⟩
  · split_ifs with h <;> simp [h]
  · intro h
    rw [if_pos h]
    rfl
  · intro h
    rw [if_neg (not_lt.mpr h)]
    rfl

theorem device_info_max_display (model : sisvga_model) :
    (sisvga_device_info_list model).max_hdisplay ≤ 2048 ∧
    (sisvga_device_info_list model).max_vdisplay ≤ 2048 := by
  cases model <;> decide

theorem check_display_size_none (info : sisvga_device_info) (mode : drm_display_mode)
    (h : check_display_size info mode = none) :
    mode.hdisplay ≤ info.max_hdisplay ∧ mode.vdisplay ≤ info.max_vdisplay := by
  unfold check_display_size at h
  split_ifs at h with a b
  exact ⟨not_lt.mp a, not_lt.mp b⟩

theorem vram_product_in_range (model : sisvga_model) (mode : drm_display_mode) (bpp : Int)
    (h2 : check_display_size (sisvga_device_info_list model) mode = none)
    (hh : 0 ≤ mode.hdisplay) (hv : 0 ≤ mode.vdisplay) (hb0 : 0 ≤ bpp) (hb1 : bpp ≤ 32) :
    0 ≤ mode.hdisplay * mode.vdisplay * bpp.tdiv 8 ∧
    mode.hdisplay * mode.vdisplay * bpp.tdiv 8 < 2147483648 := by
  obtain ⟨a, b⟩ := check_display_size_none _ _ h2
  obtain ⟨x3, x6⟩ := device_info_max_display model
  have q : bpp.tdiv 8 = bpp / 8 := Int.tdiv_eq_ediv hb0 (by omega)
  rw [q]
  have q0 : 0 ≤ bpp / 8 := by omega
  have q1 : bpp / 8 ≤ 4 := by omega
  have p0 : 0 ≤ mode.hdisplay * mode.vdisplay := mul_nonneg hh hv
  have p1 : mode.hdisplay * mode.vdisplay ≤ 2048 * 2048 :=
    mul_le_mul (by omega) (by omega) hv (by omega)
  have r1 : mode.hdisplay * mode.vdisplay * (bpp / 8) ≤ 2048 * 2048 * 4 :=
    mul_le_mul p1 q1 q0 (by omega)
  exact ⟨mul_nonneg p0 q0, by omega⟩

set_option maxRecDepth 100000 in
/-- C9 fails on the code: the memory check computes `hdisplay * vdisplay * (bpp / 8)` as an
`int`, with the depth of the command line as it was given, and the product wraps. With
`video=800x600-71582792` the 800x600 @ 56 Hz mode passes checks 1 to 4 on the 6202; its
size is 480000 * 8947849 = 4294967520000 bytes, the `int` holds 224000, and the check lets
the mode through with 1 MiB of VRAM, and with every size from 224000 bytes on: the
validator goes on to the catalog check, which returns `MODE_BAD` for the depth, and leaves
`cmdline_mode.specified` set, where the memory check clears it. When the product is a
non-negative `int`, as it is for every depth from 0 to 32 on a mode with non-negative
sizes that passes check 2, the memory check fails exactly when the product exceeds the
VRAM size, and the validator returns the result of the catalog check otherwise; 800x600 at
8 bpp needs 480000 bytes and is rejected with 256 KiB of VRAM. -/
theorem mode_valid_vram_size_wraps :
    (check_clock sisvga_device_info_6202 mode_800x600_56 = none ∧
      check_display_size sisvga_device_info_6202 mode_800x600_56 = none ∧
      check_dot_unit mode_800x600_56 = none ∧
      check_crtc_fields sisvga_device_info_6202 mode_800x600_56 = none) ∧
    mode_valid_bpp sisvga_device_info_6202 cmdline_bpp_71582792 = 71582792 ∧
    mode_800x600_56.hdisplay * mode_800x600_56.vdisplay * (71582792 : Int).tdiv 8 =
      4294967520000 ∧
    int_mul (int_mul mode_800x600_56.hdisplay mode_800x600_56.vdisplay)
      ((71582792 : Int).tdiv 8) = 224000 ∧
    (∀ vram_size : Nat, 224000 ≤ vram_size →
      check_vram vram_size mode_800x600_56 71582792 = none) ∧
    check_catalog sisvga_device_info_6202 mode_800x600_56 71582792 = some MODE_BAD ∧
    sisvga_connector_helper_mode_valid_vga sisvga_device_info_6202 (1024 * 1024)
      cmdline_bpp_71582792 mode_800x600_56 = (MODE_BAD, cmdline_bpp_71582792) ∧
    (∀ (info : sisvga_device_info) (vram_size : Nat) (cmdline_mode : drm_cmdline_mode)
      (mode : drm_display_mode),
      check_clock info mode = none → check_display_size info mode = none →
      check_dot_unit mode = none → check_crtc_fields info mode = none →
      0 ≤ mode.hdisplay * mode.vdisplay * (mode_valid_bpp info cmdline_mode).tdiv 8 →
      mode.hdisplay * mode.vdisplay * (mode_valid_bpp info cmdline_mode).tdiv 8
        < 2147483648 →
      (check_vram vram_size mode (mode_valid_bpp info cmdline_mode) = some MODE_BAD ↔
        (vram_size : Int) <
          mode.hdisplay * mode.vdisplay * (mode_valid_bpp info cmdline_mode).tdiv 8) ∧
      ((vram_size : Int) <
          mode.hdisplay * mode.vdisplay * (mode_valid_bpp info cmdline_mode).tdiv 8 →
        (sisvga_connector_helper_mode_valid_vga info vram_size cmdline_mode mode).1 =
          MODE_BAD) ∧
      (mode.hdisplay * mode.vdisplay * (mode_valid_bpp info cmdline_mode).tdiv 8
          ≤ vram_size →
        (sisvga_connector_helper_mode_valid_vga info vram_size cmdline_mode mode).1 =
          first_failure [check_catalog info mode (mode_valid_bpp info cmdline_mode)])) ∧
    (∀ (model : sisvga_model) (mode : drm_display_mode) (bpp : Int),
      check_display_size (sisvga_device_info_list model) mode = none →
      0 ≤ mode.hdisplay → 0 ≤ mode.vdisplay → 0 ≤ bpp → bpp ≤ 32 →
      0 ≤ mode.hdisplay * mode.vdisplay * bpp.tdiv 8 ∧
      mode.hdisplay * mode.vdisplay * bpp.tdiv 8 < 2147483648) ∧
    (mode_800x600_56.hdisplay * mode_800x600_56.vdisplay * (8 : Int).tdiv 8 = 480000 ∧
      check_vram (256 * 1024) mode_800x600_56 8 = some MODE_BAD ∧
      sisvga_connector_helper_mode_valid_vga sisvga_device_info_6202 (256 * 1024)
        cmdline_8bpp mode_800x600_56 =
          (MODE_BAD, { cmdline_8bpp with specified := false })) := by
  refine ⟨by decide, by decide, by decide, by decide, fun v hv => ?_, by decide, by decide,
    fun info v c m h1 h2 h3 h4 hlo hhi =>
      mode_valid_vram_in_range info v c m h1 h2 h3 h4 hlo hhi,
    fun model m b h2 hh hv hb0 hb1 => vram_product_in_range model m b h2 hh hv hb0 hb1,
    by decide, by decide, by decide⟩
  have e : int_to_resource_size (int_mul (int_mul mode_800x600_56.hdisplay
      mode_800x600_56.vdisplay) ((71582792 : Int).tdiv 8)) = 224000 := by decide
  unfold check_vram
  rw [e, if_neg (by omega)]

/-- C10, as stated, fails: on the 6202 with 2 MiB of VRAM and the default 24 bpp, a mode
with vtotal above the maximum fails first at check 4, the 1024x768 mode first at check 5
and a 640x480 mode with a clock the catalog does not list for it first at check 6, and all
three are reported with `MODE_BAD`, so the three reasons are not pairwise different. -/
theorem mode_valid_three_checks_same_reason :
    (first_failure [check_clock sisvga_device_info_6202 mode_vtotal_1100,
        check_display_size sisvga_device_info_6202 mode_vtotal_1100,
        check_dot_unit mode_vtotal_1100] = MODE_OK ∧
      check_crtc_fields sisvga_device_info_6202 mode_vtotal_1100 ≠ none) ∧
    (first_failure [check_clock sisvga_device_info_6202 mode_1024x768_60,
        check_display_size sisvga_device_info_6202 mode_1024x768_60,
        check_dot_unit mode_1024x768_60,
        check_crtc_fields sisvga_device_info_6202 mode_1024x768_60] = MODE_OK ∧
      check_vram (2 * 1024 * 1024) mode_1024x768_60 24 ≠ none) ∧
    (first_failure [check_clock sisvga_device_info_6202 mode_640x480_36000,
        check_display_size sisvga_device_info_6202 mode_640x480_36000,
        check_dot_unit mode_640x480_36000,
        check_crtc_fields sisvga_device_info_6202 mode_640x480_36000,
        check_vram (2 * 1024 * 1024) mode_640x480_36000 24] = MODE_OK ∧
      check_catalog sisvga_device_info_6202 mode_640x480_36000 24 ≠ none) ∧
    (sisvga_connector_helper_mode_valid_vga sisvga_device_info_6202 (2 * 1024 * 1024) {}
      mode_vtotal_1100).1 = MODE_BAD ∧
    (sisvga_connector_helper_mode_valid_vga sisvga_device_info_6202 (2 * 1024 * 1024) {}
      mode_1024x768_60).1 = MODE_BAD ∧
    (sisvga_connector_helper_mode_valid_vga sisvga_device_info_6202 (2 * 1024 * 1024) {}
      mode_640x480_36000).1 = MODE_BAD ∧
    ¬ ((sisvga_connector_helper_mode_valid_vga sisvga_device_info_6202 (2 * 1024 * 1024) {}
          mode_vtotal_1100).1 ≠
        (sisvga_connector_helper_mode_valid_vga sisvga_device_info_6202 (2 * 1024 * 1024) {}
          mode_1024x768_60).1 ∧
      (sisvga_connector_helper_mode_valid_vga sisvga_device_info_6202 (2 * 1024 * 1024) {}
          mode_1024x768_60).1 ≠
        (sisvga_connector_helper_mode_valid_vga sisvga_device_info_6202 (2 * 1024 * 1024) {}
          mode_640x480_36000).1 ∧
      (sisvga_connector_helper_mode_valid_vga sisvga_device_info_6202 (2 * 1024 * 1024) {}
          mode_vtotal_1100).1 ≠
        (sisvga_connector_helper_mode_valid_vga sisvga_device_info_6202 (2 * 1024 * 1024) {}
          mode_640x480_36000).1) := by
  decide

/-- C10, amended: for a mode that passes checks 1 to 3, a CRTC timing field above the
device maximum (check 4), a framebuffer larger than VRAM (check 5) and a mode absent from
the catalog (check 6) are all reported with the one reason `MODE_BAD`. -/
theorem mode_valid_mode_bad (info : sisvga_device_info) (vram_size : Nat)
    (cmdline_mode : drm_cmdline_mode) (mode : drm_display_mode)
    (h1 : check_clock info mode = none) (h2 : check_display_size info mode = none)
    (h3 : check_dot_unit mode = none) :
    (check_crtc_fields info mode ≠ none →
      (sisvga_connector_helper_mode_valid_vga info vram_size cmdline_mode mode).1 =
        MODE_BAD) ∧
    (check_crtc_fields info mode = none →
      check_vram vram_size mode (mode_valid_bpp info cmdline_mode) ≠ none →
      (sisvga_connector_helper_mode_valid_vga info vram_size cmdline_mode mode).1 =
        MODE_BAD) ∧
    (check_crtc_fields info mode = none →
      check_vram vram_size mode (mode_valid_bpp info cmdline_mode) = none →
      check_catalog info mode (mode_valid_bpp info cmdline_mode) ≠ none →
      (sisvga_connector_helper_mode_valid_vga info vram_size cmdline_mode mode).1 =
        MODE_BAD) := by
  rw [mode_valid_status, h1, h2, h3]
  rcases check_crtc_fields_eq info mode with h4 | h4 <;>
    rcases check_vram_eq vram_size mode (mode_valid_bpp info cmdline_mode) with h5 | h5 <;>
    rcases check_catalog_eq info mode (mode_valid_bpp info cmdline_mode) with h6 | h6 <;>
    simp [h4, h5, h6, first_failure]

/-- Witness of C10 (amended): the 1024x768 mode at 24 bpp on the 6202 with 2 MiB of VRAM
fails the VRAM check and is reported with `MODE_BAD`. -/
theorem mode_valid_mode_bad_witness :
    (sisvga_connector_helper_mode_valid_vga sisvga_device_info_6202 (2 * 1024 * 1024) {}
        mode_1024x768_60).1 = MODE_BAD :=
  (mode_valid_mode_bad sisvga_device_info_6202 (2 * 1024 * 1024) {} mode_1024x768_60
    (by decide) (by decide) (by decide)).2.1 (by decide) (by decide)

/-! ## The idealised register file: what the transport operations do on it -/

theorem RREG8_vga_misc (s : vga_regs) :
    RREG8 vga_ports REG_MISC_IN s = (s.misc % 256, s) := rfl

theorem WREG8_vga_misc (v : Nat) (s : vga_regs) :
    WREG8 vga_ports REG_MISC_OUT v s = { s with misc := v % 256 } := rfl

theorem RREG_SR_vga (r : Nat) (s : vga_regs) :
    RREG_SR vga_ports r s = (s.sr (r % 256) % 256, { s with sri := r % 256 }) := rfl

theorem WREG_SR_vga (r v : Nat) (s : vga_regs) :
    WREG_SR vga_ports r v s =
      { s with sri := r % 256, sr := Function.update s.sr (r % 256) (v % 256) } := rfl

theorem RREG_CR_vga (r : Nat) (s : vga_regs) :
    RREG_CR vga_ports r s = (s.cr (r % 256) % 256, { s with cri := r % 256 }) := rfl

theorem WREG_CR_vga (r v : Nat) (s : vga_regs) :
    WREG_CR vga_ports r v s =
      { s with cri := r % 256, cr := Function.update s.cr (r % 256) (v % 256) } := rfl

theorem WAIT8_MASKED_vga_misc (n v mask : Nat) (s : vga_regs) :
    WAIT8_MASKED vga_ports (n + 1) REG_MISC_IN v mask s =
      if (s.misc % 256) &&& (mask % 256) = (v &&& (mask % 256)) % 256 then some s
      else none := by
  induction n with
  | zero =>
    unfold WAIT8_MASKED
    simp only [RREG8_MASKED, RREG8_vga_misc]
    split_ifs <;> rfl
  | succ k ih =>
    unfold WAIT8_MASKED
    simp only [RREG8_MASKED, RREG8_vga_misc]
    split_ifs with h
    · rfl
    · rw [ih, if_neg h]

theorem WAIT8_vga_sr (n v : Nat) (s : vga_regs) :
    WAIT8 vga_ports (n + 1) REG_SR v s =
      if s.sr s.sri % 256 = v % 256 then some s else none := by
  have hr : RREG8 vga_ports REG_SR s = (s.sr s.sri % 256, s) := rfl
  induction n with
  | zero =>
    unfold WAIT8
    simp only [hr]
    split_ifs <;> rfl
  | succ k ih =>
    unfold WAIT8
    simp only [hr]
    split_ifs with h1
    · rfl
    · rw [ih, if_neg h1]

theorem WAIT8_MASKED_vga_sr (n v mask : Nat) (s : vga_regs) :
    WAIT8_MASKED vga_ports (n + 1) REG_SR v mask s =
      if (s.sr s.sri % 256) &&& (mask % 256) = (v &&& (mask % 256)) % 256 then some s
      else none := by
  have hr : RREG8 vga_ports REG_SR s = (s.sr s.sri % 256, s) := rfl
  induction n with
  | zero =>
    unfold WAIT8_MASKED
    simp only [RREG8_MASKED, hr]
    split_ifs <;> rfl
  | succ k ih =>
    unfold WAIT8_MASKED
    simp only [RREG8_MASKED, hr]
    split_ifs with h1
    · rfl
    · rw [ih, if_neg h1]

theorem WAIT_SR_MASKED_vga (n r v mask : Nat) (s : vga_regs) :
    WAIT_SR_MASKED vga_ports (n + 1) r v mask s =
      if (s.sr (r % 256) % 256) &&& (mask % 256) = (v &&& (mask % 256)) % 256 then
        some { s with sri := r % 256 }
      else none := by
  unfold WAIT_SR_MASKED WAIT_I_MASKED
  rw [WAIT8_MASKED_vga_sr]
  rfl

theorem WAIT_SR_vga (n r v : Nat) (s : vga_regs) :
    WAIT_SR vga_ports (n + 1) r v s =
      if s.sr (r % 256) % 256 = v % 256 then some { s with sri := r % 256 } else none := by
  unfold WAIT_SR WAIT_I
  rw [WAIT8_vga_sr]
  rfl

theorem byte_and_239 (g : Nat) : g % 256 % 256 &&& 239 = (g &&& 239) % 256 := by
  have h1 : (g &&& 239) % 256 = g &&& 239 :=
    Nat.mod_eq_of_lt (Nat.lt_of_le_of_lt Nat.and_le_right (by decide))
  have h2 : g % 256 = g &&& (2 ^ 8 - 1) := (Nat.and_pow_two_sub_one_eq_mod g 8).symm
  rw [h1, Nat.mod_mod, h2, Nat.and_assoc]
  rfl

set_option maxRecDepth 100000 in
theorem byte_select (x : Nat) (freq : sisvga_freq) :
    (x % 256 &&& 252 ||| freqi_bits_list freq) % 256 % 256 &&& 3 =
      (freqi_bits_list freq &&& 3) % 256 := by
  have key : ∀ y, y < 256 → ∀ f, f < 3 →
      (y &&& 252 ||| f) % 256 % 256 &&& 3 = (f &&& 3) % 256 := by decide
  cases freq
  · exact key _ (Nat.mod_lt _ (by decide)) 0 (by decide)
  · exact key _ (Nat.mod_lt _ (by decide)) 1 (by decide)
  · exact key _ (Nat.mod_lt _ (by decide)) 2 (by decide)

theorem set_display_mode_read_vga (n : Nat) (info : sisvga_device_info) (freq : sisvga_freq)
    (s : vga_regs) :
    set_display_mode_read vga_ports (n + 1) info (freqi_bits_list freq) s =
      some (vga_display_mode_reads info freq s,
            { s with
              cri := 0x17,
              sri := if MODEL_IS_GE info SISVGA_MODEL_6326 then 0x38 else 0x2b,
              sr := Function.update s.sr 0x38
                ((s.sr 0x38 % 256 &&& 252 ||| freqi_bits_list freq) % 256) }) := by
  unfold set_display_mode_read vga_display_mode_reads
  simp only [RREG8_vga_misc, RREG_SR_vga, RREG_CR_vga, WREG_SR_vga, WAIT_SR_MASKED_vga,
    Nat.reduceMod, Function.update_same, if_pos (byte_select (s.sr 56) freq)]
  cases MODEL_IS_GE info SISVGA_MODEL_6326 <;>
    simp [Function.update_noteq]

theorem set_display_mode_write_vga (n : Nat) (info : sisvga_device_info) (freq : sisvga_freq)
    (g : display_mode_regs) (s : vga_regs) :
    set_display_mode_write vga_ports (n + 1) info freq g s =
      some { s with
        misc := g.misc % 256,
        sri := if MODEL_IS_GE info SISVGA_MODEL_6326 then 0x38 else 0x07,
        sr := vga_write_sr info freq g s.sr,
        cri := 0x18,
        cr := vga_write_cr g s.cr } := by
  unfold set_display_mode_write vga_write_sr vga_write_cr
  simp only [WREG8_vga_misc, WREG_SR_vga, WREG_CR_vga, WAIT8_MASKED_vga_misc,
    Nat.reduceMod, if_pos (byte_and_239 g.misc)]
  cases MODEL_IS_GE info SISVGA_MODEL_6326 <;> by_cases hf : freq = SISVGA_FREQ_14318 <;>
    simp [hf]

theorem set_display_mode_vga (n : Nat) (info : sisvga_device_info) (mode : drm_display_mode)
    (s : vga_regs) (vclk : sisvga_vclk) (r : sisvga_vclk_regs_out)
    (hv : sisvga_vclk_of_clock (int_to_uint mode.clock) = .ok vclk)
    (hr : sisvga_vclk_regs vclk = some r) :
    set_display_mode vga_ports (n + 1) info mode s =
      .ret (0, vga_display_mode_image info mode r s) := by
  unfold set_display_mode vga_display_mode_image
  rw [hv]
  simp only [hr, set_display_mode_read_vga, set_display_mode_write_vga]

theorem debug_print_mode_read_vga (s : vga_regs) :
    debug_print_mode_read vga_ports s =
      (vga_debug_mode_reads s, { s with sri := 0x0a, cri := 0x16 }) := by
  unfold debug_print_mode_read vga_debug_mode_reads
  simp only [RREG8_vga_misc, RREG_SR_vga, RREG_CR_vga, Nat.reduceMod]

set_option maxRecDepth 100000 in
theorem byte_select_debug (x misc fr freqi : Nat)
    (h : debug_print_mode_fr misc = some (fr, freqi)) :
    (x % 256 &&& 252 ||| freqi) % 256 &&& 3 = (freqi &&& 3) % 256 := by
  have key : ∀ y, y < 256 → ∀ f, f < 3 →
      (y &&& 252 ||| f) % 256 &&& 3 = (f &&& 3) % 256 := by decide
  have hf : freqi < 3 := by
    unfold debug_print_mode_fr at h
    split_ifs at h <;> simp only [Option.some.injEq, Prod.mk.injEq] at h <;> omega
  exact key _ (Nat.mod_lt _ (by decide)) freqi hf

theorem sisvga_debug_print_mode_vga (n : Nat) (s : vga_regs) :
    (sisvga_debug_print_mode vga_ports (n + 1) s).value =
      (debug_print_mode_fr (s.misc % 256)).map fun p =>
        { debug_print_mode_timings (vga_debug_mode_reads s) with
          clock := ((debug_print_mode_clock p.1 (s.sr 0x13 % 256) (s.sr 0x2a % 256)
            (s.sr 0x2b % 256) : Nat) : Int) } := by
  unfold sisvga_debug_print_mode
  simp only [debug_print_mode_read_vga]
  have hm : (vga_debug_mode_reads s).misc = s.misc % 256 := rfl
  rw [hm]
  cases hfr : debug_print_mode_fr (s.misc % 256) with
  | none => rfl
  | some p =>
    obtain ⟨fr, freqi⟩ := p
    simp only [RREG_SR_vga, WREG_SR_vga, WAIT_SR_MASKED_vga, WAIT_SR_vga, Nat.reduceMod,
      Function.update_same, Nat.mod_mod, if_pos (byte_select_debug (s.sr 56) _ fr freqi hfr),
      if_true]
    simp [run.value, Function.update_noteq]

theorem sisvga_vclk_regs_total (vclk : sisvga_vclk) : ∃ r, sisvga_vclk_regs vclk = some r := by
  cases vclk <;> exact ⟨_, rfl⟩

theorem decode_after_set_vga (n : Nat) (info : sisvga_device_info) (mode : drm_display_mode)
    (s : vga_regs) (vclk : sisvga_vclk) (r : sisvga_vclk_regs_out)
    (hv : sisvga_vclk_of_clock (int_to_uint mode.clock) = .ok vclk)
    (hr : sisvga_vclk_regs vclk = some r) :
    decode_after_set (n + 1) info mode s =
      (debug_print_mode_fr ((vga_display_mode_image info mode r s).misc % 256)).map fun p =>
        { debug_print_mode_timings
            (vga_debug_mode_reads (vga_display_mode_image info mode r s)) with
          clock := ((debug_print_mode_clock p.1
            ((vga_display_mode_image info mode r s).sr 0x13 % 256)
            ((vga_display_mode_image info mode r s).sr 0x2a % 256)
            ((vga_display_mode_image info mode r s).sr 0x2b % 256) : Nat) : Int) } := by
  unfold decode_after_set
  rw [set_display_mode_vga n info mode s vclk r hv hr]
  exact sisvga_debug_print_mode_vga n _

theorem vga_write_cr_apply (g : display_mode_regs) (cr : Nat → Nat) :
    vga_write_cr g cr 0x00 = g.cr00 % 256 ∧ vga_write_cr g cr 0x01 = g.cr01 % 256 ∧
    vga_write_cr g cr 0x04 = g.cr04 % 256 ∧ vga_write_cr g cr 0x05 = g.cr05 % 256 ∧
    vga_write_cr g cr 0x06 = g.cr06 % 256 ∧ vga_write_cr g cr 0x07 = g.cr07 % 256 ∧
    vga_write_cr g cr 0x08 = g.cr08 % 256 ∧ vga_write_cr g cr 0x09 = g.cr09 % 256 ∧
    vga_write_cr g cr 0x10 = g.cr10 % 256 ∧ vga_write_cr g cr 0x11 = g.cr11 % 256 ∧
    vga_write_cr g cr 0x12 = g.cr12 % 256 ∧ vga_write_cr g cr 0x14 = g.cr14 % 256 ∧
    vga_write_cr g cr 0x17 = g.cr17 % 256 := by
  simp [vga_write_cr, Function.update]

theorem vga_write_sr_apply (info : sisvga_device_info) (freq : sisvga_freq)
    (g : display_mode_regs) (sr : Nat → Nat) :
    vga_write_sr info freq g sr 0x01 = g.sr01 % 256 ∧
    vga_write_sr info freq g sr 0x0a = g.sr0a % 256 ∧
    vga_write_sr info freq g sr 0x06 = g.sr06 % 256 ∧
    vga_write_sr info freq g sr 0x07 = g.sr07 % 256 ∧
    (MODEL_IS_GE info SISVGA_MODEL_6326 = true →
      vga_write_sr info freq g sr 0x12 = g.sr12 % 256 ∧
      vga_write_sr info freq g sr 0x38 = g.sr38 % 256) ∧
    (freq = SISVGA_FREQ_14318 →
      vga_write_sr info freq g sr 0x2a = g.sr2a % 256 ∧
      vga_write_sr info freq g sr 0x2b = g.sr2b % 256) := by
  unfold vga_write_sr
  cases MODEL_IS_GE info SISVGA_MODEL_6326 <;> by_cases hf : freq = SISVGA_FREQ_14318 <;>
    simp [hf, Function.update]

set_option maxRecDepth 100000 in
theorem image_misc_fr (info : sisvga_device_info) (mode : drm_display_mode)
    (r : sisvga_vclk_regs_out) (rd : display_mode_reads) (hm : rd.misc < 256) :
    debug_print_mode_fr ((set_display_mode_regs info mode r rd).misc % 256 % 256) =
      some (match r.freq with
        | SISVGA_FREQ_14318 => (14813, 0x00)
        | SISVGA_FREQ_25175 => (25175, 0x01)
        | SISVGA_FREQ_28322 => (28322, 0x02)) := by
  have key : ∀ y, y < 256 → ∀ c, c < 4 →
      (((y &&& 63) &&& 243 ||| c <<< 2) % 256 % 256) &&& 12 = c <<< 2 ∧
      (((y &&& 63 ||| 128) &&& 243 ||| c <<< 2) % 256 % 256) &&& 12 = c <<< 2 ∧
      (((y &&& 63 ||| 64) &&& 243 ||| c <<< 2) % 256 % 256) &&& 12 = c <<< 2 ∧
      (((y &&& 63 ||| 128 ||| 64) &&& 243 ||| c <<< 2) % 256 % 256) &&& 12 = c <<< 2 := by
    decide
  have hc : freq_bits_list r.freq < 4 := by cases r.freq <;> decide
  have k := key rd.misc hm (freq_bits_list r.freq) hc
  have e : (set_display_mode_regs info mode r rd).misc =
      ((if mode.flags &&& DRM_MODE_FLAG_NHSYNC ≠ 0 then
          (if mode.flags &&& DRM_MODE_FLAG_NVSYNC ≠ 0 then rd.misc &&& 0x3f ||| 0x80
            else rd.misc &&& 0x3f) ||| 0x40
        else
          (if mode.flags &&& DRM_MODE_FLAG_NVSYNC ≠ 0 then rd.misc &&& 0x3f ||| 0x80
            else rd.misc &&& 0x3f)) &&& 0xf3) ||| (freq_bits_list r.freq <<< 2) := rfl
  have hz : ((set_display_mode_regs info mode r rd).misc % 256 % 256) &&& 12 =
      freq_bits_list r.freq <<< 2 := by
    rw [e]
    by_cases h1 : mode.flags &&& DRM_MODE_FLAG_NHSYNC ≠ 0 <;>
      by_cases h2 : mode.flags &&& DRM_MODE_FLAG_NVSYNC ≠ 0
    · rw [if_pos h1, if_pos h2]; exact k.2.2.2
    · rw [if_pos h1, if_neg h2]; exact k.2.2.1
    · rw [if_neg h1, if_pos h2]; exact k.2.1
    · rw [if_neg h1, if_neg h2]; exact k.1
  unfold debug_print_mode_fr
  rw [hz]
  cases r.freq <;> rfl

theorem and_single_bit (x k : Nat) : x &&& 2 ^ k = 0 ∨ x &&& 2 ^ k = 2 ^ k := by
  cases hb : x.testBit k with
  | false =>
    left
    apply Nat.eq_of_testBit_eq
    intro i
    rw [Nat.testBit_and, Nat.testBit_two_pow, Nat.zero_testBit]
    by_cases hki : k = i
    · subst hki; simp [hb]
    · simp [hki]
  | true =>
    right
    apply Nat.eq_of_testBit_eq
    intro i
    rw [Nat.testBit_and, Nat.testBit_two_pow]
    by_cases hki : k = i
    · subst hki; simp [hb]
    · simp [hki]

theorem int_and_natCast (k m : Nat) (hk : k < 4294967296) : int_and (k : Int) m = k &&& m := by
  unfold int_and int_to_uint
  have : ((k : Int) % 4294967296).toNat = k := by omega
  rw [this]

theorem int_and_single_bit (x : Int) (k : Nat) :
    int_and x (2 ^ k) = 0 ∨ int_and x (2 ^ k) = 2 ^ k :=
  and_single_bit _ k

set_option maxRecDepth 1000000 in
set_option maxHeartbeats 4000000 in
theorem hdisplay_bits_key : ∀ k, k < 512 → ∀ a ∈ [0, 64], ∀ b ∈ [0, 256], ∀ c ∈ [0, 256],
    ∀ e ∈ [0, 256],
    (((a >>> 2 ||| b >>> 5 ||| c >>> 6 ||| (k &&& 256) >>> 7 ||| e >>> 8) % 256 % 256)
      &&& 2) <<< 7 ||| ((k &&& 255) % 256 % 256) = k := by
  decide

set_option maxRecDepth 100000 in
theorem image_dots (info : sisvga_device_info) (mode : drm_display_mode)
    (r : sisvga_vclk_regs_out) (rd : display_mode_reads) (hx : rd.sr01 < 256) :
    (((if (set_display_mode_regs info mode r rd).sr01 % 256 % 256 &&& 0x01 ≠ 0 then 8 else 9
      : Nat) : Int)) = dot_unit mode := by
  have key : ∀ y, y < 256 →
      ((y &&& 254 ||| 8) % 256 % 256) &&& 1 = 0 ∧
      ((y &&& 254 &&& 247) % 256 % 256) &&& 1 = 0 ∧
      ((y ||| 1 ||| 8) % 256 % 256) &&& 1 = 1 ∧
      (((y ||| 1) &&& 247) % 256 % 256) &&& 1 = 1 := by
    decide
  have k := key rd.sr01 hx
  have e : (set_display_mode_regs info mode r rd).sr01 =
      if mode.flags &&& DRM_MODE_FLAG_CLKDIV2 ≠ 0 then
        (if (if is_9_dot_mode mode then (9 : Int) else 8) = 9 then rd.sr01 &&& 0xfe
          else rd.sr01 ||| 0x01) ||| 0x08
      else
        (if (if is_9_dot_mode mode then (9 : Int) else 8) = 9 then rd.sr01 &&& 0xfe
          else rd.sr01 ||| 0x01) &&& 0xf7 := rfl
  rw [e]
  unfold dot_unit
  cases is_9_dot_mode mode <;> by_cases h1 : mode.flags &&& DRM_MODE_FLAG_CLKDIV2 ≠ 0
  · rw [if_pos h1]
    simp only [Bool.false_eq_true, if_false, show ¬ ((8 : Int) = 9) from by decide]
    rw [k.2.2.1]
    rfl
  · rw [if_neg h1]
    simp only [Bool.false_eq_true, if_false, show ¬ ((8 : Int) = 9) from by decide]
    rw [k.2.2.2]
    rfl
  · rw [if_pos h1]
    simp only [if_true]
    rw [k.1]
    rfl
  · rw [if_neg h1]
    simp only [if_true]
    rw [k.2.1]
    rfl

theorem image_hdisplay (info : sisvga_device_info) (mode : drm_display_mode)
    (r : sisvga_vclk_regs_out) (s : vga_regs)
    (hge : MODEL_IS_GE info SISVGA_MODEL_6326 = true)
    (hlo : dot_unit mode ≤ mode.crtc_hdisplay) (hhi : mode.crtc_hdisplay ≤ 512 * dot_unit mode) :
    (debug_print_mode_timings
        (vga_debug_mode_reads (vga_display_mode_image info mode r s))).hdisplay =
      mode.crtc_hdisplay.tdiv (dot_unit mode) * dot_unit mode := by
  have hd : dot_unit mode = 8 ∨ dot_unit mode = 9 := by
    unfold dot_unit; cases is_9_dot_mode mode <;> simp
  have hq : mode.crtc_hdisplay.tdiv (dot_unit mode) = mode.crtc_hdisplay / dot_unit mode :=
    Int.tdiv_eq_ediv (by omega) (by omega)
  obtain ⟨k, hk⟩ : ∃ k : Nat, mode.crtc_hdisplay.tdiv (dot_unit mode) - 1 = (k : Int) :=
    ⟨(mode.crtc_hdisplay.tdiv (dot_unit mode) - 1).toNat, by
      rw [hq]; rcases hd with h | h <;> rw [h] at hlo ⊢ <;> omega⟩
  have hk512 : k < 512 := by
    rw [hq] at hk; rcases hd with h | h <;> rw [h] at hk hhi <;> omega
  have e12 : (vga_display_mode_image info mode r s).sr 0x12 =
      (set_display_mode_regs info mode r (vga_display_mode_reads info r.freq s)).sr12 % 256 :=
    ((vga_write_sr_apply info r.freq _ _).2.2.2.2.1 hge).1
  have e01 : (vga_display_mode_image info mode r s).sr 0x01 =
      (set_display_mode_regs info mode r (vga_display_mode_reads info r.freq s)).sr01 % 256 :=
    (vga_write_sr_apply info r.freq _ _).1
  have ec : (vga_display_mode_image info mode r s).cr 0x01 =
      (set_display_mode_regs info mode r (vga_display_mode_reads info r.freq s)).cr01 % 256 :=
    (vga_write_cr_apply _ s.cr).2.1
  have hh : (debug_print_mode_timings
        (vga_debug_mode_reads (vga_display_mode_image info mode r s))).hdisplay =
      ((((((vga_display_mode_image info mode r s).sr 0x12 % 256 &&& 0x02) <<< 7 |||
            (vga_display_mode_image info mode r s).cr 0x01 % 256) + 1) *
          (if (vga_display_mode_image info mode r s).sr 0x01 % 256 &&& 0x01 ≠ 0 then 8
            else 9) : Nat) : Int) := rfl
  rw [hh, e12, e01, ec]
  have g12 : (set_display_mode_regs info mode r (vga_display_mode_reads info r.freq s)).sr12 =
      ((int_and (mode.crtc_hblank_end.tdiv (dot_unit mode) - 1) 0x40) >>> 2) |||
      ((int_and (mode.crtc_hsync_start.tdiv (dot_unit mode) - 1) 0x100) >>> 5) |||
      ((int_and (mode.crtc_hblank_start.tdiv (dot_unit mode) - 1) 0x100) >>> 6) |||
      ((int_and (mode.crtc_hdisplay.tdiv (dot_unit mode) - 1) 0x100) >>> 7) |||
      ((int_and (mode.crtc_htotal.tdiv (dot_unit mode) - 5) 0x100) >>> 8) := by
    have hge2 := hge
    unfold set_display_mode_regs
    simp only [hge2, if_true]
    unfold dot_unit
    rfl
  have gc : (set_display_mode_regs info mode r (vga_display_mode_reads info r.freq s)).cr01 =
      int_and (mode.crtc_hdisplay.tdiv (dot_unit mode) - 1) 0xff := rfl
  rw [g12, gc, hk, int_and_natCast k _ (by omega), int_and_natCast k _ (by omega)]
  have ha := int_and_single_bit (mode.crtc_hblank_end.tdiv (dot_unit mode) - 1) 6
  have hb := int_and_single_bit (mode.crtc_hsync_start.tdiv (dot_unit mode) - 1) 8
  have hc := int_and_single_bit (mode.crtc_hblank_start.tdiv (dot_unit mode) - 1) 8
  have he := int_and_single_bit (mode.crtc_htotal.tdiv (dot_unit mode) - 5) 8
  simp only [Nat.reducePow] at ha hb hc he
  generalize int_and (mode.crtc_hblank_end.tdiv (dot_unit mode) - 1) 64 = a at ha ⊢
  generalize int_and (mode.crtc_hsync_start.tdiv (dot_unit mode) - 1) 256 = b at hb ⊢
  generalize int_and (mode.crtc_hblank_start.tdiv (dot_unit mode) - 1) 256 = c at hc ⊢
  generalize int_and (mode.crtc_htotal.tdiv (dot_unit mode) - 5) 256 = e at he ⊢
  have key := hdisplay_bits_key k hk512 a (by simpa using ha) b (by simpa using hb)
    c (by simpa using hc) e (by simpa using he)
  rw [key]
  have hdots := image_dots info mode r (vga_display_mode_reads info r.freq s)
    (Nat.mod_lt _ (by decide))
  rw [Nat.cast_mul, hdots]
  have hk1 : ((k + 1 : Nat) : Int) = mode.crtc_hdisplay.tdiv (dot_unit mode) := by
    push_cast
    generalize mode.crtc_hdisplay.tdiv (dot_unit mode) = q at hk
    omega
  rw [hk1]


theorem round_trip_arith (x d : Int) (hd : d = 8 ∨ d = 9) (hlo : d ≤ x) :
    |x.tdiv d * d - x| < d ∧ (d ∣ x → x.tdiv d * d = x) := by
  have hq : x.tdiv d = x / d := Int.tdiv_eq_ediv (by omega) (by omega)
  rw [hq]
  rcases hd with h | h <;> subst h
  · constructor
    · rw [abs_lt]; omega
    · intro hdvd; omega
  · constructor
    · rw [abs_lt]; omega
    · intro hdvd; omega

/-- C13: on a 6326 with the idealised register file, for every mode whose clock resolves
and whose `crtc_hdisplay` lies between one and 512 dot units, the mode that
`sisvga_debug_print_mode` decodes from the registers written by `set_display_mode` has
`hdisplay = (crtc_hdisplay / dots) * dots`: it differs from the original by less than one
dot unit and equals it when the original is a multiple of the dot unit. -/
theorem set_display_mode_hdisplay_round_trip (n : Nat) (info : sisvga_device_info)
    (mode : drm_display_mode) (s : vga_regs) (vclk : sisvga_vclk)
    (hmodel : info.model = SISVGA_MODEL_6326)
    (hv : sisvga_vclk_of_clock (int_to_uint mode.clock) = .ok vclk)
    (hlo : dot_unit mode ≤ mode.crtc_hdisplay)
    (hhi : mode.crtc_hdisplay ≤ 512 * dot_unit mode) :
    ∃ m, decode_after_set (n + 1) info mode s = some m ∧
      m.hdisplay = mode.crtc_hdisplay.tdiv (dot_unit mode) * dot_unit mode ∧
      |m.hdisplay - mode.crtc_hdisplay| < dot_unit mode ∧
      (dot_unit mode ∣ mode.crtc_hdisplay → m.hdisplay = mode.crtc_hdisplay) := by
  obtain ⟨r, hr⟩ := sisvga_vclk_regs_total vclk
  have hge : MODEL_IS_GE info SISVGA_MODEL_6326 = true := by
    unfold MODEL_IS_GE; rw [hmodel]; rfl
  have hd : dot_unit mode = 8 ∨ dot_unit mode = 9 := by
    unfold dot_unit; cases is_9_dot_mode mode <;> simp
  have hfr := image_misc_fr info mode r (vga_display_mode_reads info r.freq s)
    (Nat.mod_lt _ (by decide))
  have hmisc : (vga_display_mode_image info mode r s).misc % 256 =
      (set_display_mode_regs info mode r (vga_display_mode_reads info r.freq s)).misc
        % 256 % 256 := rfl
  rw [decode_after_set_vga n info mode s vclk r hv hr, hmisc, hfr]
  refine ⟨_, rfl, ?_⟩
  have hh := image_hdisplay info mode r s hge hlo hhi
  have ha := round_trip_arith mode.crtc_hdisplay (dot_unit mode) hd hlo
  exact ⟨hh, hh ▸ ha.1, fun hdvd => hh.trans (ha.2 hdvd)⟩

/-- Witness of C13: the 1600x1200 @ 60 Hz mode on the 6326, 8 dots, from a register file
of zeros. -/
theorem set_display_mode_hdisplay_round_trip_witness :
    ∃ m, decode_after_set 1 sisvga_device_info_6326 mode_1600x1200_60 vga_regs_zero = some m ∧
      m.hdisplay = mode_1600x1200_60.crtc_hdisplay.tdiv (dot_unit mode_1600x1200_60) *
        dot_unit mode_1600x1200_60 ∧
      |m.hdisplay - mode_1600x1200_60.crtc_hdisplay| < dot_unit mode_1600x1200_60 ∧
      (dot_unit mode_1600x1200_60 ∣ mode_1600x1200_60.crtc_hdisplay →
        m.hdisplay = mode_1600x1200_60.crtc_hdisplay) :=
  set_display_mode_hdisplay_round_trip 0 sisvga_device_info_6326 mode_1600x1200_60
    vga_regs_zero SISVGA_VCLK_162000 rfl (by decide) (by decide) (by decide)

theorem update_app (f : Nat → Nat) (a v x : Nat) :
    Function.update f a v x = if x = a then v else f x := Function.update_apply f a v x

theorem update_of_eq (f : Nat → Nat) (a v : Nat) (h : f a = v) : Function.update f a v = f := by
  rw [← h]; exact Function.update_eq_self a f

theorem vga_write_cr_apply_all (g : display_mode_regs) (cr : Nat → Nat) :
    (vga_write_cr g cr 0x00 = g.cr00 % 256 ∧ vga_write_cr g cr 0x01 = g.cr01 % 256 ∧
     vga_write_cr g cr 0x02 = g.cr02 % 256 ∧ vga_write_cr g cr 0x03 = g.cr03 % 256 ∧
     vga_write_cr g cr 0x04 = g.cr04 % 256 ∧ vga_write_cr g cr 0x05 = g.cr05 % 256 ∧
     vga_write_cr g cr 0x06 = g.cr06 % 256 ∧ vga_write_cr g cr 0x07 = g.cr07 % 256) ∧
    (vga_write_cr g cr 0x08 = g.cr08 % 256 ∧ vga_write_cr g cr 0x09 = g.cr09 % 256 ∧
     vga_write_cr g cr 0x0a = g.cr0a % 256 ∧ vga_write_cr g cr 0x0b = g.cr0b % 256 ∧
     vga_write_cr g cr 0x0c = g.cr0c % 256 ∧ vga_write_cr g cr 0x0d = g.cr0d % 256 ∧
     vga_write_cr g cr 0x0e = g.cr0e % 256 ∧ vga_write_cr g cr 0x0f = g.cr0f % 256) ∧
    (vga_write_cr g cr 0x10 = g.cr10 % 256 ∧ vga_write_cr g cr 0x11 = g.cr11 % 256 ∧
     vga_write_cr g cr 0x12 = g.cr12 % 256 ∧ vga_write_cr g cr 0x14 = g.cr14 % 256 ∧
     vga_write_cr g cr 0x15 = g.cr15 % 256 ∧ vga_write_cr g cr 0x16 = g.cr16 % 256 ∧
     vga_write_cr g cr 0x17 = g.cr17 % 256 ∧ vga_write_cr g cr 0x18 = g.cr18 % 256) := by
  simp [vga_write_cr, Function.update]

theorem vga_write_cr_idem (g : display_mode_regs) (cr : Nat → Nat) :
    vga_write_cr g (vga_write_cr g cr) = vga_write_cr g cr := by
  obtain ⟨⟨h0, h1, h2, h3, h4, h5, h6, h7⟩, ⟨h8, h9, ha, hb, hc, hd, he, hf⟩,
    ⟨h10, h11, h12, h14, h15, h16, h17, h18⟩⟩ := vga_write_cr_apply_all g cr
  generalize vga_write_cr g cr = F at *
  unfold vga_write_cr
  simp only [update_of_eq F _ _ h0, update_of_eq F _ _ h1, update_of_eq F _ _ h2,
    update_of_eq F _ _ h3, update_of_eq F _ _ h4, update_of_eq F _ _ h5,
    update_of_eq F _ _ h6, update_of_eq F _ _ h7, update_of_eq F _ _ h8,
    update_of_eq F _ _ h9, update_of_eq F _ _ ha, update_of_eq F _ _ hb,
    update_of_eq F _ _ hc, update_of_eq F _ _ hd, update_of_eq F _ _ he,
    update_of_eq F _ _ hf, update_of_eq F _ _ h10, update_of_eq F _ _ h11,
    update_of_eq F _ _ h12, update_of_eq F _ _ h14, update_of_eq F _ _ h15,
    update_of_eq F _ _ h16, update_of_eq F _ _ h17, update_of_eq F _ _ h18]

theorem vga_write_sr_idem (info : sisvga_device_info) (freq : sisvga_freq)
    (g : display_mode_regs) (sr : Nat → Nat) (v w : Nat)
    (hw : MODEL_IS_GE info SISVGA_MODEL_6326 = false → w = v) :
    vga_write_sr info freq g
        (Function.update (vga_write_sr info freq g (Function.update sr 0x38 v)) 0x38 w) =
      vga_write_sr info freq g (Function.update sr 0x38 v) := by
  funext j
  unfold vga_write_sr
  cases hge : MODEL_IS_GE info SISVGA_MODEL_6326 <;> by_cases hf : freq = SISVGA_FREQ_14318
  · simp only [hf, if_true, Bool.false_eq_true, if_false, update_app, hw hge]
    repeat (refine ite_congr rfl (fun _ => rfl) (fun _ => ?_))
    simp only [*, if_false]
  · simp only [hf, if_false, Bool.false_eq_true, update_app, hw hge]
    repeat (refine ite_congr rfl (fun _ => rfl) (fun _ => ?_))
    simp only [*, if_false]
  · simp only [hf, if_true, update_app]
    repeat (refine ite_congr rfl (fun _ => rfl) (fun _ => ?_))
    simp only [*, if_false]
  · simp only [hf, if_false, if_true, update_app]
    repeat (refine ite_congr rfl (fun _ => rfl) (fun _ => ?_))
    simp only [*, if_false]

set_option maxRecDepth 100000 in
theorem regs_idem_cr (info : sisvga_device_info) (mode : drm_display_mode)
    (r : sisvga_vclk_regs_out) (rd rd2 : display_mode_reads)
    (h08 : rd.cr08 < 256) (h14 : rd.cr14 < 256) (h17 : rd.cr17 < 256)
    (e08 : rd2.cr08 = (set_display_mode_regs info mode r rd).cr08 % 256 % 256)
    (e14 : rd2.cr14 = (set_display_mode_regs info mode r rd).cr14 % 256 % 256)
    (e17 : rd2.cr17 = (set_display_mode_regs info mode r rd).cr17 % 256 % 256) :
    (set_display_mode_regs info mode r rd2).cr08 = (set_display_mode_regs info mode r rd).cr08 ∧
    (set_display_mode_regs info mode r rd2).cr14 = (set_display_mode_regs info mode r rd).cr14 ∧
    (set_display_mode_regs info mode r rd2).cr17 =
      (set_display_mode_regs info mode r rd).cr17 := by
  have k1 : ∀ y, y < 256 → ((y &&& 128) % 256 % 256) &&& 128 = y &&& 128 := by decide
  have k2 : ∀ y, y < 256 → ((y ||| (64 ||| 3)) % 256 % 256) ||| (64 ||| 3) = y ||| (64 ||| 3) := by
    decide
  have a08 : ∀ x : display_mode_reads, (set_display_mode_regs info mode r x).cr08 =
      x.cr08 &&& 0x80 := fun _ => rfl
  have a14 : ∀ x : display_mode_reads, (set_display_mode_regs info mode r x).cr14 =
      x.cr14 &&& 0x80 := fun _ => rfl
  have a17 : ∀ x : display_mode_reads, (set_display_mode_regs info mode r x).cr17 =
      x.cr17 ||| (0x40 ||| 0x03) := fun _ => rfl
  refine ⟨?_, ?_, ?_⟩
  · rw [a08 rd2, e08, a08 rd]; exact k1 _ h08
  · rw [a14 rd2, e14, a14 rd]; exact k1 _ h14
  · rw [a17 rd2, e17, a17 rd]; exact k2 _ h17

set_option maxRecDepth 100000 in
theorem regs_idem_misc (info : sisvga_device_info) (mode : drm_display_mode)
    (r : sisvga_vclk_regs_out) (rd rd2 : display_mode_reads) (hm : rd.misc < 256)
    (em : rd2.misc = (set_display_mode_regs info mode r rd).misc % 256 % 256) :
    (set_display_mode_regs info mode r rd2).misc =
      (set_display_mode_regs info mode r rd).misc := by
  have key : ∀ y, y < 256 → ∀ c, c < 4 →
      ((((y &&& 63) &&& 243 ||| c <<< 2) % 256 % 256) &&& 63) &&& 243 ||| c <<< 2 =
        (y &&& 63) &&& 243 ||| c <<< 2 ∧
      ((((y &&& 63 ||| 128) &&& 243 ||| c <<< 2) % 256 % 256) &&& 63 ||| 128) &&& 243
          ||| c <<< 2 = (y &&& 63 ||| 128) &&& 243 ||| c <<< 2 ∧
      ((((y &&& 63 ||| 64) &&& 243 ||| c <<< 2) % 256 % 256) &&& 63 ||| 64) &&& 243
          ||| c <<< 2 = (y &&& 63 ||| 64) &&& 243 ||| c <<< 2 ∧
      ((((y &&& 63 ||| 128 ||| 64) &&& 243 ||| c <<< 2) % 256 % 256) &&& 63 ||| 128 ||| 64)
          &&& 243 ||| c <<< 2 = (y &&& 63 ||| 128 ||| 64) &&& 243 ||| c <<< 2 := by
    decide
  have hc : freq_bits_list r.freq < 4 := by cases r.freq <;> decide
  have k := key rd.misc hm (freq_bits_list r.freq) hc
  have e : ∀ x : display_mode_reads, (set_display_mode_regs info mode r x).misc =
      ((if mode.flags &&& DRM_MODE_FLAG_NHSYNC ≠ 0 then
          (if mode.flags &&& DRM_MODE_FLAG_NVSYNC ≠ 0 then x.misc &&& 0x3f ||| 0x80
            else x.misc &&& 0x3f) ||| 0x40
        else
          (if mode.flags &&& DRM_MODE_FLAG_NVSYNC ≠ 0 then x.misc &&& 0x3f ||| 0x80
            else x.misc &&& 0x3f)) &&& 0xf3) ||| (freq_bits_list r.freq <<< 2) :=
    fun _ => rfl
  rw [e rd2, em, e rd]
  by_cases h1 : mode.flags &&& DRM_MODE_FLAG_NHSYNC ≠ 0 <;>
    by_cases h2 : mode.flags &&& DRM_MODE_FLAG_NVSYNC ≠ 0
  · simp only [if_pos h1, if_pos h2]; exact k.2.2.2
  · simp only [if_pos h1, if_neg h2]; exact k.2.2.1
  · simp only [if_neg h1, if_pos h2]; exact k.2.1
  · simp only [if_neg h1, if_neg h2]; exact k.1

set_option maxRecDepth 100000 in
theorem regs_idem_sr01 (info : sisvga_device_info) (mode : drm_display_mode)
    (r : sisvga_vclk_regs_out) (rd rd2 : display_mode_reads) (h : rd.sr01 < 256)
    (e : rd2.sr01 = (set_display_mode_regs info mode r rd).sr01 % 256 % 256) :
    (set_display_mode_regs info mode r rd2).sr01 =
      (set_display_mode_regs info mode r rd).sr01 := by
  have key : ∀ y, y < 256 →
      (((y &&& 254 ||| 8) % 256 % 256) &&& 254 ||| 8 = y &&& 254 ||| 8) ∧
      ((((y &&& 254) &&& 247) % 256 % 256) &&& 254) &&& 247 = (y &&& 254) &&& 247 ∧
      (((y ||| 1 ||| 8) % 256 % 256) ||| 1 ||| 8 = y ||| 1 ||| 8) ∧
      ((((y ||| 1) &&& 247) % 256 % 256) ||| 1) &&& 247 = (y ||| 1) &&& 247 := by
    decide
  have k := key rd.sr01 h
  have a : ∀ x : display_mode_reads, (set_display_mode_regs info mode r x).sr01 =
      if mode.flags &&& DRM_MODE_FLAG_CLKDIV2 ≠ 0 then
        (if (if is_9_dot_mode mode then (9 : Int) else 8) = 9 then x.sr01 &&& 0xfe
          else x.sr01 ||| 0x01) ||| 0x08
      else
        (if (if is_9_dot_mode mode then (9 : Int) else 8) = 9 then x.sr01 &&& 0xfe
          else x.sr01 ||| 0x01) &&& 0xf7 := fun _ => rfl
  rw [a rd2, e, a rd]
  by_cases h1 : mode.flags &&& DRM_MODE_FLAG_CLKDIV2 ≠ 0 <;>
    by_cases h2 : (if is_9_dot_mode mode then (9 : Int) else 8) = 9
  · rw [if_pos h1, if_pos h2, if_pos h1, if_pos h2]; exact k.1
  · rw [if_pos h1, if_neg h2, if_pos h1, if_neg h2]; exact k.2.2.1
  · rw [if_neg h1, if_pos h2, if_neg h1, if_pos h2]; exact k.2.1
  · rw [if_neg h1, if_neg h2, if_neg h1, if_neg h2]; exact k.2.2.2

set_option maxRecDepth 100000 in
theorem regs_idem_sr06 (info : sisvga_device_info) (mode : drm_display_mode)
    (r : sisvga_vclk_regs_out) (rd rd2 : display_mode_reads) (h : rd.sr06 < 256)
    (e : rd2.sr06 = (set_display_mode_regs info mode r rd).sr06 % 256 % 256) :
    (set_display_mode_regs info mode r rd2).sr06 =
      (set_display_mode_regs info mode r rd).sr06 := by
  have key : ∀ y, y < 256 →
      (((y ||| 32 ||| 3) % 256 % 256) ||| 32 ||| 3 = y ||| 32 ||| 3) ∧
      ((((y ||| 32) &&& 252) % 256 % 256) ||| 32) &&& 252 = (y ||| 32) &&& 252 ∧
      (((y &&& 223 ||| 3) % 256 % 256) &&& 223 ||| 3 = y &&& 223 ||| 3) ∧
      ((((y &&& 223) &&& 252) % 256 % 256) &&& 223) &&& 252 = (y &&& 223) &&& 252 := by
    decide
  have k := key rd.sr06 h
  have a : ∀ x : display_mode_reads, (set_display_mode_regs info mode r x).sr06 =
      if r.freq = SISVGA_FREQ_14318 then
        (if mode.flags &&& DRM_MODE_FLAG_INTERLACE_BIT ≠ 0 then x.sr06 ||| 0x20
          else x.sr06 &&& 0xdf) ||| 0x03
      else
        (if mode.flags &&& DRM_MODE_FLAG_INTERLACE_BIT ≠ 0 then x.sr06 ||| 0x20
          else x.sr06 &&& 0xdf) &&& 0xfc := fun _ => rfl
  rw [a rd2, e, a rd]
  by_cases h1 : r.freq = SISVGA_FREQ_14318 <;>
    by_cases h2 : mode.flags &&& DRM_MODE_FLAG_INTERLACE_BIT ≠ 0
  · rw [if_pos h1, if_pos h2, if_pos h1, if_pos h2]; exact k.1
  · rw [if_pos h1, if_neg h2, if_pos h1, if_neg h2]; exact k.2.2.1
  · rw [if_neg h1, if_pos h2, if_neg h1, if_pos h2]; exact k.2.1
  · rw [if_neg h1, if_neg h2, if_neg h1, if_neg h2]; exact k.2.2.2

set_option maxRecDepth 100000 in
theorem regs_idem_sr07 (info : sisvga_device_info) (mode : drm_display_mode)
    (r : sisvga_vclk_regs_out) (rd rd2 : display_mode_reads) (h : rd.sr07 < 256)
    (e : rd2.sr07 = (set_display_mode_regs info mode r rd).sr07 % 256 % 256) :
    (set_display_mode_regs info mode r rd2).sr07 =
      (set_display_mode_regs info mode r rd).sr07 := by
  have key : ∀ y, y < 256 →
      (((y ||| 2) % 256 % 256) ||| 2 = y ||| 2) ∧
      (((y &&& 253) % 256 % 256) &&& 253 = y &&& 253) := by
    decide
  have k := key rd.sr07 h
  have a : ∀ x : display_mode_reads, (set_display_mode_regs info mode r x).sr07 =
      if mode.clock > 135 * 1000 then x.sr07 ||| 0x02 else x.sr07 &&& 0xfd := fun _ => rfl
  rw [a rd2, e, a rd]
  by_cases h1 : mode.clock > 135 * 1000
  · rw [if_pos h1, if_pos h1]; exact k.1
  · rw [if_neg h1, if_neg h1]; exact k.2

set_option maxRecDepth 100000 in
theorem regs_idem_sr0a (info : sisvga_device_info) (mode : drm_display_mode)
    (r : sisvga_vclk_regs_out) (rd rd2 : display_mode_reads) (h : rd.sr0a < 256)
    (e : rd2.sr0a = (set_display_mode_regs info mode r rd).sr0a % 256 % 256) :
    (set_display_mode_regs info mode r rd2).sr0a =
      (set_display_mode_regs info mode r rd).sr0a := by
  have key : ∀ y, y < 256 → ∀ b3, b3 < 2 → ∀ b2, b2 < 2 → ∀ b1, b1 < 2 → ∀ b0, b0 < 2 →
      (((y &&& 240 ||| ((b3 * 1024) >>> 7 ||| (b2 * 1024) >>> 8 ||| (b1 * 1024) >>> 9 |||
          (b0 * 1024) >>> 10)) % 256 % 256) &&& 240) |||
        ((b3 * 1024) >>> 7 ||| (b2 * 1024) >>> 8 ||| (b1 * 1024) >>> 9 |||
          (b0 * 1024) >>> 10) =
      y &&& 240 ||| ((b3 * 1024) >>> 7 ||| (b2 * 1024) >>> 8 ||| (b1 * 1024) >>> 9 |||
          (b0 * 1024) >>> 10) := by
    decide
  have bit : ∀ x : Int, ∃ b, b < 2 ∧ int_and x 0x400 = b * 1024 := by
    intro x
    unfold int_and
    rcases and_single_bit (int_to_uint x) 10 with h0 | h1
    · exact ⟨0, by decide, h0⟩
    · exact ⟨1, by decide, h1⟩
  have a : ∀ x : display_mode_reads, (set_display_mode_regs info mode r x).sr0a =
      (x.sr0a &&& 0xf0) |||
        (((int_and (wrap_int (mode.crtc_vsync_start - 1)) 0x400) >>> 7) |||
         ((int_and (wrap_int (mode.crtc_vblank_start - 1)) 0x400) >>> 8) |||
         ((int_and (wrap_int (mode.crtc_vdisplay - 1)) 0x400) >>> 9) |||
         ((int_and (wrap_int (mode.crtc_vtotal - 2)) 0x400) >>> 10)) := fun _ => rfl
  rw [a rd2, e, a rd]
  obtain ⟨b3, hb3, e3⟩ := bit (wrap_int (mode.crtc_vsync_start - 1))
  obtain ⟨b2, hb2, e2⟩ := bit (wrap_int (mode.crtc_vblank_start - 1))
  obtain ⟨b1, hb1, e1⟩ := bit (wrap_int (mode.crtc_vdisplay - 1))
  obtain ⟨b0, hb0, e0⟩ := bit (wrap_int (mode.crtc_vtotal - 2))
  rw [e3, e2, e1, e0]
  exact key rd.sr0a h b3 hb3 b2 hb2 b1 hb1 b0 hb0

theorem vga_write_sr_keep (info : sisvga_device_info) (freq : sisvga_freq)
    (g : display_mode_regs) (sr : Nat → Nat) :
    (MODEL_IS_GE info SISVGA_MODEL_6326 = true → freq = SISVGA_FREQ_14318 →
      vga_write_sr info freq g sr 0x13 = g.sr13 % 256) ∧
    (freq ≠ SISVGA_FREQ_14318 →
      vga_write_sr info freq g sr 0x13 = sr 0x13 ∧
      vga_write_sr info freq g sr 0x2a = sr 0x2a ∧
      vga_write_sr info freq g sr 0x2b = sr 0x2b) ∧
    (MODEL_IS_GE info SISVGA_MODEL_6326 = false →
      vga_write_sr info freq g sr 0x13 = sr 0x13 ∧
      vga_write_sr info freq g sr 0x38 = sr 0x38) := by
  unfold vga_write_sr
  cases MODEL_IS_GE info SISVGA_MODEL_6326 <;> by_cases hf : freq = SISVGA_FREQ_14318 <;>
    simp [hf, Function.update]

set_option maxRecDepth 100000 in
theorem regs_idem_sr13 (info : sisvga_device_info) (mode : drm_display_mode)
    (r : sisvga_vclk_regs_out) (rd rd2 : display_mode_reads) (h : rd.sr13 < 256)
    (e1 : MODEL_IS_GE info SISVGA_MODEL_6326 = true → r.freq = SISVGA_FREQ_14318 →
      rd2.sr13 = (set_display_mode_regs info mode r rd).sr13 % 256 % 256)
    (e2 : ¬ (MODEL_IS_GE info SISVGA_MODEL_6326 = true ∧ r.freq = SISVGA_FREQ_14318) →
      rd2.sr13 = rd.sr13) :
    (set_display_mode_regs info mode r rd2).sr13 =
      (set_display_mode_regs info mode r rd).sr13 := by
  have key : ∀ y, y < 256 →
      (((y ||| 64) % 256 % 256) ||| 64 = y ||| 64) ∧
      (((y &&& 191) % 256 % 256) &&& 191 = y &&& 191) := by
    decide
  have k := key rd.sr13 h
  have a : ∀ x : display_mode_reads, (set_display_mode_regs info mode r x).sr13 =
      if r.freq = SISVGA_FREQ_14318 then
        (if MODEL_IS_GE info SISVGA_MODEL_6326 = true then
          (if (r.postscal - 1) % 256 &&& 0x04 ≠ 0 then x.sr13 ||| 0x40 else x.sr13 &&& 0xbf)
         else x.sr13)
      else x.sr13 := fun _ => rfl
  by_cases hf : r.freq = SISVGA_FREQ_14318
  · cases hge : MODEL_IS_GE info SISVGA_MODEL_6326
    · have e := e2 (fun c => by rw [hge] at c; exact Bool.false_ne_true c.1)
      rw [a rd2, a rd, e]
    · have e := e1 hge hf
      rw [a rd] at e
      rw [a rd2, a rd, e]
      rw [if_pos hf, if_pos hf, if_pos hge, if_pos hge]
      by_cases hp : (r.postscal - 1) % 256 &&& 0x04 ≠ 0
      · rw [if_pos hp, if_pos hp]; exact k.1
      · rw [if_neg hp, if_neg hp]; exact k.2
  · have e := e2 (fun c => hf c.2)
    rw [a rd2, a rd, e]

theorem regs_idem_sr2x (info : sisvga_device_info) (mode : drm_display_mode)
    (r : sisvga_vclk_regs_out) (rd rd2 : display_mode_reads)
    (e2a : r.freq ≠ SISVGA_FREQ_14318 → rd2.sr2a = rd.sr2a)
    (e2b : r.freq ≠ SISVGA_FREQ_14318 → rd2.sr2b = rd.sr2b) :
    (set_display_mode_regs info mode r rd2).sr2a =
      (set_display_mode_regs info mode r rd).sr2a ∧
    (set_display_mode_regs info mode r rd2).sr2b =
      (set_display_mode_regs info mode r rd).sr2b := by
  have a : ∀ x : display_mode_reads, (set_display_mode_regs info mode r x).sr2a =
      if r.freq = SISVGA_FREQ_14318 then
        (((r.div - 1) % 256 &&& 0x01) <<< 7) ||| ((r.num - 1) % 256 &&& 0x7f)
      else x.sr2a := fun _ => rfl
  have b : ∀ x : display_mode_reads, (set_display_mode_regs info mode r x).sr2b =
      if r.freq = SISVGA_FREQ_14318 then
        (if mode.clock > 135 * 1000 then
          ((((r.postscal - 1) % 256 &&& 0x03) <<< 5) ||| ((r.denum - 1) % 256 &&& 0x1f))
            ||| 0x80
         else (((r.postscal - 1) % 256 &&& 0x03) <<< 5) ||| ((r.denum - 1) % 256 &&& 0x1f))
      else x.sr2b := fun _ => rfl
  by_cases hf : r.freq = SISVGA_FREQ_14318
  · exact ⟨by rw [a rd2, a rd, if_pos hf, if_pos hf],
      by rw [b rd2, b rd, if_pos hf, if_pos hf]⟩
  · exact ⟨by rw [a rd2, a rd, if_neg hf, if_neg hf]; exact e2a hf,
      by rw [b rd2, b rd, if_neg hf, if_neg hf]; exact e2b hf⟩

theorem regs_idem_sr38 (info : sisvga_device_info) (mode : drm_display_mode)
    (r : sisvga_vclk_regs_out) (rd rd2 : display_mode_reads)
    (e1 : MODEL_IS_GE info SISVGA_MODEL_6326 = true → rd2.sr38 ||| 0x04 = rd.sr38 ||| 0x04)
    (e2 : MODEL_IS_GE info SISVGA_MODEL_6326 = false → rd2.sr38 = rd.sr38) :
    (set_display_mode_regs info mode r rd2).sr38 =
      (set_display_mode_regs info mode r rd).sr38 := by
  have a : ∀ x : display_mode_reads, (set_display_mode_regs info mode r x).sr38 =
      if MODEL_IS_GE info SISVGA_MODEL_6326 = true then x.sr38 ||| 0x04 else x.sr38 :=
    fun _ => rfl
  rw [a rd2, a rd]
  cases hge : MODEL_IS_GE info SISVGA_MODEL_6326
  · rw [if_neg Bool.false_ne_true, if_neg Bool.false_ne_true]; exact e2 hge
  · rw [if_pos rfl, if_pos rfl]; exact e1 hge

theorem vga_write_sr_congr (info : sisvga_device_info) (freq : sisvga_freq)
    (g g2 : display_mode_regs) (sr : Nat → Nat)
    (h01 : g2.sr01 = g.sr01) (h06 : g2.sr06 = g.sr06) (h07 : g2.sr07 = g.sr07)
    (h0a : g2.sr0a = g.sr0a) (h12 : g2.sr12 = g.sr12) (h13 : g2.sr13 = g.sr13)
    (h2a : g2.sr2a = g.sr2a) (h2b : g2.sr2b = g.sr2b) (h38 : g2.sr38 = g.sr38) :
    vga_write_sr info freq g2 sr = vga_write_sr info freq g sr := by
  unfold vga_write_sr
  rw [h01, h06, h07, h0a, h12, h13, h2a, h2b, h38]

theorem vga_write_cr_congr (info : sisvga_device_info) (mode : drm_display_mode)
    (r : sisvga_vclk_regs_out) (rd rd2 : display_mode_reads) (cr : Nat → Nat)
    (h08 : (set_display_mode_regs info mode r rd2).cr08 =
      (set_display_mode_regs info mode r rd).cr08)
    (h14 : (set_display_mode_regs info mode r rd2).cr14 =
      (set_display_mode_regs info mode r rd).cr14)
    (h17 : (set_display_mode_regs info mode r rd2).cr17 =
      (set_display_mode_regs info mode r rd).cr17) :
    vga_write_cr (set_display_mode_regs info mode r rd2) cr =
      vga_write_cr (set_display_mode_regs info mode r rd) cr := by
  unfold vga_write_cr
  rw [h08, h14, h17]
  rfl

theorem regs_sr12_indep (info : sisvga_device_info) (mode : drm_display_mode)
    (r : sisvga_vclk_regs_out) (rd rd2 : display_mode_reads) :
    (set_display_mode_regs info mode r rd2).sr12 =
      (set_display_mode_regs info mode r rd).sr12 := rfl

theorem vga_regs_ext (a b : vga_regs) (h1 : a.misc = b.misc) (h2 : a.sri = b.sri)
    (h3 : a.sr = b.sr) (h4 : a.cri = b.cri) (h5 : a.cr = b.cr) (h6 : a.gri = b.gri)
    (h7 : a.gr = b.gr) (h8 : a.ari = b.ari) (h9 : a.ar = b.ar)
    (h10 : a.ar_data = b.ar_data) : a = b := by
  cases a; cases b; simp only [vga_regs.mk.injEq]
  exact ⟨h1, h2, h3, h4, h5, h6, h7, h8, h9, h10⟩

set_option maxRecDepth 100000 in
theorem sel_idem : ∀ x, x < 256 → ∀ c, c < 4 →
    ((((x &&& 252 ||| c) % 256) % 256 &&& 252 ||| c) % 256 = (x &&& 252 ||| c) % 256) ∧
    ((((((x &&& 252 ||| c) % 256 % 256 ||| 4) % 256 % 256 &&& 252) ||| c) % 256 % 256) ||| 4 =
      (x &&& 252 ||| c) % 256 % 256 ||| 4) := by
  decide

theorem vga_display_mode_image_regs (info : sisvga_device_info) (mode : drm_display_mode)
    (r : sisvga_vclk_regs_out) (s : vga_regs) :
    (set_display_mode_regs info mode r (vga_display_mode_reads info r.freq
        (vga_display_mode_image info mode r s))).misc =
      (set_display_mode_regs info mode r (vga_display_mode_reads info r.freq s)).misc ∧
    (∀ sr, vga_write_sr info r.freq (set_display_mode_regs info mode r
        (vga_display_mode_reads info r.freq (vga_display_mode_image info mode r s))) sr =
      vga_write_sr info r.freq
        (set_display_mode_regs info mode r (vga_display_mode_reads info r.freq s)) sr) ∧
    (∀ cr, vga_write_cr (set_display_mode_regs info mode r
        (vga_display_mode_reads info r.freq (vga_display_mode_image info mode r s))) cr =
      vga_write_cr
        (set_display_mode_regs info mode r (vga_display_mode_reads info r.freq s)) cr) := by
  have hc : freqi_bits_list r.freq < 4 := by cases r.freq <;> decide
  have hsel := sel_idem (s.sr 0x38 % 256) (Nat.mod_lt _ (by decide)) _ hc
  generalize hrd : vga_display_mode_reads info r.freq s = rd
  generalize hI : vga_display_mode_image info mode r s = I
  generalize hrd2 : vga_display_mode_reads info r.freq I = rd2
  have Imisc : I.misc = (set_display_mode_regs info mode r rd).misc % 256 := by
    rw [← hI, ← hrd]; rfl
  have Isr : I.sr = vga_write_sr info r.freq (set_display_mode_regs info mode r rd)
      (Function.update s.sr 0x38
        ((s.sr 0x38 % 256 &&& 252 ||| freqi_bits_list r.freq) % 256)) := by
    rw [← hI, ← hrd]; rfl
  have Icr : I.cr = vga_write_cr (set_display_mode_regs info mode r rd) s.cr := by
    rw [← hI, ← hrd]; rfl
  obtain ⟨_, ⟨c08, _⟩, ⟨_, _, _, c14, _, _, c17, _⟩⟩ :=
    vga_write_cr_apply_all (set_display_mode_regs info mode r rd) s.cr
  obtain ⟨s01, s0a, s06, s07, sge, sfr⟩ :=
    vga_write_sr_apply info r.freq (set_display_mode_regs info mode r rd)
      (Function.update s.sr 0x38
        ((s.sr 0x38 % 256 &&& 252 ||| freqi_bits_list r.freq) % 256))
  obtain ⟨k13, kfr, kge⟩ :=
    vga_write_sr_keep info r.freq (set_display_mode_regs info mode r rd)
      (Function.update s.sr 0x38
        ((s.sr 0x38 % 256 &&& 252 ||| freqi_bits_list r.freq) % 256))
  rw [← Isr] at s01 s0a s06 s07 sge sfr k13 kfr kge
  rw [← Icr] at c08 c14 c17
  have b : rd.misc < 256 ∧ rd.cr08 < 256 ∧ rd.cr14 < 256 ∧ rd.cr17 < 256 ∧ rd.sr01 < 256 ∧
      rd.sr06 < 256 ∧ rd.sr07 < 256 ∧ rd.sr0a < 256 ∧ rd.sr13 < 256 := by
    rw [← hrd]
    refine ⟨Nat.mod_lt _ (by decide), Nat.mod_lt _ (by decide), Nat.mod_lt _ (by decide),
      Nat.mod_lt _ (by decide), Nat.mod_lt _ (by decide), Nat.mod_lt _ (by decide),
      Nat.mod_lt _ (by decide), Nat.mod_lt _ (by decide), ?_⟩
    show (if MODEL_IS_GE info SISVGA_MODEL_6326 = true then s.sr 0x13 % 256 else 0) < 256
    split
    · exact Nat.mod_lt _ (by decide)
    · decide
  obtain ⟨bmisc, b08, b14, b17, b01, b06, b07, b0a, b13⟩ := b
  have r2misc : rd2.misc = I.misc % 256 := by rw [← hrd2]; rfl
  have r2cr08 : rd2.cr08 = I.cr 0x08 % 256 := by rw [← hrd2]; rfl
  have r2cr14 : rd2.cr14 = I.cr 0x14 % 256 := by rw [← hrd2]; rfl
  have r2cr17 : rd2.cr17 = I.cr 0x17 % 256 := by rw [← hrd2]; rfl
  have r2sr01 : rd2.sr01 = I.sr 0x01 % 256 := by rw [← hrd2]; rfl
  have r2sr06 : rd2.sr06 = I.sr 0x06 % 256 := by rw [← hrd2]; rfl
  have r2sr07 : rd2.sr07 = I.sr 0x07 % 256 := by rw [← hrd2]; rfl
  have r2sr0a : rd2.sr0a = I.sr 0x0a % 256 := by rw [← hrd2]; rfl
  have r2sr2a : rd2.sr2a = I.sr 0x2a % 256 := by rw [← hrd2]; rfl
  have r2sr2b : rd2.sr2b = I.sr 0x2b % 256 := by rw [← hrd2]; rfl
  have r2sr13 : rd2.sr13 =
      if MODEL_IS_GE info SISVGA_MODEL_6326 = true then I.sr 0x13 % 256 else 0 := by
    rw [← hrd2]; rfl
  have r2sr38 : rd2.sr38 =
      if MODEL_IS_GE info SISVGA_MODEL_6326 = true then
        (I.sr 0x38 % 256 &&& 252 ||| freqi_bits_list r.freq) % 256 % 256
      else 0 := by
    rw [← hrd2]; rfl
  have r1sr2a : rd.sr2a = s.sr 0x2a % 256 := by rw [← hrd]; rfl
  have r1sr2b : rd.sr2b = s.sr 0x2b % 256 := by rw [← hrd]; rfl
  have r1sr13 : rd.sr13 =
      if MODEL_IS_GE info SISVGA_MODEL_6326 = true then s.sr 0x13 % 256 else 0 := by
    rw [← hrd]; rfl
  have r1sr38 : rd.sr38 =
      if MODEL_IS_GE info SISVGA_MODEL_6326 = true then
        (s.sr 0x38 % 256 &&& 252 ||| freqi_bits_list r.freq) % 256 % 256
      else 0 := by
    rw [← hrd]; rfl
  have g38 : MODEL_IS_GE info SISVGA_MODEL_6326 = true →
      (set_display_mode_regs info mode r rd).sr38 = rd.sr38 ||| 0x04 := by
    intro hge
    show (if MODEL_IS_GE info SISVGA_MODEL_6326 = true then rd.sr38 ||| 0x04 else rd.sr38) = _
    rw [if_pos hge]
  have up13 : (Function.update s.sr 0x38
      ((s.sr 0x38 % 256 &&& 252 ||| freqi_bits_list r.freq) % 256)) 0x13 = s.sr 0x13 := by
    simp [Function.update]
  have up2a : (Function.update s.sr 0x38
      ((s.sr 0x38 % 256 &&& 252 ||| freqi_bits_list r.freq) % 256)) 0x2a = s.sr 0x2a := by
    simp [Function.update]
  have up2b : (Function.update s.sr 0x38
      ((s.sr 0x38 % 256 &&& 252 ||| freqi_bits_list r.freq) % 256)) 0x2b = s.sr 0x2b := by
    simp [Function.update]
  rw [up13, up2a, up2b] at kfr
  rw [up13] at kge
  have m := regs_idem_misc info mode r rd rd2 bmisc (by rw [r2misc, Imisc])
  have c := regs_idem_cr info mode r rd rd2 b08 b14 b17 (by rw [r2cr08, c08])
    (by rw [r2cr14, c14]) (by rw [r2cr17, c17])
  have q01 := regs_idem_sr01 info mode r rd rd2 b01 (by rw [r2sr01, s01])
  have q06 := regs_idem_sr06 info mode r rd rd2 b06 (by rw [r2sr06, s06])
  have q07 := regs_idem_sr07 info mode r rd rd2 b07 (by rw [r2sr07, s07])
  have q0a := regs_idem_sr0a info mode r rd rd2 b0a (by rw [r2sr0a, s0a])
  have q13 := regs_idem_sr13 info mode r rd rd2 b13
    (fun hge hf => by rw [r2sr13, if_pos hge, k13 hge hf])
    (fun hn => by
      rw [r2sr13, r1sr13]
      cases hge : MODEL_IS_GE info SISVGA_MODEL_6326
      · rfl
      · rw [if_pos rfl, if_pos rfl, (kfr (fun hf => hn ⟨hge, hf⟩)).1])
  have q2x := regs_idem_sr2x info mode r rd rd2
    (fun hf => by rw [r2sr2a, r1sr2a, (kfr hf).2.1])
    (fun hf => by rw [r2sr2b, r1sr2b, (kfr hf).2.2])
  have q38 := regs_idem_sr38 info mode r rd rd2
    (fun hge => by
      rw [r2sr38, if_pos hge, (sge hge).2, g38 hge, r1sr38, if_pos hge]
      exact hsel.2)
    (fun hge => by rw [r2sr38, r1sr38, hge]; rfl)
  exact ⟨m,
    fun sr => vga_write_sr_congr info r.freq _ _ sr q01 q06 q07 q0a
      (regs_sr12_indep info mode r rd rd2) q13 q2x.1 q2x.2 q38,
    fun cr => vga_write_cr_congr info mode r rd rd2 cr c.1 c.2.1 c.2.2⟩

theorem vga_display_mode_image_idem (info : sisvga_device_info) (mode : drm_display_mode)
    (r : sisvga_vclk_regs_out) (s : vga_regs) :
    vga_display_mode_image info mode r (vga_display_mode_image info mode r s) =
      vga_display_mode_image info mode r s := by
  have hc : freqi_bits_list r.freq < 4 := by cases r.freq <;> decide
  have hsel := sel_idem (s.sr 0x38 % 256) (Nat.mod_lt _ (by decide)) _ hc
  obtain ⟨hm, hsr, hcr⟩ := vga_display_mode_image_regs info mode r s
  obtain ⟨_, _, kge⟩ :=
    vga_write_sr_keep info r.freq
      (set_display_mode_regs info mode r (vga_display_mode_reads info r.freq s))
      (Function.update s.sr 0x38
        ((s.sr 0x38 % 256 &&& 252 ||| freqi_bits_list r.freq) % 256))
  apply vga_regs_ext
  · show (set_display_mode_regs info mode r (vga_display_mode_reads info r.freq
        (vga_display_mode_image info mode r s))).misc % 256 =
      (set_display_mode_regs info mode r (vga_display_mode_reads info r.freq s)).misc % 256
    rw [hm]
  · rfl
  · show vga_write_sr info r.freq (set_display_mode_regs info mode r
        (vga_display_mode_reads info r.freq (vga_display_mode_image info mode r s)))
        (Function.update
          (vga_write_sr info r.freq
            (set_display_mode_regs info mode r (vga_display_mode_reads info r.freq s))
            (Function.update s.sr 0x38
              ((s.sr 0x38 % 256 &&& 252 ||| freqi_bits_list r.freq) % 256)))
          0x38
          ((vga_write_sr info r.freq
            (set_display_mode_regs info mode r (vga_display_mode_reads info r.freq s))
            (Function.update s.sr 0x38
              ((s.sr 0x38 % 256 &&& 252 ||| freqi_bits_list r.freq) % 256)) 0x38
            % 256 &&& 252 ||| freqi_bits_list r.freq) % 256)) =
      vga_write_sr info r.freq
        (set_display_mode_regs info mode r (vga_display_mode_reads info r.freq s))
        (Function.update s.sr 0x38
          ((s.sr 0x38 % 256 &&& 252 ||| freqi_bits_list r.freq) % 256))
    rw [hsr]
    apply vga_write_sr_idem
    intro hge
    rw [(kge hge).2, Function.update_same]
    exact hsel.1
  · rfl
  · show vga_write_cr (set_display_mode_regs info mode r
        (vga_display_mode_reads info r.freq (vga_display_mode_image info mode r s)))
        (vga_write_cr
          (set_display_mode_regs info mode r (vga_display_mode_reads info r.freq s)) s.cr) =
      vga_write_cr
        (set_display_mode_regs info mode r (vga_display_mode_reads info r.freq s)) s.cr
    rw [hcr]
    exact vga_write_cr_idem _ _
  · rfl
  · rfl
  · rfl
  · rfl
  · rfl

theorem MODEL_IS_GE_congr (info info2 : sisvga_device_info) (h : info.model = info2.model)
    (m : sisvga_model) : MODEL_IS_GE info m = MODEL_IS_GE info2 m := by
  unfold MODEL_IS_GE; rw [h]

theorem set_display_mode_model {σ : Type} (io : io_ports σ) (fuel : Nat)
    (info info2 : sisvga_device_info) (h : info.model = info2.model)
    (mode : drm_display_mode) (s : σ) :
    set_display_mode io fuel info mode s = set_display_mode io fuel info2 mode s := by
  have hge := MODEL_IS_GE_congr info info2 h SISVGA_MODEL_6326
  have h1 : ∀ f (t : σ), set_display_mode_read io fuel info f t =
      set_display_mode_read io fuel info2 f t := by
    intro f t; unfold set_display_mode_read; rw [hge]
  have h2 : ∀ r rd, set_display_mode_regs info mode r rd =
      set_display_mode_regs info2 mode r rd := by
    intro r rd; unfold set_display_mode_regs; rw [hge]
  have h3 : ∀ f g (t : σ), set_display_mode_write io fuel info f g t =
      set_display_mode_write io fuel info2 f g t := by
    intro f g t; unfold set_display_mode_write; rw [hge]
  unfold set_display_mode
  simp only [h1, h2, h3]

/-- C16: on a register file that reads back what was written, `set_display_mode` returns,
and running it again with the same mode on the registers it left returns the same value and
leaves every register as it was after the first run; the outcome depends on the device
description only through the model. -/
theorem set_display_mode_idempotent (n : Nat) (info : sisvga_device_info)
    (mode : drm_display_mode) (s : vga_regs) :
    (∃ ret s1, set_display_mode vga_ports (n + 1) info mode s = .ret (ret, s1) ∧
      set_display_mode vga_ports (n + 1) info mode s1 = .ret (ret, s1)) ∧
    (∀ info2 : sisvga_device_info, info2.model = info.model →
      set_display_mode vga_ports (n + 1) info2 mode s =
        set_display_mode vga_ports (n + 1) info mode s) := by
  refine ⟨?_, fun info2 h => set_display_mode_model vga_ports (n + 1) info2 info h mode s⟩
  cases hv : sisvga_vclk_of_clock (int_to_uint mode.clock) with
  | error e =>
    refine ⟨e, s, ?_, ?_⟩ <;> (unfold set_display_mode; rw [hv])
  | ok vclk =>
    obtain ⟨r, hr⟩ := sisvga_vclk_regs_total vclk
    refine ⟨0, vga_display_mode_image info mode r s, ?_, ?_⟩
    · exact set_display_mode_vga n info mode s vclk r hv hr
    · rw [set_display_mode_vga n info mode _ vclk r hv hr, vga_display_mode_image_idem]

theorem mode_valid_ok_clock (info : sisvga_device_info) (vram_size : Nat)
    (cmdline_mode : drm_cmdline_mode) (mode : drm_display_mode)
    (h : (sisvga_connector_helper_mode_valid_vga info vram_size cmdline_mode mode).1 =
      MODE_OK) :
    ∃ vclk, sisvga_vclk_of_clock (int_to_uint mode.clock) = .ok vclk := by
  rw [mode_valid_status] at h
  have n1 := check_clock_ne_ok info mode
  rcases h1 : check_clock info mode with _ | r1
  · unfold check_clock at h1
    by_cases hc : mode.clock > info.max_clock
    · rw [if_pos hc] at h1; cases h1
    · rw [if_neg hc] at h1
      cases hv : sisvga_vclk_of_clock (int_to_uint mode.clock) with
      | error e => rw [hv] at h1; cases h1
      | ok vclk => exact ⟨vclk, rfl⟩
  · rw [h1] at h n1
    exact absurd (congrArg some h) n1

/-- C11: on the 6202 device description with 2 MiB of VRAM and a requested depth of 8 bpp
the validator returns `MODE_OK` for the 800x600 @ 56 Hz mode: the clock 36000 is within
`max_clock`, resolves to a supported entry, the sizes and fields are within the maxima,
the horizontal fields are multiples of 8, the 480000 bytes fit, and the catalog of the
6202 holds a row (800, 600, 8, 36000). -/
theorem mode_valid_800x600_56_on_6202 :
    sisvga_device_info_6202.model = SISVGA_MODEL_6202 ∧
    (sisvga_connector_helper_mode_valid_vga sisvga_device_info_6202 (2 * 1024 * 1024)
      cmdline_8bpp mode_800x600_56).1 = MODE_OK ∧
    mode_800x600_56.clock ≤ sisvga_device_info_6202.max_clock ∧
    sisvga_vclk_of_clock (int_to_uint mode_800x600_56.clock) = .ok SISVGA_VCLK_36000 ∧
    sisvga_device_info_6202.supported_vclks &&& SISVGA_VCLK_BIT SISVGA_VCLK_36000 ≠ 0 ∧
    check_clock sisvga_device_info_6202 mode_800x600_56 = none ∧
    check_display_size sisvga_device_info_6202 mode_800x600_56 = none ∧
    check_dot_unit mode_800x600_56 = none ∧
    all_multiples 8 mode_800x600_56 ∧
    check_crtc_fields sisvga_device_info_6202 mode_800x600_56 = none ∧
    mode_valid_bpp sisvga_device_info_6202 cmdline_8bpp = 8 ∧
    int_to_resource_size (int_mul (int_mul mode_800x600_56.hdisplay mode_800x600_56.vdisplay)
      ((8 : Int).tdiv 8)) = 480000 ∧
    check_vram (2 * 1024 * 1024) mode_800x600_56 8 = none ∧
    check_catalog sisvga_device_info_6202 mode_800x600_56 8 = none ∧
    SISVGA_MODE 800 600 8 36000 0 0 SISVGA_VCLK_36000 ∈ sisvga_device_info_6202.vga_modes := by
  refine ⟨rfl, by decide, by decide, by decide, by decide, by decide, by decide, by decide,
    by decide, by decide, by decide, by decide, by decide, by decide, by decide⟩

/-- C12: for a mode that the validator accepts, `sisvga_vclk_of_clock` succeeds on the
clock of the mode and `sisvga_vclk_regs` hands out the entry without tripping an
assertion, so `set_display_mode` neither returns the error of the clock resolution nor
reaches `BUG()`: it is still polling or has returned 0, and on the register file that
reads back what was written it returns 0. -/
theorem mode_valid_set_display_mode_resolves {σ : Type} (io : io_ports σ) (fuel : Nat)
    (info : sisvga_device_info) (vram_size : Nat) (cmdline_mode : drm_cmdline_mode)
    (mode : drm_display_mode) (s : σ)
    (h : (sisvga_connector_helper_mode_valid_vga info vram_size cmdline_mode mode).1 =
      MODE_OK) :
    (∃ vclk r, sisvga_vclk_of_clock (int_to_uint mode.clock) = .ok vclk ∧
      sisvga_vclk_regs vclk = some r) ∧
    (set_display_mode io fuel info mode s = .spin ∨
      ∃ s1, set_display_mode io fuel info mode s = .ret (0, s1)) ∧
    (∀ (n : Nat) (t : vga_regs), ∃ t1,
      set_display_mode vga_ports (n + 1) info mode t = .ret (0, t1)) := by
  obtain ⟨vclk, hv⟩ := mode_valid_ok_clock info vram_size cmdline_mode mode h
  obtain ⟨r, hr⟩ := sisvga_vclk_regs_total vclk
  refine ⟨⟨vclk, r, hv, hr⟩, ?_, fun n t => ⟨_, set_display_mode_vga n info mode t vclk r hv hr⟩⟩
  unfold set_display_mode
  rw [hv]
  simp only [hr]
  cases h1 : set_display_mode_read io fuel info (freqi_bits_list r.freq) s with
  | none => exact Or.inl rfl
  | some p =>
    obtain ⟨rd, s1⟩ := p
    simp only []
    cases h2 : set_display_mode_write io fuel info r.freq
        (set_display_mode_regs info mode r rd) s1 with
    | none => exact Or.inl rfl
    | some s2 => exact Or.inr ⟨s2, rfl⟩

/-- Witness of C12: the 800x600 @ 56 Hz mode on the 6202 with 2 MiB of VRAM at 8 bpp, on
the zeroed register file. -/
theorem mode_valid_set_display_mode_resolves_witness :
    (sisvga_connector_helper_mode_valid_vga sisvga_device_info_6202 (2 * 1024 * 1024)
      cmdline_8bpp mode_800x600_56).1 = MODE_OK ∧
    (∃ vclk r, sisvga_vclk_of_clock (int_to_uint mode_800x600_56.clock) = .ok vclk ∧
      sisvga_vclk_regs vclk = some r) ∧
    (set_display_mode vga_ports 1 sisvga_device_info_6202 mode_800x600_56 vga_regs_zero =
        .spin ∨
      ∃ s1, set_display_mode vga_ports 1 sisvga_device_info_6202 mode_800x600_56
        vga_regs_zero = .ret (0, s1)) ∧
    (∀ (n : Nat) (t : vga_regs), ∃ t1,
      set_display_mode vga_ports (n + 1) sisvga_device_info_6202 mode_800x600_56 t =
        .ret (0, t1)) :=
  ⟨by decide,
   mode_valid_set_display_mode_resolves vga_ports 1 sisvga_device_info_6202
     (2 * 1024 * 1024) cmdline_8bpp mode_800x600_56 vga_regs_zero (by decide)⟩

set_option maxRecDepth 100000 in
/-- C14, defect of the decoder: `sisvga_debug_print_mode` shifts bit 1 of sr0a left by 8,
to bit 9, where `set_display_mode` stored bit 10 of the vertical fields. A `crtc_vdisplay`
of 1200 on the 6326 is decoded as 688, and a `crtc_vtotal` of 1250 as 738; 1024 lines are
still decoded exactly and 1025 come back as 513. -/
theorem set_display_mode_vdisplay_1200_decodes_688 :
    mode_1600x1200_60.crtc_vdisplay = 1200 ∧
    (decode_after_set 1 sisvga_device_info_6326 mode_1600x1200_60 vga_regs_zero).map
      (fun m => (m.vdisplay, m.vtotal)) = some (688, 738) ∧
    (decode_after_set 1 sisvga_device_info_6326 (mode_with_crtc_vdisplay 1024)
      vga_regs_zero).map (fun m => m.vdisplay) = some 1024 ∧
    (decode_after_set 1 sisvga_device_info_6326 (mode_with_crtc_vdisplay 1025)
      vga_regs_zero).map (fun m => m.vdisplay) = some 513 := by
  refine ⟨rfl, ?_, ?_, ?_⟩
  · rw [decode_after_set_vga 0 sisvga_device_info_6326 mode_1600x1200_60 vga_regs_zero
      SISVGA_VCLK_162000 _ rfl rfl]
    decide
  · rw [decode_after_set_vga 0 sisvga_device_info_6326 (mode_with_crtc_vdisplay 1024)
      vga_regs_zero SISVGA_VCLK_162000 _ rfl rfl]
    decide
  · rw [decode_after_set_vga 0 sisvga_device_info_6326 (mode_with_crtc_vdisplay 1025)
      vga_regs_zero SISVGA_VCLK_162000 _ rfl rfl]
    decide

set_option maxRecDepth 100000 in
/-- C15, defect of the decoder: `sisvga_debug_print_mode` takes 14813 kHz as the reference
frequency of the internal PLL, where the clock table uses 14318 kHz. The 65000 kHz entry,
of 64982509 Hz, is decoded on the 6326 as 67228 kHz, 3.4 % too high; with 14318 the same
registers decode as 64981 kHz, within 0.1 %. -/
theorem set_display_mode_clock_65000_decodes_67228 :
    sisvga_vclk_of_clock (int_to_uint mode_1024x768_60_crtc.clock) = .ok SISVGA_VCLK_65000 ∧
    (sisvga_vclk_regs SISVGA_VCLK_65000).map (fun r => (r.freq, r.f)) =
      some (SISVGA_FREQ_14318, 64982509) ∧
    (decode_after_set 1 sisvga_device_info_6326 mode_1024x768_60_crtc vga_regs_zero).map
      (fun m => m.clock) = some 67228 ∧
    ¬ within_permille (67228 * 1000) 64982509 ∧
    debug_print_mode_clock 14813
      ((vga_display_mode_image sisvga_device_info_6326 mode_1024x768_60_crtc
        ⟨SISVGA_FREQ_14318, 59, 13, 1, 1, 64982509⟩ vga_regs_zero).sr 0x13 % 256)
      ((vga_display_mode_image sisvga_device_info_6326 mode_1024x768_60_crtc
        ⟨SISVGA_FREQ_14318, 59, 13, 1, 1, 64982509⟩ vga_regs_zero).sr 0x2a % 256)
      ((vga_display_mode_image sisvga_device_info_6326 mode_1024x768_60_crtc
        ⟨SISVGA_FREQ_14318, 59, 13, 1, 1, 64982509⟩ vga_regs_zero).sr 0x2b % 256) = 67228 ∧
    debug_print_mode_clock 14318
      ((vga_display_mode_image sisvga_device_info_6326 mode_1024x768_60_crtc
        ⟨SISVGA_FREQ_14318, 59, 13, 1, 1, 64982509⟩ vga_regs_zero).sr 0x13 % 256)
      ((vga_display_mode_image sisvga_device_info_6326 mode_1024x768_60_crtc
        ⟨SISVGA_FREQ_14318, 59, 13, 1, 1, 64982509⟩ vga_regs_zero).sr 0x2a % 256)
      ((vga_display_mode_image sisvga_device_info_6326 mode_1024x768_60_crtc
        ⟨SISVGA_FREQ_14318, 59, 13, 1, 1, 64982509⟩ vga_regs_zero).sr 0x2b % 256) = 64981 ∧
    within_permille (64981 * 1000) 64982509 := by
  refine ⟨rfl, rfl, ?_, by decide, by decide, by decide, by decide⟩
  rw [decode_after_set_vga 0 sisvga_device_info_6326 mode_1024x768_60_crtc vga_regs_zero
    SISVGA_VCLK_65000 _ rfl rfl]
  decide

theorem or_mod_and_self (x m : Nat) (hm : m < 2 ^ 32) : ((x ||| m) % 2 ^ 32) &&& m = m := by
  apply Nat.eq_of_testBit_eq
  intro i
  rw [Nat.testBit_and, Nat.testBit_mod_two_pow, Nat.testBit_or]
  by_cases hi : i < 32
  · cases x.testBit i <;> cases m.testBit i <;> simp [hi]
  · have : m.testBit i = false :=
      Nat.testBit_eq_false_of_lt (lt_of_lt_of_le hm (Nat.pow_le_pow_right (by decide)
        (Nat.le_of_not_lt hi)))
    simp [this]

theorem and_u32_not_and_self (x m : Nat) : (x &&& u32_not m) &&& m = 0 := by
  apply Nat.eq_of_testBit_eq
  intro i
  have h : u32_not m = 2 ^ 32 - (m % 2 ^ 32 + 1) := by unfold u32_not; omega
  rw [Nat.testBit_and, Nat.testBit_and, h,
    Nat.testBit_two_pow_sub_succ (Nat.mod_lt _ (by decide)), Nat.testBit_mod_two_pow,
    Nat.zero_testBit]
  by_cases hi : i < 32
  · cases x.testBit i <;> cases m.testBit i <;> simp [hi]
  · simp [hi]

theorem wrap_int_of_range (x : Int) (h1 : -2147483648 ≤ x) (h2 : x < 2147483648) :
    wrap_int x = x := by
  unfold wrap_int; omega

theorem sisvga_bo_ttm_placement_frame {τ κ : Type} (api : ttm_interface τ κ)
    (bo : sisvga_bo τ κ) (domain : Nat) :
    ∃ bo1, sisvga_bo_ttm_placement api bo domain = some bo1 ∧
      bo1.bo = bo.bo ∧ bo1.kmap = bo.kmap ∧ bo1.pin_count = bo.pin_count ∧
      (bo1.placement.num_placement = 1 ∨ bo1.placement.num_placement = 2) := by
  unfold sisvga_bo_ttm_placement
  by_cases hV : domain &&& api.TTM_PL_FLAG_VRAM ≠ 0 <;>
    by_cases hS : domain &&& api.TTM_PL_FLAG_SYSTEM ≠ 0 <;>
    simp [hV, hS, placements_for]

theorem placements_for_some (n : Nat) (f : ttm_place → ttm_place) (ps : ttm_place_array)
    (hn : n ≤ 3) :
    ∃ ps1, placements_for n f ps = some ps1 ∧
      ps1.toList.take n = (ps.toList.take n).map f := by
  interval_cases n <;> exact ⟨_, rfl, rfl⟩

theorem sisvga_bo_pin_unpinned {τ κ : Type} (api : ttm_interface τ κ)
    (hne : api.TTM_PL_FLAG_NO_EVICT < 2 ^ 32) (bo : sisvga_bo τ κ) (pl_flag : Nat)
    (gpu_addr : Option Nat) (h0 : bo.pin_count = 0) :
    ∃ ret bo1 g, sisvga_bo_pin api bo pl_flag gpu_addr = some (ret, bo1, g) ∧
      (ret ≠ 0 → bo1.pin_count = 0 ∧ g = gpu_addr) ∧
      (ret = 0 → bo1.pin_count = 1 ∧ g = gpu_addr.map (fun _ => api.offset bo1.bo)) ∧
      no_evict api bo1 ∧ bo1.placement.num_placement ≤ 3 ∧ bo1.kmap = bo.kmap := by
  obtain ⟨b1, e1, -, hk, hp, hn⟩ := sisvga_bo_ttm_placement_frame api bo pl_flag
  have hn3 : b1.placement.num_placement ≤ 3 := by rcases hn with h | h <;> omega
  obtain ⟨ps, e2, hl⟩ := placements_for_some b1.placement.num_placement (set_no_evict api)
    b1.placements hn3
  have hev : ∀ p ∈ ps.toList.take b1.placement.num_placement,
      p.flags &&& api.TTM_PL_FLAG_NO_EVICT = api.TTM_PL_FLAG_NO_EVICT := by
    intro p hp
    rw [hl, List.mem_map] at hp
    obtain ⟨q, -, rfl⟩ := hp
    exact or_mod_and_self _ _ hne
  unfold sisvga_bo_pin
  rw [if_neg (not_not.mpr h0), e1]
  simp only [e2]
  by_cases hr : (api.ttm_bo_validate b1.bo b1.placement ps).1 ≠ 0
  · rw [if_pos hr]
    exact ⟨_, _, _, rfl, fun _ => ⟨by rw [← h0, ← hp], rfl⟩, fun h => absurd h hr, hev, hn3,
      hk⟩
  · rw [if_neg hr]
    exact ⟨_, _, _, rfl, fun h => absurd rfl h, fun _ => ⟨rfl, rfl⟩, hev, hn3, hk⟩

theorem sisvga_bo_pin_pinned {τ κ : Type} (api : ttm_interface τ κ) (bo : sisvga_bo τ κ)
    (pl_flag : Nat) (gpu_addr : Option Nat) (h1 : 1 ≤ bo.pin_count)
    (h2 : bo.pin_count < 2147483647) :
    sisvga_bo_pin api bo pl_flag gpu_addr =
      some (0, { bo with pin_count := bo.pin_count + 1 },
        gpu_addr.map (fun _ => api.offset bo.bo)) := by
  unfold sisvga_bo_pin
  rw [if_pos (by omega), wrap_int_of_range _ (by omega) (by omega)]

theorem pin_calls_pinned {τ κ : Type} (api : ttm_interface τ κ) (ds : List Nat) :
    ∀ (bo : sisvga_bo τ κ), 1 ≤ bo.pin_count → bo.pin_count + ds.length < 2147483648 →
      pin_calls api ds bo =
        some (List.replicate ds.length 0, { bo with pin_count := bo.pin_count + ds.length }) := by
  induction ds with
  | nil => intro bo _ _; simp [pin_calls]
  | cons d ds ih =>
    intro bo h1 h2
    simp only [List.length_cons, Nat.cast_add, Nat.cast_one] at h2 ⊢
    unfold pin_calls
    rw [sisvga_bo_pin_pinned api bo d none h1 (by omega)]
    simp only []
    rw [ih _ (by simp only []; omega) (by simp only []; omega)]
    simp only [List.replicate_succ]
    congr 3
    omega

theorem sisvga_bo_unpin_more {τ κ : Type} (api : ttm_interface τ κ) (bo : sisvga_bo τ κ)
    (h1 : 2 ≤ bo.pin_count) (h2 : bo.pin_count < 2147483648) :
    sisvga_bo_unpin api bo = some (0, { bo with pin_count := bo.pin_count - 1 }) := by
  unfold sisvga_bo_unpin
  rw [if_neg (by omega), wrap_int_of_range _ (by omega) (by omega)]
  simp only []
  rw [if_pos (by omega)]

theorem sisvga_bo_unpin_last {τ κ : Type} (api : ttm_interface τ κ) (bo : sisvga_bo τ κ)
    (h1 : bo.pin_count = 1) (hn : bo.placement.num_placement ≤ 3) :
    ∃ ret bo1, sisvga_bo_unpin api bo = some (ret, bo1) ∧ bo1.pin_count = 0 ∧
      evictable api bo1 ∧ bo1.placement = bo.placement := by
  obtain ⟨ps, e2, hl⟩ := placements_for_some bo.placement.num_placement (clear_no_evict api)
    bo.placements hn
  unfold sisvga_bo_unpin
  rw [if_neg (by omega), h1]
  simp only [e2]
  refine ⟨_, _, rfl, rfl, ?_, rfl⟩
  intro p hp
  change p ∈ ps.toList.take bo.placement.num_placement at hp
  rw [hl, List.mem_map] at hp
  obtain ⟨q, -, rfl⟩ := hp
  exact and_u32_not_and_self _ _

theorem unpin_calls_count {τ κ : Type} (api : ttm_interface τ κ) (k : Nat) :
    ∀ (bo : sisvga_bo τ κ), 1 ≤ bo.pin_count → bo.pin_count < 2147483648 →
      (k : Int) ≤ bo.pin_count → bo.placement.num_placement ≤ 3 →
      ∃ rs bo1, unpin_calls api k bo = some (rs, bo1) ∧ bo1.pin_count = bo.pin_count - k ∧
        bo1.placement = bo.placement ∧
        ((k : Int) < bo.pin_count →
          bo1.placements = bo.placements ∧ bo1.bo = bo.bo ∧ bo1.kmap = bo.kmap ∧
            ∀ r ∈ rs, r = 0) ∧
        ((k : Int) = bo.pin_count → evictable api bo1) := by
  induction k with
  | zero =>
    intro bo h1 _ _ _
    exact ⟨[], bo, rfl, by simp, rfl, fun _ => ⟨rfl, rfl, rfl, by simp⟩,
      fun h => by simp at h; omega⟩
  | succ k ih =>
    intro bo h1 h2 hk hn
    simp only [Nat.cast_add, Nat.cast_one] at hk ⊢
    unfold unpin_calls
    by_cases hc : bo.pin_count = 1
    · obtain ⟨ret, b1, e, hp, hev, hpl⟩ := sisvga_bo_unpin_last api bo hc hn
      have hk0 : k = 0 := by omega
      subst hk0
      rw [e]
      refine ⟨[ret], b1, rfl, by rw [hp, hc]; simp, hpl, fun h => by simp at h; omega,
        fun _ => hev⟩
    · rw [sisvga_bo_unpin_more api bo (by omega) h2]
      obtain ⟨rs, b1, e, hp, hpl, hlt, heq⟩ :=
        ih { bo with pin_count := bo.pin_count - 1 } (by simp only []; omega)
          (by simp only []; omega) (by simp only []; omega) hn
      simp only [e]
      simp only [] at hp hpl hlt heq
      refine ⟨0 :: rs, b1, rfl, by rw [hp]; ring, hpl, fun h => ?_, fun h => heq (by omega)⟩
      obtain ⟨a, b, c, d⟩ := hlt (by omega)
      refine ⟨a, b, c, ?_⟩
      intro r hr
      rcases List.mem_cons.mp hr with h | h
      · exact h
      · exact d r h

theorem sisvga_bo_ttm_placement_system {τ κ : Type} (api : ttm_interface τ κ)
    (bo : sisvga_bo τ κ) (hsv : api.TTM_PL_FLAG_SYSTEM &&& api.TTM_PL_FLAG_VRAM = 0) :
    sisvga_bo_ttm_placement api bo api.TTM_PL_FLAG_SYSTEM =
      some { bo with
        placement :=
          { num_placement := 1, placement := true, num_busy_placement := 1,
            busy_placement := true },
        placements :=
          { bo.placements with
            p0 := { fpfn := 0, lpfn := 0,
                    flags := (api.TTM_PL_MASK_CACHING ||| api.TTM_PL_FLAG_SYSTEM) % 2 ^ 32 } } } := by
  unfold sisvga_bo_ttm_placement
  by_cases hs : api.TTM_PL_FLAG_SYSTEM = 0 <;>
    simp [hsv, hs, placements_for, placements_set_flags]

theorem placement_list_congr {τ κ : Type} (a b : sisvga_bo τ κ)
    (h1 : a.placements = b.placements) (h2 : a.placement = b.placement) :
    placement_list a = placement_list b := by
  unfold placement_list; rw [h1, h2]

theorem pin_calls_first_ok {τ κ : Type} (api : ttm_interface τ κ) (bo : sisvga_bo τ κ)
    (d : Nat) (ds : List Nat) (ret : Int) (b1 : sisvga_bo τ κ) (g : Option Nat)
    (e : sisvga_bo_pin api bo d none = some (ret, b1, g))
    (hok : ∃ rs bo1, pin_calls api (d :: ds) bo = some (rs, bo1) ∧ ∀ r ∈ rs, r = 0) :
    ret = 0 := by
  obtain ⟨rs, bo1, h, hz⟩ := hok
  unfold pin_calls at h
  rw [e] at h
  simp only [] at h
  cases h2 : pin_calls api ds b1 with
  | none => rw [h2] at h; cases h
  | some p =>
    obtain ⟨rs1, b2⟩ := p
    rw [h2] at h
    simp only [Option.some.injEq, Prod.mk.injEq] at h
    exact hz ret (by rw [← h.1]; exact List.mem_cons_self _ _)

/-- C17: from an unpinned buffer, a run of `N >= 1` successful `sisvga_bo_pin` calls (with
any requested domains, the count staying an `int`) leaves `pin_count = N` with every
placement no-evict; `k <= N` calls of `sisvga_bo_unpin` after it leave `pin_count = N - k`,
for `k < N` with the buffer still pinned and every placement still no-evict, and for
`k = N` with `pin_count = 0` and the no-evict flag cleared from every placement. -/
theorem sisvga_bo_pin_unpin_count {τ κ : Type} (api : ttm_interface τ κ)
    (bo : sisvga_bo τ κ) (pins : List Nat) (k : Nat)
    (hne : api.TTM_PL_FLAG_NO_EVICT < 2 ^ 32)
    (h0 : bo.pin_count = 0) (hN : 1 ≤ pins.length) (hmax : pins.length < 2147483648)
    (hok : ∃ rs bo1, pin_calls api pins bo = some (rs, bo1) ∧ ∀ r ∈ rs, r = 0)
    (hk : k ≤ pins.length) :
    ∃ rs bo1 rs2 bo2, pin_calls api pins bo = some (rs, bo1) ∧
      bo1.pin_count = pins.length ∧ no_evict api bo1 ∧
      unpin_calls api k bo1 = some (rs2, bo2) ∧
      bo2.pin_count = (pins.length : Int) - k ∧
      (k < pins.length → 1 ≤ bo2.pin_count ∧ no_evict api bo2) ∧
      (k = pins.length → bo2.pin_count = 0 ∧ evictable api bo2) := by
  cases pins with
  | nil => simp at hN
  | cons d ds =>
    obtain ⟨ret, b1, g, e, -, hz, hev, hn3, -⟩ := sisvga_bo_pin_unpinned api hne bo d none h0
    have hret := pin_calls_first_ok api bo d ds ret b1 g e hok
    obtain ⟨hp1, -⟩ := hz hret
    simp only [List.length_cons, Nat.cast_add, Nat.cast_one] at hmax hk ⊢
    have hpc := pin_calls_pinned api ds b1 (by omega) (by omega)
    obtain ⟨rs2, b2, e2, hp2, hpl2, hlt, heq⟩ :=
      unpin_calls_count api k { b1 with pin_count := b1.pin_count + ds.length }
        (by simp only []; omega) (by simp only []; omega) (by simp only []; omega) hn3
    simp only [] at hp2 hpl2 hlt heq
    refine ⟨ret :: List.replicate ds.length 0, _, rs2, b2, ?_, ?_, ?_, e2, ?_, ?_, ?_⟩
    · unfold pin_calls
      rw [e]
      simp only [hpc]
    · simp only []; omega
    · exact hev
    · rw [hp2]; omega
    · intro hlt2
      obtain ⟨a, -, -, -⟩ := hlt (by omega)
      refine ⟨by omega, ?_⟩
      unfold no_evict
      rw [placement_list_congr b2 b1 a hpl2]
      exact hev
    · intro heq2
      exact ⟨by omega, heq (by omega)⟩

/-- Witness of C17: two pins to VRAM and one unpin on the TTM stand-in. -/
theorem sisvga_bo_pin_unpin_count_witness :
    ∃ rs bo1 rs2 bo2, pin_calls ttm_sample [4, 4] bo_unpinned = some (rs, bo1) ∧
      bo1.pin_count = ([4, 4] : List Nat).length ∧ no_evict ttm_sample bo1 ∧
      unpin_calls ttm_sample 1 bo1 = some (rs2, bo2) ∧
      bo2.pin_count = (([4, 4] : List Nat).length : Int) - (1 : Nat) ∧
      (1 < ([4, 4] : List Nat).length → 1 ≤ bo2.pin_count ∧ no_evict ttm_sample bo2) ∧
      (1 = ([4, 4] : List Nat).length → bo2.pin_count = 0 ∧ evictable ttm_sample bo2) :=
  sisvga_bo_pin_unpin_count ttm_sample bo_unpinned [4, 4] 1 (by decide) rfl (by decide)
    (by decide) ⟨[0, 0], _, rfl, by decide⟩ (by decide)

/-- C18: on a buffer with `pin_count = 0`, `sisvga_bo_pin` reaches `ttm_bo_validate`, and
when that returns an error `e` then `sisvga_bo_pin` returns `e`, leaves `pin_count` at 0
and does not store to `*gpu_addr`. -/
theorem sisvga_bo_pin_validate_fails {τ κ : Type} (api : ttm_interface τ κ)
    (bo : sisvga_bo τ κ) (pl_flag : Nat) (gpu_addr : Option Nat) (h0 : bo.pin_count = 0) :
    ∃ b ps, sisvga_bo_ttm_placement api bo pl_flag = some b ∧
      placements_for b.placement.num_placement (set_no_evict api) b.placements = some ps ∧
      ∀ e, (api.ttm_bo_validate b.bo b.placement ps).1 = e → e ≠ 0 →
        ∃ bo1, sisvga_bo_pin api bo pl_flag gpu_addr = some (e, bo1, gpu_addr) ∧
          bo1.pin_count = 0 := by
  obtain ⟨b1, e1, -, -, hp, hn⟩ := sisvga_bo_ttm_placement_frame api bo pl_flag
  have hn3 : b1.placement.num_placement ≤ 3 := by rcases hn with h | h <;> omega
  obtain ⟨ps, e2, -⟩ := placements_for_some b1.placement.num_placement (set_no_evict api)
    b1.placements hn3
  refine ⟨b1, ps, e1, e2, ?_⟩
  intro e he hne
  unfold sisvga_bo_pin
  rw [if_neg (not_not.mpr h0), e1]
  simp only [e2]
  rw [he, if_pos hne]
  exact ⟨_, rfl, by rw [← h0, ← hp]⟩

/-- Witness of C18: a pin to VRAM on a TTM stand-in whose validation fails with -12. -/
theorem sisvga_bo_pin_validate_fails_witness :
    bo_unpinned.pin_count = 0 ∧
    ∃ bo1, sisvga_bo_pin ttm_sample_failing bo_unpinned 4 (some 0) = some (-12, bo1, some 0) ∧
      bo1.pin_count = 0 := by
  obtain ⟨b, ps, -, -, h⟩ :=
    sisvga_bo_pin_validate_fails ttm_sample_failing bo_unpinned 4 (some 0) rfl
  exact ⟨rfl, h (-12) rfl (by decide)⟩

/-- C19: on a buffer with `pin_count >= 1` (below `INT_MAX`), `sisvga_bo_pin` returns 0,
stores the offset the buffer already has when `gpu_addr` is not `NULL`, and changes
nothing of the buffer object but `pin_count`, which grows by one; the outcome is the same
whatever `ttm_bo_validate` would do and whatever domain is requested. -/
theorem sisvga_bo_pin_already_pinned {τ κ : Type} (api : ttm_interface τ κ)
    (bo : sisvga_bo τ κ) (pl_flag : Nat) (gpu_addr : Option Nat)
    (h1 : 1 ≤ bo.pin_count) (h2 : bo.pin_count < 2147483647) :
    sisvga_bo_pin api bo pl_flag gpu_addr =
      some (0, { bo with pin_count := bo.pin_count + 1 },
        gpu_addr.map (fun _ => api.offset bo.bo)) ∧
    (∀ v pl_flag2, sisvga_bo_pin { api with ttm_bo_validate := v } bo pl_flag2 gpu_addr =
      sisvga_bo_pin api bo pl_flag gpu_addr) := by
  refine ⟨sisvga_bo_pin_pinned api bo pl_flag gpu_addr h1 h2, fun v d => ?_⟩
  rw [sisvga_bo_pin_pinned api bo pl_flag gpu_addr h1 h2,
    sisvga_bo_pin_pinned _ bo d gpu_addr h1 h2]

/-- Witness of C19: a pin to the system domain on a buffer already pinned once. -/
theorem sisvga_bo_pin_already_pinned_witness :
    sisvga_bo_pin ttm_sample { bo_unpinned with pin_count := 1 } 1 (some 0) =
      some (0, { bo_unpinned with pin_count := 1 + 1 }, some 4096) ∧
    (∀ v pl_flag2, sisvga_bo_pin { ttm_sample with ttm_bo_validate := v }
        { bo_unpinned with pin_count := 1 } pl_flag2 (some 0) =
      sisvga_bo_pin ttm_sample { bo_unpinned with pin_count := 1 } 1 (some 0)) :=
  sisvga_bo_pin_already_pinned ttm_sample { bo_unpinned with pin_count := 1 } 1 (some 0)
    (by decide) (by decide)

/-- C20, as stated, fails: on a buffer pinned twice to VRAM `sisvga_bo_push_to_system`
returns 0 and only lowers `pin_count` to 1; the placement list is still the one VRAM
placement, no system placement is in it, and the buffer state is untouched. On the
unpinned buffer it returns 0 and changes nothing. -/
theorem sisvga_bo_push_to_system_pinned_twice :
    ∃ rs bo2, pin_calls ttm_sample [4, 4] bo_unpinned = some (rs, bo2) ∧
      bo2.pin_count = 2 ∧
      ∃ bo3, sisvga_bo_push_to_system ttm_sample bo2 = some (0, bo3) ∧
        bo3.pin_count = 1 ∧ placement_list bo3 = placement_list bo2 ∧
        (placement_list bo3).map (fun p => p.flags &&& ttm_sample.TTM_PL_FLAG_SYSTEM) = [0] ∧
        (placement_list bo3).map (fun p => p.flags &&& ttm_sample.TTM_PL_FLAG_VRAM) =
          [ttm_sample.TTM_PL_FLAG_VRAM] ∧
        bo3.bo = bo2.bo ∧
        sisvga_bo_push_to_system ttm_sample bo_unpinned = some (0, bo_unpinned) :=
  ⟨[0, 0], _, rfl, by decide, _, rfl, by decide, by decide, by decide, by decide, by decide,
    rfl⟩

/-- C20, amended: `sisvga_bo_push_to_system` looks at `pin_count` first. With
`pin_count = 0` it returns 0 and changes nothing; with `pin_count >= 2` it returns 0 and
only lowers `pin_count` by one; with `pin_count = 1` it sets `pin_count` to 0, unmaps a
CPU mapping that exists, restricts the placement list to the one system placement (with
the no-evict flag set) and returns what `ttm_bo_validate` returns for it. -/
theorem sisvga_bo_push_to_system_by_pin_count {τ κ : Type} (api : ttm_interface τ κ)
    (bo : sisvga_bo τ κ)
    (hsv : api.TTM_PL_FLAG_SYSTEM &&& api.TTM_PL_FLAG_VRAM = 0)
    (hlo : 0 ≤ bo.pin_count) (hhi : bo.pin_count < 2147483648) :
    (bo.pin_count = 0 → sisvga_bo_push_to_system api bo = some (0, bo)) ∧
    (2 ≤ bo.pin_count →
      sisvga_bo_push_to_system api bo = some (0, { bo with pin_count := bo.pin_count - 1 })) ∧
    (bo.pin_count = 1 →
      ∃ ret bo1, sisvga_bo_push_to_system api bo = some (ret, bo1) ∧
        bo1.pin_count = 0 ∧
        bo1.kmap = (if api.virtual bo.kmap then (api.ttm_bo_kunmap bo.bo bo.kmap).2
          else bo.kmap) ∧
        bo1.placement =
          { num_placement := 1, placement := true, num_busy_placement := 1,
            busy_placement := true } ∧
        placement_list bo1 =
          [{ fpfn := 0, lpfn := 0,
             flags := ((api.TTM_PL_MASK_CACHING ||| api.TTM_PL_FLAG_SYSTEM) % 2 ^ 32 |||
               api.TTM_PL_FLAG_NO_EVICT) % 2 ^ 32 }] ∧
        (ret, bo1.bo) = api.ttm_bo_validate
          (if api.virtual bo.kmap then (api.ttm_bo_kunmap bo.bo bo.kmap).1 else bo.bo)
          bo1.placement bo1.placements) := by
  refine ⟨fun h => ?_, fun h => ?_, fun h => ?_⟩
  · unfold sisvga_bo_push_to_system
    rw [if_pos h]
  · unfold sisvga_bo_push_to_system
    rw [if_neg (by omega), wrap_int_of_range _ (by omega) (by omega)]
    simp only []
    rw [if_pos (by omega)]
  · unfold sisvga_bo_push_to_system
    rw [if_neg (by omega), h]
    have hw : wrap_int (1 - 1) = 0 := by decide
    simp only [hw, ne_eq, not_true_eq_false, if_false]
    cases hvirt : api.virtual bo.kmap
    · simp only [Bool.false_eq_true, if_false, sisvga_bo_ttm_placement_system api _ hsv,
        placements_for]
      split_ifs with hr
      · exact ⟨_, _, rfl, rfl, rfl, rfl, rfl, Prod.ext hr.symm rfl⟩
      · exact ⟨_, _, rfl, rfl, rfl, rfl, rfl, rfl⟩
    · simp only [if_true, sisvga_bo_ttm_placement_system api _ hsv, placements_for]
      split_ifs with hr
      · exact ⟨_, _, rfl, rfl, rfl, rfl, rfl, Prod.ext hr.symm rfl⟩
      · exact ⟨_, _, rfl, rfl, rfl, rfl, rfl, rfl⟩

/-- Witness of C20 (amended): the buffer pinned once and mapped, on the TTM stand-in. -/
theorem sisvga_bo_push_to_system_by_pin_count_witness :
    ∃ ret bo1, sisvga_bo_push_to_system ttm_sample
        { bo_unpinned with pin_count := 1, kmap := true } = some (ret, bo1) ∧
      bo1.pin_count = 0 ∧ bo1.kmap = false ∧
      placement_list bo1 = [{ fpfn := 0, lpfn := 0, flags := 2555905 }] := by
  obtain ⟨ret, bo1, e, h1, h2, -, h4, -⟩ :=
    (sisvga_bo_push_to_system_by_pin_count ttm_sample
      { bo_unpinned with pin_count := 1, kmap := true } (by decide) (by decide)
      (by decide)).2.2 rfl
  exact ⟨ret, bo1, e, h1, h2, h4⟩

theorem is_9_dot_mode_iff (mode : drm_display_mode) :
    is_9_dot_mode mode = true ↔
      (if mode.flags &&& DRM_MODE_FLAG_CLKDIV2 ≠ 0 then int_mul mode.hdisplay 2
        else mode.hdisplay).tmod 9 = 0 ∧
      (int_mul mode.vdisplay 9).tdiv 5 =
        (if mode.flags &&& DRM_MODE_FLAG_CLKDIV2 ≠ 0 then int_mul mode.hdisplay 2
          else mode.hdisplay) := by
  unfold is_9_dot_mode
  simp only [Bool.and_eq_true, beq_iff_eq]

theorem dot_unit_eq_9_iff (mode : drm_display_mode) :
    dot_unit mode = 9 ↔ is_9_dot_mode mode = true := by
  unfold dot_unit
  cases is_9_dot_mode mode <;> simp

theorem dot_unit_eq_8_iff (mode : drm_display_mode) :
    dot_unit mode = 8 ↔ is_9_dot_mode mode = false := by
  unfold dot_unit
  cases is_9_dot_mode mode <;> simp

/-- C25, as stated, fails: a mode of 721 by 401 pixels satisfies
`vdisplay * 9 / 5 == hdisplay` (3609 / 5 = 721), yet `is_9_dot_mode` is false and the dot
unit is 8, because 721 is not a multiple of 9. -/
theorem dot_unit_721x401_is_8 :
    ratio_9_to_5 mode_721x401 ∧ is_9_dot_mode mode_721x401 = false ∧
      dot_unit mode_721x401 = 8 ∧
      ¬ (dot_unit mode_721x401 = 9 ↔ ratio_9_to_5 mode_721x401) := by
  decide

/-- C25, amended: for a mode whose `hdisplay` and `vdisplay` are non-negative and small
enough for the products of `is_9_dot_mode` not to overflow, the dot unit is 9 exactly when
the displayed width (doubled under `DRM_MODE_FLAG_CLKDIV2`) is a multiple of 9 and
`vdisplay * 9 / 5` equals it; in every other case it is 8. -/
theorem dot_unit_9_iff_multiple_and_ratio (mode : drm_display_mode)
    (hh0 : 0 ≤ mode.hdisplay) (hh1 : mode.hdisplay < 1073741824)
    (hv0 : 0 ≤ mode.vdisplay) (hv1 : mode.vdisplay < 238609294) :
    (dot_unit mode = 9 ↔ 9 ∣ doubled_hdisplay mode ∧ ratio_9_to_5 mode) ∧
    (¬ (9 ∣ doubled_hdisplay mode ∧ ratio_9_to_5 mode) → dot_unit mode = 8) := by
  have key : dot_unit mode = 9 ↔ 9 ∣ doubled_hdisplay mode ∧ ratio_9_to_5 mode := by
    rw [dot_unit_eq_9_iff, is_9_dot_mode_iff]
    unfold ratio_9_to_5 doubled_hdisplay int_mul
    rw [wrap_int_of_range (mode.vdisplay * 9) (by omega) (by omega),
      Int.tdiv_eq_ediv (by omega) (by omega)]
    by_cases hf : mode.flags &&& DRM_MODE_FLAG_CLKDIV2 ≠ 0
    · rw [if_pos hf, if_pos hf, wrap_int_of_range (mode.hdisplay * 2) (by omega) (by omega)]
      constructor
      · rintro ⟨a, b⟩
        exact ⟨Int.dvd_of_tmod_eq_zero a, b⟩
      · rintro ⟨a, b⟩
        exact ⟨Int.tmod_eq_zero_of_dvd a, b⟩
    · rw [if_neg hf, if_neg hf]
      constructor
      · rintro ⟨a, b⟩
        exact ⟨Int.dvd_of_tmod_eq_zero a, b⟩
      · rintro ⟨a, b⟩
        exact ⟨Int.tmod_eq_zero_of_dvd a, b⟩
  refine ⟨key, fun h => ?_⟩
  have h9 : ¬ dot_unit mode = 9 := fun c => h (key.mp c)
  rw [dot_unit_eq_9_iff] at h9
  rw [dot_unit_eq_8_iff]
  cases hb : is_9_dot_mode mode
  · rfl
  · exact absurd hb h9

/-- Witness of C25 (amended): the 720x400 mode has 9 dots. -/
theorem dot_unit_9_iff_multiple_and_ratio_witness :
    dot_unit mode_720x400_70 = 9 ∧ 9 ∣ doubled_hdisplay mode_720x400_70 ∧
      ratio_9_to_5 mode_720x400_70 :=
  ⟨by decide,
   (dot_unit_9_iff_multiple_and_ratio mode_720x400_70 (by decide) (by decide) (by decide)
      (by decide)).1.mp (by decide)⟩

theorem int_and_255 (x : Int) : ((int_and x 0xff : Nat) : Int) = x % 256 := by
  unfold int_and int_to_uint
  rw [show (0xff : Nat) = 2 ^ 8 - 1 from rfl, Nat.and_pow_two_sub_one_eq_mod]
  omega

theorem int_and_31 (x : Int) : ((int_and x 0x1f : Nat) : Int) = x % 32 := by
  unfold int_and int_to_uint
  rw [show (0x1f : Nat) = 2 ^ 5 - 1 from rfl, Nat.and_pow_two_sub_one_eq_mod]
  omega

theorem int_and_255_lt (x : Int) : int_and x 0xff < 256 := by
  have := int_and_255 x
  omega

theorem int_and_31_lt (x : Int) : int_and x 0x1f < 32 := by
  have := int_and_31 x
  omega

set_option maxRecDepth 100000 in
theorem cr03_low_bits : ∀ a, a < 4 → ∀ b, b < 32 →
    (0x80 ||| a <<< 5 ||| b) % 256 % 32 = b := by
  decide

set_option maxRecDepth 100000 in
theorem cr05_low_bits : ∀ c ∈ [0, 32], ∀ b, b < 32 → (c <<< 2 ||| b) % 256 % 32 = b := by
  decide

theorem image_horizontal_fields (info : sisvga_device_info) (mode : drm_display_mode)
    (r : sisvga_vclk_regs_out) (s : vga_regs) :
    (((vga_display_mode_image info mode r s).cr 0x00 : Nat) : Int) =
      (mode.crtc_htotal.tdiv (dot_unit mode) - 5) % 256 ∧
    (((vga_display_mode_image info mode r s).cr 0x01 : Nat) : Int) =
      (mode.crtc_hdisplay.tdiv (dot_unit mode) - 1) % 256 ∧
    (((vga_display_mode_image info mode r s).cr 0x02 : Nat) : Int) =
      (mode.crtc_hblank_start.tdiv (dot_unit mode) - 1) % 256 ∧
    (((vga_display_mode_image info mode r s).cr 0x04 : Nat) : Int) =
      (mode.crtc_hsync_start.tdiv (dot_unit mode) - 1) % 256 ∧
    (((vga_display_mode_image info mode r s).cr 0x03 % 32 : Nat) : Int) =
      (mode.crtc_hblank_end.tdiv (dot_unit mode) - 1) % 32 ∧
    (((vga_display_mode_image info mode r s).cr 0x05 % 32 : Nat) : Int) =
      (mode.crtc_hsync_end.tdiv (dot_unit mode) - 1) % 32 := by
  obtain ⟨⟨h0, h1, h2, h3, h4, h5, -, -⟩, -, -⟩ :=
    vga_write_cr_apply_all
      (set_display_mode_regs info mode r (vga_display_mode_reads info r.freq s)) s.cr
  have hcr : (vga_display_mode_image info mode r s).cr =
      vga_write_cr
        (set_display_mode_regs info mode r (vga_display_mode_reads info r.freq s)) s.cr := rfl
  have g0 : (set_display_mode_regs info mode r (vga_display_mode_reads info r.freq s)).cr00 =
      int_and (mode.crtc_htotal.tdiv (dot_unit mode) - 5) 0xff := rfl
  have g1 : (set_display_mode_regs info mode r (vga_display_mode_reads info r.freq s)).cr01 =
      int_and (mode.crtc_hdisplay.tdiv (dot_unit mode) - 1) 0xff := rfl
  have g2 : (set_display_mode_regs info mode r (vga_display_mode_reads info r.freq s)).cr02 =
      int_and (mode.crtc_hblank_start.tdiv (dot_unit mode) - 1) 0xff := rfl
  have g4 : (set_display_mode_regs info mode r (vga_display_mode_reads info r.freq s)).cr04 =
      int_and (mode.crtc_hsync_start.tdiv (dot_unit mode) - 1) 0xff := rfl
  have g3 : (set_display_mode_regs info mode r (vga_display_mode_reads info r.freq s)).cr03 =
      0x80 ||| ((int_and (if mode.flags &&& DRM_MODE_FLAG_HSKEW ≠ 0 then
          mode.hskew.tdiv (dot_unit mode) else 0) 0x03) <<< 5) |||
        (int_and (mode.crtc_hblank_end.tdiv (dot_unit mode) - 1) 0x1f) := rfl
  have g5 : (set_display_mode_regs info mode r (vga_display_mode_reads info r.freq s)).cr05 =
      ((int_and (mode.crtc_hblank_end.tdiv (dot_unit mode) - 1) 0x20) <<< 2) |||
        (int_and (mode.crtc_hsync_end.tdiv (dot_unit mode) - 1) 0x1f) := rfl
  rw [hcr, h0, h1, h2, h3, h4, h5, g0, g1, g2, g3, g4, g5]
  have m : ∀ x : Int, int_and x 0xff % 256 = int_and x 0xff :=
    fun x => Nat.mod_eq_of_lt (int_and_255_lt x)
  rw [m, m, m, m, int_and_255, int_and_255, int_and_255, int_and_255]
  refine ⟨rfl, rfl, rfl, rfl, ?_, ?_⟩
  · have ha : int_and (if mode.flags &&& DRM_MODE_FLAG_HSKEW ≠ 0 then
        mode.hskew.tdiv (dot_unit mode) else 0) 0x03 < 4 := by
      unfold int_and
      exact Nat.lt_succ_of_le Nat.and_le_right
    rw [cr03_low_bits _ ha _ (int_and_31_lt _), int_and_31]
  · have hc := int_and_single_bit (mode.crtc_hblank_end.tdiv (dot_unit mode) - 1) 5
    simp only [Nat.reducePow] at hc
    rw [cr05_low_bits _ (by simpa using hc) _ (int_and_31_lt _), int_and_31]

set_option maxRecDepth 100000 in
theorem image_sr01_bit0 (info : sisvga_device_info) (mode : drm_display_mode)
    (r : sisvga_vclk_regs_out) (s : vga_regs) :
    (vga_display_mode_image info mode r s).sr 0x01 &&& 0x01 =
      if is_9_dot_mode mode = true then 0 else 1 := by
  have key : ∀ y, y < 256 →
      ((y &&& 254 ||| 8) % 256) &&& 1 = 0 ∧
      ((y &&& 254 &&& 247) % 256) &&& 1 = 0 ∧
      ((y ||| 1 ||| 8) % 256) &&& 1 = 1 ∧
      (((y ||| 1) &&& 247) % 256) &&& 1 = 1 := by
    decide
  have k := key (s.sr 0x01 % 256) (Nat.mod_lt _ (by decide))
  have e01 : (vga_display_mode_image info mode r s).sr 0x01 =
      (set_display_mode_regs info mode r (vga_display_mode_reads info r.freq s)).sr01 % 256 :=
    (vga_write_sr_apply info r.freq _ _).1
  have e : (set_display_mode_regs info mode r (vga_display_mode_reads info r.freq s)).sr01 =
      if mode.flags &&& DRM_MODE_FLAG_CLKDIV2 ≠ 0 then
        (if (if is_9_dot_mode mode then (9 : Int) else 8) = 9 then s.sr 0x01 % 256 &&& 0xfe
          else s.sr 0x01 % 256 ||| 0x01) ||| 0x08
      else
        (if (if is_9_dot_mode mode then (9 : Int) else 8) = 9 then s.sr 0x01 % 256 &&& 0xfe
          else s.sr 0x01 % 256 ||| 0x01) &&& 0xf7 := rfl
  rw [e01, e]
  cases is_9_dot_mode mode <;> by_cases h1 : mode.flags &&& DRM_MODE_FLAG_CLKDIV2 ≠ 0
  · rw [if_pos h1]
    simp only [Bool.false_eq_true, if_false, show ¬ ((8 : Int) = 9) from by decide]
    exact k.2.2.1
  · rw [if_neg h1]
    simp only [Bool.false_eq_true, if_false, show ¬ ((8 : Int) = 9) from by decide]
    exact k.2.2.2
  · rw [if_pos h1]
    simp only [if_true]
    exact k.1
  · rw [if_neg h1]
    simp only [if_true]
    exact k.2.1

/-- C26: on a register file that reads back what was written, for every mode whose clock
resolves, `set_display_mode` returns 0 and leaves in cr00 the low 8 bits of
`crtc_htotal / dots - 5`, in cr01, cr02 and cr04 the low 8 bits of `crtc_hdisplay / dots - 1`,
`crtc_hblank_start / dots - 1` and `crtc_hsync_start / dots - 1`, and in the low 5 bits of
cr03 and cr05 those of `crtc_hblank_end / dots - 1` and `crtc_hsync_end / dots - 1`, where
`dots` is the dot unit of the mode and `/` truncates. -/
theorem set_display_mode_horizontal_fields (n : Nat) (info : sisvga_device_info)
    (mode : drm_display_mode) (s : vga_regs) (vclk : sisvga_vclk)
    (hv : sisvga_vclk_of_clock (int_to_uint mode.clock) = .ok vclk) :
    ∃ s1, set_display_mode vga_ports (n + 1) info mode s = .ret (0, s1) ∧
      ((s1.cr 0x00 : Nat) : Int) = (mode.crtc_htotal.tdiv (dot_unit mode) - 5) % 256 ∧
      ((s1.cr 0x01 : Nat) : Int) = (mode.crtc_hdisplay.tdiv (dot_unit mode) - 1) % 256 ∧
      ((s1.cr 0x02 : Nat) : Int) = (mode.crtc_hblank_start.tdiv (dot_unit mode) - 1) % 256 ∧
      ((s1.cr 0x04 : Nat) : Int) = (mode.crtc_hsync_start.tdiv (dot_unit mode) - 1) % 256 ∧
      ((s1.cr 0x03 % 32 : Nat) : Int) =
        (mode.crtc_hblank_end.tdiv (dot_unit mode) - 1) % 32 ∧
      ((s1.cr 0x05 % 32 : Nat) : Int) =
        (mode.crtc_hsync_end.tdiv (dot_unit mode) - 1) % 32 := by
  obtain ⟨r, hr⟩ := sisvga_vclk_regs_total vclk
  exact ⟨_, set_display_mode_vga n info mode s vclk r hv hr,
    image_horizontal_fields info mode r s⟩

/-- Witness of C26: the 800x600 @ 56 Hz mode (htotal 1024, 8 dots) on the 6202 leaves
cr00 = 123 and cr01 = 99. -/
theorem set_display_mode_horizontal_fields_witness :
    dot_unit mode_800x600_56_crtc = 8 ∧
    ∃ s1, set_display_mode vga_ports 1 sisvga_device_info_6202 mode_800x600_56_crtc
        vga_regs_zero = .ret (0, s1) ∧
      s1.cr 0x00 = 123 ∧ s1.cr 0x01 = 99 := by
  obtain ⟨s1, e, h0, h1, -⟩ :=
    set_display_mode_horizontal_fields 0 sisvga_device_info_6202 mode_800x600_56_crtc
      vga_regs_zero SISVGA_VCLK_36000 rfl
  have d : dot_unit mode_800x600_56_crtc = 8 := by decide
  rw [d] at h0 h1
  have a0 : (mode_800x600_56_crtc.crtc_htotal.tdiv 8 - 5) % 256 = 123 := by decide
  have a1 : (mode_800x600_56_crtc.crtc_hdisplay.tdiv 8 - 1) % 256 = 99 := by decide
  rw [a0] at h0
  rw [a1] at h1
  exact ⟨d, s1, e, by exact_mod_cast h0, by exact_mod_cast h1⟩

set_option maxRecDepth 100000 in
/-- C24, as stated, fails in both halves. The 720x480 timings 720 / 738 / 846 / 900 are
all multiples of 9 and not all multiples of 8, yet the mode lacks the 9:5 ratio and is
compiled with 8 dots (sr01 bit 0 set, cr04 = 738 / 8 - 1). The 720x400 timings
720 / 728 / 848 / 904 are all multiples of 8 and not all multiples of 9, yet the mode has the
ratio and is compiled with 9 dots (sr01 bit 0 cleared, cr04 = 728 / 9 - 1). -/
theorem set_display_mode_dot_unit_not_from_divisors :
    (all_multiples 9 mode_720x480_by9 ∧ ¬ all_multiples 8 mode_720x480_by9 ∧
      dot_unit mode_720x480_by9 = 8 ∧
      ∃ s1, set_display_mode vga_ports 1 sisvga_device_info_6326 mode_720x480_by9
          vga_regs_zero = .ret (0, s1) ∧ s1.sr 0x01 &&& 0x01 = 1 ∧ s1.cr 0x04 = 91) ∧
    (all_multiples 8 mode_720x400_by8 ∧ ¬ all_multiples 9 mode_720x400_by8 ∧
      dot_unit mode_720x400_by8 = 9 ∧
      ∃ s1, set_display_mode vga_ports 1 sisvga_device_info_6326 mode_720x400_by8
          vga_regs_zero = .ret (0, s1) ∧ s1.sr 0x01 &&& 0x01 = 0 ∧ s1.cr 0x04 = 79) := by
  refine ⟨⟨by decide, by decide, by decide, _,
      set_display_mode_vga 0 sisvga_device_info_6326 mode_720x480_by9 vga_regs_zero
        SISVGA_VCLK_28322 _ rfl rfl, by decide, by decide⟩,
    ⟨by decide, by decide, by decide, _,
      set_display_mode_vga 0 sisvga_device_info_6326 mode_720x400_by8 vga_regs_zero
        SISVGA_VCLK_28322 _ rfl rfl, by decide, by decide⟩⟩

/-- C24, amended: the test of `is_9_dot_mode` alone decides the dot unit, whatever the
divisors of the four horizontal fields. For every mode whose clock resolves,
`set_display_mode` returns 0; when the test holds it has cleared sr01 bit 0 and stored the
horizontal fields divided by 9, and when the test fails it has set sr01 bit 0 and stored
them divided by 8. -/
theorem set_display_mode_dot_unit_from_test (n : Nat) (info : sisvga_device_info)
    (mode : drm_display_mode) (s : vga_regs) (vclk : sisvga_vclk)
    (hv : sisvga_vclk_of_clock (int_to_uint mode.clock) = .ok vclk) :
    ∃ s1, set_display_mode vga_ports (n + 1) info mode s = .ret (0, s1) ∧
      (is_9_dot_mode mode = true →
        s1.sr 0x01 &&& 0x01 = 0 ∧
        ((s1.cr 0x00 : Nat) : Int) = (mode.crtc_htotal.tdiv 9 - 5) % 256 ∧
        ((s1.cr 0x01 : Nat) : Int) = (mode.crtc_hdisplay.tdiv 9 - 1) % 256 ∧
        ((s1.cr 0x02 : Nat) : Int) = (mode.crtc_hblank_start.tdiv 9 - 1) % 256 ∧
        ((s1.cr 0x04 : Nat) : Int) = (mode.crtc_hsync_start.tdiv 9 - 1) % 256) ∧
      (is_9_dot_mode mode = false →
        s1.sr 0x01 &&& 0x01 = 1 ∧
        ((s1.cr 0x00 : Nat) : Int) = (mode.crtc_htotal.tdiv 8 - 5) % 256 ∧
        ((s1.cr 0x01 : Nat) : Int) = (mode.crtc_hdisplay.tdiv 8 - 1) % 256 ∧
        ((s1.cr 0x02 : Nat) : Int) = (mode.crtc_hblank_start.tdiv 8 - 1) % 256 ∧
        ((s1.cr 0x04 : Nat) : Int) = (mode.crtc_hsync_start.tdiv 8 - 1) % 256) := by
  obtain ⟨r, hr⟩ := sisvga_vclk_regs_total vclk
  refine ⟨_, set_display_mode_vga n info mode s vclk r hv hr, ?_, ?_⟩
  · intro h9
    obtain ⟨h0, h1, h2, h4, -, -⟩ := image_horizontal_fields info mode r s
    have hb := image_sr01_bit0 info mode r s
    have hd : dot_unit mode = 9 := (dot_unit_eq_9_iff mode).mpr h9
    rw [hd] at h0 h1 h2 h4
    rw [if_pos h9] at hb
    exact ⟨hb, h0, h1, h2, h4⟩
  · intro h8
    obtain ⟨h0, h1, h2, h4, -, -⟩ := image_horizontal_fields info mode r s
    have hb := image_sr01_bit0 info mode r s
    have hd : dot_unit mode = 8 := (dot_unit_eq_8_iff mode).mpr h8
    rw [hd] at h0 h1 h2 h4
    rw [if_neg (by rw [h8]; exact Bool.false_ne_true)] at hb
    exact ⟨hb, h0, h1, h2, h4⟩

set_option maxRecDepth 100000 in
/-- Witness of C24 (amended): the 720x400 @ 70 Hz mode passes the test and is compiled
with 9 dots on the 6326. -/
theorem set_display_mode_dot_unit_from_test_witness :
    is_9_dot_mode mode_720x400_70 = true ∧
    ∃ s1, set_display_mode vga_ports 1 sisvga_device_info_6326 mode_720x400_70
        vga_regs_zero = .ret (0, s1) ∧
      s1.sr 0x01 &&& 0x01 = 0 ∧ ((s1.cr 0x01 : Nat) : Int) = 79 := by
  obtain ⟨s1, e, h9, -⟩ :=
    set_display_mode_dot_unit_from_test 0 sisvga_device_info_6326 mode_720x400_70
      vga_regs_zero SISVGA_VCLK_28322 rfl
  obtain ⟨hb, -, h1, -⟩ := h9 (by decide)
  exact ⟨by decide, s1, e, hb, h1.trans (by decide)⟩

theorem mem_pair_of_single_bit (x : Int) (k : Nat) :
    int_and x (2 ^ k) ∈ [0, 2 ^ k] := by
  rcases int_and_single_bit x k with h | h <;> simp [h]

set_option maxRecDepth 100000 in
theorem cr07_bits_key : ∀ a ∈ [0, 512], ∀ b ∈ [0, 512], ∀ c ∈ [0, 512], ∀ d ∈ [0, 256],
    ∀ e ∈ [0, 256], ∀ f ∈ [0, 256], ∀ g ∈ [0, 256], ∀ h ∈ [0, 256],
    ((a >>> 2 ||| b >>> 3 ||| c >>> 4 ||| d >>> 4 ||| e >>> 5 ||| f >>> 6 ||| g >>> 7 |||
        h >>> 8) % 256) &&& 0x80 = a >>> 2 ∧
    ((a >>> 2 ||| b >>> 3 ||| c >>> 4 ||| d >>> 4 ||| e >>> 5 ||| f >>> 6 ||| g >>> 7 |||
        h >>> 8) % 256) &&& 0x40 = b >>> 3 ∧
    ((a >>> 2 ||| b >>> 3 ||| c >>> 4 ||| d >>> 4 ||| e >>> 5 ||| f >>> 6 ||| g >>> 7 |||
        h >>> 8) % 256) &&& 0x20 = c >>> 4 ∧
    ((a >>> 2 ||| b >>> 3 ||| c >>> 4 ||| d >>> 4 ||| e >>> 5 ||| f >>> 6 ||| g >>> 7 |||
        h >>> 8) % 256) &&& 0x10 = d >>> 4 ∧
    ((a >>> 2 ||| b >>> 3 ||| c >>> 4 ||| d >>> 4 ||| e >>> 5 ||| f >>> 6 ||| g >>> 7 |||
        h >>> 8) % 256) &&& 0x08 = e >>> 5 ∧
    ((a >>> 2 ||| b >>> 3 ||| c >>> 4 ||| d >>> 4 ||| e >>> 5 ||| f >>> 6 ||| g >>> 7 |||
        h >>> 8) % 256) &&& 0x04 = f >>> 6 ∧
    ((a >>> 2 ||| b >>> 3 ||| c >>> 4 ||| d >>> 4 ||| e >>> 5 ||| f >>> 6 ||| g >>> 7 |||
        h >>> 8) % 256) &&& 0x02 = g >>> 7 ∧
    ((a >>> 2 ||| b >>> 3 ||| c >>> 4 ||| d >>> 4 ||| e >>> 5 ||| f >>> 6 ||| g >>> 7 |||
        h >>> 8) % 256) &&& 0x01 = h >>> 8 := by
  decide

set_option maxRecDepth 100000 in
theorem cr09_bits_key : ∀ a ∈ [0, 512], ∀ b ∈ [0, 512], ∀ v, v < 32 →
    ((a >>> 3 ||| b >>> 4 ||| v) % 256) &&& 0x40 = a >>> 3 ∧
    ((a >>> 3 ||| b >>> 4 ||| v) % 256) &&& 0x20 = b >>> 4 ∧
    ((a >>> 3 ||| b >>> 4 ||| v ||| 0x80) % 256) &&& 0x40 = a >>> 3 ∧
    ((a >>> 3 ||| b >>> 4 ||| v ||| 0x80) % 256) &&& 0x20 = b >>> 4 := by
  decide

set_option maxRecDepth 1000000 in
set_option maxHeartbeats 4000000 in
theorem sr0a_bits_key : ∀ y, y < 256 → ∀ a ∈ [0, 1024], ∀ b ∈ [0, 1024], ∀ c ∈ [0, 1024],
    ∀ d ∈ [0, 1024],
    ((y &&& 0xf0 ||| (a >>> 7 ||| b >>> 8 ||| c >>> 9 ||| d >>> 10)) % 256) &&& 0x08 = a >>> 7 ∧
    ((y &&& 0xf0 ||| (a >>> 7 ||| b >>> 8 ||| c >>> 9 ||| d >>> 10)) % 256) &&& 0x04 = b >>> 8 ∧
    ((y &&& 0xf0 ||| (a >>> 7 ||| b >>> 8 ||| c >>> 9 ||| d >>> 10)) % 256) &&& 0x02 = c >>> 9 ∧
    ((y &&& 0xf0 ||| (a >>> 7 ||| b >>> 8 ||| c >>> 9 ||| d >>> 10)) % 256) &&& 0x01 =
      d >>> 10 ∧
    ((y &&& 0xf0 ||| (a >>> 7 ||| b >>> 8 ||| c >>> 9 ||| d >>> 10)) % 256) &&& 0xf0 =
      y &&& 0xf0 := by
  decide

theorem image_cr07_bits (info : sisvga_device_info) (mode : drm_display_mode)
    (r : sisvga_vclk_regs_out) (s : vga_regs) :
    (vga_display_mode_image info mode r s).cr 0x07 &&& 0x80 =
      int_and (wrap_int (mode.crtc_vsync_start - 1)) 0x200 >>> 2 ∧
    (vga_display_mode_image info mode r s).cr 0x07 &&& 0x40 =
      int_and (wrap_int (mode.crtc_vdisplay - 1)) 0x200 >>> 3 ∧
    (vga_display_mode_image info mode r s).cr 0x07 &&& 0x20 =
      int_and (wrap_int (mode.crtc_vtotal - 2)) 0x200 >>> 4 ∧
    (vga_display_mode_image info mode r s).cr 0x07 &&& 0x10 =
      int_and (wrap_int (mode.crtc_vtotal + 1)) 0x100 >>> 4 ∧
    (vga_display_mode_image info mode r s).cr 0x07 &&& 0x08 =
      int_and (wrap_int (mode.crtc_vblank_start - 1)) 0x100 >>> 5 ∧
    (vga_display_mode_image info mode r s).cr 0x07 &&& 0x04 =
      int_and (wrap_int (mode.crtc_vsync_start - 1)) 0x100 >>> 6 ∧
    (vga_display_mode_image info mode r s).cr 0x07 &&& 0x02 =
      int_and (wrap_int (mode.crtc_vdisplay - 1)) 0x100 >>> 7 ∧
    (vga_display_mode_image info mode r s).cr 0x07 &&& 0x01 =
      int_and (wrap_int (mode.crtc_vtotal - 2)) 0x100 >>> 8 := by
  have e : (vga_display_mode_image info mode r s).cr 0x07 =
      (set_display_mode_regs info mode r (vga_display_mode_reads info r.freq s)).cr07 % 256 :=
    (vga_write_cr_apply_all _ s.cr).1.2.2.2.2.2.2.2
  have g : (set_display_mode_regs info mode r (vga_display_mode_reads info r.freq s)).cr07 =
      ((int_and (wrap_int (mode.crtc_vsync_start - 1)) 0x200) >>> 2) |||
      ((int_and (wrap_int (mode.crtc_vdisplay - 1)) 0x200) >>> 3) |||
      ((int_and (wrap_int (mode.crtc_vtotal - 2)) 0x200) >>> 4) |||
      ((int_and (wrap_int (mode.crtc_vtotal + 1)) 0x100) >>> 4) |||
      ((int_and (wrap_int (mode.crtc_vblank_start - 1)) 0x100) >>> 5) |||
      ((int_and (wrap_int (mode.crtc_vsync_start - 1)) 0x100) >>> 6) |||
      ((int_and (wrap_int (mode.crtc_vdisplay - 1)) 0x100) >>> 7) |||
      ((int_and (wrap_int (mode.crtc_vtotal - 2)) 0x100) >>> 8) := rfl
  rw [e, g]
  exact cr07_bits_key _ (mem_pair_of_single_bit _ 9) _ (mem_pair_of_single_bit _ 9)
    _ (mem_pair_of_single_bit _ 9) _ (mem_pair_of_single_bit _ 8)
    _ (mem_pair_of_single_bit _ 8) _ (mem_pair_of_single_bit _ 8)
    _ (mem_pair_of_single_bit _ 8) _ (mem_pair_of_single_bit _ 8)

theorem image_cr09_bits (info : sisvga_device_info) (mode : drm_display_mode)
    (r : sisvga_vclk_regs_out) (s : vga_regs) :
    (vga_display_mode_image info mode r s).cr 0x09 &&& 0x40 =
      int_and (wrap_int (mode.crtc_vtotal + 1)) 0x200 >>> 3 ∧
    (vga_display_mode_image info mode r s).cr 0x09 &&& 0x20 =
      int_and (wrap_int (mode.crtc_vblank_start - 1)) 0x200 >>> 4 := by
  have e : (vga_display_mode_image info mode r s).cr 0x09 =
      (set_display_mode_regs info mode r (vga_display_mode_reads info r.freq s)).cr09 % 256 :=
    (vga_write_cr_apply_all _ s.cr).2.1.2.1
  have g : (set_display_mode_regs info mode r (vga_display_mode_reads info r.freq s)).cr09 =
      if mode.flags &&& DRM_MODE_FLAG_DBLSCAN ≠ 0 then
        ((int_and (wrap_int (mode.crtc_vtotal + 1)) 0x200) >>> 3) |||
        ((int_and (wrap_int (mode.crtc_vblank_start - 1)) 0x200) >>> 4) |||
        (int_and (if mode.vscan ≠ 0 then wrap_int (mode.vscan - 1) else 0) 0x1f) ||| 0x80
      else
        ((int_and (wrap_int (mode.crtc_vtotal + 1)) 0x200) >>> 3) |||
        ((int_and (wrap_int (mode.crtc_vblank_start - 1)) 0x200) >>> 4) |||
        (int_and (if mode.vscan ≠ 0 then wrap_int (mode.vscan - 1) else 0) 0x1f) := rfl
  have k := cr09_bits_key _ (mem_pair_of_single_bit (wrap_int (mode.crtc_vtotal + 1)) 9)
    _ (mem_pair_of_single_bit (wrap_int (mode.crtc_vblank_start - 1)) 9)
    _ (int_and_31_lt (if mode.vscan ≠ 0 then wrap_int (mode.vscan - 1) else 0))
  rw [e, g]
  by_cases hd : mode.flags &&& DRM_MODE_FLAG_DBLSCAN ≠ 0
  · rw [if_pos hd]; exact ⟨k.2.2.1, k.2.2.2⟩
  · rw [if_neg hd]; exact ⟨k.1, k.2.1⟩

theorem image_sr0a_bits (info : sisvga_device_info) (mode : drm_display_mode)
    (r : sisvga_vclk_regs_out) (s : vga_regs) :
    (vga_display_mode_image info mode r s).sr 0x0a &&& 0x08 =
      int_and (wrap_int (mode.crtc_vsync_start - 1)) 0x400 >>> 7 ∧
    (vga_display_mode_image info mode r s).sr 0x0a &&& 0x04 =
      int_and (wrap_int (mode.crtc_vblank_start - 1)) 0x400 >>> 8 ∧
    (vga_display_mode_image info mode r s).sr 0x0a &&& 0x02 =
      int_and (wrap_int (mode.crtc_vdisplay - 1)) 0x400 >>> 9 ∧
    (vga_display_mode_image info mode r s).sr 0x0a &&& 0x01 =
      int_and (wrap_int (mode.crtc_vtotal - 2)) 0x400 >>> 10 ∧
    (vga_display_mode_image info mode r s).sr 0x0a &&& 0xf0 = s.sr 0x0a % 256 &&& 0xf0 := by
  have e : (vga_display_mode_image info mode r s).sr 0x0a =
      (set_display_mode_regs info mode r (vga_display_mode_reads info r.freq s)).sr0a % 256 :=
    (vga_write_sr_apply info r.freq _ _).2.1
  have g : (set_display_mode_regs info mode r (vga_display_mode_reads info r.freq s)).sr0a =
      (s.sr 0x0a % 256 &&& 0xf0) |||
        (((int_and (wrap_int (mode.crtc_vsync_start - 1)) 0x400) >>> 7) |||
         ((int_and (wrap_int (mode.crtc_vblank_start - 1)) 0x400) >>> 8) |||
         ((int_and (wrap_int (mode.crtc_vdisplay - 1)) 0x400) >>> 9) |||
         ((int_and (wrap_int (mode.crtc_vtotal - 2)) 0x400) >>> 10)) := rfl
  rw [e, g]
  exact sr0a_bits_key _ (Nat.mod_lt _ (by decide)) _ (mem_pair_of_single_bit _ 10)
    _ (mem_pair_of_single_bit _ 10) _ (mem_pair_of_single_bit _ 10)
    _ (mem_pair_of_single_bit _ 10)

theorem image_vertical_low_bytes (info : sisvga_device_info) (mode : drm_display_mode)
    (r : sisvga_vclk_regs_out) (s : vga_regs) :
    (vga_display_mode_image info mode r s).cr 0x06 =
      int_and (wrap_int (mode.crtc_vtotal - 2)) 0xff ∧
    (vga_display_mode_image info mode r s).cr 0x12 =
      int_and (wrap_int (mode.crtc_vdisplay - 1)) 0xff ∧
    (vga_display_mode_image info mode r s).cr 0x10 =
      int_and (wrap_int (mode.crtc_vsync_start - 1)) 0xff ∧
    (vga_display_mode_image info mode r s).cr 0x15 =
      int_and (wrap_int (mode.crtc_vblank_start - 1)) 0xff ∧
    (vga_display_mode_image info mode r s).cr 0x18 =
      int_and (wrap_int (mode.crtc_vtotal + 1)) 0xff := by
  obtain ⟨⟨-, -, -, -, -, -, h6, -⟩, -, ⟨h10, -, h12, -, h15, -, -, h18⟩⟩ :=
    vga_write_cr_apply_all
      (set_display_mode_regs info mode r (vga_display_mode_reads info r.freq s)) s.cr
  have hcr : (vga_display_mode_image info mode r s).cr =
      vga_write_cr
        (set_display_mode_regs info mode r (vga_display_mode_reads info r.freq s)) s.cr := rfl
  have g6 : (set_display_mode_regs info mode r (vga_display_mode_reads info r.freq s)).cr06 =
      int_and (wrap_int (mode.crtc_vtotal - 2)) 0xff := rfl
  have g12 : (set_display_mode_regs info mode r (vga_display_mode_reads info r.freq s)).cr12 =
      int_and (wrap_int (mode.crtc_vdisplay - 1)) 0xff := rfl
  have g10 : (set_display_mode_regs info mode r (vga_display_mode_reads info r.freq s)).cr10 =
      int_and (wrap_int (mode.crtc_vsync_start - 1)) 0xff := rfl
  have g15 : (set_display_mode_regs info mode r (vga_display_mode_reads info r.freq s)).cr15 =
      int_and (wrap_int (mode.crtc_vblank_start - 1)) 0xff := rfl
  have g18 : (set_display_mode_regs info mode r (vga_display_mode_reads info r.freq s)).cr18 =
      int_and (wrap_int (mode.crtc_vtotal + 1)) 0xff := rfl
  have m : ∀ x : Int, int_and x 0xff % 256 = int_and x 0xff :=
    fun x => Nat.mod_eq_of_lt (int_and_255_lt x)
  rw [hcr, h6, h10, h12, h15, h18, g6, g12, g10, g15, g18, m, m, m, m, m]
  exact ⟨rfl, rfl, rfl, rfl, rfl⟩

set_option maxRecDepth 100000 in
theorem vtotal_recombine_split : ∀ hi, hi < 8 → ∀ lo, lo < 256 →
    (hi * 256 + lo) &&& 0xff ||| ((((hi * 256 + lo) &&& 0x100) >>> 8) <<< 8) |||
      ((((hi * 256 + lo) &&& 0x200) >>> 4) <<< 4) |||
      ((((hi * 256 + lo) &&& 0x400) >>> 10) <<< 10) = hi * 256 + lo := by
  decide

theorem vtotal_recombine (k : Nat) (hk : k < 2048) :
    k &&& 0xff ||| (((k &&& 0x100) >>> 8) <<< 8) ||| (((k &&& 0x200) >>> 4) <<< 4) |||
      (((k &&& 0x400) >>> 10) <<< 10) = k := by
  have h := vtotal_recombine_split (k / 256) (by omega) (k % 256) (by omega)
  rwa [show k / 256 * 256 + k % 256 = k by omega] at h

set_option maxRecDepth 100000 in
theorem vdisplay_recombine_split : ∀ hi, hi < 8 → ∀ lo, lo < 256 →
    (hi * 256 + lo) &&& 0xff ||| ((((hi * 256 + lo) &&& 0x100) >>> 7) <<< 7) |||
      ((((hi * 256 + lo) &&& 0x200) >>> 3) <<< 3) |||
      ((((hi * 256 + lo) &&& 0x400) >>> 9) <<< 9) = hi * 256 + lo := by
  decide

theorem vdisplay_recombine (k : Nat) (hk : k < 2048) :
    k &&& 0xff ||| (((k &&& 0x100) >>> 7) <<< 7) ||| (((k &&& 0x200) >>> 3) <<< 3) |||
      (((k &&& 0x400) >>> 9) <<< 9) = k := by
  have h := vdisplay_recombine_split (k / 256) (by omega) (k % 256) (by omega)
  rwa [show k / 256 * 256 + k % 256 = k by omega] at h

set_option maxRecDepth 100000 in
theorem vsync_start_recombine_split : ∀ hi, hi < 8 → ∀ lo, lo < 256 →
    (hi * 256 + lo) &&& 0xff ||| ((((hi * 256 + lo) &&& 0x100) >>> 6) <<< 6) |||
      ((((hi * 256 + lo) &&& 0x200) >>> 2) <<< 2) |||
      ((((hi * 256 + lo) &&& 0x400) >>> 7) <<< 7) = hi * 256 + lo := by
  decide

theorem vsync_start_recombine (k : Nat) (hk : k < 2048) :
    k &&& 0xff ||| (((k &&& 0x100) >>> 6) <<< 6) ||| (((k &&& 0x200) >>> 2) <<< 2) |||
      (((k &&& 0x400) >>> 7) <<< 7) = k := by
  have h := vsync_start_recombine_split (k / 256) (by omega) (k % 256) (by omega)
  rwa [show k / 256 * 256 + k % 256 = k by omega] at h

set_option maxRecDepth 100000 in
theorem vblank_start_recombine_split : ∀ hi, hi < 8 → ∀ lo, lo < 256 →
    (hi * 256 + lo) &&& 0xff ||| ((((hi * 256 + lo) &&& 0x100) >>> 5) <<< 5) |||
      ((((hi * 256 + lo) &&& 0x200) >>> 4) <<< 4) |||
      ((((hi * 256 + lo) &&& 0x400) >>> 8) <<< 8) = hi * 256 + lo := by
  decide

theorem vblank_start_recombine (k : Nat) (hk : k < 2048) :
    k &&& 0xff ||| (((k &&& 0x100) >>> 5) <<< 5) ||| (((k &&& 0x200) >>> 4) <<< 4) |||
      (((k &&& 0x400) >>> 8) <<< 8) = k := by
  have h := vblank_start_recombine_split (k / 256) (by omega) (k % 256) (by omega)
  rwa [show k / 256 * 256 + k % 256 = k by omega] at h

theorem wrap_int_natCast (x : Int) (h0 : 0 ≤ x) (h1 : x < 2048) :
    ∃ k : Nat, k < 2048 ∧ wrap_int x = (k : Int) :=
  ⟨x.toNat, by omega, by rw [wrap_int_of_range x (by omega) (by omega)]; omega⟩

theorem image_stored_vtotal (info : sisvga_device_info) (mode : drm_display_mode)
    (r : sisvga_vclk_regs_out) (s : vga_regs)
    (h0 : 2 ≤ mode.crtc_vtotal) (h1 : mode.crtc_vtotal ≤ 2049) :
    ((stored_vtotal (vga_display_mode_image info mode r s) : Nat) : Int) =
      mode.crtc_vtotal - 2 := by
  obtain ⟨k, hk, e⟩ := wrap_int_natCast (mode.crtc_vtotal - 2) (by omega) (by omega)
  have b7 := image_cr07_bits info mode r s
  have ba := image_sr0a_bits info mode r s
  have lo := image_vertical_low_bytes info mode r s
  unfold stored_vtotal
  rw [lo.1, b7.2.2.2.2.2.2.2, b7.2.2.1, ba.2.2.2.1, e,
    int_and_natCast k _ (by omega), int_and_natCast k _ (by omega),
    int_and_natCast k _ (by omega), int_and_natCast k _ (by omega),
    vtotal_recombine k hk, ← e, wrap_int_of_range _ (by omega) (by omega)]

theorem image_stored_vdisplay (info : sisvga_device_info) (mode : drm_display_mode)
    (r : sisvga_vclk_regs_out) (s : vga_regs)
    (h0 : 1 ≤ mode.crtc_vdisplay) (h1 : mode.crtc_vdisplay ≤ 2048) :
    ((stored_vdisplay (vga_display_mode_image info mode r s) : Nat) : Int) =
      mode.crtc_vdisplay - 1 := by
  obtain ⟨k, hk, e⟩ := wrap_int_natCast (mode.crtc_vdisplay - 1) (by omega) (by omega)
  have b7 := image_cr07_bits info mode r s
  have ba := image_sr0a_bits info mode r s
  have lo := image_vertical_low_bytes info mode r s
  unfold stored_vdisplay
  rw [lo.2.1, b7.2.2.2.2.2.2.1, b7.2.1, ba.2.2.1, e,
    int_and_natCast k _ (by omega), int_and_natCast k _ (by omega),
    int_and_natCast k _ (by omega), int_and_natCast k _ (by omega),
    vdisplay_recombine k hk, ← e, wrap_int_of_range _ (by omega) (by omega)]

theorem image_stored_vsync_start (info : sisvga_device_info) (mode : drm_display_mode)
    (r : sisvga_vclk_regs_out) (s : vga_regs)
    (h0 : 1 ≤ mode.crtc_vsync_start) (h1 : mode.crtc_vsync_start ≤ 2048) :
    ((stored_vsync_start (vga_display_mode_image info mode r s) : Nat) : Int) =
      mode.crtc_vsync_start - 1 := by
  obtain ⟨k, hk, e⟩ := wrap_int_natCast (mode.crtc_vsync_start - 1) (by omega) (by omega)
  have b7 := image_cr07_bits info mode r s
  have ba := image_sr0a_bits info mode r s
  have lo := image_vertical_low_bytes info mode r s
  unfold stored_vsync_start
  rw [lo.2.2.1, b7.2.2.2.2.2.1, b7.1, ba.1, e,
    int_and_natCast k _ (by omega), int_and_natCast k _ (by omega),
    int_and_natCast k _ (by omega), int_and_natCast k _ (by omega),
    vsync_start_recombine k hk, ← e, wrap_int_of_range _ (by omega) (by omega)]

theorem image_stored_vblank_start (info : sisvga_device_info) (mode : drm_display_mode)
    (r : sisvga_vclk_regs_out) (s : vga_regs)
    (h0 : 1 ≤ mode.crtc_vblank_start) (h1 : mode.crtc_vblank_start ≤ 2048) :
    ((stored_vblank_start (vga_display_mode_image info mode r s) : Nat) : Int) =
      mode.crtc_vblank_start - 1 := by
  obtain ⟨k, hk, e⟩ := wrap_int_natCast (mode.crtc_vblank_start - 1) (by omega) (by omega)
  have b7 := image_cr07_bits info mode r s
  have b9 := image_cr09_bits info mode r s
  have ba := image_sr0a_bits info mode r s
  have lo := image_vertical_low_bytes info mode r s
  unfold stored_vblank_start
  rw [lo.2.2.2.1, b7.2.2.2.2.1, b9.2, ba.2.1, e,
    int_and_natCast k _ (by omega), int_and_natCast k _ (by omega),
    int_and_natCast k _ (by omega), int_and_natCast k _ (by omega),
    vblank_start_recombine k hk, ← e, wrap_int_of_range _ (by omega) (by omega)]

/-- C27: on a register file that reads back what was written, for every mode whose clock
resolves, with `2 <= crtc_vtotal <= 2049` and `crtc_vdisplay`, `crtc_vsync_start`,
`crtc_vblank_start` between 1 and 2048, `set_display_mode` returns 0 and the 11-bit
numbers reassembled from the registers it leaves are `crtc_vtotal - 2`, `crtc_vdisplay - 1`,
`crtc_vsync_start - 1` and `crtc_vblank_start - 1`. -/
theorem set_display_mode_vertical_fields (n : Nat) (info : sisvga_device_info)
    (mode : drm_display_mode) (s : vga_regs) (vclk : sisvga_vclk)
    (hv : sisvga_vclk_of_clock (int_to_uint mode.clock) = .ok vclk)
    (ht0 : 2 ≤ mode.crtc_vtotal) (ht1 : mode.crtc_vtotal ≤ 2049)
    (hd0 : 1 ≤ mode.crtc_vdisplay) (hd1 : mode.crtc_vdisplay ≤ 2048)
    (hs0 : 1 ≤ mode.crtc_vsync_start) (hs1 : mode.crtc_vsync_start ≤ 2048)
    (hb0 : 1 ≤ mode.crtc_vblank_start) (hb1 : mode.crtc_vblank_start ≤ 2048) :
    ∃ s1, set_display_mode vga_ports (n + 1) info mode s = .ret (0, s1) ∧
      ((stored_vtotal s1 : Nat) : Int) = mode.crtc_vtotal - 2 ∧
      ((stored_vdisplay s1 : Nat) : Int) = mode.crtc_vdisplay - 1 ∧
      ((stored_vsync_start s1 : Nat) : Int) = mode.crtc_vsync_start - 1 ∧
      ((stored_vblank_start s1 : Nat) : Int) = mode.crtc_vblank_start - 1 := by
  obtain ⟨r, hr⟩ := sisvga_vclk_regs_total vclk
  exact ⟨_, set_display_mode_vga n info mode s vclk r hv hr,
    image_stored_vtotal info mode r s ht0 ht1, image_stored_vdisplay info mode r s hd0 hd1,
    image_stored_vsync_start info mode r s hs0 hs1,
    image_stored_vblank_start info mode r s hb0 hb1⟩

/-- Witness of C27: the 1600x1200 @ 60 Hz mode on the 6326 (vertical 1200 / 1201 / 1250,
blank start 1200), from a register file of zeros. -/
theorem set_display_mode_vertical_fields_witness :
    ∃ s1, set_display_mode vga_ports 1 sisvga_device_info_6326 mode_1600x1200_60
        vga_regs_zero = .ret (0, s1) ∧
      ((stored_vtotal s1 : Nat) : Int) = mode_1600x1200_60.crtc_vtotal - 2 ∧
      ((stored_vdisplay s1 : Nat) : Int) = mode_1600x1200_60.crtc_vdisplay - 1 ∧
      ((stored_vsync_start s1 : Nat) : Int) = mode_1600x1200_60.crtc_vsync_start - 1 ∧
      ((stored_vblank_start s1 : Nat) : Int) = mode_1600x1200_60.crtc_vblank_start - 1 :=
  set_display_mode_vertical_fields 0 sisvga_device_info_6326 mode_1600x1200_60
    vga_regs_zero SISVGA_VCLK_162000 rfl (by decide) (by decide) (by decide) (by decide)
    (by decide) (by decide) (by decide) (by decide)

theorem mod_256_and (x m : Nat) (h : 255 &&& m = m) : x % 256 &&& m = x &&& m := by
  rw [show (256 : Nat) = 2 ^ 8 from rfl, ← Nat.and_pow_two_sub_one_eq_mod x 8, Nat.and_assoc]
  exact congrArg (fun t => x &&& t) h

theorem first_failure_cons_ok (c : Option drm_mode_status) (cs : List (Option drm_mode_status))
    (hne : c ≠ some MODE_OK) (h : first_failure (c :: cs) = MODE_OK) :
    c = none ∧ first_failure cs = MODE_OK := by
  cases c with
  | none => exact ⟨rfl, h⟩
  | some r =>
    have hr : r = MODE_OK := h
    exact absurd (congrArg some hr) hne

theorem mode_valid_ok_checks (info : sisvga_device_info) (vram_size : Nat)
    (cmdline_mode : drm_cmdline_mode) (mode : drm_display_mode)
    (h : (sisvga_connector_helper_mode_valid_vga info vram_size cmdline_mode mode).1 =
      MODE_OK) :
    check_clock info mode = none ∧ check_display_size info mode = none ∧
    check_dot_unit mode = none ∧ check_crtc_fields info mode = none ∧
    check_vram vram_size mode (mode_valid_bpp info cmdline_mode) = none ∧
    check_catalog info mode (mode_valid_bpp info cmdline_mode) = none := by
  rw [mode_valid_status] at h
  obtain ⟨h1, h⟩ := first_failure_cons_ok _ _ (check_clock_ne_ok info mode) h
  obtain ⟨h2, h⟩ := first_failure_cons_ok _ _ (check_display_size_ne_ok info mode) h
  have n3 : check_dot_unit mode ≠ some MODE_OK := by
    rw [check_dot_unit_eq]; split_ifs <;> simp
  obtain ⟨h3, h⟩ := first_failure_cons_ok _ _ n3 h
  have n4 : check_crtc_fields info mode ≠ some MODE_OK := by
    rcases check_crtc_fields_eq info mode with e | e <;> rw [e] <;> simp
  obtain ⟨h4, h⟩ := first_failure_cons_ok _ _ n4 h
  have n5 : check_vram vram_size mode (mode_valid_bpp info cmdline_mode) ≠ some MODE_OK := by
    rcases check_vram_eq vram_size mode (mode_valid_bpp info cmdline_mode) with e | e <;>
      rw [e] <;> simp
  obtain ⟨h5, h⟩ := first_failure_cons_ok _ _ n5 h
  have n6 : check_catalog info mode (mode_valid_bpp info cmdline_mode) ≠ some MODE_OK := by
    rcases check_catalog_eq info mode (mode_valid_bpp info cmdline_mode) with e | e <;>
      rw [e] <;> simp
  obtain ⟨h6, -⟩ := first_failure_cons_ok _ _ n6 h
  exact ⟨h1, h2, h3, h4, h5, h6⟩

theorem check_crtc_fields_none (info : sisvga_device_info) (mode : drm_display_mode)
    (h : check_crtc_fields info mode = none) :
    mode.hdisplay ≤ info.max_hdisplay ∧ mode.hsync_start ≤ info.max_hsync_start ∧
    mode.hsync_end ≤ info.max_hsync_end ∧ mode.htotal ≤ info.max_htotal ∧
    mode.vdisplay ≤ info.max_vdisplay ∧ mode.vsync_start ≤ info.max_vsync_start ∧
    mode.vsync_end ≤ info.max_vsync_end ∧ mode.vtotal ≤ info.max_vtotal := by
  unfold check_crtc_fields at h
  split_ifs at h with hc
  simp only [not_or, not_lt] at hc
  exact hc

theorem check_catalog_none (info : sisvga_device_info) (mode : drm_display_mode) (bpp : Int)
    (h : check_catalog info mode bpp = none) :
    ∃ e ∈ info.vga_modes, catalog_match e mode bpp := by
  unfold check_catalog at h
  cases hf : sisvga_find_compatible_mode 0 info.vga_modes mode bpp with
  | none => rw [hf] at h; cases h
  | some p =>
    obtain ⟨i, e, -, hi, hm, -⟩ := (find_compatible_some_iff 0 _ mode bpp p).1 hf
    exact ⟨e, List.getElem?_mem hi, hm⟩

set_option maxRecDepth 100000 in
theorem catalog_sizes_lower (model : sisvga_model) :
    ∀ e ∈ (sisvga_device_info_list model).vga_modes, 320 ≤ e.hdisplay ∧ 200 ≤ e.vdisplay := by
  cases model <;> decide

set_option maxRecDepth 100000 in
/-- On the 6202 with 2 MiB of VRAM at 8 bpp the validator accepts the 1024x768 timings at
65000 kHz with 1023 and with 1024 lines in total, the `max_vtotal` of the model; the
line-compare registers then hold 0 and 1, and bit 2 of sr38 is as it was. -/
theorem set_display_mode_line_compare_6202_max_vtotal :
    (∀ vtotal ∈ ([1023, 1024] : List Int),
      (sisvga_connector_helper_mode_valid_vga sisvga_device_info_6202 (2 * 1024 * 1024)
        cmdline_8bpp (mode_1024x768_vtotal vtotal)).1 = MODE_OK) ∧
    (∃ s1, set_display_mode vga_ports 1 sisvga_device_info_6202 (mode_1024x768_vtotal 1023)
        vga_regs_zero = .ret (0, s1) ∧
      stored_line_compare s1 = 0 ∧ s1.sr 0x38 &&& 0x04 = 0) ∧
    (∃ s1, set_display_mode vga_ports 1 sisvga_device_info_6202 (mode_1024x768_vtotal 1024)
        vga_regs_zero = .ret (0, s1) ∧
      stored_line_compare s1 = 1 ∧ s1.sr 0x38 &&& 0x04 = 0) :=
  ⟨by decide,
   ⟨_, set_display_mode_vga 0 sisvga_device_info_6202 (mode_1024x768_vtotal 1023)
      vga_regs_zero SISVGA_VCLK_65000 _ rfl rfl, by decide, by decide⟩,
   ⟨_, set_display_mode_vga 0 sisvga_device_info_6202 (mode_1024x768_vtotal 1024)
      vga_regs_zero SISVGA_VCLK_65000 _ rfl rfl, by decide, by decide⟩⟩

set_option maxRecDepth 100000 in
theorem image_preserved_sr (info : sisvga_device_info) (mode : drm_display_mode)
    (r : sisvga_vclk_regs_out) (s : vga_regs) :
    (vga_display_mode_image info mode r s).sr 0x01 &&& 0xf6 = s.sr 0x01 &&& 0xf6 ∧
    (vga_display_mode_image info mode r s).sr 0x06 &&& 0xdc = s.sr 0x06 &&& 0xdc ∧
    (vga_display_mode_image info mode r s).sr 0x07 &&& 0xfd = s.sr 0x07 &&& 0xfd := by
  have k01 : ∀ y, y < 256 →
      ((y &&& 254 ||| 8) % 256) &&& 0xf6 = y &&& 0xf6 ∧
      ((y &&& 254 &&& 247) % 256) &&& 0xf6 = y &&& 0xf6 ∧
      ((y ||| 1 ||| 8) % 256) &&& 0xf6 = y &&& 0xf6 ∧
      (((y ||| 1) &&& 247) % 256) &&& 0xf6 = y &&& 0xf6 := by
    decide
  have k06 : ∀ y, y < 256 →
      ((y ||| 32 ||| 3) % 256) &&& 0xdc = y &&& 0xdc ∧
      (((y ||| 32) &&& 252) % 256) &&& 0xdc = y &&& 0xdc ∧
      ((y &&& 223 ||| 3) % 256) &&& 0xdc = y &&& 0xdc ∧
      (((y &&& 223) &&& 252) % 256) &&& 0xdc = y &&& 0xdc := by
    decide
  have k07 : ∀ y, y < 256 →
      ((y ||| 2) % 256) &&& 0xfd = y &&& 0xfd ∧ ((y &&& 253) % 256) &&& 0xfd = y &&& 0xfd := by
    decide
  obtain ⟨e01, -, e06, e07, -, -⟩ := vga_write_sr_apply info r.freq
    (set_display_mode_regs info mode r (vga_display_mode_reads info r.freq s))
    (Function.update s.sr 0x38 ((s.sr 0x38 % 256 &&& 252 ||| freqi_bits_list r.freq) % 256))
  have i01 : (vga_display_mode_image info mode r s).sr 0x01 =
      (set_display_mode_regs info mode r (vga_display_mode_reads info r.freq s)).sr01 % 256 :=
    e01
  have i06 : (vga_display_mode_image info mode r s).sr 0x06 =
      (set_display_mode_regs info mode r (vga_display_mode_reads info r.freq s)).sr06 % 256 :=
    e06
  have i07 : (vga_display_mode_image info mode r s).sr 0x07 =
      (set_display_mode_regs info mode r (vga_display_mode_reads info r.freq s)).sr07 % 256 :=
    e07
  have g01 : (set_display_mode_regs info mode r (vga_display_mode_reads info r.freq s)).sr01 =
      if mode.flags &&& DRM_MODE_FLAG_CLKDIV2 ≠ 0 then
        (if (if is_9_dot_mode mode then (9 : Int) else 8) = 9 then s.sr 0x01 % 256 &&& 0xfe
          else s.sr 0x01 % 256 ||| 0x01) ||| 0x08
      else
        (if (if is_9_dot_mode mode then (9 : Int) else 8) = 9 then s.sr 0x01 % 256 &&& 0xfe
          else s.sr 0x01 % 256 ||| 0x01) &&& 0xf7 := rfl
  have g06 : (set_display_mode_regs info mode r (vga_display_mode_reads info r.freq s)).sr06 =
      if r.freq = SISVGA_FREQ_14318 then
        (if mode.flags &&& DRM_MODE_FLAG_INTERLACE_BIT ≠ 0 then s.sr 0x06 % 256 ||| 0x20
          else s.sr 0x06 % 256 &&& 0xdf) ||| 0x03
      else
        (if mode.flags &&& DRM_MODE_FLAG_INTERLACE_BIT ≠ 0 then s.sr 0x06 % 256 ||| 0x20
          else s.sr 0x06 % 256 &&& 0xdf) &&& 0xfc := rfl
  have g07 : (set_display_mode_regs info mode r (vga_display_mode_reads info r.freq s)).sr07 =
      if mode.clock > 135 * 1000 then s.sr 0x07 % 256 ||| 0x02
      else s.sr 0x07 % 256 &&& 0xfd := rfl
  have a01 := k01 (s.sr 0x01 % 256) (Nat.mod_lt _ (by decide))
  have a06 := k06 (s.sr 0x06 % 256) (Nat.mod_lt _ (by decide))
  have a07 := k07 (s.sr 0x07 % 256) (Nat.mod_lt _ (by decide))
  refine ⟨?_, ?_, ?_⟩
  · rw [i01, g01]
    by_cases h1 : mode.flags &&& DRM_MODE_FLAG_CLKDIV2 ≠ 0 <;>
      by_cases h2 : (if is_9_dot_mode mode then (9 : Int) else 8) = 9
    · rw [if_pos h1, if_pos h2]; exact (a01.1).trans (mod_256_and _ _ (by decide))
    · rw [if_pos h1, if_neg h2]; exact (a01.2.2.1).trans (mod_256_and _ _ (by decide))
    · rw [if_neg h1, if_pos h2]; exact (a01.2.1).trans (mod_256_and _ _ (by decide))
    · rw [if_neg h1, if_neg h2]; exact (a01.2.2.2).trans (mod_256_and _ _ (by decide))
  · rw [i06, g06]
    by_cases h1 : r.freq = SISVGA_FREQ_14318 <;>
      by_cases h2 : mode.flags &&& DRM_MODE_FLAG_INTERLACE_BIT ≠ 0
    · rw [if_pos h1, if_pos h2]; exact (a06.1).trans (mod_256_and _ _ (by decide))
    · rw [if_pos h1, if_neg h2]; exact (a06.2.2.1).trans (mod_256_and _ _ (by decide))
    · rw [if_neg h1, if_pos h2]; exact (a06.2.1).trans (mod_256_and _ _ (by decide))
    · rw [if_neg h1, if_neg h2]; exact (a06.2.2.2).trans (mod_256_and _ _ (by decide))
  · rw [i07, g07]
    by_cases h1 : mode.clock > 135 * 1000
    · rw [if_pos h1]; exact (a07.1).trans (mod_256_and _ _ (by decide))
    · rw [if_neg h1]; exact (a07.2).trans (mod_256_and _ _ (by decide))

set_option maxRecDepth 100000 in
theorem image_preserved_cr (info : sisvga_device_info) (mode : drm_display_mode)
    (r : sisvga_vclk_regs_out) (s : vga_regs) :
    (vga_display_mode_image info mode r s).cr 0x08 &&& 0x80 = s.cr 0x08 &&& 0x80 ∧
    (vga_display_mode_image info mode r s).cr 0x14 &&& 0x80 = s.cr 0x14 &&& 0x80 ∧
    (vga_display_mode_image info mode r s).cr 0x17 &&& 0xbc = s.cr 0x17 &&& 0xbc := by
  have k1 : ∀ y, y < 256 → ((y &&& 128) % 256) &&& 0x80 = y &&& 0x80 := by decide
  have k2 : ∀ y, y < 256 → ((y ||| (64 ||| 3)) % 256) &&& 0xbc = y &&& 0xbc := by decide
  obtain ⟨-, ⟨h8, -⟩, ⟨-, -, -, h14, -, -, h17, -⟩⟩ :=
    vga_write_cr_apply_all
      (set_display_mode_regs info mode r (vga_display_mode_reads info r.freq s)) s.cr
  have hcr : (vga_display_mode_image info mode r s).cr =
      vga_write_cr
        (set_display_mode_regs info mode r (vga_display_mode_reads info r.freq s)) s.cr := rfl
  have g8 : (set_display_mode_regs info mode r (vga_display_mode_reads info r.freq s)).cr08 =
      s.cr 0x08 % 256 &&& 0x80 := rfl
  have g14 : (set_display_mode_regs info mode r (vga_display_mode_reads info r.freq s)).cr14 =
      s.cr 0x14 % 256 &&& 0x80 := rfl
  have g17 : (set_display_mode_regs info mode r (vga_display_mode_reads info r.freq s)).cr17 =
      s.cr 0x17 % 256 ||| (0x40 ||| 0x03) := rfl
  rw [hcr, h8, h14, h17, g8, g14, g17]
  exact ⟨(k1 _ (Nat.mod_lt _ (by decide))).trans (mod_256_and _ _ (by decide)),
    (k1 _ (Nat.mod_lt _ (by decide))).trans (mod_256_and _ _ (by decide)),
    (k2 _ (Nat.mod_lt _ (by decide))).trans (mod_256_and _ _ (by decide))⟩

set_option maxRecDepth 100000 in
theorem image_preserved_misc (info : sisvga_device_info) (mode : drm_display_mode)
    (r : sisvga_vclk_regs_out) (s : vga_regs) :
    (vga_display_mode_image info mode r s).misc &&& 0x33 = s.misc &&& 0x33 := by
  have key : ∀ y, y < 256 → ∀ c, c < 4 →
      (((y &&& 63) &&& 243 ||| c <<< 2) % 256) &&& 0x33 = y &&& 0x33 ∧
      (((y &&& 63 ||| 128) &&& 243 ||| c <<< 2) % 256) &&& 0x33 = y &&& 0x33 ∧
      (((y &&& 63 ||| 64) &&& 243 ||| c <<< 2) % 256) &&& 0x33 = y &&& 0x33 ∧
      (((y &&& 63 ||| 128 ||| 64) &&& 243 ||| c <<< 2) % 256) &&& 0x33 = y &&& 0x33 := by
    decide
  have hc : freq_bits_list r.freq < 4 := by cases r.freq <;> decide
  have k := key (s.misc % 256) (Nat.mod_lt _ (by decide)) (freq_bits_list r.freq) hc
  have i : (vga_display_mode_image info mode r s).misc =
      (set_display_mode_regs info mode r (vga_display_mode_reads info r.freq s)).misc % 256 :=
    rfl
  have g : (set_display_mode_regs info mode r (vga_display_mode_reads info r.freq s)).misc =
      ((if mode.flags &&& DRM_MODE_FLAG_NHSYNC ≠ 0 then
          (if mode.flags &&& DRM_MODE_FLAG_NVSYNC ≠ 0 then s.misc % 256 &&& 0x3f ||| 0x80
            else s.misc % 256 &&& 0x3f) ||| 0x40
        else
          (if mode.flags &&& DRM_MODE_FLAG_NVSYNC ≠ 0 then s.misc % 256 &&& 0x3f ||| 0x80
            else s.misc % 256 &&& 0x3f)) &&& 0xf3) ||| (freq_bits_list r.freq <<< 2) := rfl
  rw [i, g]
  by_cases h1 : mode.flags &&& DRM_MODE_FLAG_NHSYNC ≠ 0 <;>
    by_cases h2 : mode.flags &&& DRM_MODE_FLAG_NVSYNC ≠ 0
  · rw [if_pos h1, if_pos h2]; exact (k.2.2.2).trans (mod_256_and _ _ (by decide))
  · rw [if_pos h1, if_neg h2]; exact (k.2.2.1).trans (mod_256_and _ _ (by decide))
  · rw [if_neg h1, if_pos h2]; exact (k.2.1).trans (mod_256_and _ _ (by decide))
  · rw [if_neg h1, if_neg h2]; exact (k.1).trans (mod_256_and _ _ (by decide))

/-- C30: on a register file that reads back what was written, `set_display_mode` returns
for every mode and every initial register content, and the registers it leaves agree with
the initial ones in sr0a bits 7 to 4, in the bits of sr01 other than 0 and 3, of sr06
other than 0, 1 and 5, of sr07 other than 1, in cr08 bit 7, cr14 bit 7, in the bits of
cr17 other than 0, 1 and 6, and in bits 0, 1, 4 and 5 of the miscellaneous output
register. -/
theorem set_display_mode_preserves_bits (n : Nat) (info : sisvga_device_info)
    (mode : drm_display_mode) (s : vga_regs) :
    ∃ ret s1, set_display_mode vga_ports (n + 1) info mode s = .ret (ret, s1) ∧
      s1.sr 0x0a &&& 0xf0 = s.sr 0x0a &&& 0xf0 ∧
      s1.sr 0x01 &&& 0xf6 = s.sr 0x01 &&& 0xf6 ∧
      s1.sr 0x06 &&& 0xdc = s.sr 0x06 &&& 0xdc ∧
      s1.sr 0x07 &&& 0xfd = s.sr 0x07 &&& 0xfd ∧
      s1.cr 0x08 &&& 0x80 = s.cr 0x08 &&& 0x80 ∧
      s1.cr 0x14 &&& 0x80 = s.cr 0x14 &&& 0x80 ∧
      s1.cr 0x17 &&& 0xbc = s.cr 0x17 &&& 0xbc ∧
      s1.misc &&& 0x33 = s.misc &&& 0x33 := by
  cases hv : sisvga_vclk_of_clock (int_to_uint mode.clock) with
  | error e =>
    refine ⟨e, s, ?_, rfl, rfl, rfl, rfl, rfl, rfl, rfl, rfl⟩
    unfold set_display_mode; rw [hv]
  | ok vclk =>
    obtain ⟨r, hr⟩ := sisvga_vclk_regs_total vclk
    obtain ⟨a1, a6, a7⟩ := image_preserved_sr info mode r s
    obtain ⟨c8, c14, c17⟩ := image_preserved_cr info mode r s
    exact ⟨0, _, set_display_mode_vga n info mode s vclk r hv hr,
      ((image_sr0a_bits info mode r s).2.2.2.2).trans (mod_256_and _ _ (by decide)),
      a1, a6, a7, c8, c14, c17, image_preserved_misc info mode r s⟩

set_option maxRecDepth 100000 in
/-- C29, defect of the selector write: on the 6202, `set_display_mode` (800x600 @ 56 Hz,
every register 0xff before the call) leaves sr12 and sr13 as they were, but it has written
sr38: its read phase clears the two selector bits and writes the register back on every
model, so sr38 is 0xfc after the call. -/
theorem set_display_mode_6202_writes_sr38 :
    MODEL_IS_GE sisvga_device_info_6202 SISVGA_MODEL_6326 = false ∧
    ∃ s1, set_display_mode vga_ports 1 sisvga_device_info_6202 mode_800x600_56_crtc
        vga_regs_ones = .ret (0, s1) ∧
      s1.sr 0x12 = vga_regs_ones.sr 0x12 ∧ s1.sr 0x13 = vga_regs_ones.sr 0x13 ∧
      vga_regs_ones.sr 0x38 = 0xff ∧ s1.sr 0x38 = 0xfc :=
  ⟨by decide, _,
    set_display_mode_vga 0 sisvga_device_info_6202 mode_800x600_56_crtc vga_regs_ones
      SISVGA_VCLK_36000 _ rfl rfl, by decide, by decide, by decide, by decide⟩

/-! ## The colour configurator -/

theorem RREG_GR_vga (r : Nat) (s : vga_regs) :
    RREG_GR vga_ports r s = (s.gr (r % 256) % 256, { s with gri := r % 256 }) := rfl

theorem WREG_GR_vga (r v : Nat) (s : vga_regs) :
    WREG_GR vga_ports r v s =
      { s with gri := r % 256, gr := Function.update s.gr (r % 256) (v % 256) } := rfl

theorem RREG_AR_vga (r : Nat) (s : vga_regs) :
    RREG_AR vga_ports r s =
      (s.ar (r % 256) % 256, { s with ari := r % 256, ar_data := true }) := rfl

theorem WREG_AR_vga (r v : Nat) (s : vga_regs) :
    WREG_AR vga_ports r v s =
      { s with ari := r % 256, ar := Function.update s.ar (r % 256) (v % 256),
               ar_data := false } := rfl

theorem set_color_mode_regs_isSome (format : Nat) (rd : color_mode_reads) :
    (set_color_mode_regs format rd).isSome = true ↔ format ∈ color_formats := by
  unfold set_color_mode_regs color_formats
  simp only [List.mem_cons, List.mem_singleton, List.not_mem_nil, or_false]
  by_cases h1 : format = DRM_FORMAT_RGB888
  · simp +decide [h1]
  by_cases h2 : format = DRM_FORMAT_BGR888
  · simp +decide [h1, h2]
  by_cases h3 : format = DRM_FORMAT_RGB565
  · simp +decide [h1, h2, h3]
  by_cases h4 : format = DRM_FORMAT_XRGB1555
  · simp +decide [h1, h2, h3, h4]
  by_cases h5 : format = DRM_FORMAT_C8
  · simp +decide [h1, h2, h3, h4, h5]
  simp +decide [h1, h2, h3, h4, h5]

theorem set_color_mode_read_vga (s : vga_regs) :
    (set_color_mode_read vga_ports s).2 =
      { s with cri := 0x17, gri := 0x07, ari := 0x14, ar_data := true, sri := 0x0b } := by
  unfold set_color_mode_read
  simp only [RREG_CR_vga, RREG_GR_vga, RREG_AR_vga, RREG_SR_vga, Nat.reduceMod]

theorem set_color_mode_of_none {σ : Type} (io : io_ports σ) (fb : drm_framebuffer) (s : σ)
    (h : fb.format.format ∉ color_formats) :
    set_color_mode io fb s = (-EINVAL, (set_color_mode_read io s).2) := by
  have hn : set_color_mode_regs fb.format.format (set_color_mode_read io s).1 = none := by
    cases hr : set_color_mode_regs fb.format.format (set_color_mode_read io s).1 with
    | none => rfl
    | some g =>
      exact absurd ((set_color_mode_regs_isSome _ _).1 (by rw [hr]; rfl)) h
  unfold set_color_mode
  rw [hn]

theorem set_color_mode_of_some {σ : Type} (io : io_ports σ) (fb : drm_framebuffer) (s : σ)
    (h : fb.format.format ∈ color_formats) :
    ∃ g, set_color_mode_regs fb.format.format (set_color_mode_read io s).1 = some g ∧
      set_color_mode io fb s = (0, set_color_mode_write io g (set_color_mode_read io s).2) := by
  cases hr : set_color_mode_regs fb.format.format (set_color_mode_read io s).1 with
  | none =>
    have := (set_color_mode_regs_isSome fb.format.format (set_color_mode_read io s).1).2 h
    rw [hr] at this
    exact absurd this (by decide)
  | some g =>
    refine ⟨g, rfl, ?_⟩
    unfold set_color_mode
    rw [hr]

/-- C22: `set_color_mode` returns 0 exactly for the five formats C8, XRGB1555, RGB565,
RGB888 and BGR888. For every other format it returns `-EINVAL` after its read phase only:
none of its register writes has run, and on the idealised device every register bank
(miscellaneous, sequencer, CRT controller, graphics, attribute) holds what it held before
the call. Each format of `primary_formats` is one of the five. -/
theorem set_color_mode_accepts_five_formats (fb : drm_framebuffer) :
    (∀ {σ : Type} (io : io_ports σ) (s : σ),
      ((set_color_mode io fb s).1 = 0 ↔ fb.format.format ∈ color_formats) ∧
      (fb.format.format ∉ color_formats →
        set_color_mode io fb s = (-EINVAL, (set_color_mode_read io s).2))) ∧
    (∀ s : vga_regs, fb.format.format ∉ color_formats →
      (set_color_mode vga_ports fb s).1 = -EINVAL ∧
      (set_color_mode vga_ports fb s).2.misc = s.misc ∧
      (set_color_mode vga_ports fb s).2.sr = s.sr ∧
      (set_color_mode vga_ports fb s).2.cr = s.cr ∧
      (set_color_mode vga_ports fb s).2.gr = s.gr ∧
      (set_color_mode vga_ports fb s).2.ar = s.ar) ∧
    (∀ f ∈ primary_formats, f ∈ color_formats) := by
  refine ⟨fun io s => ⟨⟨fun h0 => ?_, fun hin => ?_⟩, set_color_mode_of_none io fb s⟩,
    fun s hn => ?_, by decide⟩
  · by_contra hn
    rw [set_color_mode_of_none io fb s hn] at h0
    have h1 : (-EINVAL : Int) = 0 := h0
    exact absurd h1 (by decide)
  · obtain ⟨g, _, hg⟩ := set_color_mode_of_some io fb s hin
    rw [hg]
  · rw [set_color_mode_of_none vga_ports fb s hn, set_color_mode_read_vga]
    exact ⟨rfl, rfl, rfl, rfl, rfl, rfl⟩

/-! ## The scanout buffer -/

theorem bo_pinned_vram_eq :
    sisvga_bo_pin ttm_sample bo_unpinned ttm_sample.TTM_PL_FLAG_VRAM none =
      some (0, bo_pinned_vram, none) := rfl

theorem set_framebuffer_sample_eq :
    set_framebuffer vga_ports ttm_sample_vram_full reserve_sample new_fb_sample
        (some old_fb_sample) false false device_state_sample =
      some (-12,
        { device_state_sample with
          bos := Function.update
            (Function.update bos_sample 1
              { bo_pinned_vram with
                pin_count := 0,
                placements := { p0 := { fpfn := 0, lpfn := 0, flags := 2555905 } } })
            2 { bo_unpinned with
                placement :=
                  { num_placement := 1, placement := true, num_busy_placement := 1,
                    busy_placement := true },
                placements := { p0 := { fpfn := 0, lpfn := 0, flags := 2490372 } } } }) := rfl

theorem sisvga_bo_reserve_frame {τ κ : Type} (rsv : ttm_reserve_interface τ)
    (bo : sisvga_bo τ κ) (no_wait : Bool) :
    (sisvga_bo_reserve rsv bo no_wait).1 = (rsv.ttm_bo_reserve bo.bo true no_wait).1 ∧
    (sisvga_bo_reserve rsv bo no_wait).2 =
      { bo with bo := (rsv.ttm_bo_reserve bo.bo true no_wait).2 } := by
  unfold sisvga_bo_reserve
  by_cases h : (rsv.ttm_bo_reserve bo.bo true no_wait).1 ≠ 0
  · simp only [if_pos h, and_self]
  · simp only [if_neg h, and_true]
    exact (not_not.mp h).symm

theorem sisvga_bo_push_to_system_frame {τ κ : Type} (api : ttm_interface τ κ)
    (bo : sisvga_bo τ κ) :
    ∃ ret bo1, sisvga_bo_push_to_system api bo = some (ret, bo1) ∧
      (bo.pin_count = 0 → bo1 = bo) ∧
      (bo.pin_count ≠ 0 → bo1.pin_count = wrap_int (bo.pin_count - 1)) := by
  unfold sisvga_bo_push_to_system
  by_cases h0 : bo.pin_count = 0
  · rw [if_pos h0]
    exact ⟨0, bo, rfl, fun _ => rfl, fun h => absurd h0 h⟩
  rw [if_neg h0]
  simp only []
  by_cases h1 : wrap_int (bo.pin_count - 1) ≠ 0
  · rw [if_pos h1]
    exact ⟨0, _, rfl, fun h => absurd h h0, fun _ => rfl⟩
  rw [if_neg h1]
  generalize hb : (if api.virtual bo.kmap = true then
      ({ bo := (api.ttm_bo_kunmap bo.bo bo.kmap).1, placement := bo.placement,
         kmap := (api.ttm_bo_kunmap bo.bo bo.kmap).2, placements := bo.placements,
         pin_count := wrap_int (bo.pin_count - 1) } : sisvga_bo τ κ)
    else { bo := bo.bo, placement := bo.placement, kmap := bo.kmap,
           placements := bo.placements, pin_count := wrap_int (bo.pin_count - 1) }) = b
  have hbp : b.pin_count = wrap_int (bo.pin_count - 1) := by
    rw [← hb]; split <;> rfl
  obtain ⟨b1, e1, -, -, hp, hn⟩ := sisvga_bo_ttm_placement_frame api b api.TTM_PL_FLAG_SYSTEM
  have hn3 : b1.placement.num_placement ≤ 3 := by rcases hn with h | h <;> omega
  obtain ⟨ps, e2, -⟩ := placements_for_some b1.placement.num_placement (set_no_evict api)
    b1.placements hn3
  rw [e1]
  simp only [e2]
  split_ifs <;> exact ⟨_, _, rfl, fun h => absurd h h0, fun _ => hp.trans hbp⟩

theorem sisvga_bo_pin_total {τ κ : Type} (api : ttm_interface τ κ) (bo : sisvga_bo τ κ)
    (pl_flag : Nat) (gpu_addr : Option Nat) :
    ∃ ret bo1 g, sisvga_bo_pin api bo pl_flag gpu_addr = some (ret, bo1, g) := by
  by_cases h0 : bo.pin_count = 0
  · obtain ⟨b1, e1, -, -, -, hn⟩ := sisvga_bo_ttm_placement_frame api bo pl_flag
    have hn3 : b1.placement.num_placement ≤ 3 := by rcases hn with h | h <;> omega
    obtain ⟨ps, e2, -⟩ := placements_for_some b1.placement.num_placement (set_no_evict api)
      b1.placements hn3
    unfold sisvga_bo_pin
    rw [if_neg (not_not.mpr h0), e1]
    simp only [e2]
    split_ifs <;> exact ⟨_, _, _, rfl⟩
  · unfold sisvga_bo_pin
    rw [if_pos h0]
    exact ⟨_, _, _, rfl⟩

theorem sisvga_vclk_of_clock_error (clock_khz : Nat) (e : Int)
    (h : sisvga_vclk_of_clock clock_khz = .error e) : e = -EINVAL := by
  unfold sisvga_vclk_of_clock at h
  split at h <;> simp_all

theorem set_framebuffer_error_regs {σ τ κ : Type} (io : io_ports σ) (api : ttm_interface τ κ)
    (rsv : ttm_reserve_interface τ) (new_sis_fb : sisvga_framebuffer)
    (old_sis_fb : Option sisvga_framebuffer) (atomic interlaced : Bool)
    (st st1 : sisvga_device_state σ τ κ) (ret : Int)
    (h : set_framebuffer io api rsv new_sis_fb old_sis_fb atomic interlaced st =
      some (ret, st1))
    (hr : ret ≠ 0) : st1.regs = st.regs ∧ st1.vram_mem = st.vram_mem := by
  unfold set_framebuffer at h
  cases h1 : set_framebuffer_push_old api rsv old_sis_fb atomic st.bos with
  | none => rw [h1] at h; cases h
  | some p1 =>
    obtain ⟨r1, b1⟩ := p1
    rw [h1] at h
    simp only [] at h
    by_cases c1 : r1 ≠ 0
    · rw [if_pos c1] at h
      cases h
      exact ⟨rfl, rfl⟩
    rw [if_neg c1] at h
    cases h2 : set_framebuffer_pin_new api rsv new_sis_fb b1 with
    | none => rw [h2] at h; cases h
    | some p2 =>
      obtain ⟨r2, b2, g⟩ := p2
      rw [h2] at h
      simp only [] at h
      by_cases c2 : r2 ≠ 0
      · rw [if_pos c2] at h
        cases h
        exact ⟨rfl, rfl⟩
      rw [if_neg c2] at h
      by_cases c3 : compute_offset new_sis_fb.base.width new_sis_fb.base.format 4 interlaced < 0
      · rw [if_pos c3] at h
        cases h
        exact ⟨rfl, rfl⟩
      rw [if_neg c3] at h
      cases h
      exact absurd rfl hr

theorem set_framebuffer_pin_new_total {τ κ : Type} (api : ttm_interface τ κ)
    (rsv : ttm_reserve_interface τ) (new_sis_fb : sisvga_framebuffer)
    (bos : Nat → sisvga_bo τ κ) :
    ∃ ret bos1 g, set_framebuffer_pin_new api rsv new_sis_fb bos = some (ret, bos1, g) ∧
      ∀ k, k ≠ new_sis_fb.gem_obj → bos1 k = bos k := by
  unfold set_framebuffer_pin_new
  simp only []
  by_cases c : (sisvga_bo_reserve rsv (bos new_sis_fb.gem_obj) false).1 ≠ 0
  · rw [if_pos c]
    exact ⟨_, _, _, rfl, fun k hk => Function.update_noteq hk _ _⟩
  · rw [if_neg c]
    obtain ⟨r, b, g, e⟩ := sisvga_bo_pin_total api
      (sisvga_bo_reserve rsv (bos new_sis_fb.gem_obj) false).2 api.TTM_PL_FLAG_VRAM (some 0)
    rw [e]
    exact ⟨_, _, _, rfl, fun k hk => Function.update_noteq hk _ _⟩

theorem set_framebuffer_of_blocks {σ τ κ : Type} (io : io_ports σ) (api : ttm_interface τ κ)
    (rsv : ttm_reserve_interface τ) (new_sis_fb : sisvga_framebuffer)
    (old_sis_fb : Option sisvga_framebuffer) (atomic interlaced : Bool)
    (st : sisvga_device_state σ τ κ) (r0 : Int) (bos1 : Nat → sisvga_bo τ κ)
    (h1 : set_framebuffer_push_old api rsv old_sis_fb atomic st.bos = some (r0, bos1)) :
    (r0 ≠ 0 → set_framebuffer io api rsv new_sis_fb old_sis_fb atomic interlaced st =
      some (r0, { st with bos := bos1 })) ∧
    (r0 = 0 → ∀ r1 bos2 g,
      set_framebuffer_pin_new api rsv new_sis_fb bos1 = some (r1, bos2, g) → r1 ≠ 0 →
      set_framebuffer io api rsv new_sis_fb old_sis_fb atomic interlaced st =
        some (r1, { st with bos := bos2 })) := by
  refine ⟨fun c => ?_, fun c r1 bos2 g h2 c2 => ?_⟩
  · unfold set_framebuffer
    rw [h1]
    simp only []
    rw [if_pos c]
  · unfold set_framebuffer
    rw [h1]
    simp only []
    rw [if_neg (not_not.mpr c), h2]
    simp only []
    rw [if_pos c2]

/-- C21, as stated, fails: the buffer of the framebuffer on display is pinned once in
VRAM, and VRAM has no room for the buffer of the new framebuffer. Pinning the new buffer
fails with -12 and `set_framebuffer` returns -12, yet the old buffer has gone from pin
count 1 to 0 and from the VRAM placement to the system placement; no register has been
written. -/
theorem set_framebuffer_old_pushed_when_pin_fails :
    (∃ bo1 g, sisvga_bo_pin ttm_sample_vram_full (bos_sample new_fb_sample.gem_obj)
      ttm_sample_vram_full.TTM_PL_FLAG_VRAM (some 0) = some (-12, bo1, g)) ∧
    ∃ st, set_framebuffer vga_ports ttm_sample_vram_full reserve_sample new_fb_sample
        (some old_fb_sample) false false device_state_sample = some (-12, st) ∧
      (device_state_sample.bos old_fb_sample.gem_obj).pin_count = 1 ∧
      (st.bos old_fb_sample.gem_obj).pin_count = 0 ∧
      (placement_list (device_state_sample.bos old_fb_sample.gem_obj)).map
        (fun p => p.flags &&& ttm_sample.TTM_PL_FLAG_VRAM) = [ttm_sample.TTM_PL_FLAG_VRAM] ∧
      (placement_list (st.bos old_fb_sample.gem_obj)).map
        (fun p => p.flags &&& ttm_sample.TTM_PL_FLAG_VRAM) = [0] ∧
      (placement_list (st.bos old_fb_sample.gem_obj)).map
        (fun p => p.flags &&& ttm_sample.TTM_PL_FLAG_SYSTEM) = [ttm_sample.TTM_PL_FLAG_SYSTEM] ∧
      st.regs = device_state_sample.regs :=
  ⟨⟨_, _, rfl⟩, _, set_framebuffer_sample_eq, rfl, rfl, by decide, by decide, by decide, rfl⟩

/-- C21, amended: with `atomic` false and an old framebuffer, `set_framebuffer` deals with
the old buffer first and with the new buffer second. When reserving the old buffer fails
it returns that error and the old buffer keeps its pin count and placement. Otherwise the
old buffer is left as `sisvga_bo_push_to_system` leaves it (a pin count other than 0 is
lowered by one), and only then the new buffer is reserved and pinned: when that fails,
`set_framebuffer` returns the error, writes no register and leaves the old buffer (when it
is not the new buffer too) as pushed. -/
theorem set_framebuffer_pushes_old_then_pins_new {σ τ κ : Type} (io : io_ports σ)
    (api : ttm_interface τ κ) (rsv : ttm_reserve_interface τ)
    (new_sis_fb old_sis_fb : sisvga_framebuffer) (interlaced : Bool)
    (st : sisvga_device_state σ τ κ) :
    ∃ r0 bos1,
      set_framebuffer_push_old api rsv (some old_sis_fb) false st.bos = some (r0, bos1) ∧
      r0 = (sisvga_bo_reserve rsv (st.bos old_sis_fb.gem_obj) false).1 ∧
      (r0 ≠ 0 →
        set_framebuffer io api rsv new_sis_fb (some old_sis_fb) false interlaced st =
          some (r0, { st with bos := bos1 }) ∧
        (bos1 old_sis_fb.gem_obj).pin_count = (st.bos old_sis_fb.gem_obj).pin_count ∧
        (bos1 old_sis_fb.gem_obj).placement = (st.bos old_sis_fb.gem_obj).placement ∧
        (bos1 old_sis_fb.gem_obj).placements = (st.bos old_sis_fb.gem_obj).placements) ∧
      (r0 = 0 →
        (∃ rp bo1,
          sisvga_bo_push_to_system api
            (sisvga_bo_reserve rsv (st.bos old_sis_fb.gem_obj) false).2 = some (rp, bo1) ∧
          (bos1 old_sis_fb.gem_obj).pin_count = bo1.pin_count ∧
          (bos1 old_sis_fb.gem_obj).placement = bo1.placement ∧
          (bos1 old_sis_fb.gem_obj).placements = bo1.placements ∧
          ((st.bos old_sis_fb.gem_obj).pin_count ≠ 0 →
            (bos1 old_sis_fb.gem_obj).pin_count =
              wrap_int ((st.bos old_sis_fb.gem_obj).pin_count - 1))) ∧
        ∃ r1 bos2 g,
          set_framebuffer_pin_new api rsv new_sis_fb bos1 = some (r1, bos2, g) ∧
          (r1 ≠ 0 →
            set_framebuffer io api rsv new_sis_fb (some old_sis_fb) false interlaced st =
              some (r1, { st with bos := bos2 }) ∧
            (old_sis_fb.gem_obj ≠ new_sis_fb.gem_obj →
              bos2 old_sis_fb.gem_obj = bos1 old_sis_fb.gem_obj))) := by
  obtain ⟨hr1, hr2⟩ := sisvga_bo_reserve_frame rsv (st.bos old_sis_fb.gem_obj) false
  obtain ⟨rp, bo1, ep, -, hp1⟩ :=
    sisvga_bo_push_to_system_frame api (sisvga_bo_reserve rsv (st.bos old_sis_fb.gem_obj) false).2
  by_cases c : (sisvga_bo_reserve rsv (st.bos old_sis_fb.gem_obj) false).1 ≠ 0
  · have e1 : set_framebuffer_push_old api rsv (some old_sis_fb) false st.bos =
        some ((sisvga_bo_reserve rsv (st.bos old_sis_fb.gem_obj) false).1,
          Function.update st.bos old_sis_fb.gem_obj
            (sisvga_bo_reserve rsv (st.bos old_sis_fb.gem_obj) false).2) := by
      unfold set_framebuffer_push_old
      simp only []
      rw [if_pos c]
    refine ⟨_, _, e1, rfl, fun _ => ⟨?_, ?_, ?_, ?_⟩, fun h => absurd h c⟩
    · exact (set_framebuffer_of_blocks io api rsv new_sis_fb (some old_sis_fb) false
        interlaced st _ _ e1).1 c
    · rw [Function.update_same, hr2]
    · rw [Function.update_same, hr2]
    · rw [Function.update_same, hr2]
  · have e1 : set_framebuffer_push_old api rsv (some old_sis_fb) false st.bos =
        some (0, Function.update st.bos old_sis_fb.gem_obj
          (sisvga_bo_unreserve rsv bo1)) := by
      unfold set_framebuffer_push_old
      simp only []
      rw [if_neg c, ep]
    obtain ⟨r1, bos2, g, e2, hk⟩ := set_framebuffer_pin_new_total api rsv new_sis_fb
      (Function.update st.bos old_sis_fb.gem_obj (sisvga_bo_unreserve rsv bo1))
    refine ⟨_, _, e1, (not_not.mp c).symm, fun h => absurd rfl h, fun _ =>
      ⟨⟨rp, bo1, ep, ?_, ?_, ?_, fun h => ?_⟩, r1, bos2, g, e2, fun c1 => ⟨?_, fun hne => ?_⟩⟩⟩
    · rw [Function.update_same]; rfl
    · rw [Function.update_same]; rfl
    · rw [Function.update_same]; rfl
    · rw [Function.update_same]
      have := hp1 (by rw [hr2]; exact h)
      rw [hr2] at this
      exact this
    · exact (set_framebuffer_of_blocks io api rsv new_sis_fb (some old_sis_fb) false
        interlaced st _ _ e1).2 rfl r1 bos2 g e2 c1
    · exact hk _ hne

/-! ## The mode set -/

theorem set_color_mode_write_vga_cr (g : color_mode_regs) (s : vga_regs) :
    (set_color_mode_write vga_ports g s).cr =
      Function.update (Function.update s.cr 0x14 (g.cr14 % 256)) 0x17 (g.cr17 % 256) := rfl

theorem set_color_mode_vga_cr (fb : drm_framebuffer) (s : vga_regs) (j : Nat)
    (h14 : j ≠ 0x14) (h17 : j ≠ 0x17) : (set_color_mode vga_ports fb s).2.cr j = s.cr j := by
  by_cases h : fb.format.format ∈ color_formats
  · obtain ⟨g, -, e⟩ := set_color_mode_of_some vga_ports fb s h
    rw [e]
    simp only []
    rw [set_color_mode_write_vga_cr, Function.update_noteq h17, Function.update_noteq h14,
      set_color_mode_read_vga]
  · rw [set_color_mode_of_none vga_ports fb s h, set_color_mode_read_vga]

theorem mode_set_of_stages {σ τ κ : Type} (io : io_ports σ) (api : ttm_interface τ κ)
    (rsv : ttm_reserve_interface τ) (fuel : Nat) (info : sisvga_device_info)
    (mode adj_mode : drm_display_mode) (primary_fb : sisvga_framebuffer)
    (old_fb : Option sisvga_framebuffer) (st st3 : sisvga_device_state σ τ κ)
    (s1 : σ) (r : Int)
    (h1 : set_display_mode io fuel info adj_mode st.regs = .ret (0, s1))
    (h2 : (set_color_mode io primary_fb.base s1).1 = 0)
    (h3 : set_framebuffer io api rsv primary_fb old_fb false
      (decide (mode.flags &&& DRM_MODE_FLAG_INTERLACE_BIT ≠ 0))
      { st with regs := (set_color_mode io primary_fb.base s1).2 } = some (r, st3))
    (hr : r < 0) :
    sisvga_crtc_helper_mode_set io api rsv fuel info mode adj_mode primary_fb old_fb st =
      .ret (r, st3) := by
  unfold sisvga_crtc_helper_mode_set
  rw [h1]
  simp only []
  rw [if_neg (by decide), h2, if_neg (by decide), h3]
  simp only []
  rw [if_pos hr]

theorem set_framebuffer_sample_regs (s : vga_regs) :
    ∃ bos2, set_framebuffer vga_ports ttm_sample_vram_full reserve_sample new_fb_sample
        (some old_fb_sample) false false { device_state_sample with regs := s } =
      some (-12, { device_state_sample with regs := s, bos := bos2 }) := by
  have h1 : set_framebuffer_push_old ttm_sample_vram_full reserve_sample (some old_fb_sample)
      false bos_sample =
      some (0, Function.update bos_sample 1
        { bo_pinned_vram with
          pin_count := 0,
          placements := { p0 := { fpfn := 0, lpfn := 0, flags := 2555905 } } }) := rfl
  have h2 : set_framebuffer_pin_new ttm_sample_vram_full reserve_sample new_fb_sample
      (Function.update bos_sample 1
        { bo_pinned_vram with
          pin_count := 0,
          placements := { p0 := { fpfn := 0, lpfn := 0, flags := 2555905 } } }) =
      some (-12, Function.update
        (Function.update bos_sample 1
          { bo_pinned_vram with
            pin_count := 0,
            placements := { p0 := { fpfn := 0, lpfn := 0, flags := 2555905 } } })
        2 { bo_unpinned with
            placement :=
              { num_placement := 1, placement := true, num_busy_placement := 1,
                busy_placement := true },
            placements := { p0 := { fpfn := 0, lpfn := 0, flags := 2490372 } } }, 0) := rfl
  exact ⟨_, (set_framebuffer_of_blocks vga_ports ttm_sample_vram_full reserve_sample
    new_fb_sample (some old_fb_sample) false false
    { device_state_sample with regs := s } _ _ h1).2 rfl _ _ _ h2 (by decide)⟩

/-- C23, as stated, fails: on the idealised 6202 with all registers 0, the mode set of the
800x600 @ 56 Hz mode with a C8 framebuffer passes `set_display_mode` and `set_color_mode`,
then VRAM has no room for the framebuffer's buffer and the mode set returns -12. The
registers are not those from before the call: cr00 has gone from 0 to 123. -/
theorem mode_set_error_after_mode_written :
    ∃ st, sisvga_crtc_helper_mode_set vga_ports ttm_sample_vram_full reserve_sample 1
        sisvga_device_info_6202 mode_800x600_56_crtc mode_800x600_56_crtc new_fb_sample
        (some old_fb_sample) device_state_sample = .ret (-12, st) ∧
      device_state_sample.regs.cr 0x00 = 0 ∧ st.regs.cr 0x00 = 123 := by
  obtain ⟨r, hr⟩ := sisvga_vclk_regs_total SISVGA_VCLK_36000
  have h1 := set_display_mode_vga 0 sisvga_device_info_6202 mode_800x600_56_crtc
    device_state_sample.regs SISVGA_VCLK_36000 r rfl hr
  have h2 : (set_color_mode vga_ports new_fb_sample.base
      (vga_display_mode_image sisvga_device_info_6202 mode_800x600_56_crtc r
        device_state_sample.regs)).1 = 0 := by
    obtain ⟨g, -, e⟩ := set_color_mode_of_some vga_ports new_fb_sample.base
      (vga_display_mode_image sisvga_device_info_6202 mode_800x600_56_crtc r
        device_state_sample.regs) (by decide)
    rw [e]
  obtain ⟨bos2, h3⟩ := set_framebuffer_sample_regs
    (set_color_mode vga_ports new_fb_sample.base
      (vga_display_mode_image sisvga_device_info_6202 mode_800x600_56_crtc r
        device_state_sample.regs)).2
  refine ⟨_, mode_set_of_stages vga_ports ttm_sample_vram_full reserve_sample 1
    sisvga_device_info_6202 mode_800x600_56_crtc mode_800x600_56_crtc new_fb_sample
    (some old_fb_sample) device_state_sample _ _ (-12) h1 h2 h3 (by decide), rfl, ?_⟩
  simp only []
  rw [set_color_mode_vga_cr _ _ _ (by decide) (by decide)]
  have h0 := (image_horizontal_fields sisvga_device_info_6202 mode_800x600_56_crtc r
    device_state_sample.regs).1
  have d : dot_unit mode_800x600_56_crtc = 8 := by decide
  rw [d] at h0
  have a0 : (mode_800x600_56_crtc.crtc_htotal.tdiv 8 - 5) % 256 = 123 := by decide
  rw [a0] at h0
  exact_mod_cast h0

/-- C23, amended: a mode set whose clock does not resolve returns the error with the
device state, registers included, as before the call. The stages of a mode set are not
undone: when `set_framebuffer` fails after `set_display_mode` and `set_color_mode` have
returned 0, the mode set returns that error and the registers are those the two stages
have written; `set_framebuffer` has written none. -/
theorem mode_set_error_paths {σ τ κ : Type} (io : io_ports σ) (api : ttm_interface τ κ)
    (rsv : ttm_reserve_interface τ) (fuel : Nat) (info : sisvga_device_info)
    (mode adj_mode : drm_display_mode) (primary_fb : sisvga_framebuffer)
    (old_fb : Option sisvga_framebuffer) (st : sisvga_device_state σ τ κ) :
    (∀ e, sisvga_vclk_of_clock (int_to_uint adj_mode.clock) = .error e →
      e < 0 ∧
      sisvga_crtc_helper_mode_set io api rsv fuel info mode adj_mode primary_fb old_fb st =
        .ret (e, st)) ∧
    (∀ s1 s2 r st3,
      set_display_mode io fuel info adj_mode st.regs = .ret (0, s1) →
      set_color_mode io primary_fb.base s1 = (0, s2) →
      set_framebuffer io api rsv primary_fb old_fb false
        (decide (mode.flags &&& DRM_MODE_FLAG_INTERLACE_BIT ≠ 0))
        { st with regs := s2 } = some (r, st3) →
      r < 0 →
      sisvga_crtc_helper_mode_set io api rsv fuel info mode adj_mode primary_fb old_fb st =
        .ret (r, st3) ∧
      st3.regs = s2) := by
  refine ⟨fun e he => ?_, fun s1 s2 r st3 h1 h2 h3 hr => ⟨?_, ?_⟩⟩
  · have hE := sisvga_vclk_of_clock_error _ _ he
    subst hE
    refine ⟨by decide, ?_⟩
    unfold sisvga_crtc_helper_mode_set set_display_mode
    rw [he]
    simp only []
    rw [if_pos (by decide)]
  · refine mode_set_of_stages io api rsv fuel info mode adj_mode primary_fb old_fb st st3 s1 r
      h1 (by rw [h2]) ?_ hr
    rw [h2]
    exact h3
  · exact (set_framebuffer_error_regs io api rsv primary_fb old_fb false _ _ st3 r h3
      (by omega)).1

/-! ## The two 24-bit formats -/

theorem set_color_mode_regs_rgb888 (rd : color_mode_reads) :
    ∃ g, set_color_mode_regs DRM_FORMAT_RGB888 rd = some g ∧
      g.sr06 = rd.sr06 &&& 0xe0 ||| 0x10 ||| 0x02 ∧ g.sr0b = rd.sr0b ||| 0x80 ∧
      set_color_mode_regs DRM_FORMAT_BGR888 rd = some { g with sr0b := rd.sr0b &&& 0x7f } := by
  have n1 : ¬ DRM_FORMAT_RGB888 &&& DRM_FORMAT_BIG_ENDIAN ≠ 0 := by decide
  have n2 : ¬ DRM_FORMAT_BGR888 = DRM_FORMAT_RGB888 := by decide
  have n3 : ¬ DRM_FORMAT_BGR888 &&& DRM_FORMAT_BIG_ENDIAN ≠ 0 := by decide
  unfold set_color_mode_regs
  simp only [if_true, if_neg n1, if_neg n2, if_neg n3]
  exact ⟨_, rfl, rfl, rfl, rfl⟩

set_option maxRecDepth 100000 in
theorem byte_truecolor_bits : ∀ y, y < 256 →
    (y &&& 0xe0 ||| 0x10 ||| 0x02) &&& 0x10 = 0x10 ∧
    (y &&& 0xe0 ||| 0x10 ||| 0x02) &&& 0x02 = 0x02 ∧
    (y &&& 0xe0 ||| 0x10 ||| 0x02) &&& 0x0c = 0 ∧
    (y &&& 0xe0 ||| 0x10 ||| 0x02) % 256 = y &&& 0xe0 ||| 0x10 ||| 0x02 := by
  decide

set_option maxRecDepth 100000 in
theorem byte_order_bit : ∀ y, y < 256 →
    (y ||| 0x80) &&& 0x80 = 0x80 ∧ (y &&& 0x7f) &&& 0x80 = 0 ∧
    (y ||| 0x80) &&& 0x7f = (y &&& 0x7f) &&& 0x7f ∧
    (y ||| 0x80) % 256 = y ||| 0x80 ∧ (y &&& 0x7f) % 256 = y &&& 0x7f := by
  decide

theorem set_color_mode_write_vga_sr (g : color_mode_regs) (s : vga_regs) :
    (set_color_mode_write vga_ports g s).sr =
      Function.update (Function.update s.sr 0x06 (g.sr06 % 256)) 0x0b (g.sr0b % 256) := rfl

theorem set_color_mode_write_vga_but_sr (g1 g2 : color_mode_regs) (s : vga_regs)
    (h : { g1 with sr06 := g2.sr06, sr0b := g2.sr0b } = g2) :
    (set_color_mode_write vga_ports g1 s).misc = (set_color_mode_write vga_ports g2 s).misc ∧
    (set_color_mode_write vga_ports g1 s).cr = (set_color_mode_write vga_ports g2 s).cr ∧
    (set_color_mode_write vga_ports g1 s).gr = (set_color_mode_write vga_ports g2 s).gr ∧
    (set_color_mode_write vga_ports g1 s).ar = (set_color_mode_write vga_ports g2 s).ar := by
  rw [← h]
  exact ⟨rfl, rfl, rfl, rfl⟩

theorem set_color_mode_of_regs {σ : Type} (io : io_ports σ) (fb : drm_framebuffer) (s : σ)
    (g : color_mode_regs)
    (h : set_color_mode_regs fb.format.format (set_color_mode_read io s).1 = some g) :
    set_color_mode io fb s = (0, set_color_mode_write io g (set_color_mode_read io s).2) := by
  unfold set_color_mode
  rw [h]

theorem set_color_mode_read_vga_values (s : vga_regs) :
    (set_color_mode_read vga_ports s).1 =
      { cr14 := s.cr 0x14 % 256, cr17 := s.cr 0x17 % 256, gr00 := s.gr 0x00 % 256,
        gr01 := s.gr 0x01 % 256, gr02 := s.gr 0x02 % 256, gr03 := s.gr 0x03 % 256,
        gr04 := s.gr 0x04 % 256, gr05 := s.gr 0x05 % 256, gr06 := s.gr 0x06 % 256,
        gr07 := s.gr 0x07 % 256, ar10 := s.ar 0x10 % 256, ar12 := s.ar 0x12 % 256,
        ar13 := s.ar 0x13 % 256, ar14 := s.ar 0x14 % 256, sr06 := s.sr 0x06 % 256,
        sr0b := s.sr 0x0b % 256 } := by
  unfold set_color_mode_read
  simp only [RREG_CR_vga, RREG_GR_vga, RREG_AR_vga, RREG_SR_vga, Nat.reduceMod]

/-- C31: from the same register contents, `set_color_mode` computes for RGB888 and for
BGR888 two register images that differ in `sr0b` only: RGB888 sets bit 7 and BGR888
clears it, the other bits of `sr0b` are the same. Both images have sr06 bit 4 (TrueColor)
and bit 1 (enhanced mode) set and bits 2 and 3 cleared. On the idealised device both calls
return 0 and leave the same registers except for bit 7 of sr0b. -/
theorem set_color_mode_rgb888_bgr888 (fb : drm_framebuffer) :
    (∀ rd : color_mode_reads, ∃ g1 g2,
      set_color_mode_regs DRM_FORMAT_RGB888 rd = some g1 ∧
      set_color_mode_regs DRM_FORMAT_BGR888 rd = some g2 ∧
      { g1 with sr0b := g2.sr0b } = g2 ∧
      g1.sr0b = rd.sr0b ||| 0x80 ∧ g2.sr0b = rd.sr0b &&& 0x7f ∧
      g1.sr06 = g2.sr06 ∧
      (rd.sr06 < 256 → g1.sr06 &&& 0x10 = 0x10 ∧ g1.sr06 &&& 0x02 = 0x02 ∧
        g1.sr06 &&& 0x0c = 0) ∧
      (rd.sr0b < 256 → g1.sr0b &&& 0x80 = 0x80 ∧ g2.sr0b &&& 0x80 = 0 ∧
        g1.sr0b &&& 0x7f = g2.sr0b &&& 0x7f)) ∧
    (∀ s : vga_regs,
      (set_color_mode vga_ports (fb_with_format fb DRM_FORMAT_RGB888) s).1 = 0 ∧
      (set_color_mode vga_ports (fb_with_format fb DRM_FORMAT_BGR888) s).1 = 0 ∧
      (set_color_mode vga_ports (fb_with_format fb DRM_FORMAT_RGB888) s).2.misc =
        (set_color_mode vga_ports (fb_with_format fb DRM_FORMAT_BGR888) s).2.misc ∧
      (set_color_mode vga_ports (fb_with_format fb DRM_FORMAT_RGB888) s).2.cr =
        (set_color_mode vga_ports (fb_with_format fb DRM_FORMAT_BGR888) s).2.cr ∧
      (set_color_mode vga_ports (fb_with_format fb DRM_FORMAT_RGB888) s).2.gr =
        (set_color_mode vga_ports (fb_with_format fb DRM_FORMAT_BGR888) s).2.gr ∧
      (set_color_mode vga_ports (fb_with_format fb DRM_FORMAT_RGB888) s).2.ar =
        (set_color_mode vga_ports (fb_with_format fb DRM_FORMAT_BGR888) s).2.ar ∧
      (∀ j, j ≠ 0x0b →
        (set_color_mode vga_ports (fb_with_format fb DRM_FORMAT_RGB888) s).2.sr j =
          (set_color_mode vga_ports (fb_with_format fb DRM_FORMAT_BGR888) s).2.sr j) ∧
      (set_color_mode vga_ports (fb_with_format fb DRM_FORMAT_RGB888) s).2.sr 0x0b =
        s.sr 0x0b % 256 ||| 0x80 ∧
      (set_color_mode vga_ports (fb_with_format fb DRM_FORMAT_BGR888) s).2.sr 0x0b =
        s.sr 0x0b % 256 &&& 0x7f) := by
  refine ⟨fun rd => ?_, fun s => ?_⟩
  · obtain ⟨g, e1, h6, hb, e2⟩ := set_color_mode_regs_rgb888 rd
    refine ⟨g, _, e1, e2, rfl, hb, rfl, rfl, fun h => ?_, fun h => ?_⟩
    · rw [h6]
      exact ⟨(byte_truecolor_bits _ h).1, (byte_truecolor_bits _ h).2.1,
        (byte_truecolor_bits _ h).2.2.1⟩
    · rw [hb]
      exact ⟨(byte_order_bit _ h).1, (byte_order_bit _ h).2.1, (byte_order_bit _ h).2.2.1⟩
  · obtain ⟨g, e1, h6, hb, e2⟩ :=
      set_color_mode_regs_rgb888 (set_color_mode_read vga_ports s).1
    have r1 : set_color_mode vga_ports (fb_with_format fb DRM_FORMAT_RGB888) s =
        (0, set_color_mode_write vga_ports g (set_color_mode_read vga_ports s).2) :=
      set_color_mode_of_regs vga_ports (fb_with_format fb DRM_FORMAT_RGB888) s g e1
    have r2 : set_color_mode vga_ports (fb_with_format fb DRM_FORMAT_BGR888) s =
        (0, set_color_mode_write vga_ports
          { g with sr0b := (set_color_mode_read vga_ports s).1.sr0b &&& 0x7f }
          (set_color_mode_read vga_ports s).2) :=
      set_color_mode_of_regs vga_ports (fb_with_format fb DRM_FORMAT_BGR888) s _ e2
    have hrd : (set_color_mode_read vga_ports s).1.sr0b = s.sr 0x0b % 256 := by
      rw [set_color_mode_read_vga_values]
    have hlt : s.sr 0x0b % 256 < 256 := Nat.mod_lt _ (by decide)
    rw [r1, r2]
    obtain ⟨m1, m2, m3, m4⟩ := set_color_mode_write_vga_but_sr g
      { g with sr0b := (set_color_mode_read vga_ports s).1.sr0b &&& 0x7f }
      (set_color_mode_read vga_ports s).2 rfl
    refine ⟨rfl, rfl, m1, m2, m3, m4, fun j hj => ?_, ?_, ?_⟩
    · simp only [set_color_mode_write_vga_sr]
      rw [Function.update_noteq hj, Function.update_noteq hj]
    · simp only [set_color_mode_write_vga_sr]
      rw [Function.update_same, hb, hrd]
      exact (byte_order_bit _ hlt).2.2.2.1
    · simp only [set_color_mode_write_vga_sr]
      rw [Function.update_same, hrd]
      exact (byte_order_bit _ hlt).2.2.2.2

/-! ## Consistency of the tables -/

/-- C36: the assertions of `sisvga_vclk_regs` hold for every value of `enum sisvga_vclk`,
hence for every result of `sisvga_vclk_of_clock`: the index is inside the table, the entry
has `freq <= 2`, `1 <= num <= 128`, `1 <= denum <= 32`, `1 <= div <= 2` and
`1 <= postscal <= 8`, and the function hands out that entry. The enum has 21 values, the
table has 21 rows, and the row at the index of an enumerator is the row described with
the frequency of that enumerator. -/
theorem sisvga_vclk_regs_assertions_hold :
    (∀ v : sisvga_vclk, v.toNat < sisvga_vclk_configs.length ∧
      ∃ c, sisvga_vclk_configs[v.toNat]? = some c ∧
        c.freq.toNat ≤ 2 ∧ 1 ≤ c.num ∧ c.num ≤ 128 ∧ 1 ≤ c.denum ∧ c.denum ≤ 32 ∧
        1 ≤ c.div ∧ c.div ≤ 2 ∧ 1 ≤ c.postscal ∧ c.postscal ≤ 8 ∧
        sisvga_vclk_regs v =
          some { freq := c.freq, num := c.num, denum := c.denum, div := c.div,
                 postscal := c.postscal, f := (c.clock_hz % 2 ^ 64).toNat } ∧
        sisvga_vclk_config_descriptions[v.toNat]? = some v.description) ∧
    (∀ clock_khz v, sisvga_vclk_of_clock clock_khz = .ok v →
      (sisvga_vclk_regs v).isSome = true) ∧
    sisvga_vclk_configs.length = 21 ∧
    sisvga_vclk_config_descriptions.length = 21 ∧
    sisvga_vclk_values.length = 21 ∧
    (∀ v : sisvga_vclk, sisvga_vclk_values[v.toNat]? = some v) := by
  refine ⟨fun v => ?_, fun _ v _ => ?_, rfl, rfl, rfl, fun v => ?_⟩
  · cases v <;>
      exact ⟨by decide, _, rfl, by decide, by decide, by decide, by decide, by decide,
        by decide, by decide, by decide, by decide, rfl, rfl⟩
  · obtain ⟨r, hr⟩ := sisvga_vclk_regs_total v
    rw [hr]
    rfl
  · cases v <;> rfl

theorem regs_sr2a_sr2b (info : sisvga_device_info) (mode : drm_display_mode)
    (r : sisvga_vclk_regs_out) (rd : display_mode_reads) (hf : r.freq = SISVGA_FREQ_14318) :
    (set_display_mode_regs info mode r rd).sr2a =
      ((((r.div - 1) % 256) &&& 0x01) <<< 7) ||| (((r.num - 1) % 256) &&& 0x7f) ∧
    (set_display_mode_regs info mode r rd).sr2b =
      (if mode.clock > 135 * 1000 then
        (((((r.postscal - 1) % 256) &&& 0x03) <<< 5) ||| (((r.denum - 1) % 256) &&& 0x1f))
          ||| 0x80
       else ((((r.postscal - 1) % 256) &&& 0x03) <<< 5) |||
         (((r.denum - 1) % 256) &&& 0x1f)) := by
  have a : (set_display_mode_regs info mode r rd).sr2a =
      if r.freq = SISVGA_FREQ_14318 then
        ((((r.div - 1) % 256) &&& 0x01) <<< 7) ||| (((r.num - 1) % 256) &&& 0x7f)
      else rd.sr2a := rfl
  have b : (set_display_mode_regs info mode r rd).sr2b =
      if r.freq = SISVGA_FREQ_14318 then
        (if mode.clock > 135 * 1000 then
          (((((r.postscal - 1) % 256) &&& 0x03) <<< 5) |||
            (((r.denum - 1) % 256) &&& 0x1f)) ||| 0x80
         else ((((r.postscal - 1) % 256) &&& 0x03) <<< 5) |||
           (((r.denum - 1) % 256) &&& 0x1f))
      else rd.sr2b := rfl
  rw [a, b, if_pos hf, if_pos hf]
  exact ⟨rfl, rfl⟩

set_option maxRecDepth 100000 in
theorem pll_encoding_key : ∀ c ∈ sisvga_vclk_configs, c.freq = SISVGA_FREQ_14318 →
    ((((((c.div - 1) % 256) &&& 0x01) <<< 7) ||| (((c.num - 1) % 256) &&& 0x7f))
      % 256 &&& 0x7f) + 1 = c.num ∧
    (((((((c.div - 1) % 256) &&& 0x01) <<< 7) ||| (((c.num - 1) % 256) &&& 0x7f))
      % 256) >>> 7) + 1 = c.div ∧
    (∀ gain ∈ [0, 0x80],
      (((((((c.postscal - 1) % 256) &&& 0x03) <<< 5) ||| (((c.denum - 1) % 256) &&& 0x1f))
        ||| gain) % 256 &&& 0x1f) + 1 = c.denum ∧
      (((((((((c.postscal - 1) % 256) &&& 0x03) <<< 5) ||| (((c.denum - 1) % 256) &&& 0x1f))
        ||| gain) % 256) >>> 5) &&& 0x03) + 1 = c.postscal ∧
      (((((((c.postscal - 1) % 256) &&& 0x03) <<< 5) ||| (((c.denum - 1) % 256) &&& 0x1f))
        ||| gain) % 256) &&& 0x80 = gain) ∧
    ((c.postscal - 1) % 256) &&& 0x04 = 0 := by
  decide

theorem sisvga_vclk_regs_entry (v : sisvga_vclk) (r : sisvga_vclk_regs_out)
    (h : sisvga_vclk_regs v = some r) :
    ∃ c ∈ sisvga_vclk_configs, r.freq = c.freq ∧ r.num = c.num ∧ r.denum = c.denum ∧
      r.div = c.div ∧ r.postscal = c.postscal := by
  cases v <;> (cases h; exact ⟨_, by decide, rfl, rfl, rfl, rfl, rfl⟩)

/-- C38: for every entry of `sisvga_vclk_configs` that uses the internal PLL, the bytes
sr2a and sr2b that `set_display_mode` computes and writes give the dividers back:
`(sr2a & 0x7f) + 1 = num`, `(sr2a >> 7) + 1 = div`, `(sr2b & 0x1f) + 1 = denum` and
`((sr2b >> 5) & 3) + 1 = postscal`; bit 7 of sr2b is the gain bit, set exactly for clocks
above 135 MHz, and the post-scaler extension bit `(postscal - 1) & 4` is 0. The same holds
for the registers 0x2a and 0x2b of the idealised device after the call. 36000 kHz
resolves to num 83, denum 11, div 1, postscal 3. -/
theorem set_display_mode_pll_encoding_lossless (v : sisvga_vclk) (info : sisvga_device_info)
    (mode : drm_display_mode) :
    (∃ r, sisvga_vclk_regs v = some r ∧
      (r.freq = SISVGA_FREQ_14318 →
        (∀ rd : display_mode_reads,
          ((set_display_mode_regs info mode r rd).sr2a % 256 &&& 0x7f) + 1 = r.num ∧
          (((set_display_mode_regs info mode r rd).sr2a % 256) >>> 7) + 1 = r.div ∧
          ((set_display_mode_regs info mode r rd).sr2b % 256 &&& 0x1f) + 1 = r.denum ∧
          ((((set_display_mode_regs info mode r rd).sr2b % 256) >>> 5) &&& 0x03) + 1 =
            r.postscal ∧
          ((set_display_mode_regs info mode r rd).sr2b % 256 &&& 0x80 =
            if mode.clock > 135 * 1000 then 0x80 else 0)) ∧
        ((r.postscal - 1) % 256) &&& 0x04 = 0 ∧
        (∀ (n : Nat) (s : vga_regs),
          sisvga_vclk_of_clock (int_to_uint mode.clock) = .ok v →
          ∃ s1, set_display_mode vga_ports (n + 1) info mode s = .ret (0, s1) ∧
            (s1.sr 0x2a &&& 0x7f) + 1 = r.num ∧ (s1.sr 0x2a >>> 7) + 1 = r.div ∧
            (s1.sr 0x2b &&& 0x1f) + 1 = r.denum ∧
            ((s1.sr 0x2b >>> 5) &&& 0x03) + 1 = r.postscal))) ∧
    sisvga_vclk_of_clock 36000 = .ok SISVGA_VCLK_36000 ∧
    (∃ r, sisvga_vclk_regs SISVGA_VCLK_36000 = some r ∧ r.freq = SISVGA_FREQ_14318 ∧
      r.num = 83 ∧ r.denum = 11 ∧ r.div = 1 ∧ r.postscal = 3) := by
  refine ⟨?_, rfl, _, rfl, rfl, rfl, rfl, rfl, rfl⟩
  obtain ⟨r, hr⟩ := sisvga_vclk_regs_total v
  refine ⟨r, hr, fun hf => ?_⟩
  obtain ⟨c, hc, e0, e1, e2, e3, e4⟩ := sisvga_vclk_regs_entry v r hr
  obtain ⟨k1, k2, k3, k4⟩ := pll_encoding_key c hc (e0 ▸ hf)
  rw [← e1, ← e3] at k1 k2
  rw [← e2, ← e4] at k3
  rw [← e4] at k4
  have main : ∀ rd : display_mode_reads,
      ((set_display_mode_regs info mode r rd).sr2a % 256 &&& 0x7f) + 1 = r.num ∧
      (((set_display_mode_regs info mode r rd).sr2a % 256) >>> 7) + 1 = r.div ∧
      ((set_display_mode_regs info mode r rd).sr2b % 256 &&& 0x1f) + 1 = r.denum ∧
      ((((set_display_mode_regs info mode r rd).sr2b % 256) >>> 5) &&& 0x03) + 1 =
        r.postscal ∧
      ((set_display_mode_regs info mode r rd).sr2b % 256 &&& 0x80 =
        if mode.clock > 135 * 1000 then 0x80 else 0) := by
    intro rd
    obtain ⟨a, b⟩ := regs_sr2a_sr2b info mode r rd hf
    rw [a, b]
    refine ⟨k1, k2, ?_⟩
    by_cases hc : mode.clock > 135 * 1000
    · rw [if_pos hc, if_pos hc]
      exact k3 0x80 (by decide)
    · rw [if_neg hc, if_neg hc]
      have h0 := k3 0 (by decide)
      simp only [Nat.or_zero] at h0
      exact h0
  refine ⟨main, k4, fun n s hv => ?_⟩
  refine ⟨_, set_display_mode_vga n info mode s v r hv hr, ?_⟩
  obtain ⟨-, -, -, -, -, hw⟩ := vga_write_sr_apply info r.freq
    (set_display_mode_regs info mode r (vga_display_mode_reads info r.freq s))
    (Function.update s.sr 0x38
      ((s.sr 0x38 % 256 &&& 252 ||| freqi_bits_list r.freq) % 256))
  obtain ⟨w1, w2⟩ := hw hf
  have hsr : (vga_display_mode_image info mode r s).sr =
      vga_write_sr info r.freq
        (set_display_mode_regs info mode r (vga_display_mode_reads info r.freq s))
        (Function.update s.sr 0x38
          ((s.sr 0x38 % 256 &&& 252 ||| freqi_bits_list r.freq) % 256)) := rfl
  obtain ⟨m1, m2, m3, m4, -⟩ := main (vga_display_mode_reads info r.freq s)
  rw [hsr, w1, w2]
  exact ⟨m1, m2, m3, m4⟩

set_option maxRecDepth 100000 in
theorem catalog_6202_consistent :
    ∀ m ∈ sisvga_6202_mode_list, catalog_entry_consistent sisvga_device_info_6202 m = true := by
  decide

set_option maxRecDepth 100000 in
theorem catalog_6326_consistent :
    ∀ m ∈ sisvga_6326_mode_list, catalog_entry_consistent sisvga_device_info_6326 m = true := by
  decide

set_option maxRecDepth 100000 in
theorem catalog_6215_consistent :
    ∀ m ∈ sisvga_6215_mode_list,
      (catalog_entry_consistent sisvga_device_info_6215 m = true ↔ m.clock ≠ 56300) := by
  decide

theorem mode_valid_6215_clock_56300 (vram_size : Nat) (cmdline_mode : drm_cmdline_mode)
    (mode : drm_display_mode) (h : mode.clock = 56300) :
    sisvga_connector_helper_mode_valid_vga sisvga_device_info_6215 vram_size cmdline_mode
      mode = (MODE_CLOCK_RANGE, cmdline_mode) := by
  unfold sisvga_connector_helper_mode_valid_vga
  rw [h]
  rfl

/-- C37 fails on the 6215: its catalog has four 800x600 @ 85 Hz entries with the
56300 kHz clock, and `SISVGA_VCLK_56300` is missing from the `supported_vclks` of the
6215, so the validator answers `MODE_CLOCK_RANGE` to every mode with that clock and the
four entries cannot be reached. Every other entry of the 6215 catalog, and every entry of
the 6202 and 6326 catalogs, is consistent with the capabilities of its model. -/
theorem catalog_6215_lacks_vclk_56300 :
    (∀ m ∈ sisvga_6202_mode_list,
      catalog_entry_consistent sisvga_device_info_6202 m = true) ∧
    (∀ m ∈ sisvga_6326_mode_list,
      catalog_entry_consistent sisvga_device_info_6326 m = true) ∧
    (∀ m ∈ sisvga_6215_mode_list,
      (catalog_entry_consistent sisvga_device_info_6215 m = true ↔ m.clock ≠ 56300)) ∧
    SISVGA_MODE 800 600 8 56300 0 0 SISVGA_VCLK_56300 ∈ sisvga_6215_mode_list ∧
    (sisvga_6215_mode_list.filter (fun m => decide (m.clock = 56300))).length = 4 ∧
    sisvga_vclk_of_clock 56300 = .ok SISVGA_VCLK_56300 ∧
    sisvga_device_info_6215.supported_vclks &&& SISVGA_VCLK_BIT SISVGA_VCLK_56300 = 0 ∧
    sisvga_device_info_6326.supported_vclks &&& SISVGA_VCLK_BIT SISVGA_VCLK_56300 ≠ 0 ∧
    (∀ (vram_size : Nat) (cmdline_mode : drm_cmdline_mode) (mode : drm_display_mode),
      mode.clock = 56300 →
      sisvga_connector_helper_mode_valid_vga sisvga_device_info_6215 vram_size cmdline_mode
        mode = (MODE_CLOCK_RANGE, cmdline_mode)) :=
  ⟨catalog_6202_consistent, catalog_6326_consistent, catalog_6215_consistent, by decide,
    by decide, rfl, by decide, by decide, mode_valid_6215_clock_56300⟩

/-! ## The memory check and the allocation of dumb buffers -/

/-- C39 fails for 15 bits per pixel: the validator counts `15 / 8 = 1` byte per pixel,
`sisvga_device_create_dumb` allocates `(15 + 7) / 8 = 2`. On a 6202 with 1 MiB of VRAM
the validator accepts 1024x768 at 15 bits per pixel (786432 bytes by its count), while the
dumb buffer for that framebuffer takes 1572864 bytes, more than the VRAM. For 8, 16, 24
and 32 bits per pixel the two counts agree. -/
theorem mode_valid_15bpp_accepts_what_does_not_fit :
    (sisvga_connector_helper_mode_valid_vga sisvga_device_info_6202 (1024 * 1024)
      cmdline_15bpp mode_1024x768_60).1 = MODE_OK ∧
    mode_valid_bpp sisvga_device_info_6202 cmdline_15bpp = 15 ∧
    (15 : Int).tdiv 8 = 1 ∧
    (create_dumb_layout (create_dumb_request 1024 768 15)).pitch = 1024 * 2 ∧
    (create_dumb_layout (create_dumb_request 1024 768 15)).size = 1572864 ∧
    (create_dumb_layout (create_dumb_request 1024 768 15)).size > 1024 * 1024 ∧
    (∀ bpp ∈ ([8, 16, 24, 32] : List Nat), ∀ width height : Nat,
      ((bpp : Int).tdiv 8).toNat = (bpp + 7) / 8 ∧
      (create_dumb_layout (create_dumb_request width height bpp)).pitch =
        (width * ((bpp : Int).tdiv 8).toNat) % 2 ^ 32) := by
  refine ⟨by decide, rfl, by decide, by decide, by decide, by decide, ?_⟩
  intro bpp hb width height
  have k : ∀ b ∈ ([8, 16, 24, 32] : List Nat),
      ((b : Int).tdiv 8).toNat = (b + 7) / 8 ∧ (b + 7) % 2 ^ 32 / 8 = (b + 7) / 8 := by
    decide
  rw [(k bpp hb).1]
  exact ⟨rfl, congrArg (fun t => width * t % 2 ^ 32) (k bpp hb).2⟩

/-! ## Validated modes and the register widths -/

theorem device_info_maxima (model : sisvga_model) :
    ((sisvga_device_info_list model).max_htotal + 1) ≤
      8 * (horizontal_counter_max model + 6) ∧
    (sisvga_device_info_list model).max_hsync_start ≤
      8 * (horizontal_counter_max model + 1) ∧
    (sisvga_device_info_list model).max_hdisplay ≤ 2048 ∧
    (sisvga_device_info_list model).max_vtotal ≤ 2048 ∧
    (sisvga_device_info_list model).max_vsync_start ≤ 2048 ∧
    (sisvga_device_info_list model).max_vdisplay ≤ 2048 ∧
    (horizontal_counter_max model = 255 ∨ horizontal_counter_max model = 511) := by
  cases model <;> decide

theorem mode_valid_ranges (model : sisvga_model) (vram_size : Nat)
    (cmdline_mode : drm_cmdline_mode) (mode : drm_display_mode)
    (hok : (sisvga_connector_helper_mode_valid_vga (sisvga_device_info_list model) vram_size
      cmdline_mode mode).1 = MODE_OK)
    (hwf : mode_well_formed mode) :
    (0 ≤ mode.htotal.tdiv (dot_unit mode) - 5 ∧
      mode.htotal.tdiv (dot_unit mode) - 5 ≤ horizontal_counter_max model) ∧
    (0 ≤ mode.hdisplay.tdiv (dot_unit mode) - 1 ∧
      mode.hdisplay.tdiv (dot_unit mode) - 1 ≤ horizontal_counter_max model) ∧
    (0 ≤ mode.hsync_start.tdiv (dot_unit mode) - 1 ∧
      mode.hsync_start.tdiv (dot_unit mode) - 1 ≤ horizontal_counter_max model) ∧
    (0 ≤ mode.vtotal - 2 ∧ mode.vtotal - 2 ≤ 2047) ∧
    (0 ≤ mode.vdisplay - 1 ∧ mode.vdisplay - 1 ≤ 2047) ∧
    (0 ≤ mode.vsync_start - 1 ∧ mode.vsync_start - 1 ≤ 2047) := by
  obtain ⟨-, -, -, h4, -, h6⟩ := mode_valid_ok_checks _ _ _ _ hok
  obtain ⟨c1, c2, c3, c4, c5, c6, c7, c8⟩ := check_crtc_fields_none _ _ h4
  obtain ⟨e, he, m1, m2, -, -⟩ := check_catalog_none _ _ _ h6
  obtain ⟨l1, l2⟩ := catalog_sizes_lower model e he
  obtain ⟨w1, w2, w3, w4, w5, w6⟩ := hwf
  obtain ⟨x1, x2, x3, x4, x5, x6, x7⟩ := device_info_maxima model
  have hd : dot_unit mode = 8 ∨ dot_unit mode = 9 := by
    unfold dot_unit; cases is_9_dot_mode mode <;> simp
  have q1 : mode.htotal.tdiv (dot_unit mode) = mode.htotal / dot_unit mode :=
    Int.tdiv_eq_ediv (by omega) (by omega)
  have q2 : mode.hdisplay.tdiv (dot_unit mode) = mode.hdisplay / dot_unit mode :=
    Int.tdiv_eq_ediv (by omega) (by omega)
  have q3 : mode.hsync_start.tdiv (dot_unit mode) = mode.hsync_start / dot_unit mode :=
    Int.tdiv_eq_ediv (by omega) (by omega)
  rw [q1, q2, q3]
  rcases hd with hd | hd <;> rw [hd] <;> rcases x7 with x7 | x7 <;> rw [x7] at x1 x2 ⊢ <;>
    omega

set_option maxRecDepth 100000 in
theorem sr12_bits_key : ∀ a ∈ [0, 64], ∀ b ∈ [0, 256], ∀ c ∈ [0, 256], ∀ d ∈ [0, 256],
    ∀ e ∈ [0, 256],
    ((a >>> 2 ||| b >>> 5 ||| c >>> 6 ||| d >>> 7 ||| e >>> 8) % 256) &&& 0x01 = e >>> 8 ∧
    ((a >>> 2 ||| b >>> 5 ||| c >>> 6 ||| d >>> 7 ||| e >>> 8) % 256) &&& 0x02 = d >>> 7 ∧
    ((a >>> 2 ||| b >>> 5 ||| c >>> 6 ||| d >>> 7 ||| e >>> 8) % 256) &&& 0x08 = b >>> 5 := by
  decide

set_option maxRecDepth 100000 in
theorem ninth_bit_recombine_split : ∀ hi, hi < 2 → ∀ lo, lo < 256 →
    (hi * 256 + lo) % 256 ||| ((((hi * 256 + lo) &&& 0x100) >>> 8) <<< 8) = hi * 256 + lo ∧
    (hi * 256 + lo) % 256 ||| ((((hi * 256 + lo) &&& 0x100) >>> 7) <<< 7) = hi * 256 + lo ∧
    (hi * 256 + lo) % 256 ||| ((((hi * 256 + lo) &&& 0x100) >>> 5) <<< 5) = hi * 256 + lo := by
  decide

theorem ninth_bit_recombine (k : Nat) (hk : k < 512) :
    k % 256 ||| (((k &&& 0x100) >>> 8) <<< 8) = k ∧
    k % 256 ||| (((k &&& 0x100) >>> 7) <<< 7) = k ∧
    k % 256 ||| (((k &&& 0x100) >>> 5) <<< 5) = k := by
  have h := ninth_bit_recombine_split (k / 256) (by omega) (k % 256) (by omega)
  rwa [show k / 256 * 256 + k % 256 = k by omega] at h

theorem image_sr12_bits (info : sisvga_device_info) (mode : drm_display_mode)
    (r : sisvga_vclk_regs_out) (s : vga_regs)
    (hge : MODEL_IS_GE info SISVGA_MODEL_6326 = true) :
    (vga_display_mode_image info mode r s).sr 0x12 &&& 0x01 =
      int_and (mode.crtc_htotal.tdiv (dot_unit mode) - 5) 0x100 >>> 8 ∧
    (vga_display_mode_image info mode r s).sr 0x12 &&& 0x02 =
      int_and (mode.crtc_hdisplay.tdiv (dot_unit mode) - 1) 0x100 >>> 7 ∧
    (vga_display_mode_image info mode r s).sr 0x12 &&& 0x08 =
      int_and (mode.crtc_hsync_start.tdiv (dot_unit mode) - 1) 0x100 >>> 5 := by
  obtain ⟨-, -, -, -, hw, -⟩ := vga_write_sr_apply info r.freq
    (set_display_mode_regs info mode r (vga_display_mode_reads info r.freq s))
    (Function.update s.sr 0x38
      ((s.sr 0x38 % 256 &&& 252 ||| freqi_bits_list r.freq) % 256))
  obtain ⟨w12, -⟩ := hw hge
  have hsr : (vga_display_mode_image info mode r s).sr =
      vga_write_sr info r.freq
        (set_display_mode_regs info mode r (vga_display_mode_reads info r.freq s))
        (Function.update s.sr 0x38
          ((s.sr 0x38 % 256 &&& 252 ||| freqi_bits_list r.freq) % 256)) := rfl
  have g : (set_display_mode_regs info mode r (vga_display_mode_reads info r.freq s)).sr12 =
      if MODEL_IS_GE info SISVGA_MODEL_6326 then
        ((int_and (mode.crtc_hblank_end.tdiv (dot_unit mode) - 1) 0x40) >>> 2) |||
        ((int_and (mode.crtc_hsync_start.tdiv (dot_unit mode) - 1) 0x100) >>> 5) |||
        ((int_and (mode.crtc_hblank_start.tdiv (dot_unit mode) - 1) 0x100) >>> 6) |||
        ((int_and (mode.crtc_hdisplay.tdiv (dot_unit mode) - 1) 0x100) >>> 7) |||
        ((int_and (mode.crtc_htotal.tdiv (dot_unit mode) - 5) 0x100) >>> 8)
      else 0 := rfl
  rw [hsr, w12, g, if_pos hge]
  exact sr12_bits_key _ (mem_pair_of_single_bit _ 6) _ (mem_pair_of_single_bit _ 8) _
    (mem_pair_of_single_bit _ 8) _ (mem_pair_of_single_bit _ 8) _
    (mem_pair_of_single_bit _ 8)

theorem image_stored_horizontal (model : sisvga_model) (mode : drm_display_mode)
    (r : sisvga_vclk_regs_out) (s : vga_regs)
    (h0 : 0 ≤ mode.crtc_htotal.tdiv (dot_unit mode) - 5 ∧
      mode.crtc_htotal.tdiv (dot_unit mode) - 5 ≤ horizontal_counter_max model)
    (h1 : 0 ≤ mode.crtc_hdisplay.tdiv (dot_unit mode) - 1 ∧
      mode.crtc_hdisplay.tdiv (dot_unit mode) - 1 ≤ horizontal_counter_max model)
    (h4 : 0 ≤ mode.crtc_hsync_start.tdiv (dot_unit mode) - 1 ∧
      mode.crtc_hsync_start.tdiv (dot_unit mode) - 1 ≤ horizontal_counter_max model) :
    ((stored_htotal model
        (vga_display_mode_image (sisvga_device_info_list model) mode r s) : Nat) : Int) =
      mode.crtc_htotal.tdiv (dot_unit mode) - 5 ∧
    ((stored_hdisplay model
        (vga_display_mode_image (sisvga_device_info_list model) mode r s) : Nat) : Int) =
      mode.crtc_hdisplay.tdiv (dot_unit mode) - 1 ∧
    ((stored_hsync_start model
        (vga_display_mode_image (sisvga_device_info_list model) mode r s) : Nat) : Int) =
      mode.crtc_hsync_start.tdiv (dot_unit mode) - 1 := by
  obtain ⟨c0, c1, -, c4, -, -⟩ :=
    image_horizontal_fields (sisvga_device_info_list model) mode r s
  have hb := image_sr12_bits (sisvga_device_info_list model) mode r s
  generalize mode.crtc_htotal.tdiv (dot_unit mode) - 5 = v0 at *
  generalize mode.crtc_hdisplay.tdiv (dot_unit mode) - 1 = v1 at *
  generalize mode.crtc_hsync_start.tdiv (dot_unit mode) - 1 = v4 at *
  unfold stored_htotal stored_hdisplay stored_hsync_start
  unfold horizontal_counter_max at h0 h1 h4
  cases hge : MODEL_IS_GE (sisvga_device_info_list model) SISVGA_MODEL_6326
  · rw [hge] at h0 h1 h4
    simp only [Bool.false_eq_true, if_false] at h0 h1 h4 ⊢
    omega
  · rw [hge] at h0 h1 h4
    simp only [if_true] at h0 h1 h4 ⊢
    obtain ⟨b0, b1, b4⟩ := hb hge
    obtain ⟨k0, e0⟩ : ∃ k : Nat, v0 = (k : Int) := ⟨v0.toNat, by omega⟩
    obtain ⟨k1, e1⟩ : ∃ k : Nat, v1 = (k : Int) := ⟨v1.toNat, by omega⟩
    obtain ⟨k4, e4⟩ : ∃ k : Nat, v4 = (k : Int) := ⟨v4.toNat, by omega⟩
    subst e0 e1 e4
    rw [b0, b1, b4, int_and_natCast k0 _ (by omega), int_and_natCast k1 _ (by omega),
      int_and_natCast k4 _ (by omega)]
    have d0 : (vga_display_mode_image (sisvga_device_info_list model) mode r s).cr 0x00 =
        k0 % 256 := by omega
    have d1 : (vga_display_mode_image (sisvga_device_info_list model) mode r s).cr 0x01 =
        k1 % 256 := by omega
    have d4 : (vga_display_mode_image (sisvga_device_info_list model) mode r s).cr 0x04 =
        k4 % 256 := by omega
    rw [d0, d1, d4, (ninth_bit_recombine k0 (by omega)).1,
      (ninth_bit_recombine k1 (by omega)).2.1, (ninth_bit_recombine k4 (by omega)).2.2]
    exact ⟨rfl, rfl, rfl⟩

/-- C40: for each of the three models and every well-formed mode that the validator
accepts, the horizontal values `htotal / dots - 5`, `hdisplay / dots - 1` and
`hsync_start / dots - 1` lie between 0 and 255 on the 6202 and 6215 and between 0 and 511
on the 6326, and the vertical values `vtotal - 2`, `vdisplay - 1` and `vsync_start - 1`
lie between 0 and 2047. The bit fields hold these values in full: when the CRTC timings
that `set_display_mode` compiles are the timings of the mode, then on a register file
that reads back what was written `set_display_mode` returns 0 and the numbers
reassembled from the registers it leaves are the six values. -/
theorem mode_valid_fits_register_widths (model : sisvga_model) (vram_size : Nat)
    (cmdline_mode : drm_cmdline_mode) (mode : drm_display_mode)
    (hok : (sisvga_connector_helper_mode_valid_vga (sisvga_device_info_list model) vram_size
      cmdline_mode mode).1 = MODE_OK)
    (hwf : mode_well_formed mode) :
    ((0 ≤ mode.htotal.tdiv (dot_unit mode) - 5 ∧
        mode.htotal.tdiv (dot_unit mode) - 5 ≤ horizontal_counter_max model) ∧
      (0 ≤ mode.hdisplay.tdiv (dot_unit mode) - 1 ∧
        mode.hdisplay.tdiv (dot_unit mode) - 1 ≤ horizontal_counter_max model) ∧
      (0 ≤ mode.hsync_start.tdiv (dot_unit mode) - 1 ∧
        mode.hsync_start.tdiv (dot_unit mode) - 1 ≤ horizontal_counter_max model) ∧
      (0 ≤ mode.vtotal - 2 ∧ mode.vtotal - 2 ≤ 2047) ∧
      (0 ≤ mode.vdisplay - 1 ∧ mode.vdisplay - 1 ≤ 2047) ∧
      (0 ≤ mode.vsync_start - 1 ∧ mode.vsync_start - 1 ≤ 2047)) ∧
    (horizontal_counter_max model = if model = SISVGA_MODEL_6326 then 511 else 255) ∧
    (crtc_timings_plain mode → ∀ (n : Nat) (s : vga_regs),
      ∃ s1, set_display_mode vga_ports (n + 1) (sisvga_device_info_list model) mode s =
          .ret (0, s1) ∧
        ((stored_htotal model s1 : Nat) : Int) = mode.htotal.tdiv (dot_unit mode) - 5 ∧
        ((stored_hdisplay model s1 : Nat) : Int) = mode.hdisplay.tdiv (dot_unit mode) - 1 ∧
        ((stored_hsync_start model s1 : Nat) : Int) =
          mode.hsync_start.tdiv (dot_unit mode) - 1 ∧
        ((stored_vtotal s1 : Nat) : Int) = mode.vtotal - 2 ∧
        ((stored_vdisplay s1 : Nat) : Int) = mode.vdisplay - 1 ∧
        ((stored_vsync_start s1 : Nat) : Int) = mode.vsync_start - 1) := by
  obtain ⟨r0, r1, r4, t0, t1, t4⟩ := mode_valid_ranges model vram_size cmdline_mode mode hok hwf
  refine ⟨⟨r0, r1, r4, t0, t1, t4⟩, by cases model <;> rfl, fun hcrtc n s => ?_⟩
  obtain ⟨p1, p2, p3, p4, p5, p6⟩ := hcrtc
  rw [← p1] at r0 ⊢
  rw [← p2] at r1 ⊢
  rw [← p3] at r4 ⊢
  rw [← p4] at t0 ⊢
  rw [← p5] at t1 ⊢
  rw [← p6] at t4 ⊢
  obtain ⟨vclk, hv⟩ := mode_valid_ok_clock _ _ _ _ hok
  obtain ⟨r, hr⟩ := sisvga_vclk_regs_total vclk
  obtain ⟨i0, i1, i4⟩ := image_stored_horizontal model mode r s r0 r1 r4
  exact ⟨_, set_display_mode_vga n _ mode s vclk r hv hr, i0, i1, i4,
    image_stored_vtotal _ mode r s (by omega) (by omega),
    image_stored_vdisplay _ mode r s (by omega) (by omega),
    image_stored_vsync_start _ mode r s (by omega) (by omega)⟩

/-- Witness of C40: the 800x600 @ 56 Hz mode on the 6202 with 2 MiB of VRAM and 8 bits per
pixel; the horizontal values are 123, 99 and 102, the vertical ones 623, 599 and 600. -/
theorem mode_valid_fits_register_widths_witness :
    (sisvga_connector_helper_mode_valid_vga (sisvga_device_info_list SISVGA_MODEL_6202)
      (2 * 1024 * 1024) cmdline_8bpp mode_800x600_56_crtc).1 = MODE_OK ∧
    mode_well_formed mode_800x600_56_crtc ∧ crtc_timings_plain mode_800x600_56_crtc ∧
    ∃ s1, set_display_mode vga_ports 1 (sisvga_device_info_list SISVGA_MODEL_6202)
        mode_800x600_56_crtc vga_regs_zero = .ret (0, s1) ∧
      stored_htotal SISVGA_MODEL_6202 s1 = 123 ∧ stored_hdisplay SISVGA_MODEL_6202 s1 = 99 ∧
      stored_hsync_start SISVGA_MODEL_6202 s1 = 102 ∧
      stored_vtotal s1 = 623 ∧ stored_vdisplay s1 = 599 ∧ stored_vsync_start s1 = 600 := by
  have hok : (sisvga_connector_helper_mode_valid_vga
      (sisvga_device_info_list SISVGA_MODEL_6202) (2 * 1024 * 1024) cmdline_8bpp
      mode_800x600_56_crtc).1 = MODE_OK := by decide
  obtain ⟨s1, e, a0, a1, a4, b0, b1, b4⟩ :=
    (mode_valid_fits_register_widths SISVGA_MODEL_6202 (2 * 1024 * 1024) cmdline_8bpp
      mode_800x600_56_crtc hok (by decide)).2.2 (by decide) 0 vga_regs_zero
  have d : dot_unit mode_800x600_56_crtc = 8 := by decide
  rw [d] at a0 a1 a4
  have x0 : mode_800x600_56_crtc.htotal.tdiv 8 - 5 = 123 := by decide
  have x1 : mode_800x600_56_crtc.hdisplay.tdiv 8 - 1 = 99 := by decide
  have x4 : mode_800x600_56_crtc.hsync_start.tdiv 8 - 1 = 102 := by decide
  have y0 : mode_800x600_56_crtc.vtotal - 2 = 623 := by decide
  have y1 : mode_800x600_56_crtc.vdisplay - 1 = 599 := by decide
  have y4 : mode_800x600_56_crtc.vsync_start - 1 = 600 := by decide
  rw [x0] at a0
  rw [x1] at a1
  rw [x4] at a4
  rw [y0] at b0
  rw [y1] at b1
  rw [y4] at b4
  exact ⟨hok, by decide, by decide, s1, e, by exact_mod_cast a0, by exact_mod_cast a1,
    by exact_mod_cast a4, by exact_mod_cast b0, by exact_mod_cast b1, by exact_mod_cast b4⟩

/-! ## The VRAM size field -/

theorem sisvga_vram_init_registers_vga_sr21 (base size : Nat) (s : vga_regs) :
    (sisvga_vram_init_registers vga_ports base size s).sr 0x21 =
      sisvga_vram_init_sr21 base size (s.sr 0x21 % 256) % 256 := by
  unfold sisvga_vram_init_registers
  simp only [RREG8_vga_misc, WREG8_vga_misc, RREG_GR_vga, WREG_GR_vga, RREG_SR_vga,
    WREG_SR_vga, Nat.reduceMod, Function.update_same]

theorem base_field_lt (base : Nat) : (base &&& 0xf8000000) >>> 27 < 32 := by
  have h : base &&& 0xf8000000 ≤ 0xf8000000 := Nat.and_le_right
  rw [Nat.shiftRight_eq_div_pow]
  omega

set_option maxRecDepth 100000 in
theorem sr21_field_key : ∀ y, y < 256 → ∀ b, b < 32 →
    (((y &&& 0x80) ||| 0x60 ||| b) % 256 % 256) >>> 5 &&& 0x03 = 3 ∧
    (((y &&& 0x80) ||| 0x00 ||| b) % 256 % 256) >>> 5 &&& 0x03 = 0 ∧
    (((y &&& 0x80) ||| 0x20 ||| b) % 256 % 256) >>> 5 &&& 0x03 = 1 ∧
    ((0xe0 ||| b) % 256 % 256) >>> 5 = 7 ∧
    (((y &&& 0x80) ||| 0x60 ||| b) % 256 % 256) &&& 0x80 = y &&& 0x80 ∧
    (((y &&& 0x80) ||| 0x00 ||| b) % 256 % 256) &&& 0x80 = y &&& 0x80 ∧
    (((y &&& 0x80) ||| 0x20 ||| b) % 256 % 256) &&& 0x80 = y &&& 0x80 := by
  decide

theorem sisvga_vram_init_sr21_sizes (base y : Nat) :
    sisvga_vram_init_sr21 base (512 * 1024) y =
      ((y &&& 0x80) ||| 0x60 ||| ((base &&& 0xf8000000) >>> 27)) % 256 ∧
    sisvga_vram_init_sr21 base (1024 * 1024) y =
      ((y &&& 0x80) ||| 0x00 ||| ((base &&& 0xf8000000) >>> 27)) % 256 ∧
    sisvga_vram_init_sr21 base (2 * 1024 * 1024) y =
      ((y &&& 0x80) ||| 0x20 ||| ((base &&& 0xf8000000) >>> 27)) % 256 ∧
    sisvga_vram_init_sr21 base (4 * 1024 * 1024) y =
      ((y &&& 0x80) ||| 0x60 ||| ((base &&& 0xf8000000) >>> 27)) % 256 ∧
    sisvga_vram_init_sr21 base (8 * 1024 * 1024) y =
      (0xe0 ||| ((base &&& 0xf8000000) >>> 27)) % 256 :=
  ⟨rfl, rfl, rfl, rfl, rfl⟩

/-- C34 fails on the code: `sisvga_vram_init` stores `(size >> 20) - 1`, the number of
MiB less one, in the size field of sr21, not the exponent of
`size = 2 ^ sr21[7:5] * 512 * 1024` that its own comment gives. On the register file that
reads back what was written, the two size bits sr21[6:5] are 3 for 512 KiB (the
subtraction wraps), 0 for 1 MiB, 1 for 2 MiB and 3 for 4 MiB, and sr21[7:5] is 7 for
8 MiB; only 4 MiB gets the value of the formula. From registers of zeros the formula reads
the five sizes back as 4 MiB, 512 KiB, 1 MiB, 4 MiB and 64 MiB. For the sizes up to 4 MiB
bit 7 of sr21 is preserved. -/
theorem sisvga_vram_init_size_field (base : Nat) (s : vga_regs) :
    (((sisvga_vram_init_registers vga_ports base (512 * 1024) s).sr 0x21) >>> 5) &&& 0x03
      = 3 ∧
    (((sisvga_vram_init_registers vga_ports base (1024 * 1024) s).sr 0x21) >>> 5) &&& 0x03
      = 0 ∧
    (((sisvga_vram_init_registers vga_ports base (2 * 1024 * 1024) s).sr 0x21) >>> 5) &&& 0x03
      = 1 ∧
    (((sisvga_vram_init_registers vga_ports base (4 * 1024 * 1024) s).sr 0x21) >>> 5) &&& 0x03
      = 3 ∧
    ((sisvga_vram_init_registers vga_ports base (8 * 1024 * 1024) s).sr 0x21) >>> 5 = 7 ∧
    (∀ size ∈ [512 * 1024, 1024 * 1024, 2 * 1024 * 1024, 4 * 1024 * 1024],
      (sisvga_vram_init_registers vga_ports base size s).sr 0x21 &&& 0x80 =
        (s.sr 0x21 % 256) &&& 0x80) ∧
    [512 * 1024, 1024 * 1024, 2 * 1024 * 1024, 4 * 1024 * 1024, 8 * 1024 * 1024].map
        (fun size => vram_size_of_field
          ((sisvga_vram_init_registers vga_ports 0 size vga_regs_zero).sr 0x21)) =
      [4 * 1024 * 1024, 512 * 1024, 1024 * 1024, 4 * 1024 * 1024, 64 * 1024 * 1024] := by
  obtain ⟨e0, e1, e2, e4, e8⟩ := sisvga_vram_init_sr21_sizes base (s.sr 0x21 % 256)
  obtain ⟨k0, k1, k2, k8, p0, p1, p2⟩ :=
    sr21_field_key (s.sr 0x21 % 256) (Nat.mod_lt _ (by decide)) _ (base_field_lt base)
  refine ⟨?_, ?_, ?_, ?_, ?_, ?_, ?_⟩
  · rw [sisvga_vram_init_registers_vga_sr21, e0]; exact k0
  · rw [sisvga_vram_init_registers_vga_sr21, e1]; exact k1
  · rw [sisvga_vram_init_registers_vga_sr21, e2]; exact k2
  · rw [sisvga_vram_init_registers_vga_sr21, e4]; exact k0
  · rw [sisvga_vram_init_registers_vga_sr21, e8]; exact k8
  · intro size hs
    simp only [List.mem_cons, List.mem_singleton, List.not_mem_nil, or_false] at hs
    rcases hs with rfl | rfl | rfl | rfl
    · rw [sisvga_vram_init_registers_vga_sr21, e0]; exact p0
    · rw [sisvga_vram_init_registers_vga_sr21, e1]; exact p1
    · rw [sisvga_vram_init_registers_vga_sr21, e2]; exact p2
    · rw [sisvga_vram_init_registers_vga_sr21, e4]; exact p0
  · simp only [List.map, sisvga_vram_init_registers_vga_sr21]
    decide

/-! ## The device lock -/

theorem RREG_SR_traced {σ : Type} (io : io_ports σ) (r : Nat) (t : io_trace σ) :
    (RREG_SR (io_traced io) r t).1 = (RREG_SR io r t.state).1 ∧
    (RREG_SR (io_traced io) r t).2.state = (RREG_SR io r t.state).2 ∧
    (RREG_SR (io_traced io) r t).2.reads = t.reads ++ [(REG_SR, (RREG_SR io r t.state).1)] ∧
    (RREG_SR (io_traced io) r t).2.writes = t.writes ++ [(REG_SRI, r % 256)] :=
  ⟨rfl, rfl, rfl, rfl⟩

theorem WREG_SR_traced {σ : Type} (io : io_ports σ) (r v : Nat) (t : io_trace σ) :
    (WREG_SR (io_traced io) r v t).state = WREG_SR io r v t.state ∧
    (WREG_SR (io_traced io) r v t).reads = t.reads ∧
    (WREG_SR (io_traced io) r v t).writes =
      t.writes ++ [(REG_SRI, r % 256), (REG_SR, v % 256)] := by
  refine ⟨rfl, rfl, ?_⟩
  show t.writes ++ [(REG_SRI, r % 256)] ++ [(REG_SR, v % 256)] = _
  rw [List.append_assoc]
  rfl

theorem written_of_writes {σ : Type} (t t1 : io_trace σ) (ws : List (Nat × Nat)) (reg : Nat)
    (h : t1.writes = t.writes ++ ws) :
    t1.written reg =
      t.written reg ++ (ws.filter (fun w => decide (w.1 = reg))).map (fun w => w.2) := by
  unfold io_trace.written
  rw [h, List.filter_append, List.map_append]

theorem written_index (v : Nat) :
    List.map (fun w => w.2)
      (List.filter (fun w : Nat × Nat => decide (w.1 = REG_SR)) [(REG_SRI, v)]) = [] := rfl

theorem written_index_data (a v : Nat) :
    List.map (fun w => w.2)
      (List.filter (fun w : Nat × Nat => decide (w.1 = REG_SR))
        [(REG_SRI, a), (REG_SR, v)]) = [v] := rfl

theorem modify_device_lock_loop_spec {σ : Type} (io : io_ports σ) (wr rd : Nat) :
    ∀ (m i fuel sr05 : Nat) (t : io_trace σ), i + m = 50 → m + 1 ≤ fuel →
      ∃ ret t1, ∃ vs : List Nat,
        modify_device_lock_loop (io_traced io) wr rd fuel (i : Int) sr05 t = some (ret, t1) ∧
        modify_device_lock_loop io wr rd fuel (i : Int) sr05 t.state = some (ret, t1.state) ∧
        t1.reads = t.reads ++ vs.map (fun v => (REG_SR, v)) ∧
        vs.length ≤ m + 1 ∧
        t1.written REG_SR =
          t.written REG_SR ++ (if i = 0 ∧ sr05 ≠ rd % 256 then [wr % 256] else []) ∧
        (ret = 0 ↔ sr05 = rd % 256 ∨ ∃ k, k < m ∧ vs[k]? = some (rd % 256)) ∧
        (ret = 0 ∨ ret = -ETIMEDOUT) := by
  intro m
  induction m with
  | zero =>
    intro i fuel sr05 t hi hf
    obtain ⟨f, rfl⟩ : ∃ f, fuel = f + 1 := ⟨fuel - 1, by omega⟩
    have hi50 : i = 50 := by omega
    subst hi50
    unfold modify_device_lock_loop
    by_cases he : sr05 = rd % 256
    · rw [if_pos he, if_pos he]
      refine ⟨0, t, [], rfl, rfl, by simp, by simp, ?_, by simp [he], Or.inl rfl⟩
      rw [if_neg (by omega)]
      simp
    · rw [if_neg he, if_neg he]
      simp only []
      have hlt : ¬ ((50 : Nat) : Int) < 50 := by decide
      have hne : ((50 : Nat) : Int) ≠ 0 := by decide
      rw [if_neg hlt, if_neg hlt, if_pos hne, if_pos hne]
      obtain ⟨r1, r2, r3, r4⟩ := RREG_SR_traced io 0x05 t
      refine ⟨_, _, [(RREG_SR io 0x05 t.state).1], rfl, ?_, ?_, by simp, ?_, ?_, Or.inr rfl⟩
      · rw [r2]
      · rw [r3]; rfl
      · rw [written_of_writes t _ _ REG_SR r4, if_neg (by omega)]
        rfl
      · constructor
        · intro h
          exact absurd h (by decide)
        · rintro (h | ⟨k, hk, -⟩)
          · exact absurd h he
          · omega
  | succ m ih =>
    intro i fuel sr05 t hi hf
    obtain ⟨f, rfl⟩ : ∃ f, fuel = f + 1 := ⟨fuel - 1, by omega⟩
    unfold modify_device_lock_loop
    by_cases he : sr05 = rd % 256
    · rw [if_pos he, if_pos he]
      refine ⟨0, t, [], rfl, rfl, by simp, by simp, ?_, by simp [he], Or.inl rfl⟩
      rw [if_neg (fun h => h.2 he)]
      simp
    · rw [if_neg he, if_neg he]
      simp only []
      have hlt : (i : Int) < 50 := by omega
      have hw : wrap_int ((i : Int) + 1) = ((i + 1 : Nat) : Int) := by
        rw [wrap_int_of_range _ (by omega) (by omega)]
        push_cast
        rfl
      rw [if_pos hlt, if_pos hlt, hw]
      by_cases h0 : i = 0
      · subst h0
        rw [if_neg (by simp), if_neg (by simp)]
        obtain ⟨w1, w2, w3⟩ := WREG_SR_traced io 0x05 wr t
        obtain ⟨r1, r2, r3, r4⟩ := RREG_SR_traced io 0x05 (WREG_SR (io_traced io) 0x05 wr t)
        obtain ⟨ret, t1, vs, e1, e2, e3, e4, e5, e6, e7⟩ :=
          ih 1 f (RREG_SR (io_traced io) 0x05 (WREG_SR (io_traced io) 0x05 wr t)).1
            (RREG_SR (io_traced io) 0x05 (WREG_SR (io_traced io) 0x05 wr t)).2
            (by omega) (by omega)
        rw [r2, w1] at e2
        rw [r1, w1] at e2
        refine ⟨ret, t1,
          (RREG_SR (io_traced io) 0x05 (WREG_SR (io_traced io) 0x05 wr t)).1 :: vs,
          e1, e2, ?_, by simp; omega, ?_, ?_, e7⟩
        · rw [e3, r3, w2, r1, w1]
          simp
        · rw [e5, if_neg (by omega), List.append_nil,
            written_of_writes (WREG_SR (io_traced io) 0x05 wr t) _ _ REG_SR r4,
            written_of_writes t _ _ REG_SR w3, if_pos ⟨rfl, he⟩, written_index_data,
            written_index, List.append_nil]
        · rw [e6]
          constructor
          · rintro (h | ⟨k, hk, hv⟩)
            · exact Or.inr ⟨0, by omega, by simp [h]⟩
            · exact Or.inr ⟨k + 1, by omega, by simpa using hv⟩
          · rintro (h | ⟨k, hk, hv⟩)
            · exact absurd h he
            · cases k with
              | zero => left; simpa using hv
              | succ k => right; exact ⟨k, by omega, by simpa using hv⟩
      · have hi0 : (i : Int) ≠ 0 := by omega
        rw [if_pos hi0, if_pos hi0]
        obtain ⟨r1, r2, r3, r4⟩ := RREG_SR_traced io 0x05 t
        obtain ⟨ret, t1, vs, e1, e2, e3, e4, e5, e6, e7⟩ :=
          ih (i + 1) f (RREG_SR (io_traced io) 0x05 t).1 (RREG_SR (io_traced io) 0x05 t).2
            (by omega) (by omega)
        rw [r2, r1] at e2
        refine ⟨ret, t1, (RREG_SR (io_traced io) 0x05 t).1 :: vs, e1, e2, ?_, by simp; omega,
          ?_, ?_, e7⟩
        · rw [e3, r3, r1]
          simp
        · rw [e5, if_neg (by omega), List.append_nil,
            written_of_writes t _ _ REG_SR r4, if_neg (fun h => h0 h.1)]
          rfl
        · rw [e6]
          constructor
          · rintro (h | ⟨k, hk, hv⟩)
            · exact Or.inr ⟨0, by omega, by simp [h]⟩
            · exact Or.inr ⟨k + 1, by omega, by simpa using hv⟩
          · rintro (h | ⟨k, hk, hv⟩)
            · exact absurd h he
            · cases k with
              | zero => left; simpa using hv
              | succ k => right; exact ⟨k, by omega, by simpa using hv⟩

/-- C32: `modify_device_lock(wr, rd)` is bounded. On every device, with fuel for its 51
iterations, it returns; it reads the lock register at most 52 times and no other port,
writes `wr` to it once when the first value read differs from `rd` and not at all
otherwise, returns 0 exactly when one of the first 51 values read equals `rd`, and returns
`-ETIMEDOUT` otherwise. The record of the accesses does not alter the run. The bound is
met: a register that shows `rd` in the 51st read gives 0 after 51 reads, one that shows
it in the 52nd read only gives `-ETIMEDOUT` after 52 reads. -/
theorem modify_device_lock_bounded {σ : Type} (io : io_ports σ) (wr rd n : Nat) (s : σ) :
    (∃ ret t, ∃ vs : List Nat,
      modify_device_lock (io_traced io) (51 + n) wr rd (io_trace_start s) = some (ret, t) ∧
      modify_device_lock io (51 + n) wr rd s = some (ret, t.state) ∧
      t.reads = vs.map (fun v => (REG_SR, v)) ∧
      1 ≤ vs.length ∧ vs.length ≤ 52 ∧
      t.written REG_SR = (if vs[0]? = some (rd % 256) then [] else [wr % 256]) ∧
      (ret = 0 ↔ ∃ k, k < 51 ∧ vs[k]? = some (rd % 256)) ∧
      (ret = 0 ∨ ret = -ETIMEDOUT)) ∧
    (∃ t, modify_device_lock (io_traced scripted_ports) 51 0x86 0xa1
        (io_trace_start (List.replicate 50 0 ++ [0xa1])) = some (0, t) ∧
      t.reads.length = 51 ∧ t.written REG_SR = [0x86]) ∧
    (∃ t, modify_device_lock (io_traced scripted_ports) 51 0x86 0xa1
        (io_trace_start (List.replicate 51 0 ++ [0xa1])) = some (-ETIMEDOUT, t) ∧
      t.reads.length = 52 ∧ t.written REG_SR = [0x86]) := by
  refine ⟨?_, ⟨_, rfl, by decide, by decide⟩, ⟨_, rfl, by decide, by decide⟩⟩
  obtain ⟨r1, r2, r3, r4⟩ := RREG_SR_traced io 0x05 (io_trace_start s)
  obtain ⟨ret, t1, vs, e1, e2, e3, e4, e5, e6, e7⟩ :=
    modify_device_lock_loop_spec io wr rd 50 0 (51 + n)
      (RREG_SR (io_traced io) 0x05 (io_trace_start s)).1
      (RREG_SR (io_traced io) 0x05 (io_trace_start s)).2 (by omega) (by omega)
  rw [r2, r1] at e2
  refine ⟨ret, t1, (RREG_SR (io_traced io) 0x05 (io_trace_start s)).1 :: vs, e1, e2, ?_,
    by simp, by simp; omega, ?_, ?_, e7⟩
  · rw [e3, r3, r1]
    rfl
  · rw [e5, written_of_writes (io_trace_start s) _ _ REG_SR r4, written_index]
    by_cases he : (RREG_SR (io_traced io) 0x05 (io_trace_start s)).1 = rd % 256
    · rw [if_neg (fun h => h.2 he), if_pos (by simp [he])]
      rfl
    · rw [if_pos ⟨rfl, he⟩, if_neg (by simpa using he)]
      rfl
  · rw [e6]
    constructor
    · rintro (h | ⟨k, hk, hv⟩)
      · exact ⟨0, by omega, by simp [h]⟩
      · exact ⟨k + 1, by omega, by simpa using hv⟩
    · rintro ⟨k, hk, hv⟩
      cases k with
      | zero => left; simpa using hv
      | succ k => right; exact ⟨k, by omega, by simpa using hv⟩

/-! ## The polling loops of the timing compiler -/

theorem WAIT8_MASKED_never {σ : Type} (io : io_ports σ) (reg v mask : Nat)
    (h : ∀ s : σ, (RREG8_MASKED io reg (mask % 256) s).1 ≠ (v &&& (mask % 256)) % 256) :
    ∀ (fuel : Nat) (s : σ), WAIT8_MASKED io fuel reg v mask s = none := by
  intro fuel
  induction fuel with
  | zero => intro s; rfl
  | succ n ih =>
    intro s
    unfold WAIT8_MASKED
    rw [if_neg (h s)]
    exact ih _

theorem WAIT8_never {σ : Type} (io : io_ports σ) (reg v : Nat)
    (h : ∀ s : σ, (RREG8 io reg s).1 ≠ v % 256) :
    ∀ (fuel : Nat) (s : σ), WAIT8 io fuel reg v s = none := by
  intro fuel
  induction fuel with
  | zero => intro s; rfl
  | succ n ih =>
    intro s
    unfold WAIT8
    rw [if_neg (h s)]
    exact ih _

theorem set_display_mode_read_dead (fuel : Nat) (info : sisvga_device_info)
    (freq : sisvga_freq) (s : Unit) :
    set_display_mode_read dead_ports fuel info (freqi_bits_list freq) s = none := by
  have hw : ∀ s : Unit, WAIT_SR_MASKED dead_ports fuel 0x38 (freqi_bits_list freq) 0x03 s =
      none := by
    intro s
    unfold WAIT_SR_MASKED WAIT_I_MASKED
    refine WAIT8_MASKED_never dead_ports _ _ _ (fun s1 => ?_) fuel _
    have hr : (RREG8_MASKED dead_ports REG_SR (0x03 % 256) s1).1 = 3 := by
      show (0xff % 256) &&& (0x03 % 256) = 3
      decide
    rw [hr]
    cases freq <;> decide
  unfold set_display_mode_read
  simp only [hw]

theorem set_display_mode_dead (fuel : Nat) (info : sisvga_device_info)
    (mode : drm_display_mode) (vclk : sisvga_vclk)
    (hv : sisvga_vclk_of_clock (int_to_uint mode.clock) = .ok vclk) :
    set_display_mode dead_ports fuel info mode () = .spin := by
  obtain ⟨r, hr⟩ := sisvga_vclk_regs_total vclk
  unfold set_display_mode
  rw [hv]
  simp only [hr, set_display_mode_read_dead]

theorem set_display_mode_returns {σ : Type} (io : io_ports σ) (fuel : Nat)
    (info : sisvga_device_info) (mode : drm_display_mode) (s s1 : σ) (ret : Int)
    (h : set_display_mode io fuel info mode s = .ret (ret, s1)) :
    ret = 0 ∨ ret = -EINVAL := by
  unfold set_display_mode at h
  cases hv : sisvga_vclk_of_clock (int_to_uint mode.clock) with
  | error e =>
    rw [hv] at h
    simp only [run.ret.injEq, Prod.mk.injEq] at h
    right
    rw [← h.1]
    exact sisvga_vclk_of_clock_error _ _ hv
  | ok vclk =>
    rw [hv] at h
    simp only [] at h
    obtain ⟨r, hr⟩ := sisvga_vclk_regs_total vclk
    rw [hr] at h
    simp only [] at h
    cases h1 : set_display_mode_read io fuel info (freqi_bits_list r.freq) s with
    | none => rw [h1] at h; cases h
    | some p =>
      obtain ⟨rd, s2⟩ := p
      rw [h1] at h
      simp only [] at h
      cases h2 : set_display_mode_write io fuel info r.freq
          (set_display_mode_regs info mode r rd) s2 with
      | none => rw [h2] at h; cases h
      | some s3 =>
        rw [h2] at h
        simp only [run.ret.injEq, Prod.mk.injEq] at h
        exact Or.inl h.1.symm

/-- C33 fails on the code: the loops of `WAIT8` and `WAIT8_MASKED` are `do ... while (1)`
with no retry count, and `set_display_mode` has no timeout error. On every device on which
the polled port never shows the awaited value the two macros are still polling after any
number of iterations. On the device that answers every read with `0xff`,
`set_display_mode` with a mode whose clock resolves is still in its first wait (the sr38
clock selector) after any number of iterations; and whenever `set_display_mode` returns,
it returns 0 or `-EINVAL`, never `-ETIMEDOUT`. -/
theorem set_display_mode_waits_without_bound :
    (∀ {σ : Type} (io : io_ports σ) (reg v mask : Nat),
      (∀ s : σ, (RREG8_MASKED io reg (mask % 256) s).1 ≠ (v &&& (mask % 256)) % 256) →
      ∀ (fuel : Nat) (s : σ), WAIT8_MASKED io fuel reg v mask s = none) ∧
    (∀ {σ : Type} (io : io_ports σ) (reg v : Nat),
      (∀ s : σ, (RREG8 io reg s).1 ≠ v % 256) →
      ∀ (fuel : Nat) (s : σ), WAIT8 io fuel reg v s = none) ∧
    (∀ (fuel : Nat) (info : sisvga_device_info) (mode : drm_display_mode)
      (vclk : sisvga_vclk),
      sisvga_vclk_of_clock (int_to_uint mode.clock) = .ok vclk →
      set_display_mode dead_ports fuel info mode () = .spin) ∧
    (∀ fuel : Nat,
      set_display_mode dead_ports fuel sisvga_device_info_6202 mode_800x600_56_crtc () =
        .spin) ∧
    (∀ {σ : Type} (io : io_ports σ) (fuel : Nat) (info : sisvga_device_info)
      (mode : drm_display_mode) (s s1 : σ) (ret : Int),
      set_display_mode io fuel info mode s = .ret (ret, s1) →
      (ret = 0 ∨ ret = -EINVAL) ∧ ret ≠ -ETIMEDOUT) := by
  refine ⟨fun io reg v mask h => WAIT8_MASKED_never io reg v mask h,
    fun io reg v h => WAIT8_never io reg v h,
    fun fuel info mode vclk hv => set_display_mode_dead fuel info mode vclk hv,
    fun fuel => set_display_mode_dead fuel _ _ SISVGA_VCLK_36000 rfl,
    fun io fuel info mode s s1 ret h => ?_⟩
  have hr := set_display_mode_returns io fuel info mode s s1 ret h
  refine ⟨hr, ?_⟩
  rcases hr with e | e <;> rw [e] <;> decide

/-! ## The no-evict flag and the pin count -/

theorem sisvga_bo_ttm_placement_flags {τ κ : Type} (api : ttm_interface τ κ)
    (bo : sisvga_bo τ κ) (domain : Nat) :
    ∃ bo1, sisvga_bo_ttm_placement api bo domain = some bo1 ∧
      bo1.pin_count = bo.pin_count ∧
      (bo1.placement.num_placement = 1 ∨ bo1.placement.num_placement = 2) ∧
      ∀ p ∈ placement_list bo1,
        p.flags = (api.TTM_PL_FLAG_WC ||| api.TTM_PL_FLAG_UNCACHED |||
          api.TTM_PL_FLAG_VRAM) % 2 ^ 32 ∨
        p.flags = (api.TTM_PL_MASK_CACHING ||| api.TTM_PL_FLAG_SYSTEM) % 2 ^ 32 := by
  unfold sisvga_bo_ttm_placement placement_list
  by_cases hV : domain &&& api.TTM_PL_FLAG_VRAM ≠ 0 <;>
    by_cases hS : domain &&& api.TTM_PL_FLAG_SYSTEM ≠ 0 <;>
    simp [hV, hS, placements_for, placements_set_flags, ttm_place_array.toList]

theorem placement_list_ne_nil {τ κ : Type} (bo : sisvga_bo τ κ)
    (h : 1 ≤ bo.placement.num_placement) : ∃ p, p ∈ placement_list bo := by
  unfold placement_list ttm_place_array.toList
  obtain ⟨n, hn⟩ : ∃ n, bo.placement.num_placement = n + 1 :=
    ⟨bo.placement.num_placement - 1, by omega⟩
  rw [hn]
  exact ⟨bo.placements.p0, by simp⟩

theorem not_no_evict_of_evictable {τ κ : Type} (api : ttm_interface τ κ)
    (bo : sisvga_bo τ κ) (hne : api.TTM_PL_FLAG_NO_EVICT ≠ 0)
    (hn : 1 ≤ bo.placement.num_placement) (hev : evictable api bo) : ¬ no_evict api bo := by
  intro h
  obtain ⟨p, hp⟩ := placement_list_ne_nil bo hn
  exact hne ((h p hp).symm.trans (hev p hp))

theorem sisvga_bo_create_placement_fresh {τ κ : Type} (api : ttm_interface τ κ)
    (hfl : no_evict_flag_apart api) (t : τ) (k : κ) :
    ∃ bo0, sisvga_bo_create_placement api t k = some bo0 ∧ bo0.pin_count = 0 ∧
      bo_pins_tracked api bo0 ∧ evictable api bo0 ∧ ¬ no_evict api bo0 := by
  obtain ⟨bo0, e, hp, hn, hf⟩ := sisvga_bo_ttm_placement_flags api
    { bo := t, placement := {}, kmap := k, placements := {}, pin_count := 0 }
    (api.TTM_PL_FLAG_VRAM ||| api.TTM_PL_FLAG_SYSTEM)
  have hev : evictable api bo0 := by
    intro p hpm
    rcases hf p hpm with h | h <;> rw [h]
    · exact hfl.2.2.1
    · exact hfl.2.2.2
  have hn1 : 1 ≤ bo0.placement.num_placement := by rcases hn with h | h <;> omega
  have hn3 : bo0.placement.num_placement ≤ 3 := by rcases hn with h | h <;> omega
  have hp0 : bo0.pin_count = 0 := hp
  refine ⟨bo0, e, hp0, ⟨by omega, hn1, hn3, fun h => by omega⟩, hev,
    not_no_evict_of_evictable api bo0 hfl.1 hn1 hev⟩

theorem sisvga_bo_pin_unpinned_step {τ κ : Type} (api : ttm_interface τ κ)
    (hne : api.TTM_PL_FLAG_NO_EVICT < 2 ^ 32) (bo : sisvga_bo τ κ) (pl_flag : Nat)
    (gpu_addr : Option Nat) (h0 : bo.pin_count = 0) :
    ∃ ret bo1 g, sisvga_bo_pin api bo pl_flag gpu_addr = some (ret, bo1, g) ∧
      (ret ≠ 0 → bo1.pin_count = 0) ∧ (ret = 0 → bo1.pin_count = 1) ∧
      no_evict api bo1 ∧
      (bo1.placement.num_placement = 1 ∨ bo1.placement.num_placement = 2) := by
  obtain ⟨b1, e1, -, -, hp, hn⟩ := sisvga_bo_ttm_placement_frame api bo pl_flag
  have hn3 : b1.placement.num_placement ≤ 3 := by rcases hn with h | h <;> omega
  obtain ⟨ps, e2, hl⟩ := placements_for_some b1.placement.num_placement (set_no_evict api)
    b1.placements hn3
  have hev : ∀ p ∈ ps.toList.take b1.placement.num_placement,
      p.flags &&& api.TTM_PL_FLAG_NO_EVICT = api.TTM_PL_FLAG_NO_EVICT := by
    intro p hp
    rw [hl, List.mem_map] at hp
    obtain ⟨q, -, rfl⟩ := hp
    exact or_mod_and_self _ _ hne
  unfold sisvga_bo_pin
  rw [if_neg (not_not.mpr h0), e1]
  simp only [e2]
  by_cases hr : (api.ttm_bo_validate b1.bo b1.placement ps).1 ≠ 0
  · rw [if_pos hr]
    exact ⟨_, _, _, rfl, fun _ => by rw [← h0, ← hp], fun h => absurd h hr, hev, hn⟩
  · rw [if_neg hr]
    exact ⟨_, _, _, rfl, fun h => absurd rfl h, fun _ => rfl, hev, hn⟩

theorem sisvga_bo_push_to_system_last {τ κ : Type} (api : ttm_interface τ κ)
    (hne : api.TTM_PL_FLAG_NO_EVICT < 2 ^ 32) (bo : sisvga_bo τ κ) (h1 : bo.pin_count = 1) :
    ∃ ret bo1, sisvga_bo_push_to_system api bo = some (ret, bo1) ∧ bo1.pin_count = 0 ∧
      no_evict api bo1 ∧
      (bo1.placement.num_placement = 1 ∨ bo1.placement.num_placement = 2) := by
  unfold sisvga_bo_push_to_system
  rw [if_neg (by omega), h1]
  have hw : wrap_int (1 - 1) = 0 := by decide
  simp only [hw, ne_eq, not_true_eq_false, if_false]
  generalize hb : (if api.virtual bo.kmap = true then
      ({ bo := (api.ttm_bo_kunmap bo.bo bo.kmap).1, placement := bo.placement,
         kmap := (api.ttm_bo_kunmap bo.bo bo.kmap).2, placements := bo.placements,
         pin_count := 0 } : sisvga_bo τ κ)
    else { bo := bo.bo, placement := bo.placement, kmap := bo.kmap,
           placements := bo.placements, pin_count := 0 }) = b
  have hbp : b.pin_count = 0 := by
    rw [← hb]; split <;> rfl
  obtain ⟨b1, e1, -, -, hp, hn⟩ := sisvga_bo_ttm_placement_frame api b api.TTM_PL_FLAG_SYSTEM
  have hn3 : b1.placement.num_placement ≤ 3 := by rcases hn with h | h <;> omega
  obtain ⟨ps, e2, hl⟩ := placements_for_some b1.placement.num_placement (set_no_evict api)
    b1.placements hn3
  have hev : ∀ p ∈ ps.toList.take b1.placement.num_placement,
      p.flags &&& api.TTM_PL_FLAG_NO_EVICT = api.TTM_PL_FLAG_NO_EVICT := by
    intro p hp
    rw [hl, List.mem_map] at hp
    obtain ⟨q, -, rfl⟩ := hp
    exact or_mod_and_self _ _ hne
  rw [e1]
  simp only [e2]
  split_ifs <;> exact ⟨_, _, rfl, hp.trans hbp, hev, hn⟩

theorem sisvga_bo_push_to_system_more {τ κ : Type} (api : ttm_interface τ κ)
    (bo : sisvga_bo τ κ) (h1 : 2 ≤ bo.pin_count) (h2 : bo.pin_count < 2147483648) :
    sisvga_bo_push_to_system api bo = some (0, { bo with pin_count := bo.pin_count - 1 }) := by
  unfold sisvga_bo_push_to_system
  rw [if_neg (by omega), wrap_int_of_range _ (by omega) (by omega)]
  simp only []
  rw [if_pos (by omega)]

theorem bo_unpinned_calls_keep {τ κ : Type} (api : ttm_interface τ κ) (bo : sisvga_bo τ κ)
    (h0 : bo.pin_count = 0) :
    sisvga_bo_unpin api bo = some (0, bo) ∧ sisvga_bo_push_to_system api bo = some (0, bo) := by
  constructor
  · unfold sisvga_bo_unpin; rw [if_pos h0]
  · unfold sisvga_bo_push_to_system; rw [if_pos h0]

theorem bo_call_step {τ κ : Type} (api : ttm_interface τ κ)
    (hne : api.TTM_PL_FLAG_NO_EVICT < 2 ^ 32) (c : bo_call) (bo : sisvga_bo τ κ)
    (hinv : bo_pins_tracked api bo) (hmax : bo.pin_count < 2147483647) :
    ∃ ret bo1, c.run api bo = some (ret, bo1) ∧ bo_pins_tracked api bo1 ∧
      bo1.pin_count ≤ bo.pin_count + 1 ∧
      ((bo.pin_count = 0 → evictable api bo) →
        (c = .unpin ∨ ((∃ pl_flag, c = .pin pl_flag) ∧ ret = 0)) →
        (bo1.pin_count = 0 → evictable api bo1)) := by
  obtain ⟨i0, i1, i3, iev⟩ := hinv
  cases c with
  | pin f =>
    by_cases h0 : bo.pin_count = 0
    · obtain ⟨ret, bo1, g, e, hr1, hr2, hev, hn⟩ :=
        sisvga_bo_pin_unpinned_step api hne bo f none h0
      have hrun : (bo_call.pin f).run api bo = some (ret, bo1) := by
        unfold bo_call.run
        simp only [e]
      have hpc : bo1.pin_count = 0 ∨ bo1.pin_count = 1 := by
        by_cases hr : ret = 0
        · exact Or.inr (hr2 hr)
        · exact Or.inl (hr1 hr)
      refine ⟨ret, bo1, hrun, ⟨by omega, by omega, by omega, fun _ => hev⟩, by omega, ?_⟩
      intro _ hc hz
      rcases hc with hc | ⟨-, hr⟩
      · cases hc
      · have := hr2 hr
        omega
    · have e := sisvga_bo_pin_pinned api bo f none (by omega) hmax
      have hrun : (bo_call.pin f).run api bo =
          some (0, { bo with pin_count := bo.pin_count + 1 }) := by
        unfold bo_call.run
        simp only [e]
      refine ⟨_, _, hrun, ⟨?_, i1, i3, fun _ => iev (by omega)⟩, ?_, fun _ _ hz => ?_⟩
      · show 0 ≤ bo.pin_count + 1
        omega
      · show bo.pin_count + 1 ≤ bo.pin_count + 1
        omega
      · have hz1 : bo.pin_count + 1 = 0 := hz
        omega
  | unpin =>
    by_cases h0 : bo.pin_count = 0
    · refine ⟨0, bo, (bo_unpinned_calls_keep api bo h0).1, ⟨i0, i1, i3, iev⟩, by omega,
        fun hs _ hz => hs hz⟩
    by_cases h1 : bo.pin_count = 1
    · obtain ⟨ret, bo1, e, hp, hev, hpl⟩ := sisvga_bo_unpin_last api bo h1 i3
      refine ⟨ret, bo1, e, ⟨by omega, by rw [hpl]; exact i1, by rw [hpl]; exact i3,
        fun h => by omega⟩, by omega, fun _ _ _ => hev⟩
    · have e := sisvga_bo_unpin_more api bo (by omega) (by omega)
      refine ⟨_, _, e, ⟨?_, i1, i3, fun _ => iev (by omega)⟩, ?_, fun _ _ hz => ?_⟩
      · show 0 ≤ bo.pin_count - 1
        omega
      · show bo.pin_count - 1 ≤ bo.pin_count + 1
        omega
      · have hz1 : bo.pin_count - 1 = 0 := hz
        omega
  | push_to_system =>
    by_cases h0 : bo.pin_count = 0
    · refine ⟨0, bo, (bo_unpinned_calls_keep api bo h0).2, ⟨i0, i1, i3, iev⟩, by omega,
        fun hs _ hz => hs hz⟩
    by_cases h1 : bo.pin_count = 1
    · obtain ⟨ret, bo1, e, hp, hev, hn⟩ := sisvga_bo_push_to_system_last api hne bo h1
      refine ⟨ret, bo1, e, ⟨by omega, by omega, by omega, fun _ => hev⟩, by omega,
        fun _ hc _ => ?_⟩
      rcases hc with hc | ⟨⟨f, hc⟩, -⟩ <;> cases hc
    · have e := sisvga_bo_push_to_system_more api bo (by omega) (by omega)
      refine ⟨_, _, e, ⟨?_, i1, i3, fun _ => iev (by omega)⟩, ?_, fun _ _ hz => ?_⟩
      · show 0 ≤ bo.pin_count - 1
        omega
      · show bo.pin_count - 1 ≤ bo.pin_count + 1
        omega
      · have hz1 : bo.pin_count - 1 = 0 := hz
        omega

theorem bo_calls_tracked {τ κ : Type} (api : ttm_interface τ κ)
    (hne : api.TTM_PL_FLAG_NO_EVICT < 2 ^ 32) (calls : List bo_call) :
    ∀ bo : sisvga_bo τ κ, bo_pins_tracked api bo →
      bo.pin_count + calls.length < 2147483647 →
      ∃ rets bo1, bo_calls api calls bo = some (rets, bo1) ∧ rets.length = calls.length ∧
        bo_pins_tracked api bo1 ∧
        ((bo.pin_count = 0 → evictable api bo) → pins_succeed_no_push calls rets →
          (bo1.pin_count = 0 → evictable api bo1)) := by
  induction calls with
  | nil =>
    intro bo hinv _
    exact ⟨[], bo, rfl, rfl, hinv, fun hs _ => hs⟩
  | cons c cs ih =>
    intro bo hinv hlen
    simp only [List.length_cons, Nat.cast_add, Nat.cast_one] at hlen
    obtain ⟨ret, bo1, e1, hinv1, hle, hs1⟩ := bo_call_step api hne c bo hinv (by omega)
    obtain ⟨rets, bo2, e2, hl, hinv2, hs2⟩ := ih bo1 hinv1 (by omega)
    refine ⟨ret :: rets, bo2, ?_, by simp [hl], hinv2, fun hs hg => ?_⟩
    · unfold bo_calls
      simp only [e1, e2]
    · exact hs2 (hs1 hs hg.1) hg.2

/-- C35, as stated, fails: on the TTM stand-in, a freshly created buffer that is pinned to
VRAM and then pushed to system memory has pin count 0, and its one placement, the system
placement, carries the no-evict flag. -/
theorem push_to_system_leaves_no_evict :
    ∃ bo0 bo, sisvga_bo_create_placement ttm_sample 4096 false = some bo0 ∧
      bo_calls ttm_sample [.pin ttm_sample.TTM_PL_FLAG_VRAM, .push_to_system] bo0 =
        some ([0, 0], bo) ∧
      bo.pin_count = 0 ∧ no_evict ttm_sample bo ∧
      (placement_list bo).map (fun p => p.flags &&& ttm_sample.TTM_PL_FLAG_NO_EVICT) =
        [ttm_sample.TTM_PL_FLAG_NO_EVICT] := by
  refine ⟨_, _, rfl, rfl, rfl, ?_, by decide⟩
  intro p hp
  have hl : ∀ q ∈ [({ fpfn := 0, lpfn := 0, flags := 2555905 } : ttm_place)],
      q.flags &&& ttm_sample.TTM_PL_FLAG_NO_EVICT = ttm_sample.TTM_PL_FLAG_NO_EVICT := by
    decide
  exact hl p hp

/-- C35, amended: on a freshly created buffer, after any sequence of `sisvga_bo_pin`,
`sisvga_bo_unpin` and `sisvga_bo_push_to_system` calls (short enough for the count to stay
an `int`), every call has returned, the pin count is not negative, and a buffer with a pin
count above 0 carries the no-evict flag on every placement. When the calls are pins that
returned 0 and unpins only, the flag is carried if and only if the pin count is above 0.
`sisvga_bo_unpin` and `sisvga_bo_push_to_system` on an unpinned buffer return 0 and change
nothing. A `sisvga_bo_push_to_system` that takes the pin count from 1 to 0 leaves the
no-evict flag set. -/
theorem bo_calls_no_evict_tracks_pins {τ κ : Type} (api : ttm_interface τ κ)
    (hfl : no_evict_flag_apart api) (t : τ) (k : κ) (calls : List bo_call)
    (hlen : calls.length < 2147483647) :
    (∃ bo0, sisvga_bo_create_placement api t k = some bo0 ∧ bo0.pin_count = 0 ∧
      ¬ no_evict api bo0 ∧
      ∃ rets bo, bo_calls api calls bo0 = some (rets, bo) ∧ rets.length = calls.length ∧
        0 ≤ bo.pin_count ∧
        (0 < bo.pin_count → no_evict api bo) ∧
        (pins_succeed_no_push calls rets → (no_evict api bo ↔ 0 < bo.pin_count))) ∧
    (∀ bo : sisvga_bo τ κ, bo.pin_count = 0 →
      sisvga_bo_unpin api bo = some (0, bo) ∧
      sisvga_bo_push_to_system api bo = some (0, bo)) ∧
    (∀ bo : sisvga_bo τ κ, bo.pin_count = 1 →
      ∃ ret bo1, sisvga_bo_push_to_system api bo = some (ret, bo1) ∧ bo1.pin_count = 0 ∧
        no_evict api bo1) := by
  have hne0 := hfl.1
  have hne := hfl.2.1
  obtain ⟨bo0, e0, hp0, hinv0, hev0, hnot0⟩ := sisvga_bo_create_placement_fresh api hfl t k
  obtain ⟨rets, bo, e, hl, hinv, hs⟩ := bo_calls_tracked api hne calls bo0 hinv0
    (by rw [hp0]; omega)
  refine ⟨⟨bo0, e0, hp0, hnot0, rets, bo, e, hl, hinv.1, hinv.2.2.2, fun hg => ⟨fun h => ?_,
    hinv.2.2.2⟩⟩, fun b h0 => bo_unpinned_calls_keep api b h0, fun b h1 => ?_⟩
  · by_contra hz
    have hz0 : bo.pin_count = 0 := by have := hinv.1; omega
    exact not_no_evict_of_evictable api bo hne0 hinv.2.1 (hs (fun _ => hev0) hg hz0) h
  · obtain ⟨ret, bo1, e1, hp, hev, -⟩ := sisvga_bo_push_to_system_last api hne b h1
    exact ⟨ret, bo1, e1, hp, hev⟩

/-- Witness of C35 (amended): on the TTM stand-in, two pins to VRAM, an unpin and a push
to system memory leave the fresh buffer with pin count 0. -/
theorem bo_calls_no_evict_tracks_pins_witness :
    no_evict_flag_apart ttm_sample ∧
    ∃ bo0, sisvga_bo_create_placement ttm_sample 4096 false = some bo0 ∧
      bo0.pin_count = 0 ∧ ¬ no_evict ttm_sample bo0 ∧
      ∃ rets bo, bo_calls ttm_sample [.pin 4, .pin 4, .unpin, .push_to_system] bo0 =
          some (rets, bo) ∧ rets.length = 4 ∧ 0 ≤ bo.pin_count ∧
        (0 < bo.pin_count → no_evict ttm_sample bo) := by
  have hfl : no_evict_flag_apart ttm_sample := by
    unfold no_evict_flag_apart
    decide
  obtain ⟨bo0, e0, hp0, hn0, rets, bo, e, hl, h0, h1, -⟩ :=
    (bo_calls_no_evict_tracks_pins ttm_sample hfl 4096 false
      [.pin 4, .pin 4, .unpin, .push_to_system] (by decide)).1
  exact ⟨hfl, bo0, e0, hp0, hn0, rets, bo, e, hl, h0, h1⟩

end SisVga
